import Mathlib

/-! # Blackbox flight data recorder

A shallow embedding of `src/main/blackbox/blackbox.c` (firmware build, `UNIT_TEST`
undefined): the field catalog, the condition cache, the frame writers, the
iteration timers and the logging state machine, followed by theorems about them.

Conventions of the embedding:
* unsigned C integers are `Nat`, signed ones are `Int`; every place where C wraps
  or converts is written out with `toU16`, `toU32`, `toInt16`, `toInt32`;
* C arrays are functions from the index;
* the log is a list of items: header text, or a frame made of its marker byte and
  the calls made to the encoders (`blackbox_encoding.c` is not modelled: each call
  is recorded with the values it was given);
* everything the recorder reads from the rest of the firmware in one tick is a
  field of `Env`; compile-time switches are the fields of `Build`.
-/

namespace Blackbox

/-! ## Machine integers -/

/-- Conversion of a C `int` expression to `uint16_t`. -/
def toU16 (x : Int) : Nat := (x % 65536).toNat

/-- Conversion of a C `int` expression to `uint32_t`. -/
def toU32 (x : Int) : Nat := (x % 4294967296).toNat

/-- Reading of a 16-bit pattern as `int16_t`. -/
def toInt16 (n : Nat) : Int :=
  if n % 65536 < 32768 then ((n % 65536 : Nat) : Int) else ((n % 65536 : Nat) : Int) - 65536

/-- Reading of a 32-bit pattern as `int32_t`. -/
def toInt32 (n : Nat) : Int :=
  if n % 4294967296 < 2147483648 then ((n % 4294967296 : Nat) : Int)
  else ((n % 4294967296 : Nat) : Int) - 4294967296

/-- An `int32_t` result of an `int` computation (two's complement wrap). -/
def wrapInt32 (x : Int) : Int := toInt32 (toU32 x)

/-! ## Compile-time switches -/

/-- The preprocessor switches `blackbox.c` tests. -/
structure Build where
  USE_MAG : Bool
  USE_BARO : Bool
  USE_RANGEFINDER : Bool
  USE_DEBUG32 : Bool
  USE_GPS : Bool
  USE_FLASHFS : Bool
  USE_SDCARD : Bool
  USE_ACC : Bool
  USE_SERVOS : Bool
  /-- Case label (value of `__COUNTER__`) of the `vbat_scale` line of `blackboxWriteSysinfo`. -/
  sysinfoVbatScaleCase : Nat
  /-- Case label of the `currentSensor` line of `blackboxWriteSysinfo`. -/
  sysinfoCurrentSensorCase : Nat

/-- Modelled from the spec: `XYZ_AXIS_COUNT` of `common/axis.h` (not among the sources), the
three axes of the "3-axis" PID, gyro, accelerometer and magnetometer fields. -/
def XYZ_AXIS_COUNT : Nat := 3

/-- Modelled from the spec: `DEBUG16_VALUE_COUNT` of `build/debug.h` (not among the sources); the
catalog declares `debug[0]` to `debug[3]`. -/
def DEBUG16_VALUE_COUNT : Nat := 4

/-- Modelled from the spec: `DEBUG32_VALUE_COUNT` of `build/debug.h` (not among the sources); the
catalog declares `debug32[0]` to `debug32[7]`. -/
def DEBUG32_VALUE_COUNT : Nat := 8

/-- Modelled from the spec: `THROTTLE` of `fc/rc_controls.h` (not among the sources), the fourth
RC command channel. -/
def THROTTLE : Nat := 3

/-- Modelled from the spec: `COLLECTIVE` of `fc/rc_controls.h` (not among the sources), the fifth
RC command channel, logged apart from the group of four. -/
def COLLECTIVE : Nat := 4

/-! ## Field conditions (`FlightLogFieldCondition`) -/

/-- Modelled from the spec: one bit per condition id. The enumerators of `FlightLogFieldCondition`
(`blackbox_fielddefs.h`, not among the sources) numbered consecutively from 0. -/
def FLIGHT_LOG_FIELD_CONDITION_ALWAYS : Nat := 0
def FLIGHT_LOG_FIELD_CONDITION_AT_LEAST_MOTORS_1 : Nat := 1
def FLIGHT_LOG_FIELD_CONDITION_AT_LEAST_MOTORS_2 : Nat := 2
def FLIGHT_LOG_FIELD_CONDITION_AT_LEAST_MOTORS_3 : Nat := 3
def FLIGHT_LOG_FIELD_CONDITION_AT_LEAST_MOTORS_4 : Nat := 4
def FLIGHT_LOG_FIELD_CONDITION_AT_LEAST_MOTORS_5 : Nat := 5
def FLIGHT_LOG_FIELD_CONDITION_AT_LEAST_MOTORS_6 : Nat := 6
def FLIGHT_LOG_FIELD_CONDITION_AT_LEAST_MOTORS_7 : Nat := 7
def FLIGHT_LOG_FIELD_CONDITION_AT_LEAST_MOTORS_8 : Nat := 8
def FLIGHT_LOG_FIELD_CONDITION_TRICOPTER : Nat := 9
def FLIGHT_LOG_FIELD_CONDITION_MAG : Nat := 10
def FLIGHT_LOG_FIELD_CONDITION_BARO : Nat := 11
def FLIGHT_LOG_FIELD_CONDITION_VBAT : Nat := 12
def FLIGHT_LOG_FIELD_CONDITION_AMPERAGE_ADC : Nat := 13
def FLIGHT_LOG_FIELD_CONDITION_RANGEFINDER : Nat := 14
def FLIGHT_LOG_FIELD_CONDITION_RSSI : Nat := 15
def FLIGHT_LOG_FIELD_CONDITION_NONZERO_PID_D_0 : Nat := 16
def FLIGHT_LOG_FIELD_CONDITION_NONZERO_PID_D_1 : Nat := 17
def FLIGHT_LOG_FIELD_CONDITION_NONZERO_PID_D_2 : Nat := 18
def FLIGHT_LOG_FIELD_CONDITION_NOT_LOGGING_EVERY_FRAME : Nat := 19
def FLIGHT_LOG_FIELD_CONDITION_ACC : Nat := 20
def FLIGHT_LOG_FIELD_CONDITION_DEBUG : Nat := 21
def FLIGHT_LOG_FIELD_CONDITION_NEVER : Nat := 22
def FLIGHT_LOG_FIELD_CONDITION_FIRST : Nat := FLIGHT_LOG_FIELD_CONDITION_ALWAYS
def FLIGHT_LOG_FIELD_CONDITION_LAST : Nat := FLIGHT_LOG_FIELD_CONDITION_NEVER

/-! ## Configuration (`blackboxConfig_t`) -/

/-- Modelled from the spec: the device selection none/serial/flash/SD, with the values of
`BlackboxDevice` in `blackbox.h` (not among the sources). -/
def BLACKBOX_DEVICE_NONE : Nat := 0
def BLACKBOX_DEVICE_FLASH : Nat := 1
def BLACKBOX_DEVICE_SDCARD : Nat := 2
def BLACKBOX_DEVICE_SERIAL : Nat := 3

/-- Modelled from the spec: the logging modes normal / motor-test / always-on, with the values of
`BlackboxMode` in `blackbox.h` (not among the sources). -/
def BLACKBOX_MODE_NORMAL : Nat := 0
def BLACKBOX_MODE_MOTOR_TEST : Nat := 1
def BLACKBOX_MODE_ALWAYS_ON : Nat := 2

/-- The parameter group `blackboxConfig`. -/
structure blackboxConfig_t where
  /-- `uint16_t p_ratio`: I-frame interval / P-frame interval. -/
  p_ratio : Nat
  device : Nat
  record_acc : Nat
  mode : Nat
  deriving DecidableEq, Repr

/-! ## Field catalog (`blackboxMainFields`) -/

/-- Modelled from the spec: the predictor ids of `blackbox_fielddefs.h` (not among the sources). -/
inductive FlightLogFieldPredictor where
  | PREDICTOR_0
  | PREVIOUS
  | STRAIGHT_LINE
  | AVERAGE_2
  | INC
  | HOME_COORD
  | VBATREF
  | LAST_MAIN_FRAME_TIME
  deriving DecidableEq, Repr

/-- Modelled from the spec: the encoding ids of `blackbox_fielddefs.h` (not among the sources):
signed and unsigned variable byte, the masked 14-bit unsigned value, the three tag-packed formats
and the "no bytes" encoding. -/
inductive FlightLogFieldEncoding where
  | SIGNED_VB
  | UNSIGNED_VB
  | NEG_14BIT
  | TAG8_8SVB
  | TAG2_3S32
  | TAG8_4S16
  | NULL
  deriving DecidableEq, Repr

/-- Modelled from the spec: numeric value of a predictor id, printed in the header. -/
def FlightLogFieldPredictor.toNat : FlightLogFieldPredictor → Nat
  | .PREDICTOR_0 => 0
  | .PREVIOUS => 1
  | .STRAIGHT_LINE => 2
  | .AVERAGE_2 => 3
  | .INC => 6
  | .HOME_COORD => 7
  | .VBATREF => 9
  | .LAST_MAIN_FRAME_TIME => 10

/-- Modelled from the spec: numeric value of an encoding id, printed in the header. -/
def FlightLogFieldEncoding.toNat : FlightLogFieldEncoding → Nat
  | .SIGNED_VB => 0
  | .UNSIGNED_VB => 1
  | .NEG_14BIT => 3
  | .TAG8_8SVB => 6
  | .TAG2_3S32 => 7
  | .TAG8_4S16 => 8
  | .NULL => 9

def FLIGHT_LOG_FIELD_UNSIGNED : Nat := 0
def FLIGHT_LOG_FIELD_SIGNED : Nat := 1

/-- The struct `blackboxDeltaFieldDefinition_t`. -/
structure blackboxDeltaFieldDefinition_t where
  name : String
  fieldNameIndex : Int
  isSigned : Nat
  Ipredict : FlightLogFieldPredictor
  Iencode : FlightLogFieldEncoding
  Ppredict : FlightLogFieldPredictor
  Pencode : FlightLogFieldEncoding
  condition : Nat
  deriving DecidableEq, Repr

/-- The struct `blackboxConditionalFieldDefinition_t`. -/
structure blackboxConditionalFieldDefinition_t where
  name : String
  fieldNameIndex : Int
  isSigned : Nat
  predict : FlightLogFieldPredictor
  encode : FlightLogFieldEncoding
  condition : Nat
  deriving DecidableEq, Repr

/-- The struct `blackboxSimpleFieldDefinition_t`. -/
structure blackboxSimpleFieldDefinition_t where
  name : String
  fieldNameIndex : Int
  isSigned : Nat
  predict : FlightLogFieldPredictor
  encode : FlightLogFieldEncoding
  deriving DecidableEq, Repr

/-! ## The log -/

/-- The C expression a logged value is read from: a member of `blackboxMainState_t` (or the
iteration counter), of `slowHistory`, of the GPS solution, or the payload of an event. -/
inductive Src where
  | blackboxIteration
  | time
  | axisPID_P (i : Nat)
  | axisPID_I (i : Nat)
  | axisPID_D (i : Nat)
  | axisPID_F (i : Nat)
  | rcCommand (i : Nat)
  | setpoint (i : Nat)
  | vbatLatest
  | amperageLatest
  | magADC (i : Nat)
  | BaroAlt
  | surfaceRaw
  | rssi
  | gyroADC (i : Nat)
  | accADC (i : Nat)
  | motor (i : Nat)
  | servo (i : Nat)
  | headspeed
  | debug (i : Nat)
  | debug32 (i : Nat)
  | flightModeFlags
  | stateFlags
  | failsafePhase
  | rxSignalReceived
  | rxFlightChannelsValid
  | GPS_home (i : Nat)
  | gpsTime
  | GPS_numSat
  | GPS_coord (i : Nat)
  | GPS_altitude
  | GPS_speed
  | GPS_ground_course
  | event (i : Nat)
  deriving DecidableEq, Repr

/-- A value handed to an encoder, with the expression it was computed for. -/
structure Val where
  src : Src
  value : Int
  deriving DecidableEq, Repr

/-- One call of a function of `blackbox_encoding.c` / `blackbox_io.c`. -/
inductive Write where
  /-- `blackboxWrite(byte)`. -/
  | byte (b : Nat)
  /-- `blackboxWriteString` / `blackboxPrintf`, with the text produced. -/
  | str (s : String)
  /-- `blackboxWriteUnsignedVB(uint32_t)`. -/
  | unsignedVB (v : Val)
  /-- `blackboxWriteSignedVB(int32_t)`. -/
  | signedVB (v : Val)
  /-- `blackboxWriteTag2_3S32(int32_t *values)`. -/
  | tag2_3S32 (vs : List Val)
  /-- `blackboxWriteTag8_4S16(int32_t *values)`. -/
  | tag8_4S16 (vs : List Val)
  /-- `blackboxWriteTag8_8SVB(int32_t *values, int valueCount)`; the count is the length. -/
  | tag8_8SVB (vs : List Val)
  /-- `blackboxWriteFloat(float)`. -/
  | float (v : Val)
  deriving DecidableEq, Repr

/-- An item of the log: a write of the header section, or a data frame (its marker byte, written
with `blackboxWrite`, and the writes that follow it in the same frame writer). -/
inductive LogItem where
  | header (w : Write)
  | frame (marker : Char) (payload : List Write)
  deriving DecidableEq, Repr

/-- Marker of a data frame; header writes have none. -/
def LogItem.marker? : LogItem → Option Char
  | .header _ => none
  | .frame c _ => some c

/-- Calls on the device adapter and the beeper that return nothing the recorder uses. -/
inductive DeviceOp where
  | blackboxOpen
  | deviceClose
  | deviceFlush
  | eraseAll
  | beeper
  deriving DecidableEq, Repr

/-! ## State of the recorder -/

/-- The enum `BlackboxState`, in declaration order. -/
inductive BlackboxState where
  | DISABLED
  | STOPPED
  | PREPARE_LOG_FILE
  | SEND_HEADER
  | SEND_MAIN_FIELD_HEADER
  | SEND_GPS_H_HEADER
  | SEND_GPS_G_HEADER
  | SEND_SLOW_HEADER
  | SEND_SYSINFO
  | CACHE_FLUSH
  | PAUSED
  | RUNNING
  | SHUTTING_DOWN
  | START_ERASE
  | ERASING
  | ERASED
  deriving DecidableEq, Repr

/-- The struct `blackboxMainState_t`. -/
structure blackboxMainState_t where
  time : Nat
  axisPID_P : Nat → Int
  axisPID_I : Nat → Int
  axisPID_D : Nat → Int
  axisPID_F : Nat → Int
  rcCommand : Nat → Int
  setpoint : Nat → Int
  gyroADC : Nat → Int
  accADC : Nat → Int
  motor : Nat → Nat
  servo : Nat → Nat
  vbatLatest : Nat
  amperageLatest : Int
  BaroAlt : Int
  magADC : Nat → Int
  surfaceRaw : Int
  rssi : Nat
  headspeed : Nat
  debug : Nat → Int
  debug32 : Nat → Int

/-- The struct `blackboxGpsState_t`. -/
structure blackboxGpsState_t where
  GPS_home : Nat → Int
  GPS_coord : Nat → Int
  GPS_numSat : Nat

/-- The packed struct `blackboxSlowState_t`; `memcmp` on it is equality of the five members. -/
structure blackboxSlowState_t where
  flightModeFlags : Nat
  stateFlags : Nat
  failsafePhase : Nat
  rxSignalReceived : Bool
  rxFlightChannelsValid : Bool
  deriving DecidableEq, Repr

/-- The GPS solution `gpsSol` as far as the recorder reads it. -/
structure gpsSolutionData_t where
  numSat : Nat
  lat : Int
  lon : Int
  altCm : Int
  groundSpeed : Nat
  groundCourse : Nat

/-- What the recorder reads from the rest of the firmware during one tick. -/
structure Env where
  /-- The argument of `blackboxUpdate`. -/
  currentTimeUs : Nat
  millis : Nat
  /-- `ARMING_FLAG(ARMED)`. -/
  armed : Bool
  /-- `IS_RC_MODE_ACTIVE(BOXBLACKBOX)`. -/
  rcModeBlackbox : Bool
  /-- `IS_RC_MODE_ACTIVE(BOXBLACKBOXERASE)`. -/
  rcModeBlackboxErase : Bool
  /-- `isModeActivationConditionPresent(BOXBLACKBOX)`. -/
  modeActivationConditionPresent : Bool
  /-- `featureIsEnabled(FEATURE_GPS)`. -/
  featureGPS : Bool
  areMotorsRunning : Bool
  /-- `findSharedSerialPort(FUNCTION_BLACKBOX, FUNCTION_MSP)` is not NULL. -/
  sharedBlackboxAndMspPort : Bool
  /-- `blackboxDeviceOpen()`. -/
  deviceOpen : Bool
  /-- `blackboxDeviceBeginLog()`. -/
  deviceBeginLog : Bool
  /-- `blackboxDeviceReserveBufferSpace(bytes) == BLACKBOX_RESERVE_SUCCESS`, for the n-th call. -/
  deviceReserve : Nat → Nat → Bool
  /-- `blackboxDeviceFlushForceComplete()`. -/
  deviceFlushForceComplete : Bool
  /-- `blackboxDeviceEndLog(blackboxLoggedAnyFrames)`. -/
  deviceEndLog : Bool → Bool
  /-- `blackboxDeviceFlushForce()`. -/
  deviceFlushForce : Bool
  /-- `isBlackboxDeviceFull()`. -/
  deviceFull : Bool
  /-- `isBlackboxErased()`. -/
  erased : Bool
  /-- `blackboxReplenishHeaderBudget()` as a function of the old budget. -/
  replenishHeaderBudget : Int → Int
  /-- `getMotorCount()`, a `uint8_t`. -/
  getMotorCount : Nat
  /-- `currentPidProfile->pid[axis].D`. -/
  pid_D : Nat → Nat
  /-- `sensors(SENSOR_MAG)` and so on. -/
  sensorMag : Bool
  sensorBaro : Bool
  sensorRangefinder : Bool
  sensorAcc : Bool
  /-- `batteryConfig()->voltageMeterSource != VOLTAGE_METER_NONE`. -/
  voltageMeterConfigured : Bool
  /-- `batteryConfig()->currentMeterSource != CURRENT_METER_NONE`. -/
  currentMeterConfigured : Bool
  /-- `batteryConfig()->currentMeterSource == CURRENT_METER_ADC`. -/
  currentMeterSourceADC : Bool
  isRssiConfigured : Bool
  /-- `debugMode != DEBUG_NONE`. -/
  debugModeActive : Bool
  getBatteryVoltageLatest : Nat
  /-- `pidGetLooptime()`, in microseconds. -/
  pidGetLooptime : Nat
  getArmingBeepTimeMicros : Nat
  /-- The first 32 bits of `rcModeActivationMask`. -/
  rcModeActivationMask : Nat
  getGovernorState : Nat
  stateFlags : Nat
  failsafePhase : Nat
  rxIsReceivingSignal : Bool
  rxAreFlightChannelsValid : Bool
  /-- The values `loadMainState` reads (PID terms, RC commands, sensors, outputs), already
  converted to the type of the member they are stored in. -/
  source : blackboxMainState_t
  GPS_home : Nat → Int
  gpsSol : gpsSolutionData_t
  /-- Text of the plain header line with case label n in `blackboxWriteSysinfo`, `none` past the
  last label. -/
  sysinfoLine : Nat → Option String

/-- The static variables of `blackbox.c`, the parameter group it validates, and the log. -/
structure State where
  blackboxConfig : blackboxConfig_t
  blackboxState : BlackboxState
  blackboxLastArmingBeep : Nat
  blackboxLastFlightModeFlags : Nat
  blackboxLastGovState : Nat
  /-- `xmitState.headerIndex`. -/
  headerIndex : Nat
  /-- The 32 bits of the union `xmitState.u`, read as `fieldIndex` or as `startTime`. -/
  u : Nat
  blackboxConditionCache : Nat
  blackboxIteration : Nat
  blackboxLoopIndex : Nat
  blackboxPFrameIndex : Nat
  blackboxIFrameIndex : Nat
  blackboxIInterval : Int
  blackboxPInterval : Int
  blackboxSInterval : Int
  blackboxSlowFrameIterationTimer : Int
  blackboxLoggedAnyFrames : Bool
  vbatReference : Nat
  gpsHistory : blackboxGpsState_t
  slowHistory : blackboxSlowState_t
  blackboxHistoryRing : Nat → blackboxMainState_t
  /-- `blackboxHistory[g] - blackboxHistoryRing`: the ring slot of generation g. -/
  blackboxHistory : Nat → Nat
  blackboxModeActivationConditionPresent : Bool
  startedLoggingInTestMode : Bool
  /-- The static `resetTime` of `inMotorTestMode`. -/
  resetTime : Nat
  /-- The static `needComma` of `sendFieldDefinition`. -/
  needComma : Bool
  /-- The static `cacheFlushNextState` of `blackboxUpdate`. -/
  cacheFlushNextState : BlackboxState
  /-- `blackboxHeaderBudget` of `blackbox_io.c`. -/
  blackboxHeaderBudget : Int
  /-- Number of calls of `blackboxDeviceReserveBufferSpace` so far. -/
  reserveCalls : Nat
  log : List LogItem
  deviceOps : List DeviceOp

/-- A call on the device adapter or the beeper, noted in `deviceOps`. -/
def State.pushDeviceOp (s : State) (op : DeviceOp) : State :=
  { s with deviceOps := s.deviceOps ++ [op] }

/-- Assignment to the static `startedLoggingInTestMode`. -/
def State.setStartedLoggingInTestMode (s : State) (v : Bool) : State :=
  { s with startedLoggingInTestMode := v }

/-- `xmitState.u.fieldIndex`. -/
def State.fieldIndex (s : State) : Int := toInt32 s.u

/-- `xmitState.u.startTime`. -/
def State.startTime (s : State) : Nat := s.u % 4294967296

/-! ## Condition evaluator -/

def blackboxIsOnlyLoggingIntraframes (s : State) : Bool :=
  s.blackboxConfig.p_ratio == 0

def testBlackboxConditionUncached (b : Build) (e : Env) (s : State) (condition : Nat) : Bool :=
  if condition = FLIGHT_LOG_FIELD_CONDITION_ALWAYS then true
  else if condition ∈ [FLIGHT_LOG_FIELD_CONDITION_AT_LEAST_MOTORS_1,
      FLIGHT_LOG_FIELD_CONDITION_AT_LEAST_MOTORS_2, FLIGHT_LOG_FIELD_CONDITION_AT_LEAST_MOTORS_3,
      FLIGHT_LOG_FIELD_CONDITION_AT_LEAST_MOTORS_4, FLIGHT_LOG_FIELD_CONDITION_AT_LEAST_MOTORS_5,
      FLIGHT_LOG_FIELD_CONDITION_AT_LEAST_MOTORS_6, FLIGHT_LOG_FIELD_CONDITION_AT_LEAST_MOTORS_7,
      FLIGHT_LOG_FIELD_CONDITION_AT_LEAST_MOTORS_8] then
    decide ((e.getMotorCount : Int) ≥
      (condition : Int) - (FLIGHT_LOG_FIELD_CONDITION_AT_LEAST_MOTORS_1 : Int) + 1)
  else if condition = FLIGHT_LOG_FIELD_CONDITION_TRICOPTER then false
  else if condition ∈ [FLIGHT_LOG_FIELD_CONDITION_NONZERO_PID_D_0,
      FLIGHT_LOG_FIELD_CONDITION_NONZERO_PID_D_1, FLIGHT_LOG_FIELD_CONDITION_NONZERO_PID_D_2] then
    e.pid_D (condition - FLIGHT_LOG_FIELD_CONDITION_NONZERO_PID_D_0) != 0
  else if condition = FLIGHT_LOG_FIELD_CONDITION_MAG then
    (if b.USE_MAG then e.sensorMag else false)
  else if condition = FLIGHT_LOG_FIELD_CONDITION_BARO then
    (if b.USE_BARO then e.sensorBaro else false)
  else if condition = FLIGHT_LOG_FIELD_CONDITION_VBAT then e.voltageMeterConfigured
  else if condition = FLIGHT_LOG_FIELD_CONDITION_AMPERAGE_ADC then e.currentMeterConfigured
  else if condition = FLIGHT_LOG_FIELD_CONDITION_RANGEFINDER then
    (if b.USE_RANGEFINDER then e.sensorRangefinder else false)
  else if condition = FLIGHT_LOG_FIELD_CONDITION_RSSI then e.isRssiConfigured
  else if condition = FLIGHT_LOG_FIELD_CONDITION_NOT_LOGGING_EVERY_FRAME then
    s.blackboxConfig.p_ratio != 1
  else if condition = FLIGHT_LOG_FIELD_CONDITION_ACC then
    e.sensorAcc && (s.blackboxConfig.record_acc != 0)
  else if condition = FLIGHT_LOG_FIELD_CONDITION_DEBUG then e.debugModeActive
  else if condition = FLIGHT_LOG_FIELD_CONDITION_NEVER then false
  else false

/-- One pass of the loop body of `blackboxBuildConditionCache`. -/
def blackboxBuildConditionCache.step (b : Build) (e : Env) (s : State) (cache : Nat)
    (cond : Nat) : Nat :=
  if testBlackboxConditionUncached b e s cond then (cache ||| (1 <<< cond)) % 4294967296
  else cache

def blackboxBuildConditionCache (b : Build) (e : Env) (s : State) : State :=
  let conds := List.range' FLIGHT_LOG_FIELD_CONDITION_FIRST
    (FLIGHT_LOG_FIELD_CONDITION_LAST + 1 - FLIGHT_LOG_FIELD_CONDITION_FIRST)
  { s with blackboxConditionCache := conds.foldl (blackboxBuildConditionCache.step b e s) 0 }

def testBlackboxCondition (s : State) (condition : Nat) : Bool :=
  (s.blackboxConditionCache &&& ((1 <<< condition) % 4294967296)) != 0

/-! ## The catalog of main-frame fields -/

/-- The table `blackboxMainFields`, with its `#ifdef` sections. -/
def blackboxMainFields (b : Build) : List blackboxDeltaFieldDefinition_t :=
  [ ⟨"loopIteration", -1, FLIGHT_LOG_FIELD_UNSIGNED, .PREDICTOR_0, .UNSIGNED_VB, .INC, .NULL,
      FLIGHT_LOG_FIELD_CONDITION_ALWAYS⟩,
    ⟨"time", -1, FLIGHT_LOG_FIELD_UNSIGNED, .PREDICTOR_0, .UNSIGNED_VB, .STRAIGHT_LINE, .SIGNED_VB,
      FLIGHT_LOG_FIELD_CONDITION_ALWAYS⟩,
    ⟨"axisP", 0, FLIGHT_LOG_FIELD_SIGNED, .PREDICTOR_0, .SIGNED_VB, .PREVIOUS, .SIGNED_VB,
      FLIGHT_LOG_FIELD_CONDITION_ALWAYS⟩,
    ⟨"axisP", 1, FLIGHT_LOG_FIELD_SIGNED, .PREDICTOR_0, .SIGNED_VB, .PREVIOUS, .SIGNED_VB,
      FLIGHT_LOG_FIELD_CONDITION_ALWAYS⟩,
    ⟨"axisP", 2, FLIGHT_LOG_FIELD_SIGNED, .PREDICTOR_0, .SIGNED_VB, .PREVIOUS, .SIGNED_VB,
      FLIGHT_LOG_FIELD_CONDITION_ALWAYS⟩,
    ⟨"axisI", 0, FLIGHT_LOG_FIELD_SIGNED, .PREDICTOR_0, .SIGNED_VB, .PREVIOUS, .TAG2_3S32,
      FLIGHT_LOG_FIELD_CONDITION_ALWAYS⟩,
    ⟨"axisI", 1, FLIGHT_LOG_FIELD_SIGNED, .PREDICTOR_0, .SIGNED_VB, .PREVIOUS, .TAG2_3S32,
      FLIGHT_LOG_FIELD_CONDITION_ALWAYS⟩,
    ⟨"axisI", 2, FLIGHT_LOG_FIELD_SIGNED, .PREDICTOR_0, .SIGNED_VB, .PREVIOUS, .TAG2_3S32,
      FLIGHT_LOG_FIELD_CONDITION_ALWAYS⟩,
    ⟨"axisD", 0, FLIGHT_LOG_FIELD_SIGNED, .PREDICTOR_0, .SIGNED_VB, .PREVIOUS, .SIGNED_VB,
      FLIGHT_LOG_FIELD_CONDITION_NONZERO_PID_D_0⟩,
    ⟨"axisD", 1, FLIGHT_LOG_FIELD_SIGNED, .PREDICTOR_0, .SIGNED_VB, .PREVIOUS, .SIGNED_VB,
      FLIGHT_LOG_FIELD_CONDITION_NONZERO_PID_D_1⟩,
    ⟨"axisD", 2, FLIGHT_LOG_FIELD_SIGNED, .PREDICTOR_0, .SIGNED_VB, .PREVIOUS, .SIGNED_VB,
      FLIGHT_LOG_FIELD_CONDITION_NONZERO_PID_D_2⟩,
    ⟨"axisF", 0, FLIGHT_LOG_FIELD_SIGNED, .PREDICTOR_0, .SIGNED_VB, .PREVIOUS, .SIGNED_VB,
      FLIGHT_LOG_FIELD_CONDITION_ALWAYS⟩,
    ⟨"axisF", 1, FLIGHT_LOG_FIELD_SIGNED, .PREDICTOR_0, .SIGNED_VB, .PREVIOUS, .SIGNED_VB,
      FLIGHT_LOG_FIELD_CONDITION_ALWAYS⟩,
    ⟨"axisF", 2, FLIGHT_LOG_FIELD_SIGNED, .PREDICTOR_0, .SIGNED_VB, .PREVIOUS, .SIGNED_VB,
      FLIGHT_LOG_FIELD_CONDITION_ALWAYS⟩,
    ⟨"rcCommand", 0, FLIGHT_LOG_FIELD_SIGNED, .PREDICTOR_0, .SIGNED_VB, .PREVIOUS, .TAG8_4S16,
      FLIGHT_LOG_FIELD_CONDITION_ALWAYS⟩,
    ⟨"rcCommand", 1, FLIGHT_LOG_FIELD_SIGNED, .PREDICTOR_0, .SIGNED_VB, .PREVIOUS, .TAG8_4S16,
      FLIGHT_LOG_FIELD_CONDITION_ALWAYS⟩,
    ⟨"rcCommand", 2, FLIGHT_LOG_FIELD_SIGNED, .PREDICTOR_0, .SIGNED_VB, .PREVIOUS, .TAG8_4S16,
      FLIGHT_LOG_FIELD_CONDITION_ALWAYS⟩,
    ⟨"rcCommand", 3, FLIGHT_LOG_FIELD_UNSIGNED, .PREDICTOR_0, .UNSIGNED_VB, .PREVIOUS, .TAG8_4S16,
      FLIGHT_LOG_FIELD_CONDITION_ALWAYS⟩,
    ⟨"rcCommand", 4, FLIGHT_LOG_FIELD_SIGNED, .PREDICTOR_0, .SIGNED_VB, .PREVIOUS, .SIGNED_VB,
      FLIGHT_LOG_FIELD_CONDITION_ALWAYS⟩,
    ⟨"setpoint", 0, FLIGHT_LOG_FIELD_SIGNED, .PREDICTOR_0, .SIGNED_VB, .PREVIOUS, .TAG8_4S16,
      FLIGHT_LOG_FIELD_CONDITION_ALWAYS⟩,
    ⟨"setpoint", 1, FLIGHT_LOG_FIELD_SIGNED, .PREDICTOR_0, .SIGNED_VB, .PREVIOUS, .TAG8_4S16,
      FLIGHT_LOG_FIELD_CONDITION_ALWAYS⟩,
    ⟨"setpoint", 2, FLIGHT_LOG_FIELD_SIGNED, .PREDICTOR_0, .SIGNED_VB, .PREVIOUS, .TAG8_4S16,
      FLIGHT_LOG_FIELD_CONDITION_ALWAYS⟩,
    ⟨"setpoint", 3, FLIGHT_LOG_FIELD_SIGNED, .PREDICTOR_0, .SIGNED_VB, .PREVIOUS, .TAG8_4S16,
      FLIGHT_LOG_FIELD_CONDITION_ALWAYS⟩,
    ⟨"vbatLatest", -1, FLIGHT_LOG_FIELD_UNSIGNED, .VBATREF, .NEG_14BIT, .PREVIOUS, .TAG8_8SVB,
      FLIGHT_LOG_FIELD_CONDITION_VBAT⟩,
    ⟨"amperageLatest", -1, FLIGHT_LOG_FIELD_SIGNED, .PREDICTOR_0, .SIGNED_VB, .PREVIOUS,
      .TAG8_8SVB, FLIGHT_LOG_FIELD_CONDITION_AMPERAGE_ADC⟩ ] ++
  (if b.USE_MAG then
    [ ⟨"magADC", 0, FLIGHT_LOG_FIELD_SIGNED, .PREDICTOR_0, .SIGNED_VB, .PREVIOUS, .TAG8_8SVB,
        FLIGHT_LOG_FIELD_CONDITION_MAG⟩,
      ⟨"magADC", 1, FLIGHT_LOG_FIELD_SIGNED, .PREDICTOR_0, .SIGNED_VB, .PREVIOUS, .TAG8_8SVB,
        FLIGHT_LOG_FIELD_CONDITION_MAG⟩,
      ⟨"magADC", 2, FLIGHT_LOG_FIELD_SIGNED, .PREDICTOR_0, .SIGNED_VB, .PREVIOUS, .TAG8_8SVB,
        FLIGHT_LOG_FIELD_CONDITION_MAG⟩ ]
   else []) ++
  (if b.USE_BARO then
    [ ⟨"BaroAlt", -1, FLIGHT_LOG_FIELD_SIGNED, .PREDICTOR_0, .SIGNED_VB, .PREVIOUS, .TAG8_8SVB,
        FLIGHT_LOG_FIELD_CONDITION_BARO⟩ ]
   else []) ++
  (if b.USE_RANGEFINDER then
    [ ⟨"surfaceRaw", -1, FLIGHT_LOG_FIELD_SIGNED, .PREDICTOR_0, .SIGNED_VB, .PREVIOUS, .TAG8_8SVB,
        FLIGHT_LOG_FIELD_CONDITION_RANGEFINDER⟩ ]
   else []) ++
  [ ⟨"rssi", -1, FLIGHT_LOG_FIELD_UNSIGNED, .PREDICTOR_0, .UNSIGNED_VB, .PREVIOUS, .TAG8_8SVB,
      FLIGHT_LOG_FIELD_CONDITION_RSSI⟩,
    ⟨"gyroADC", 0, FLIGHT_LOG_FIELD_SIGNED, .PREDICTOR_0, .SIGNED_VB, .AVERAGE_2, .SIGNED_VB,
      FLIGHT_LOG_FIELD_CONDITION_ALWAYS⟩,
    ⟨"gyroADC", 1, FLIGHT_LOG_FIELD_SIGNED, .PREDICTOR_0, .SIGNED_VB, .AVERAGE_2, .SIGNED_VB,
      FLIGHT_LOG_FIELD_CONDITION_ALWAYS⟩,
    ⟨"gyroADC", 2, FLIGHT_LOG_FIELD_SIGNED, .PREDICTOR_0, .SIGNED_VB, .AVERAGE_2, .SIGNED_VB,
      FLIGHT_LOG_FIELD_CONDITION_ALWAYS⟩,
    ⟨"accSmooth", 0, FLIGHT_LOG_FIELD_SIGNED, .PREDICTOR_0, .SIGNED_VB, .AVERAGE_2, .SIGNED_VB,
      FLIGHT_LOG_FIELD_CONDITION_ACC⟩,
    ⟨"accSmooth", 1, FLIGHT_LOG_FIELD_SIGNED, .PREDICTOR_0, .SIGNED_VB, .AVERAGE_2, .SIGNED_VB,
      FLIGHT_LOG_FIELD_CONDITION_ACC⟩,
    ⟨"accSmooth", 2, FLIGHT_LOG_FIELD_SIGNED, .PREDICTOR_0, .SIGNED_VB, .AVERAGE_2, .SIGNED_VB,
      FLIGHT_LOG_FIELD_CONDITION_ACC⟩,
    ⟨"motor", 0, FLIGHT_LOG_FIELD_UNSIGNED, .PREDICTOR_0, .UNSIGNED_VB, .PREVIOUS, .SIGNED_VB,
      FLIGHT_LOG_FIELD_CONDITION_AT_LEAST_MOTORS_1⟩,
    ⟨"motor", 1, FLIGHT_LOG_FIELD_UNSIGNED, .PREDICTOR_0, .UNSIGNED_VB, .PREVIOUS, .SIGNED_VB,
      FLIGHT_LOG_FIELD_CONDITION_AT_LEAST_MOTORS_2⟩,
    ⟨"motor", 2, FLIGHT_LOG_FIELD_UNSIGNED, .PREDICTOR_0, .UNSIGNED_VB, .PREVIOUS, .SIGNED_VB,
      FLIGHT_LOG_FIELD_CONDITION_AT_LEAST_MOTORS_3⟩,
    ⟨"motor", 3, FLIGHT_LOG_FIELD_UNSIGNED, .PREDICTOR_0, .UNSIGNED_VB, .PREVIOUS, .SIGNED_VB,
      FLIGHT_LOG_FIELD_CONDITION_AT_LEAST_MOTORS_4⟩,
    ⟨"servo", 0, FLIGHT_LOG_FIELD_UNSIGNED, .PREDICTOR_0, .UNSIGNED_VB, .PREVIOUS, .TAG8_4S16,
      FLIGHT_LOG_FIELD_CONDITION_ALWAYS⟩,
    ⟨"servo", 1, FLIGHT_LOG_FIELD_UNSIGNED, .PREDICTOR_0, .UNSIGNED_VB, .PREVIOUS, .TAG8_4S16,
      FLIGHT_LOG_FIELD_CONDITION_ALWAYS⟩,
    ⟨"servo", 2, FLIGHT_LOG_FIELD_UNSIGNED, .PREDICTOR_0, .UNSIGNED_VB, .PREVIOUS, .TAG8_4S16,
      FLIGHT_LOG_FIELD_CONDITION_ALWAYS⟩,
    ⟨"servo", 3, FLIGHT_LOG_FIELD_UNSIGNED, .PREDICTOR_0, .UNSIGNED_VB, .PREVIOUS, .TAG8_4S16,
      FLIGHT_LOG_FIELD_CONDITION_ALWAYS⟩,
    ⟨"headspeed", -1, FLIGHT_LOG_FIELD_UNSIGNED, .PREDICTOR_0, .UNSIGNED_VB, .PREVIOUS, .SIGNED_VB,
      FLIGHT_LOG_FIELD_CONDITION_ALWAYS⟩,
    ⟨"debug", 0, FLIGHT_LOG_FIELD_SIGNED, .PREDICTOR_0, .SIGNED_VB, .AVERAGE_2, .SIGNED_VB,
      FLIGHT_LOG_FIELD_CONDITION_DEBUG⟩,
    ⟨"debug", 1, FLIGHT_LOG_FIELD_SIGNED, .PREDICTOR_0, .SIGNED_VB, .AVERAGE_2, .SIGNED_VB,
      FLIGHT_LOG_FIELD_CONDITION_DEBUG⟩,
    ⟨"debug", 2, FLIGHT_LOG_FIELD_SIGNED, .PREDICTOR_0, .SIGNED_VB, .AVERAGE_2, .SIGNED_VB,
      FLIGHT_LOG_FIELD_CONDITION_DEBUG⟩,
    ⟨"debug", 3, FLIGHT_LOG_FIELD_SIGNED, .PREDICTOR_0, .SIGNED_VB, .AVERAGE_2, .SIGNED_VB,
      FLIGHT_LOG_FIELD_CONDITION_DEBUG⟩ ] ++
  (if b.USE_DEBUG32 then
    [ ⟨"debug32", 0, FLIGHT_LOG_FIELD_SIGNED, .PREDICTOR_0, .SIGNED_VB, .PREVIOUS, .SIGNED_VB,
        FLIGHT_LOG_FIELD_CONDITION_DEBUG⟩,
      ⟨"debug32", 1, FLIGHT_LOG_FIELD_SIGNED, .PREDICTOR_0, .SIGNED_VB, .PREVIOUS, .SIGNED_VB,
        FLIGHT_LOG_FIELD_CONDITION_DEBUG⟩,
      ⟨"debug32", 2, FLIGHT_LOG_FIELD_SIGNED, .PREDICTOR_0, .SIGNED_VB, .PREVIOUS, .SIGNED_VB,
        FLIGHT_LOG_FIELD_CONDITION_DEBUG⟩,
      ⟨"debug32", 3, FLIGHT_LOG_FIELD_SIGNED, .PREDICTOR_0, .SIGNED_VB, .PREVIOUS, .SIGNED_VB,
        FLIGHT_LOG_FIELD_CONDITION_DEBUG⟩,
      ⟨"debug32", 4, FLIGHT_LOG_FIELD_SIGNED, .PREDICTOR_0, .SIGNED_VB, .PREVIOUS, .SIGNED_VB,
        FLIGHT_LOG_FIELD_CONDITION_DEBUG⟩,
      ⟨"debug32", 5, FLIGHT_LOG_FIELD_SIGNED, .PREDICTOR_0, .SIGNED_VB, .PREVIOUS, .SIGNED_VB,
        FLIGHT_LOG_FIELD_CONDITION_DEBUG⟩,
      ⟨"debug32", 6, FLIGHT_LOG_FIELD_SIGNED, .PREDICTOR_0, .SIGNED_VB, .PREVIOUS, .SIGNED_VB,
        FLIGHT_LOG_FIELD_CONDITION_DEBUG⟩,
      ⟨"debug32", 7, FLIGHT_LOG_FIELD_SIGNED, .PREDICTOR_0, .SIGNED_VB, .PREVIOUS, .SIGNED_VB,
        FLIGHT_LOG_FIELD_CONDITION_DEBUG⟩ ]
   else [])

/-- The table `blackboxGpsGFields` (under `USE_GPS`). -/
def blackboxGpsGFields : List blackboxConditionalFieldDefinition_t :=
  [ ⟨"time", -1, FLIGHT_LOG_FIELD_UNSIGNED, .LAST_MAIN_FRAME_TIME, .UNSIGNED_VB,
      FLIGHT_LOG_FIELD_CONDITION_NOT_LOGGING_EVERY_FRAME⟩,
    ⟨"GPS_numSat", -1, FLIGHT_LOG_FIELD_UNSIGNED, .PREDICTOR_0, .UNSIGNED_VB,
      FLIGHT_LOG_FIELD_CONDITION_ALWAYS⟩,
    ⟨"GPS_coord", 0, FLIGHT_LOG_FIELD_SIGNED, .HOME_COORD, .SIGNED_VB,
      FLIGHT_LOG_FIELD_CONDITION_ALWAYS⟩,
    ⟨"GPS_coord", 1, FLIGHT_LOG_FIELD_SIGNED, .HOME_COORD, .SIGNED_VB,
      FLIGHT_LOG_FIELD_CONDITION_ALWAYS⟩,
    ⟨"GPS_altitude", -1, FLIGHT_LOG_FIELD_UNSIGNED, .PREDICTOR_0, .UNSIGNED_VB,
      FLIGHT_LOG_FIELD_CONDITION_ALWAYS⟩,
    ⟨"GPS_speed", -1, FLIGHT_LOG_FIELD_UNSIGNED, .PREDICTOR_0, .UNSIGNED_VB,
      FLIGHT_LOG_FIELD_CONDITION_ALWAYS⟩,
    ⟨"GPS_ground_course", -1, FLIGHT_LOG_FIELD_UNSIGNED, .PREDICTOR_0, .UNSIGNED_VB,
      FLIGHT_LOG_FIELD_CONDITION_ALWAYS⟩ ]

/-- The table `blackboxGpsHFields` (under `USE_GPS`). -/
def blackboxGpsHFields : List blackboxSimpleFieldDefinition_t :=
  [ ⟨"GPS_home", 0, FLIGHT_LOG_FIELD_SIGNED, .PREDICTOR_0, .SIGNED_VB⟩,
    ⟨"GPS_home", 1, FLIGHT_LOG_FIELD_SIGNED, .PREDICTOR_0, .SIGNED_VB⟩ ]

/-- The table `blackboxSlowFields`. -/
def blackboxSlowFields : List blackboxSimpleFieldDefinition_t :=
  [ ⟨"flightModeFlags", -1, FLIGHT_LOG_FIELD_UNSIGNED, .PREDICTOR_0, .UNSIGNED_VB⟩,
    ⟨"stateFlags", -1, FLIGHT_LOG_FIELD_UNSIGNED, .PREDICTOR_0, .UNSIGNED_VB⟩,
    ⟨"failsafePhase", -1, FLIGHT_LOG_FIELD_UNSIGNED, .PREDICTOR_0, .TAG2_3S32⟩,
    ⟨"rxSignalReceived", -1, FLIGHT_LOG_FIELD_UNSIGNED, .PREDICTOR_0, .TAG2_3S32⟩,
    ⟨"rxFlightChannelsValid", -1, FLIGHT_LOG_FIELD_UNSIGNED, .PREDICTOR_0, .TAG2_3S32⟩ ]

/-! ## Frame encoder -/

/-- `blackboxWriteSignedVBArray(array, count)`: one signed variable-byte write per element. -/
def blackboxWriteSignedVBArray (src : Nat → Src) (array : Nat → Int) (count : Nat) : List Write :=
  (List.range count).map (fun i => Write.signedVB ⟨src i, array i⟩)

/-- `blackboxWriteSigned16VBArray(array, count)`, the same over an `int16_t` array. -/
def blackboxWriteSigned16VBArray (src : Nat → Src) (array : Nat → Int) (count : Nat) :
    List Write :=
  (List.range count).map (fun i => Write.signedVB ⟨src i, array i⟩)

/-- `arraySubInt32(dest, array1, array2, count)` of `common/maths.c`: element-wise `int32_t`
difference. -/
def arraySubInt32 (array1 array2 : Nat → Int) : Nat → Int :=
  fun i => wrapInt32 (array1 i - array2 i)

/-- The snapshot `*blackboxHistory[g]`. -/
def State.history (s : State) (g : Nat) : blackboxMainState_t :=
  s.blackboxHistoryRing (s.blackboxHistory g)

/-- The value `writeIntraframe` hands to the unsigned encoder for the voltage:
`(vbatReference - blackboxCurrent->vbatLatest) & 0x3FFF`, the subtraction done in `int`. -/
def vbatIntraValue (vbatReference vbatLatest : Nat) : Nat :=
  toU32 ((vbatReference : Int) - (vbatLatest : Int)) &&& 0x3FFF

/-- The writes of `writeIntraframe` after the marker byte. -/
def writeIntraframe.payload (b : Build) (e : Env) (s : State) : List Write :=
  let blackboxCurrent := s.history 0
  [ Write.unsignedVB ⟨.blackboxIteration, s.blackboxIteration⟩,
    Write.unsignedVB ⟨.time, blackboxCurrent.time⟩ ] ++
  blackboxWriteSignedVBArray Src.axisPID_P blackboxCurrent.axisPID_P XYZ_AXIS_COUNT ++
  blackboxWriteSignedVBArray Src.axisPID_I blackboxCurrent.axisPID_I XYZ_AXIS_COUNT ++
  ((List.range XYZ_AXIS_COUNT).filter
      (fun x => testBlackboxCondition s (FLIGHT_LOG_FIELD_CONDITION_NONZERO_PID_D_0 + x))).map
    (fun x => Write.signedVB ⟨.axisPID_D x, blackboxCurrent.axisPID_D x⟩) ++
  blackboxWriteSignedVBArray Src.axisPID_F blackboxCurrent.axisPID_F XYZ_AXIS_COUNT ++
  blackboxWriteSigned16VBArray Src.rcCommand blackboxCurrent.rcCommand 3 ++
  [ Write.unsignedVB ⟨.rcCommand THROTTLE, toU32 (blackboxCurrent.rcCommand THROTTLE)⟩,
    Write.signedVB ⟨.rcCommand COLLECTIVE, blackboxCurrent.rcCommand COLLECTIVE⟩ ] ++
  blackboxWriteSigned16VBArray Src.setpoint blackboxCurrent.setpoint 4 ++
  (if testBlackboxCondition s FLIGHT_LOG_FIELD_CONDITION_VBAT then
    [ Write.unsignedVB ⟨.vbatLatest, vbatIntraValue s.vbatReference blackboxCurrent.vbatLatest⟩ ]
   else []) ++
  (if testBlackboxCondition s FLIGHT_LOG_FIELD_CONDITION_AMPERAGE_ADC then
    [ Write.signedVB ⟨.amperageLatest, blackboxCurrent.amperageLatest⟩ ]
   else []) ++
  (if b.USE_MAG && testBlackboxCondition s FLIGHT_LOG_FIELD_CONDITION_MAG then
    blackboxWriteSigned16VBArray Src.magADC blackboxCurrent.magADC XYZ_AXIS_COUNT
   else []) ++
  (if b.USE_BARO && testBlackboxCondition s FLIGHT_LOG_FIELD_CONDITION_BARO then
    [ Write.signedVB ⟨.BaroAlt, blackboxCurrent.BaroAlt⟩ ]
   else []) ++
  (if b.USE_RANGEFINDER && testBlackboxCondition s FLIGHT_LOG_FIELD_CONDITION_RANGEFINDER then
    [ Write.signedVB ⟨.surfaceRaw, blackboxCurrent.surfaceRaw⟩ ]
   else []) ++
  (if testBlackboxCondition s FLIGHT_LOG_FIELD_CONDITION_RSSI then
    [ Write.unsignedVB ⟨.rssi, blackboxCurrent.rssi⟩ ]
   else []) ++
  blackboxWriteSigned16VBArray Src.gyroADC blackboxCurrent.gyroADC XYZ_AXIS_COUNT ++
  (if testBlackboxCondition s FLIGHT_LOG_FIELD_CONDITION_ACC then
    blackboxWriteSigned16VBArray Src.accADC blackboxCurrent.accADC XYZ_AXIS_COUNT
   else []) ++
  (List.range e.getMotorCount).map
    (fun x => Write.unsignedVB ⟨.motor x, blackboxCurrent.motor x⟩) ++
  (List.range 4).map (fun x => Write.unsignedVB ⟨.servo x, blackboxCurrent.servo x⟩) ++
  [ Write.unsignedVB ⟨.headspeed, blackboxCurrent.headspeed⟩ ] ++
  (if testBlackboxCondition s FLIGHT_LOG_FIELD_CONDITION_DEBUG then
    blackboxWriteSigned16VBArray Src.debug blackboxCurrent.debug DEBUG16_VALUE_COUNT
   else []) ++
  (if b.USE_DEBUG32 && testBlackboxCondition s FLIGHT_LOG_FIELD_CONDITION_DEBUG then
    blackboxWriteSignedVBArray Src.debug32 blackboxCurrent.debug32 DEBUG32_VALUE_COUNT
   else [])

/-- The function `writeIntraframe`: the 'I' frame, then the rotation of the history in which both
older generations become the snapshot just written. -/
def writeIntraframe (b : Build) (e : Env) (s : State) : State :=
  { s with
    log := s.log ++ [LogItem.frame 'I' (writeIntraframe.payload b e s)]
    blackboxHistory := fun g =>
      if g = 1 then s.blackboxHistory 0
      else if g = 2 then s.blackboxHistory 0
      else if g = 0 then (s.blackboxHistory 0 + 1) % 3
      else s.blackboxHistory g
    blackboxLoggedAnyFrames := true }

/-- The writes of `blackboxWriteMainStateArrayUsingAveragePredictor` for one `int16_t` array of
the snapshot, selected here by its accessor instead of its byte offset. -/
def blackboxWriteMainStateArrayUsingAveragePredictor (s : State) (src : Nat → Src)
    (arr : blackboxMainState_t → Nat → Int) (count : Nat) : List Write :=
  (List.range count).map (fun i =>
    let predictor := Int.tdiv (arr (s.history 1) i + arr (s.history 2) i) 2
    Write.signedVB ⟨src i, arr (s.history 0) i - predictor⟩)

/-- The optional deltas `writeInterframe` collects for `blackboxWriteTag8_8SVB`, in order. -/
def writeInterframe.optionalDeltas (b : Build) (s : State) : List Val :=
  let blackboxCurrent := s.history 0
  let blackboxLast := s.history 1
  (if testBlackboxCondition s FLIGHT_LOG_FIELD_CONDITION_VBAT then
    [ (⟨.vbatLatest, (blackboxCurrent.vbatLatest : Int) - blackboxLast.vbatLatest⟩ : Val) ]
   else []) ++
  (if testBlackboxCondition s FLIGHT_LOG_FIELD_CONDITION_AMPERAGE_ADC then
    [ ⟨.amperageLatest, wrapInt32 (blackboxCurrent.amperageLatest - blackboxLast.amperageLatest)⟩ ]
   else []) ++
  (if b.USE_MAG && testBlackboxCondition s FLIGHT_LOG_FIELD_CONDITION_MAG then
    (List.range XYZ_AXIS_COUNT).map
      (fun x => (⟨.magADC x, blackboxCurrent.magADC x - blackboxLast.magADC x⟩ : Val))
   else []) ++
  (if b.USE_BARO && testBlackboxCondition s FLIGHT_LOG_FIELD_CONDITION_BARO then
    [ ⟨.BaroAlt, wrapInt32 (blackboxCurrent.BaroAlt - blackboxLast.BaroAlt)⟩ ]
   else []) ++
  (if b.USE_RANGEFINDER && testBlackboxCondition s FLIGHT_LOG_FIELD_CONDITION_RANGEFINDER then
    [ ⟨.surfaceRaw, wrapInt32 (blackboxCurrent.surfaceRaw - blackboxLast.surfaceRaw)⟩ ]
   else []) ++
  (if testBlackboxCondition s FLIGHT_LOG_FIELD_CONDITION_RSSI then
    [ ⟨.rssi, (blackboxCurrent.rssi : Int) - blackboxLast.rssi⟩ ]
   else [])

/-- The writes of `writeInterframe` after the marker byte. -/
def writeInterframe.payload (b : Build) (e : Env) (s : State) : List Write :=
  let blackboxCurrent := s.history 0
  let blackboxLast := s.history 1
  [ Write.signedVB ⟨.time, toInt32 (toU32
      ((s.history 0).time - 2 * ((s.history 1).time : Int) + (s.history 2).time))⟩ ] ++
  blackboxWriteSignedVBArray Src.axisPID_P
    (arraySubInt32 blackboxCurrent.axisPID_P blackboxLast.axisPID_P) XYZ_AXIS_COUNT ++
  [ Write.tag2_3S32 ((List.range 3).map (fun i =>
      ⟨.axisPID_I i, arraySubInt32 blackboxCurrent.axisPID_I blackboxLast.axisPID_I i⟩)) ] ++
  ((List.range XYZ_AXIS_COUNT).filter
      (fun x => testBlackboxCondition s (FLIGHT_LOG_FIELD_CONDITION_NONZERO_PID_D_0 + x))).map
    (fun x => Write.signedVB
      ⟨.axisPID_D x, wrapInt32 (blackboxCurrent.axisPID_D x - blackboxLast.axisPID_D x)⟩) ++
  blackboxWriteSignedVBArray Src.axisPID_F
    (arraySubInt32 blackboxCurrent.axisPID_F blackboxLast.axisPID_F) XYZ_AXIS_COUNT ++
  [ Write.tag8_4S16 ((List.range 4).map (fun x =>
      ⟨.rcCommand x, blackboxCurrent.rcCommand x - blackboxLast.rcCommand x⟩)),
    Write.signedVB ⟨.rcCommand COLLECTIVE,
      blackboxCurrent.rcCommand COLLECTIVE - blackboxLast.rcCommand COLLECTIVE⟩,
    Write.tag8_4S16 ((List.range 4).map (fun x =>
      ⟨.setpoint x, blackboxCurrent.setpoint x - blackboxLast.setpoint x⟩)),
    Write.tag8_8SVB (writeInterframe.optionalDeltas b s) ] ++
  blackboxWriteMainStateArrayUsingAveragePredictor s Src.gyroADC
    blackboxMainState_t.gyroADC XYZ_AXIS_COUNT ++
  (if testBlackboxCondition s FLIGHT_LOG_FIELD_CONDITION_ACC then
    blackboxWriteMainStateArrayUsingAveragePredictor s Src.accADC
      blackboxMainState_t.accADC XYZ_AXIS_COUNT
   else []) ++
  blackboxWriteSignedVBArray Src.motor
    (fun x => (blackboxCurrent.motor x : Int) - blackboxLast.motor x) e.getMotorCount ++
  [ Write.tag8_4S16 ((List.range 4).map (fun x =>
      ⟨.servo x, (blackboxCurrent.servo x : Int) - blackboxLast.servo x⟩)),
    Write.signedVB ⟨.headspeed, (blackboxCurrent.headspeed : Int) - blackboxLast.headspeed⟩ ] ++
  (if testBlackboxCondition s FLIGHT_LOG_FIELD_CONDITION_DEBUG then
    blackboxWriteMainStateArrayUsingAveragePredictor s Src.debug
      blackboxMainState_t.debug DEBUG16_VALUE_COUNT
   else []) ++
  (if b.USE_DEBUG32 && testBlackboxCondition s FLIGHT_LOG_FIELD_CONDITION_DEBUG then
    blackboxWriteSignedVBArray Src.debug32
      (arraySubInt32 blackboxCurrent.debug32 blackboxLast.debug32) DEBUG32_VALUE_COUNT
   else [])

/-- The function `writeInterframe`: the 'P' frame, then the rotation of the history that keeps
the three-deep chain. -/
def writeInterframe (b : Build) (e : Env) (s : State) : State :=
  { s with
    log := s.log ++ [LogItem.frame 'P' (writeInterframe.payload b e s)]
    blackboxHistory := fun g =>
      if g = 2 then s.blackboxHistory 1
      else if g = 1 then s.blackboxHistory 0
      else if g = 0 then (s.blackboxHistory 0 + 1) % 3
      else s.blackboxHistory g
    blackboxLoggedAnyFrames := true }

/-! ## Slow, GPS and event frames -/

/-- The function `writeSlowFrame`. -/
def writeSlowFrame (s : State) : State :=
  { s with
    log := s.log ++ [LogItem.frame 'S'
      [ Write.unsignedVB ⟨.flightModeFlags, s.slowHistory.flightModeFlags⟩,
        Write.unsignedVB ⟨.stateFlags, s.slowHistory.stateFlags⟩,
        Write.tag2_3S32
          [ ⟨.failsafePhase, s.slowHistory.failsafePhase⟩,
            ⟨.rxSignalReceived, if s.slowHistory.rxSignalReceived then 1 else 0⟩,
            ⟨.rxFlightChannelsValid, if s.slowHistory.rxFlightChannelsValid then 1 else 0⟩ ] ]]
    blackboxSlowFrameIterationTimer := 0 }

/-- The function `loadSlowState`, returning the structure it fills. -/
def loadSlowState (e : Env) : blackboxSlowState_t :=
  { flightModeFlags := e.rcModeActivationMask % 4294967296
    stateFlags := e.stateFlags
    failsafePhase := e.failsafePhase
    rxSignalReceived := e.rxIsReceivingSignal
    rxFlightChannelsValid := e.rxAreFlightChannelsValid }

/-- The function `writeSlowFrameIfNeeded`, with its return value. -/
def writeSlowFrameIfNeeded (e : Env) (s : State) : State × Bool :=
  if s.blackboxSlowFrameIterationTimer ≥ s.blackboxSInterval then
    (writeSlowFrame { s with slowHistory := loadSlowState e }, true)
  else
    let newSlowState := loadSlowState e
    if newSlowState ≠ s.slowHistory then
      (writeSlowFrame { s with slowHistory := newSlowState }, true)
    else (s, false)

/-- The function `writeGPSHomeFrame` (under `USE_GPS`). -/
def writeGPSHomeFrame (e : Env) (s : State) : State :=
  { s with
    log := s.log ++ [LogItem.frame 'H'
      [ Write.signedVB ⟨.GPS_home 0, e.GPS_home 0⟩,
        Write.signedVB ⟨.GPS_home 1, e.GPS_home 1⟩ ]]
    gpsHistory := { s.gpsHistory with
      GPS_home := fun i => if i = 0 then e.GPS_home 0 else if i = 1 then e.GPS_home 1
        else s.gpsHistory.GPS_home i } }

/-- The function `writeGPSFrame` (under `USE_GPS`); `LAT` is 0 and `LON` is 1. -/
def writeGPSFrame (e : Env) (s : State) : State :=
  { s with
    log := s.log ++ [LogItem.frame 'G' (
      (if testBlackboxCondition s FLIGHT_LOG_FIELD_CONDITION_NOT_LOGGING_EVERY_FRAME then
        [ Write.unsignedVB ⟨.gpsTime, toU32 ((e.currentTimeUs : Int) - (s.history 1).time)⟩ ]
       else []) ++
      [ Write.unsignedVB ⟨.GPS_numSat, e.gpsSol.numSat⟩,
        Write.signedVB ⟨.GPS_coord 0, wrapInt32 (e.gpsSol.lat - s.gpsHistory.GPS_home 0)⟩,
        Write.signedVB ⟨.GPS_coord 1, wrapInt32 (e.gpsSol.lon - s.gpsHistory.GPS_home 1)⟩,
        Write.unsignedVB ⟨.GPS_altitude, toU32 (Int.tdiv e.gpsSol.altCm 10)⟩,
        Write.unsignedVB ⟨.GPS_speed, e.gpsSol.groundSpeed⟩,
        Write.unsignedVB ⟨.GPS_ground_course, e.gpsSol.groundCourse⟩ ])]
    gpsHistory := { s.gpsHistory with
      GPS_numSat := e.gpsSol.numSat
      GPS_coord := fun i => if i = 0 then e.gpsSol.lat else if i = 1 then e.gpsSol.lon
        else s.gpsHistory.GPS_coord i } }

/-- Modelled from the spec: the event ids of `FlightLogEvent` in `blackbox_fielddefs.h` (not among
the sources), one per event payload the spec lists. -/
def FLIGHT_LOG_EVENT_SYNC_BEEP : Nat := 0
def FLIGHT_LOG_EVENT_INFLIGHT_ADJUSTMENT : Nat := 13
def FLIGHT_LOG_EVENT_LOGGING_RESUME : Nat := 14
def FLIGHT_LOG_EVENT_DISARM : Nat := 15
def FLIGHT_LOG_EVENT_FLIGHTMODE : Nat := 30
def FLIGHT_LOG_EVENT_GOVSTATE : Nat := 31
def FLIGHT_LOG_EVENT_LOG_END : Nat := 255

/-- Modelled from the spec: the flag added to the adjustment function of a float-valued in-flight
adjustment (`blackbox_fielddefs.h`, not among the sources). -/
def FLIGHT_LOG_EVENT_INFLIGHT_ADJUSTMENT_FUNCTION_FLOAT_VALUE_FLAG : Nat := 128

/-- The union `flightLogEventData_t`, all members side by side. -/
structure flightLogEventData_t where
  syncBeep_time : Nat := 0
  flightMode_flags : Nat := 0
  flightMode_lastFlags : Nat := 0
  disarm_reason : Nat := 0
  inflightAdjustment_floatFlag : Bool := false
  inflightAdjustment_adjustmentFunction : Nat := 0
  inflightAdjustment_newFloatValue : Int := 0
  inflightAdjustment_newValue : Int := 0
  loggingResume_logIteration : Nat := 0
  loggingResume_currentTime : Nat := 0
  govState_govState : Nat := 0

/-- The payload `blackboxLogEvent` serialises after the event id. -/
def blackboxLogEvent.payload (event : Nat) (data : flightLogEventData_t) : List Write :=
  if event = FLIGHT_LOG_EVENT_SYNC_BEEP then
    [ Write.unsignedVB ⟨.event 0, data.syncBeep_time⟩ ]
  else if event = FLIGHT_LOG_EVENT_FLIGHTMODE then
    [ Write.unsignedVB ⟨.event 0, data.flightMode_flags⟩,
      Write.unsignedVB ⟨.event 1, data.flightMode_lastFlags⟩ ]
  else if event = FLIGHT_LOG_EVENT_DISARM then
    [ Write.unsignedVB ⟨.event 0, data.disarm_reason⟩ ]
  else if event = FLIGHT_LOG_EVENT_INFLIGHT_ADJUSTMENT then
    (if data.inflightAdjustment_floatFlag then
      [ Write.byte ((data.inflightAdjustment_adjustmentFunction +
          FLIGHT_LOG_EVENT_INFLIGHT_ADJUSTMENT_FUNCTION_FLOAT_VALUE_FLAG) % 256),
        Write.float ⟨.event 0, data.inflightAdjustment_newFloatValue⟩ ]
     else
      [ Write.byte (data.inflightAdjustment_adjustmentFunction % 256),
        Write.signedVB ⟨.event 0, data.inflightAdjustment_newValue⟩ ])
  else if event = FLIGHT_LOG_EVENT_LOGGING_RESUME then
    [ Write.unsignedVB ⟨.event 0, data.loggingResume_logIteration⟩,
      Write.unsignedVB ⟨.event 1, data.loggingResume_currentTime⟩ ]
  else if event = FLIGHT_LOG_EVENT_LOG_END then
    [ Write.str "End of log", Write.byte 0 ]
  else if event = FLIGHT_LOG_EVENT_GOVSTATE then
    [ Write.unsignedVB ⟨.event 0, data.govState_govState⟩ ]
  else []

/-- The function `blackboxLogEvent`. -/
def blackboxLogEvent (event : Nat) (data : flightLogEventData_t) (s : State) : State :=
  if ¬ (s.blackboxState = .RUNNING ∨ s.blackboxState = .PAUSED) then s
  else
    { s with log := s.log ++
        [LogItem.frame 'E' (Write.byte (event % 256) :: blackboxLogEvent.payload event data)] }

/-- Assignment to `blackboxLastGovState`. -/
def State.setLastGovState (s : State) (v : Nat) : State :=
  { s with blackboxLastGovState := v }

/-- The function `blackboxCheckAndLogArmingBeep`. -/
def blackboxCheckAndLogArmingBeep (e : Env) (s : State) : State :=
  if e.getArmingBeepTimeMicros ≠ s.blackboxLastArmingBeep then
    let s1 := { s with blackboxLastArmingBeep := e.getArmingBeepTimeMicros }
    blackboxLogEvent FLIGHT_LOG_EVENT_SYNC_BEEP { syncBeep_time := s1.blackboxLastArmingBeep } s1
  else s

/-- The function `blackboxCheckAndLogFlightMode`. -/
def blackboxCheckAndLogFlightMode (e : Env) (s : State) : State :=
  let s1 :=
    if e.rcModeActivationMask % 4294967296 ≠ s.blackboxLastFlightModeFlags then
      blackboxLogEvent FLIGHT_LOG_EVENT_FLIGHTMODE
        { flightMode_lastFlags := s.blackboxLastFlightModeFlags
          flightMode_flags := e.rcModeActivationMask % 4294967296 }
        { s with blackboxLastFlightModeFlags := e.rcModeActivationMask % 4294967296 }
    else s
  if e.getGovernorState % 256 ≠ s1.blackboxLastGovState then
    blackboxLogEvent FLIGHT_LOG_EVENT_GOVSTATE { govState_govState := e.getGovernorState % 256 }
      (s1.setLastGovState (e.getGovernorState % 256))
  else s1

/-! ## Loading the snapshot -/

/-- The function `loadMainState` (firmware build): fills `*blackboxHistory[0]`; members it does
not assign keep what the ring slot held. -/
def loadMainState (b : Build) (e : Env) (s : State) : State :=
  let old := s.history 0
  let src := e.source
  let blackboxCurrent : blackboxMainState_t :=
    { time := e.currentTimeUs % 4294967296
      axisPID_P := fun i => if i < XYZ_AXIS_COUNT then src.axisPID_P i else old.axisPID_P i
      axisPID_I := fun i => if i < XYZ_AXIS_COUNT then src.axisPID_I i else old.axisPID_I i
      axisPID_D := fun i => if i < XYZ_AXIS_COUNT then src.axisPID_D i else old.axisPID_D i
      axisPID_F := fun i => if i < XYZ_AXIS_COUNT then src.axisPID_F i else old.axisPID_F i
      gyroADC := fun i => if i < XYZ_AXIS_COUNT then src.gyroADC i else old.gyroADC i
      accADC := fun i =>
        if b.USE_ACC && decide (i < XYZ_AXIS_COUNT) then src.accADC i else old.accADC i
      magADC := fun i =>
        if b.USE_MAG && decide (i < XYZ_AXIS_COUNT) then src.magADC i else old.magADC i
      rcCommand := fun i => if i < 5 then src.rcCommand i else old.rcCommand i
      setpoint := fun i =>
        if i < XYZ_AXIS_COUNT ∨ i = 3 then src.setpoint i else old.setpoint i
      motor := fun i => if i < e.getMotorCount then src.motor i else old.motor i
      vbatLatest := e.getBatteryVoltageLatest % 65536
      amperageLatest := src.amperageLatest
      BaroAlt := if b.USE_BARO then src.BaroAlt else old.BaroAlt
      surfaceRaw := if b.USE_RANGEFINDER then src.surfaceRaw else old.surfaceRaw
      rssi := src.rssi
      servo := fun i => if b.USE_SERVOS && decide (i < 4) then src.servo i else old.servo i
      headspeed := src.headspeed
      debug := fun i => if i < DEBUG16_VALUE_COUNT then src.debug i else old.debug i
      debug32 := fun i =>
        if b.USE_DEBUG32 && decide (i < DEBUG32_VALUE_COUNT) then src.debug32 i
        else old.debug32 i }
  { s with blackboxHistoryRing := fun j =>
      if j = s.blackboxHistory 0 then blackboxCurrent else s.blackboxHistoryRing j }

/-! ## Iteration timers -/

def blackboxResetIterationTimers (s : State) : State :=
  { s with
    blackboxIteration := 0
    blackboxLoopIndex := 0
    blackboxIFrameIndex := 0
    blackboxPFrameIndex := 0
    blackboxSlowFrameIterationTimer := 0 }

def blackboxShouldLogPFrame (s : State) : Bool :=
  s.blackboxPFrameIndex == 0 && s.blackboxConfig.p_ratio != 0

def blackboxShouldLogIFrame (s : State) : Bool :=
  s.blackboxLoopIndex == 0

/-- The function `blackboxShouldLogGpsHomeFrame` (under `USE_GPS`). -/
def blackboxShouldLogGpsHomeFrame (e : Env) (s : State) : Bool :=
  decide (e.GPS_home 0 ≠ s.gpsHistory.GPS_home 0) || decide (e.GPS_home 1 ≠ s.gpsHistory.GPS_home 1)
    || (decide ((s.blackboxPFrameIndex : Int) = Int.tdiv s.blackboxIInterval 2)
        && decide (s.blackboxIFrameIndex % 128 = 0))

/-- The function `blackboxAdvanceIterationTimers`; the three indices are `uint16_t`, the two
intervals `int16_t`, and the comparisons are made in `int`. -/
def blackboxAdvanceIterationTimers (s : State) : State :=
  let s1 := { s with
    blackboxSlowFrameIterationTimer := wrapInt32 (s.blackboxSlowFrameIterationTimer + 1)
    blackboxIteration := (s.blackboxIteration + 1) % 4294967296 }
  let loopIndex : Nat := (s1.blackboxLoopIndex + 1) % 65536
  if (loopIndex : Int) ≥ s1.blackboxIInterval then
    { s1 with
      blackboxLoopIndex := 0
      blackboxIFrameIndex := (s1.blackboxIFrameIndex + 1) % 65536
      blackboxPFrameIndex := 0 }
  else
    let pFrameIndex : Nat := (s1.blackboxPFrameIndex + 1) % 65536
    if (pFrameIndex : Int) ≥ s1.blackboxPInterval then
      { s1 with blackboxLoopIndex := loopIndex, blackboxPFrameIndex := 0 }
    else
      { s1 with blackboxLoopIndex := loopIndex, blackboxPFrameIndex := pFrameIndex }

/-- The GPS part of `blackboxLogIteration` (under `USE_GPS`). -/
def blackboxLogIteration.gps (e : Env) (s : State) : State :=
  if e.featureGPS then
    if blackboxShouldLogGpsHomeFrame e s then
      writeGPSFrame e (writeGPSHomeFrame e s)
    else if e.gpsSol.numSat ≠ s.gpsHistory.GPS_numSat
        ∨ e.gpsSol.lat ≠ s.gpsHistory.GPS_coord 0
        ∨ e.gpsSol.lon ≠ s.gpsHistory.GPS_coord 1 then
      writeGPSFrame e s
    else s
  else s

/-- The function `blackboxLogIteration`. -/
def blackboxLogIteration (b : Build) (e : Env) (s : State) : State :=
  let s' :=
    if blackboxShouldLogIFrame s then
      let s1 := if blackboxIsOnlyLoggingIntraframes s then (writeSlowFrameIfNeeded e s).1 else s
      writeIntraframe b e (loadMainState b e s1)
    else
      let s1 := blackboxCheckAndLogFlightMode e (blackboxCheckAndLogArmingBeep e s)
      let s2 :=
        if blackboxShouldLogPFrame s1 then
          writeInterframe b e (loadMainState b e (writeSlowFrameIfNeeded e s1).1)
        else s1
      if b.USE_GPS then blackboxLogIteration.gps e s2 else s2
  s'.pushDeviceOp DeviceOp.deviceFlush

/-! ## Header emitter -/

def blackboxHeader : String :=
  "H Product:Blackbox flight data recorder by Nicholas Sherlock\nH Data version:2\n"

def blackboxFieldHeaderNames : List String :=
  ["name", "signed", "predictor", "encoding", "predictor", "encoding"]

/-- The struct `blackboxFieldDefinition_t`, the common layout `sendFieldDefinition` reads every
table through: the name, the index, and the bytes that follow them. -/
structure blackboxFieldDefinition_t where
  name : String
  fieldNameIndex : Int
  arr : List Nat
  deriving DecidableEq, Repr, Inhabited

def BLACKBOX_DELTA_FIELD_HEADER_COUNT : Nat := blackboxFieldHeaderNames.length
def BLACKBOX_SIMPLE_FIELD_HEADER_COUNT : Nat := BLACKBOX_DELTA_FIELD_HEADER_COUNT - 2
def BLACKBOX_CONDITIONAL_FIELD_HEADER_COUNT : Nat := BLACKBOX_DELTA_FIELD_HEADER_COUNT - 2

/-- An entry of `blackboxMainFields` seen as a `blackboxFieldDefinition_t`. -/
def blackboxDeltaFieldDefinition_t.generic (d : blackboxDeltaFieldDefinition_t) :
    blackboxFieldDefinition_t :=
  ⟨d.name, d.fieldNameIndex,
    [d.isSigned, d.Ipredict.toNat, d.Iencode.toNat, d.Ppredict.toNat, d.Pencode.toNat]⟩

/-- An entry of `blackboxGpsGFields` seen as a `blackboxFieldDefinition_t`. -/
def blackboxConditionalFieldDefinition_t.generic (d : blackboxConditionalFieldDefinition_t) :
    blackboxFieldDefinition_t :=
  ⟨d.name, d.fieldNameIndex, [d.isSigned, d.predict.toNat, d.encode.toNat, d.condition]⟩

/-- An entry of a simple table seen as a `blackboxFieldDefinition_t`. -/
def blackboxSimpleFieldDefinition_t.generic (d : blackboxSimpleFieldDefinition_t) :
    blackboxFieldDefinition_t :=
  ⟨d.name, d.fieldNameIndex, [d.isSigned, d.predict.toNat, d.encode.toNat]⟩

/-- A call of `blackboxDeviceReserveBufferSpace(bytes)`, with whether it succeeded. -/
def blackboxDeviceReserveBufferSpace (e : Env) (bytes : Nat) (s : State) : State × Bool :=
  ({ s with reserveCalls := s.reserveCalls + 1 }, e.deviceReserve s.reserveCalls bytes)

/-- A write of the header section. -/
def State.writeHeader (s : State) (w : Write) : State :=
  { s with log := s.log ++ [LogItem.header w] }

/-- Assignment to `blackboxHeaderBudget`. -/
def State.setHeaderBudget (s : State) (v : Int) : State :=
  { s with blackboxHeaderBudget := v }

/-- Assignment to the union `xmitState.u`, as its 32 bits. -/
def State.setU (s : State) (v : Nat) : State :=
  { s with u := v }

/-- Assignment to `xmitState.headerIndex`. -/
def State.setHeaderIndex (s : State) (v : Nat) : State :=
  { s with headerIndex := v }

/-- Assignment to the static `needComma`. -/
def State.setNeedComma (s : State) (v : Bool) : State :=
  { s with needComma := v }

/-- Assignment to the static `cacheFlushNextState`. -/
def State.setCacheFlushNextState (s : State) (v : BlackboxState) : State :=
  { s with cacheFlushNextState := v }

/-- The body of the `for` loop of `sendFieldDefinition` for an included field, once its
reservation has succeeded: the comma, the name or the number, and `fieldIndex++`. -/
def sendFieldDefinition.field (fd : blackboxFieldDefinition_t) (bytesToWrite : Nat)
    (s : State) : State :=
  let s2 := s.setHeaderBudget (s.blackboxHeaderBudget - bytesToWrite)
  let s3 :=
    if s2.needComma then s2.writeHeader (Write.byte ','.toNat) else s2.setNeedComma true
  let s4 :=
    if s3.headerIndex = 0 then
      if fd.fieldNameIndex ≠ -1 then
        (s3.writeHeader (Write.str fd.name)).writeHeader
          (Write.str ("[" ++ toString fd.fieldNameIndex ++ "]"))
      else s3.writeHeader (Write.str fd.name)
    else s3.writeHeader (Write.str (toString (fd.arr.getD (s3.headerIndex - 1) 0)))
  s4.setU ((s4.u + 1) % 4294967296)

/-- The `for` loop of `sendFieldDefinition`; the flag tells that the function returned `true`
from inside the loop because a reservation failed. -/
def sendFieldDefinition.loop (e : Env) (fieldDefinitions : List blackboxFieldDefinition_t)
    (conditions : Option (List Nat)) : Nat → State → State × Bool
  | 0, s => (s, false)
  | fuel + 1, s =>
    if s.fieldIndex < (fieldDefinitions.length : Int) then
      let fd := fieldDefinitions.getD s.fieldIndex.toNat default
      let included : Bool :=
        match conditions with
        | none => true
        | some cs => testBlackboxCondition s (cs.getD s.fieldIndex.toNat 0)
      if included then
        let bytesToWrite : Nat := 1 + (if s.headerIndex = 0 then fd.name.length + 2 + 2 else 2)
        let r := blackboxDeviceReserveBufferSpace e bytesToWrite s
        if r.2 = false then (r.1, true)
        else
          sendFieldDefinition.loop e fieldDefinitions conditions fuel
            (sendFieldDefinition.field fd bytesToWrite r.1)
      else
        sendFieldDefinition.loop e fieldDefinitions conditions fuel
          (s.setU ((s.u + 1) % 4294967296))
    else (s, false)

/-- The first part of `sendFieldDefinition`: on the first call for a line, the name of the header
and a colon. The result is `some r` when the function returns `r` from this part. -/
def sendFieldDefinition.start (e : Env) (mainFrameChar deltaFrameChar : Char) (headerCount : Nat)
    (s : State) : State × Option Bool :=
  if s.fieldIndex = -1 then
    if s.headerIndex ≥ headerCount then (s, some false)
    else
      let headerName := blackboxFieldHeaderNames.getD s.headerIndex ""
      let charsToBeWritten := "H Field x :".length + headerName.length
      let r := blackboxDeviceReserveBufferSpace e charsToBeWritten s
      if r.2 = false then (r.1, some true)
      else
        let c := if s.headerIndex ≥ BLACKBOX_SIMPLE_FIELD_HEADER_COUNT then deltaFrameChar
          else mainFrameChar
        let line := "H Field " ++ String.singleton c ++ " " ++ headerName ++ ":"
        let s1 := r.1.writeHeader (Write.str line)
        (((s1.setHeaderBudget (s1.blackboxHeaderBudget - line.length)).setU
            ((s1.u + 1) % 4294967296)).setNeedComma false, none)
  else (s, none)

/-- The last part of `sendFieldDefinition`: the end of the line, if the loop completed it. -/
def sendFieldDefinition.finish (e : Env) (fieldCount : Int) (s : State) : State :=
  if s.fieldIndex = fieldCount then
    let r := blackboxDeviceReserveBufferSpace e 1 s
    if r.2 then
      let s4 := r.1.writeHeader (Write.byte '\n'.toNat)
      ((s4.setHeaderBudget (s4.blackboxHeaderBudget - 1)).setHeaderIndex
        ((s4.headerIndex + 1) % 4294967296)).setU 4294967295
    else r.1
  else s

/-- The function `sendFieldDefinition`; `deltaFrameChar` is the NUL character for a family
without delta frames. Returns whether header is left to transmit. -/
def sendFieldDefinition (e : Env) (mainFrameChar deltaFrameChar : Char)
    (fieldDefinitions : List blackboxFieldDefinition_t) (conditions : Option (List Nat))
    (s : State) : State × Bool :=
  let headerCount :=
    if deltaFrameChar ≠ Char.ofNat 0 then BLACKBOX_DELTA_FIELD_HEADER_COUNT
    else BLACKBOX_SIMPLE_FIELD_HEADER_COUNT
  let fieldCount : Int := fieldDefinitions.length
  let first := sendFieldDefinition.start e mainFrameChar deltaFrameChar headerCount s
  match first.2 with
  | some result => (first.1, result)
  | none =>
    let l := sendFieldDefinition.loop e fieldDefinitions conditions
      (fieldCount - first.1.fieldIndex).toNat first.1
    if l.2 then (l.1, true)
    else
      let s3 := sendFieldDefinition.finish e fieldCount l.1
      (s3, decide (s3.headerIndex < headerCount))

/-- A header line printed by `blackboxPrintfHeaderLine`. -/
def blackboxPrintfHeaderLine (text : String) (s : State) : State :=
  (s.writeHeader (Write.str text)).setHeaderBudget (s.blackboxHeaderBudget - text.length)

/-- The function `blackboxWriteSysinfo` (firmware build). The plain lines are taken, already
formatted, from `Env.sysinfoLine`; the two custom cases are written out. Returns whether the
transmission is complete. -/
def blackboxWriteSysinfo (b : Build) (e : Env) (s : State) : State × Bool :=
  let r := blackboxDeviceReserveBufferSpace e 64 s
  if r.2 = false then (r.1, false)
  else
    let s1 : State := r.1
    match e.sysinfoLine s1.headerIndex with
    | none => (s1, true)
    | some text =>
      let s2 : State :=
        if s1.headerIndex = b.sysinfoVbatScaleCase then
          if testBlackboxCondition s1 FLIGHT_LOG_FIELD_CONDITION_VBAT then
            blackboxPrintfHeaderLine text s1
          else s1.setHeaderIndex ((s1.headerIndex + 2) % 4294967296)
        else if s1.headerIndex = b.sysinfoCurrentSensorCase then
          if e.currentMeterSourceADC then blackboxPrintfHeaderLine text s1 else s1
        else blackboxPrintfHeaderLine text s1
      (s2.setHeaderIndex ((s2.headerIndex + 1) % 4294967296), false)

/-! ## Logging state machine -/

/-- The function `blackboxMayEditConfig`. -/
def blackboxMayEditConfig (s : State) : Bool :=
  s.blackboxState = .DISABLED ∨ s.blackboxState = .STOPPED

/-- The function `blackboxSetState`. -/
def blackboxSetState (e : Env) (newState : BlackboxState) (s : State) : State :=
  let s1 : State :=
    match newState with
    | .PREPARE_LOG_FILE => { s with blackboxLoggedAnyFrames := false }
    | .SEND_HEADER =>
      { s with blackboxHeaderBudget := 0, headerIndex := 0, u := e.millis % 4294967296 }
    | .SEND_MAIN_FIELD_HEADER | .SEND_GPS_G_HEADER | .SEND_GPS_H_HEADER | .SEND_SLOW_HEADER =>
      { s with headerIndex := 0, u := 4294967295 }
    | .SEND_SYSINFO => { s with headerIndex := 0 }
    | .RUNNING => { s with blackboxSlowFrameIterationTimer := s.blackboxSInterval }
    | .SHUTTING_DOWN => { s with u := e.millis % 4294967296 }
    | _ => s
  { s1 with blackboxState := newState }

/-- The function `blackboxValidateConfig`. -/
def blackboxValidateConfig (b : Build) (s : State) : State :=
  if (b.USE_FLASHFS ∧ s.blackboxConfig.device = BLACKBOX_DEVICE_FLASH)
      ∨ (b.USE_SDCARD ∧ s.blackboxConfig.device = BLACKBOX_DEVICE_SDCARD)
      ∨ s.blackboxConfig.device = BLACKBOX_DEVICE_SERIAL then s
  else { s with blackboxConfig := { s.blackboxConfig with device := BLACKBOX_DEVICE_SERIAL } }

/-- The function `blackboxStart`. -/
def blackboxStart (b : Build) (e : Env) (s : State) : State :=
  let s1 := blackboxValidateConfig b s
  if e.deviceOpen = false then blackboxSetState e .DISABLED s1
  else
    let s2 : State := { s1 with
      gpsHistory := { GPS_home := fun _ => 0, GPS_coord := fun _ => 0, GPS_numSat := 0 }
      blackboxHistory := fun g => if g = 0 then 0 else if g = 1 then 1 else if g = 2 then 2
        else s1.blackboxHistory g
      vbatReference := e.getBatteryVoltageLatest % 65536 }
    let s3 := blackboxBuildConditionCache b e s2
    let s4 : State := { s3 with
      blackboxModeActivationConditionPresent := e.modeActivationConditionPresent }
    let s5 := blackboxResetIterationTimers s4
    let s6 : State := { s5 with
      blackboxLastArmingBeep := e.getArmingBeepTimeMicros
      blackboxLastFlightModeFlags := e.rcModeActivationMask % 4294967296
      blackboxLastGovState := e.getGovernorState % 256 }
    blackboxSetState e .PREPARE_LOG_FILE s6

/-- The function `blackboxFinish`. -/
def blackboxFinish (e : Env) (s : State) : State :=
  match s.blackboxState with
  | .DISABLED | .STOPPED | .SHUTTING_DOWN => s
  | .RUNNING | .PAUSED =>
    blackboxSetState e .SHUTTING_DOWN (blackboxLogEvent FLIGHT_LOG_EVENT_LOG_END {} s)
  | _ => blackboxSetState e .SHUTTING_DOWN s

/-- The function `startInTestMode`. -/
def startInTestMode (b : Build) (e : Env) (s : State) : State :=
  if s.startedLoggingInTestMode = false then
    if s.blackboxConfig.device = BLACKBOX_DEVICE_SERIAL ∧ e.sharedBlackboxAndMspPort then s
    else (blackboxStart b e s).setStartedLoggingInTestMode true
  else s

/-- The function `stopInTestMode`. -/
def stopInTestMode (e : Env) (s : State) : State :=
  if s.startedLoggingInTestMode then
    (blackboxFinish e s).setStartedLoggingInTestMode false
  else s

/-- The function `inMotorTestMode`, with its static `resetTime`. -/
def inMotorTestMode (e : Env) (s : State) : State × Bool :=
  if e.armed = false ∧ e.areMotorsRunning then
    ({ s with resetTime := (e.millis + 5000) % 4294967296 }, true)
  else (s, decide (e.millis < s.resetTime))

/-- Modelled from the spec: `BLACKBOX_TARGET_HEADER_BUDGET_PER_ITERATION` of `blackbox_io.h` (not
among the sources), the per-call byte budget of the header emitter. -/
def BLACKBOX_TARGET_HEADER_BUDGET_PER_ITERATION : Nat := 64

def BLACKBOX_SHUTDOWN_TIMEOUT_MILLIS : Nat := 200

/-- The loop of the SEND_HEADER case: up to the per-call budget of characters of
`blackboxHeader`, one `blackboxWrite` each. -/
def blackboxUpdate.sendHeader (s : State) : State :=
  let chars := (blackboxHeader.toList.drop s.headerIndex).take
    BLACKBOX_TARGET_HEADER_BUDGET_PER_ITERATION
  { s with
    log := s.log ++ chars.map (fun c => LogItem.header (Write.byte c.toNat))
    headerIndex := s.headerIndex + chars.length
    blackboxHeaderBudget := s.blackboxHeaderBudget - chars.length }

/-- The `switch (blackboxState)` of `blackboxUpdate`. -/
def blackboxUpdate.switch (b : Build) (e : Env) (s : State) : State :=
  match s.blackboxState with
  | .STOPPED =>
    let s1 : State :=
      if e.armed then
        blackboxStart b e (s.pushDeviceOp DeviceOp.blackboxOpen)
      else s
    if b.USE_FLASHFS && e.rcModeBlackboxErase then blackboxSetState e .START_ERASE s1 else s1
  | .PREPARE_LOG_FILE =>
    if e.deviceBeginLog then blackboxSetState e .SEND_HEADER s else s
  | .SEND_HEADER =>
    let s1 : State := s.setHeaderBudget (e.replenishHeaderBudget s.blackboxHeaderBudget)
    if e.millis % 4294967296 > (s1.startTime + 100) % 4294967296 then
      let r := blackboxDeviceReserveBufferSpace e BLACKBOX_TARGET_HEADER_BUDGET_PER_ITERATION s1
      if r.2 then
        let s2 := blackboxUpdate.sendHeader r.1
        if s2.headerIndex ≥ blackboxHeader.length then
          blackboxSetState e .SEND_MAIN_FIELD_HEADER s2
        else s2
      else r.1
    else s1
  | .SEND_MAIN_FIELD_HEADER =>
    let s1 : State := s.setHeaderBudget (e.replenishHeaderBudget s.blackboxHeaderBudget)
    let r := sendFieldDefinition e 'I' 'P' ((blackboxMainFields b).map (·.generic))
      (some ((blackboxMainFields b).map (·.condition))) s1
    if r.2 = false then
      if b.USE_GPS && e.featureGPS then blackboxSetState e .SEND_GPS_H_HEADER r.1
      else blackboxSetState e .SEND_SLOW_HEADER r.1
    else r.1
  | .SEND_GPS_H_HEADER =>
    if b.USE_GPS then
      let s1 : State := s.setHeaderBudget (e.replenishHeaderBudget s.blackboxHeaderBudget)
      let r := sendFieldDefinition e 'H' (Char.ofNat 0) (blackboxGpsHFields.map (·.generic))
        none s1
      if r.2 = false then blackboxSetState e .SEND_GPS_G_HEADER r.1 else r.1
    else s
  | .SEND_GPS_G_HEADER =>
    if b.USE_GPS then
      let s1 : State := s.setHeaderBudget (e.replenishHeaderBudget s.blackboxHeaderBudget)
      let r := sendFieldDefinition e 'G' (Char.ofNat 0) (blackboxGpsGFields.map (·.generic))
        (some (blackboxGpsGFields.map (·.condition))) s1
      if r.2 = false then blackboxSetState e .SEND_SLOW_HEADER r.1 else r.1
    else s
  | .SEND_SLOW_HEADER =>
    let s1 : State := s.setHeaderBudget (e.replenishHeaderBudget s.blackboxHeaderBudget)
    let r := sendFieldDefinition e 'S' (Char.ofNat 0) (blackboxSlowFields.map (·.generic)) none s1
    if r.2 = false then
      blackboxSetState e .CACHE_FLUSH (r.1.setCacheFlushNextState .SEND_SYSINFO)
    else r.1
  | .SEND_SYSINFO =>
    let s1 : State := s.setHeaderBudget (e.replenishHeaderBudget s.blackboxHeaderBudget)
    let r := blackboxWriteSysinfo b e s1
    if r.2 then
      blackboxSetState e .CACHE_FLUSH (r.1.setCacheFlushNextState .RUNNING)
    else r.1
  | .CACHE_FLUSH =>
    if e.deviceFlushForceComplete then blackboxSetState e s.cacheFlushNextState s else s
  | .PAUSED =>
    let s1 : State :=
      if e.rcModeBlackbox && blackboxShouldLogIFrame s then
        blackboxLogIteration b e (blackboxSetState e .RUNNING
          (blackboxLogEvent FLIGHT_LOG_EVENT_LOGGING_RESUME
            { loggingResume_logIteration := s.blackboxIteration
              loggingResume_currentTime := e.currentTimeUs % 4294967296 } s))
      else s
    blackboxAdvanceIterationTimers s1
  | .RUNNING =>
    let s1 : State :=
      if s.blackboxModeActivationConditionPresent && !e.rcModeBlackbox
          && !s.startedLoggingInTestMode then
        blackboxSetState e .PAUSED s
      else blackboxLogIteration b e s
    blackboxAdvanceIterationTimers s1
  | .SHUTTING_DOWN =>
    if e.deviceEndLog s.blackboxLoggedAnyFrames
        && (decide (e.millis % 4294967296 >
              (s.startTime + BLACKBOX_SHUTDOWN_TIMEOUT_MILLIS) % 4294967296)
            || e.deviceFlushForce) then
      blackboxSetState e .STOPPED (s.pushDeviceOp DeviceOp.deviceClose)
    else s
  | .START_ERASE =>
    if b.USE_FLASHFS then
      (blackboxSetState e .ERASING (s.pushDeviceOp DeviceOp.eraseAll)).pushDeviceOp
        DeviceOp.beeper
    else s
  | .ERASING =>
    if b.USE_FLASHFS then
      if e.erased then
        (blackboxSetState e .ERASED s).pushDeviceOp DeviceOp.beeper
      else s
    else s
  | .ERASED =>
    if b.USE_FLASHFS then
      if e.rcModeBlackboxErase = false then blackboxSetState e .STOPPED s else s
    else s
  | .DISABLED => s

/-- The second half of `blackboxUpdate`: the full-device check and the logging modes. -/
def blackboxUpdate.finish (b : Build) (e : Env) (s : State) : State :=
  if e.deviceFull then
    if b.USE_FLASHFS = false ∨ (s.blackboxState ≠ .ERASING ∧ s.blackboxState ≠ .START_ERASE
        ∧ s.blackboxState ≠ .ERASED) then
      let s1 := blackboxSetState e .STOPPED s
      if s1.startedLoggingInTestMode then s1.setStartedLoggingInTestMode false else s1
    else s
  else if s.blackboxConfig.mode = BLACKBOX_MODE_MOTOR_TEST then
    let r := inMotorTestMode e s
    if r.2 then
      if r.1.blackboxState = .STOPPED then startInTestMode b e r.1 else r.1
    else
      if r.1.blackboxState ≠ .STOPPED then stopInTestMode e r.1 else r.1
  else if s.blackboxConfig.mode = BLACKBOX_MODE_ALWAYS_ON then
    if s.blackboxState = .STOPPED then startInTestMode b e s else s
  else s

/-- The function `blackboxUpdate`, called once per flight loop iteration. -/
def blackboxUpdate (b : Build) (e : Env) (s : State) : State :=
  blackboxUpdate.finish b e (blackboxUpdate.switch b e s)

def blackboxCalculatePDenom (s : State) (rateNum rateDenom : Int) : Int :=
  Int.tdiv (wrapInt32 (s.blackboxIInterval * rateNum)) rateDenom

def blackboxGetRateDenom (s : State) : Nat :=
  toU32 s.blackboxPInterval % 256

/-- The function `blackboxInit`. -/
def blackboxInit (e : Env) (s : State) : State :=
  let s1 := blackboxResetIterationTimers s
  let s2 : State := { s1 with
    blackboxIInterval := toInt16 ((32 * 1000 / e.pidGetLooptime) % 65536) }
  let s3 : State :=
    if s2.blackboxConfig.p_ratio = 0 then { s2 with blackboxPInterval := 0 }
    else if (s2.blackboxConfig.p_ratio : Int) > s2.blackboxIInterval
        ∧ s2.blackboxIInterval ≥ 32 then
      { s2 with blackboxPInterval := 1 }
    else
      { s2 with blackboxPInterval :=
          toInt16 (toU16 (Int.tdiv s2.blackboxIInterval s2.blackboxConfig.p_ratio)) }
  let s4 :=
    if s3.blackboxConfig.device ≠ 0 then blackboxSetState e .STOPPED s3
    else blackboxSetState e .DISABLED s3
  { s4 with blackboxSInterval := wrapInt32 (s4.blackboxIInterval * 256) }

/-! ## Notions used to state the properties -/

/-- The values one encoder call carries. -/
def Write.vals : Write → List Val
  | .byte _ => []
  | .str _ => []
  | .unsignedVB v => [v]
  | .signedVB v => [v]
  | .tag2_3S32 vs => vs
  | .tag8_4S16 vs => vs
  | .tag8_8SVB vs => vs
  | .float v => [v]

/-- The values one encoder call carries, each with the wire encoding the call gives it. -/
def Write.fields : Write → List (Src × FlightLogFieldEncoding)
  | .byte _ => []
  | .str _ => []
  | .unsignedVB v => [(v.src, .UNSIGNED_VB)]
  | .signedVB v => [(v.src, .SIGNED_VB)]
  | .tag2_3S32 vs => vs.map (fun v => (v.src, .TAG2_3S32))
  | .tag8_4S16 vs => vs.map (fun v => (v.src, .TAG8_4S16))
  | .tag8_8SVB vs => vs.map (fun v => (v.src, .TAG8_8SVB))
  | .float _ => []

/-- The encoder that puts an encoding on the wire: the masked 14-bit value is written with the
unsigned variable-byte encoder, every other encoding with its own. -/
def FlightLogFieldEncoding.wire : FlightLogFieldEncoding → FlightLogFieldEncoding
  | .NEG_14BIT => .UNSIGNED_VB
  | enc => enc

/-- The catalog name and index (`-1` for none) under which a main-frame value is declared:
`loadMainState` fills `axisPID_P` for the field `axisP`, `accADC` for `accSmooth`, and the
iteration counter is the field `loopIteration`. -/
def Src.fieldName : Src → String × Int
  | .blackboxIteration => ("loopIteration", -1)
  | .time => ("time", -1)
  | .axisPID_P i => ("axisP", i)
  | .axisPID_I i => ("axisI", i)
  | .axisPID_D i => ("axisD", i)
  | .axisPID_F i => ("axisF", i)
  | .rcCommand i => ("rcCommand", i)
  | .setpoint i => ("setpoint", i)
  | .vbatLatest => ("vbatLatest", -1)
  | .amperageLatest => ("amperageLatest", -1)
  | .magADC i => ("magADC", i)
  | .BaroAlt => ("BaroAlt", -1)
  | .surfaceRaw => ("surfaceRaw", -1)
  | .rssi => ("rssi", -1)
  | .gyroADC i => ("gyroADC", i)
  | .accADC i => ("accSmooth", i)
  | .motor i => ("motor", i)
  | .servo i => ("servo", i)
  | .headspeed => ("headspeed", -1)
  | .debug i => ("debug", i)
  | .debug32 i => ("debug32", i)
  | .flightModeFlags => ("flightModeFlags", -1)
  | .stateFlags => ("stateFlags", -1)
  | .failsafePhase => ("failsafePhase", -1)
  | .rxSignalReceived => ("rxSignalReceived", -1)
  | .rxFlightChannelsValid => ("rxFlightChannelsValid", -1)
  | .GPS_home i => ("GPS_home", i)
  | .gpsTime => ("time", -1)
  | .GPS_numSat => ("GPS_numSat", -1)
  | .GPS_coord i => ("GPS_coord", i)
  | .GPS_altitude => ("GPS_altitude", -1)
  | .GPS_speed => ("GPS_speed", -1)
  | .GPS_ground_course => ("GPS_ground_course", -1)
  | .event i => ("event", i)

/-- The fields a frame payload carries, in order: declared name, index and wire encoding. -/
def payloadFields (payload : List Write) : List ((String × Int) × FlightLogFieldEncoding) :=
  (payload.map Write.fields).flatten.map (fun f => (f.1.fieldName, f.2))

/-- The fields the `H Field I` header lines declare for a condition cache: the entries of the
catalog whose condition bit is set, with their intra-frame encoding. -/
def declaredIFields (b : Build) (s : State) :
    List ((String × Int) × FlightLogFieldEncoding) :=
  ((blackboxMainFields b).filter (fun d => testBlackboxCondition s d.condition)).map
    (fun d => ((d.name, d.fieldNameIndex), d.Iencode.wire))

/-- The declared fields that occupy bytes in a P frame: those whose inter-frame encoding is not
`NULL`. -/
def declaredPFields (b : Build) (s : State) :
    List ((String × Int) × FlightLogFieldEncoding) :=
  (((blackboxMainFields b).filter (fun d => testBlackboxCondition s d.condition)).filter
    (fun d => d.Pencode ≠ .NULL)).map
    (fun d => ((d.name, d.fieldNameIndex), d.Pencode.wire))

/-- The part of the state that no frame writer assigns: the configuration, the condition cache,
the two intervals, the loop and P-frame indices and the state of the state machine. -/
def State.fixed (s : State) :
    blackboxConfig_t × Nat × Int × Int × Nat × Nat × BlackboxState :=
  (s.blackboxConfig, s.blackboxConditionCache, s.blackboxIInterval, s.blackboxPInterval,
    s.blackboxLoopIndex, s.blackboxPFrameIndex, s.blackboxState)

/-- Number of frames with the given marker in the log. -/
def State.frames (s : State) (c : Char) : Nat :=
  s.log.countP (fun x => x.marker? == some c)

/-- One tick of the RUNNING state without a pause: log the iteration, then advance the timers. -/
def blackboxRunIteration (b : Build) (e : Env) (s : State) : State :=
  blackboxAdvanceIterationTimers (blackboxLogIteration b e s)

/-- The state after n unpaused RUNNING ticks, the k-th of them in environment `envs k`. -/
def blackboxRun (b : Build) (envs : Nat → Env) : Nat → State → State
  | 0, s => s
  | n + 1, s => blackboxRunIteration b (envs n) (blackboxRun b envs n s)

/-- Number of main frames (I and P) in the log. -/
def State.mainFrames (s : State) : Nat := s.frames 'I' + s.frames 'P'

/-- What a stretch of header emission leaves as it was: the configuration, the condition cache,
the state of the state machine and the number of frames of every kind. -/
def State.headerOnly (s t : State) : Prop :=
  t.blackboxConfig = s.blackboxConfig ∧ t.blackboxConditionCache = s.blackboxConditionCache
    ∧ t.blackboxState = s.blackboxState ∧ ∀ c, t.frames c = s.frames c

/-- What every operation other than `blackboxStart` leaves as it was: the configured `p_ratio`,
the condition cache and, when `p_ratio` is zero, the number of P frames in the log. -/
def State.quiet (s t : State) : Prop :=
  t.blackboxConfig.p_ratio = s.blackboxConfig.p_ratio
    ∧ t.blackboxConditionCache = s.blackboxConditionCache
    ∧ (s.blackboxConfig.p_ratio = 0 → t.frames 'P' = s.frames 'P')

/-- The part of `State.quiet` that `blackboxStart` keeps too. -/
def State.keepsRatio (s t : State) : Prop :=
  t.blackboxConfig.p_ratio = s.blackboxConfig.p_ratio
    ∧ (s.blackboxConfig.p_ratio = 0 → t.frames 'P' = s.frames 'P')

/-- A call into the recorder from the rest of the firmware: a tick of `blackboxUpdate`, an event,
a request to finish, or a logged iteration. -/
inductive Op where
  | update (e : Env)
  | logEvent (event : Nat) (data : flightLogEventData_t)
  | finish (e : Env)
  | logIteration (e : Env)

/-- The effect of one call. -/
def Op.apply (b : Build) : Op → State → State
  | .update e, s => blackboxUpdate b e s
  | .logEvent event data, s => blackboxLogEvent event data s
  | .finish e, s => blackboxFinish e s
  | .logIteration e, s => blackboxLogIteration b e s

/-- The effect of a sequence of calls. -/
def runOps (b : Build) (ops : List Op) (s : State) : State :=
  ops.foldl (fun t op => op.apply b t) s

/-- The session that is under way goes on through the whole sequence of calls: no tick of
`blackboxUpdate` starts in STOPPED, and none brings the state machine to STOPPED in its
`switch`. -/
def sessionContinues (b : Build) : List Op → State → Bool
  | [], _ => true
  | op :: ops, s =>
    (match op with
      | .update e =>
        s.blackboxState != .STOPPED && (blackboxUpdate.switch b e s).blackboxState != .STOPPED
      | _ => true)
    && sessionContinues b ops (op.apply b s)

/-- Modelled from the spec: the decoder's reading of the masked 14-bit voltage value, its sign
extension from 14 bits (the log decoder is not part of this repository). -/
def signExtend14Bit (w : Nat) : Int :=
  if w &&& 0x2000 ≠ 0 then (w : Int) - 16384 else (w : Int)

/-- The member of a snapshot that a logged value is computed from, as an integer; 0 for a source
that is not a member of `blackboxMainState_t`. -/
def blackboxMainState_t.member (m : blackboxMainState_t) : Src → Int
  | .time => m.time
  | .axisPID_P i => m.axisPID_P i
  | .axisPID_I i => m.axisPID_I i
  | .axisPID_D i => m.axisPID_D i
  | .axisPID_F i => m.axisPID_F i
  | .rcCommand i => m.rcCommand i
  | .setpoint i => m.setpoint i
  | .vbatLatest => m.vbatLatest
  | .amperageLatest => m.amperageLatest
  | .magADC i => m.magADC i
  | .BaroAlt => m.BaroAlt
  | .surfaceRaw => m.surfaceRaw
  | .rssi => m.rssi
  | .gyroADC i => m.gyroADC i
  | .accADC i => m.accADC i
  | .motor i => m.motor i
  | .servo i => m.servo i
  | .headspeed => m.headspeed
  | .debug i => m.debug i
  | .debug32 i => m.debug32 i
  | _ => 0

/-- The members whose inter-frame value is a difference with the previous generation. -/
def Src.predictedFromPrevious : Src → Bool
  | .axisPID_P _ | .axisPID_I _ | .axisPID_D _ | .axisPID_F _ | .rcCommand _ | .setpoint _
  | .vbatLatest | .amperageLatest | .magADC _ | .BaroAlt | .surfaceRaw | .rssi | .motor _
  | .servo _ | .headspeed | .debug32 _ => true
  | _ => false

/-- The members declared `int32_t` in `blackboxMainState_t`. -/
def Src.isInt32Member : Src → Bool
  | .axisPID_P _ | .axisPID_I _ | .axisPID_D _ | .axisPID_F _ | .amperageLatest | .BaroAlt
  | .surfaceRaw | .debug32 _ => true
  | _ => false

/-- The members whose inter-frame value is a difference with the average of the two previous
generations: the `int16_t` arrays `gyroADC`, `accADC` and `debug`. -/
def Src.predictedFromAverage : Src → Bool
  | .gyroADC _ | .accADC _ | .debug _ => true
  | _ => false

/-- One main-frame write as `blackboxLogIteration` makes it: `loadMainState` fills generation 0,
then `writeIntraframe` or `writeInterframe` writes the frame and rotates the history. -/
def mainFrameWrite (b : Build) (intra : Bool) (e : Env) (s : State) : State :=
  if intra then writeIntraframe b e (loadMainState b e s)
  else writeInterframe b e (loadMainState b e s)

/-- Consecutive main-frame writes, each with its kind (intra or not) and its environment. -/
def mainFrameWrites (b : Build) (ws : List (Bool × Env)) (s : State) : State :=
  ws.foldl (fun t w => mainFrameWrite b w.1 w.2 t) s

/-- The items written to the log between a state and a later one. -/
def State.written (s t : State) : List LogItem := t.log.drop s.log.length

/-- What header emission assigns: the log, the transmit position, the comma flag, the header
budget and the count of reservations; every other variable is the same in the two states. -/
def State.emits (s t : State) : Prop :=
  t = { s with
    log := t.log, headerIndex := t.headerIndex, u := t.u, needComma := t.needComma
    blackboxHeaderBudget := t.blackboxHeaderBudget, reserveCalls := t.reserveCalls }

/-- What the frame writers and event loggers assign: the log, the history ring and its pointers,
the slow and GPS histories, the slow-frame timer, the flag that a frame was logged, the three
change trackers and the device calls; every other variable is the same in the two states. -/
def State.records (s t : State) : Prop :=
  t = { s with
    log := t.log, blackboxHistoryRing := t.blackboxHistoryRing
    blackboxHistory := t.blackboxHistory, slowHistory := t.slowHistory
    gpsHistory := t.gpsHistory
    blackboxSlowFrameIterationTimer := t.blackboxSlowFrameIterationTimer
    blackboxLoggedAnyFrames := t.blackboxLoggedAnyFrames
    blackboxLastArmingBeep := t.blackboxLastArmingBeep
    blackboxLastFlightModeFlags := t.blackboxLastFlightModeFlags
    blackboxLastGovState := t.blackboxLastGovState, deviceOps := t.deviceOps }

/-- The two latches of `blackboxUpdate`: the test-mode flag and the successor of CACHE_FLUSH. -/
def State.latches (s : State) : Bool × BlackboxState :=
  (s.startedLoggingInTestMode, s.cacheFlushNextState)

/-- The frame-cadence counters: the iteration count and the loop and P-frame indices. -/
def State.counters (s : State) : Nat × Nat × Nat :=
  (s.blackboxIteration, s.blackboxLoopIndex, s.blackboxPFrameIndex)

/-- The transition table of the `switch` of `blackboxUpdate`: the states one pass can leave the
machine in, by the state it starts in; `next` is the value of `cacheFlushNextState`. -/
def BlackboxState.successors (st next : BlackboxState) : List BlackboxState :=
  match st with
  | .DISABLED => [.DISABLED]
  | .STOPPED => [.STOPPED, .DISABLED, .PREPARE_LOG_FILE, .START_ERASE]
  | .PREPARE_LOG_FILE => [.PREPARE_LOG_FILE, .SEND_HEADER]
  | .SEND_HEADER => [.SEND_HEADER, .SEND_MAIN_FIELD_HEADER]
  | .SEND_MAIN_FIELD_HEADER => [.SEND_MAIN_FIELD_HEADER, .SEND_GPS_H_HEADER, .SEND_SLOW_HEADER]
  | .SEND_GPS_H_HEADER => [.SEND_GPS_H_HEADER, .SEND_GPS_G_HEADER]
  | .SEND_GPS_G_HEADER => [.SEND_GPS_G_HEADER, .SEND_SLOW_HEADER]
  | .SEND_SLOW_HEADER => [.SEND_SLOW_HEADER, .CACHE_FLUSH]
  | .SEND_SYSINFO => [.SEND_SYSINFO, .CACHE_FLUSH]
  | .CACHE_FLUSH => [.CACHE_FLUSH, next]
  | .PAUSED => [.PAUSED, .RUNNING]
  | .RUNNING => [.RUNNING, .PAUSED]
  | .SHUTTING_DOWN => [.SHUTTING_DOWN, .STOPPED]
  | .START_ERASE => [.START_ERASE, .ERASING]
  | .ERASING => [.ERASING, .ERASED]
  | .ERASED => [.ERASED, .STOPPED]

/-- What holds of the two latches in every state reached from a state outside PAUSED and
CACHE_FLUSH: in PAUSED the test-mode flag is clear, and in CACHE_FLUSH the state to follow is
SEND_SYSINFO or RUNNING. -/
def State.coherent (s : State) : Prop :=
  (s.blackboxState = .PAUSED → s.startedLoggingInTestMode = false)
    ∧ (s.blackboxState = .CACHE_FLUSH →
      s.cacheFlushNextState = .SEND_SYSINFO ∨ s.cacheFlushNextState = .RUNNING)

/-- The state of the recorder after the first n calls of an unending sequence of calls. -/
def runCalls (b : Build) (calls : Nat → Op) : Nat → State → State
  | 0, s => s
  | n + 1, s => (calls n).apply b (runCalls b calls n s)

/-- Modelled from the spec: the text that `blackboxPrintfHeaderLine(name, format, ...)` of
`blackbox_io.c` (not among the sources) emits for a formatted value, `H <name>:<value>` and a
newline. -/
def headerLineText (name value : String) : String := "H " ++ name ++ ":" ++ value ++ "\n"

/-- The value printed by a format of `%d` conversions separated by commas. -/
def formatDecimalList (vals : List Int) : String := ",".intercalate (vals.map toString)

/-- The header line of `blackboxWriteSysinfo` for `gyro_rpm_filter_bank_motor_index` (under
`USE_RPM_FILTER`): the sixteen entries of `rpmFilterConfig()->filter_bank_motor_index`. -/
def sysinfoRpmFilterBankMotorIndex (filter_bank_motor_index : Nat → Int) : String :=
  headerLineText "gyro_rpm_filter_bank_motor_index"
    (formatDecimalList ((List.range 16).map filter_bank_motor_index))

/-- The same environment with a device that grants every reservation. -/
def Env.withRoom (e : Env) : Env := { e with deviceReserve := fun _ _ => true }

/-- The number of header lines of a field family, as `sendFieldDefinition` computes it from
`deltaFrameChar`. -/
def sendFieldDefinition.headerCount (deltaFrameChar : Char) : Nat :=
  if deltaFrameChar ≠ Char.ofNat 0 then BLACKBOX_DELTA_FIELD_HEADER_COUNT
  else BLACKBOX_SIMPLE_FIELD_HEADER_COUNT

/-- Repeated calls of `sendFieldDefinition`, as the header states of `blackboxUpdate` make them:
at most n calls, none after a call that returned false. The flag is the value the last call
returned (true before any call). -/
def sendFieldDefinition.calls (e : Env) (mainFrameChar deltaFrameChar : Char)
    (fieldDefinitions : List blackboxFieldDefinition_t) (conditions : Option (List Nat)) :
    Nat → State → State × Bool
  | 0, s => (s, true)
  | n + 1, s =>
    let r := sendFieldDefinition e mainFrameChar deltaFrameChar fieldDefinitions conditions s
    if r.2 then
      sendFieldDefinition.calls e mainFrameChar deltaFrameChar fieldDefinitions conditions n r.1
    else r

/-- The position of the header emitter: what is in the log, the line and the field it stands
at, the comma flag, and the condition cache its fields are tested against. -/
def State.position (s : State) : List LogItem × Nat × Nat × Bool × Nat :=
  (s.log, s.headerIndex, s.u, s.needComma, s.blackboxConditionCache)

/-- One unit of header emission with room in the device: the name of the line, one field
(written, or left out by its condition), or the end of the line. -/
def sendFieldDefinition.unit (e : Env) (mainFrameChar deltaFrameChar : Char)
    (fieldDefinitions : List blackboxFieldDefinition_t) (conditions : Option (List Nat))
    (s : State) : State :=
  if s.fieldIndex = -1 then
    (sendFieldDefinition.start e.withRoom mainFrameChar deltaFrameChar
      (sendFieldDefinition.headerCount deltaFrameChar) s).1
  else if s.fieldIndex < (fieldDefinitions.length : Int) then
    (sendFieldDefinition.loop e.withRoom fieldDefinitions conditions 1 s).1
  else sendFieldDefinition.finish e.withRoom fieldDefinitions.length s

/-- The emitter has sent every line: it stands before a line past the last one. -/
def sendFieldDefinition.done (deltaFrameChar : Char) (s : State) : Prop :=
  s.fieldIndex = -1 ∧ sendFieldDefinition.headerCount deltaFrameChar ≤ s.headerIndex

/-- The positions the emitter passes through: before a line, or inside a line that is one of
the lines to send. -/
def sendFieldDefinition.valid (deltaFrameChar : Char)
    (fieldDefinitions : List blackboxFieldDefinition_t) (s : State) : Prop :=
  s.fieldIndex = -1
    ∨ (0 ≤ s.fieldIndex ∧ s.fieldIndex ≤ (fieldDefinitions.length : Int)
      ∧ s.headerIndex < sendFieldDefinition.headerCount deltaFrameChar)

/-- The number of units left to emit from a position. -/
def sendFieldDefinition.remaining (deltaFrameChar : Char)
    (fieldDefinitions : List blackboxFieldDefinition_t) (s : State) : Nat :=
  (sendFieldDefinition.headerCount deltaFrameChar - s.headerIndex)
      * (fieldDefinitions.length + 2) - (s.fieldIndex + 1).toNat

/-- The size of the reservation that a position waits for: for the name of the line, for a
field, or for the end of the line. -/
def sendFieldDefinition.pending (fieldDefinitions : List blackboxFieldDefinition_t)
    (s : State) : Nat :=
  if s.fieldIndex = -1 then
    "H Field x :".length + (blackboxFieldHeaderNames.getD s.headerIndex "").length
  else if s.fieldIndex < (fieldDefinitions.length : Int) then
    1 + (if s.headerIndex = 0 then
      (fieldDefinitions.getD s.fieldIndex.toNat default).name.length + 2 + 2 else 2)
  else 1

/-- Whether the loop of `sendFieldDefinition` includes the field it stands at: there is no
array of conditions, or the condition of the field holds. -/
def sendFieldDefinition.included (conditions : Option (List Nat)) (s : State) : Bool :=
  match conditions with
  | none => true
  | some cs => testBlackboxCondition s (cs.getD s.fieldIndex.toNat 0)

/-- The size of the reservation for the field the loop of `sendFieldDefinition` stands at. -/
def sendFieldDefinition.bytesToWrite (fieldDefinitions : List blackboxFieldDefinition_t)
    (s : State) : Nat :=
  1 + (if s.headerIndex = 0 then
    (fieldDefinitions.getD s.fieldIndex.toNat default).name.length + 2 + 2 else 2)

/-- The outcome of a call of `sendFieldDefinition` read as units: the call made k whole units
and returned, or made k whole units and stopped at a reservation that failed, leaving only the
count of reservations changed. -/
def sendFieldDefinition.outcome (e : Env) (mainFrameChar deltaFrameChar : Char)
    (fieldDefinitions : List blackboxFieldDefinition_t) (conditions : Option (List Nat))
    (s : State) (r : State × Bool) (k : Nat) : Prop :=
  (r.1 = (sendFieldDefinition.unit e mainFrameChar deltaFrameChar fieldDefinitions
        conditions)^[k] s
      ∧ (r.2 = true → 1 ≤ k) ∧ (r.2 = false → sendFieldDefinition.done deltaFrameChar r.1))
    ∨ (r.2 = true
      ∧ r.1 = (blackboxDeviceReserveBufferSpace e
          (sendFieldDefinition.pending fieldDefinitions
            ((sendFieldDefinition.unit e mainFrameChar deltaFrameChar fieldDefinitions
              conditions)^[k] s))
          ((sendFieldDefinition.unit e mainFrameChar deltaFrameChar fieldDefinitions
            conditions)^[k] s)).1
      ∧ e.deviceReserve ((sendFieldDefinition.unit e mainFrameChar deltaFrameChar
            fieldDefinitions conditions)^[k] s).reserveCalls
          (sendFieldDefinition.pending fieldDefinitions
            ((sendFieldDefinition.unit e mainFrameChar deltaFrameChar fieldDefinitions
              conditions)^[k] s)) = false)

/-- The text that opens a line of field definitions. -/
def sendFieldDefinition.lineName (c1 c2 : Char) (headerIndex : Nat) : String :=
  "H Field "
    ++ String.singleton (if headerIndex ≥ BLACKBOX_SIMPLE_FIELD_HEADER_COUNT then c2 else c1)
    ++ " " ++ blackboxFieldHeaderNames.getD headerIndex "" ++ ":"

/-- Between the two states the log grew by header text and event frames only: no frame with
another marker was written. -/
def State.dataless (s t : State) : Prop :=
  ∃ l, t.log = s.log ++ l ∧ ∀ x ∈ l, x.marker? = none ∨ x.marker? = some 'E'

/-- The number of bytes of a write of header text: one for `blackboxWrite`, the length for a
string; the encoders of frame values write no header text. -/
def Write.textBytes : Write → Nat
  | .byte _ => 1
  | .str t => t.length
  | _ => 0

/-- The number of bytes of header text among the items of a log. -/
def headerBytes (l : List LogItem) : Nat :=
  (l.map (fun x => match x with
    | .header w => w.textBytes
    | .frame _ _ => 0)).sum

/-- The writes `sendFieldDefinition` makes for one field on the line `headerIndex`, after the
comma: the name with its index in brackets, or the number of the line. -/
def sendFieldDefinition.entry (fd : blackboxFieldDefinition_t) (headerIndex : Nat) :
    List Write :=
  if headerIndex = 0 then
    if fd.fieldNameIndex ≠ -1 then
      [Write.str fd.name, Write.str ("[" ++ toString fd.fieldNameIndex ++ "]")]
    else [Write.str fd.name]
  else [Write.str (toString (fd.arr.getD (headerIndex - 1) 0))]

/-- Whether field i of a table is listed on its header lines: the table has no conditions, or
the bit of the field's condition is set in the cache. -/
def sendFieldDefinition.listed (conditions : Option (List Nat)) (s : State) (i : Nat) : Bool :=
  match conditions with
  | none => true
  | some cs => testBlackboxCondition s (cs.getD i 0)

/-- The entries of the header line `headerIndex`: one for each listed field, in the order of
the table. -/
def sendFieldDefinition.entries (fieldDefinitions : List blackboxFieldDefinition_t)
    (conditions : Option (List Nat)) (s : State) (headerIndex : Nat) : List (List Write) :=
  ((List.range fieldDefinitions.length).filter (sendFieldDefinition.listed conditions s)).map
    (fun i => sendFieldDefinition.entry (fieldDefinitions.getD i default) headerIndex)

/-- The header line `headerIndex` of a frame family: the text that opens it, the entries with a
comma between each two, and a newline. -/
def sendFieldDefinition.line (mainFrameChar deltaFrameChar : Char)
    (fieldDefinitions : List blackboxFieldDefinition_t) (conditions : Option (List Nat))
    (s : State) (headerIndex : Nat) : List Write :=
  [Write.str (sendFieldDefinition.lineName mainFrameChar deltaFrameChar headerIndex)]
    ++ List.intercalate [Write.byte ','.toNat]
        (sendFieldDefinition.entries fieldDefinitions conditions s headerIndex)
    ++ [Write.byte '\n'.toNat]

/-- The entries written one after the other as the loop of `sendFieldDefinition` does, a comma
before each one once the flag `needComma` is set. -/
def sendFieldDefinition.separated (needComma : Bool) : List (List Write) → List Write
  | [] => []
  | x :: xs =>
    (if needComma then [Write.byte ','.toNat] else []) ++ x
      ++ sendFieldDefinition.separated true xs

/-! ## Concrete inputs -/

/-- A build with every optional section compiled in. -/
def Build.full : Build :=
  { USE_MAG := true, USE_BARO := true, USE_RANGEFINDER := true, USE_DEBUG32 := true
    USE_GPS := true, USE_FLASHFS := true, USE_SDCARD := true, USE_ACC := true
    USE_SERVOS := true, sysinfoVbatScaleCase := 13, sysinfoCurrentSensorCase := 16 }

/-- A snapshot with every member zero. -/
def blackboxMainState_t.zero : blackboxMainState_t :=
  { time := 0, axisPID_P := fun _ => 0, axisPID_I := fun _ => 0, axisPID_D := fun _ => 0
    axisPID_F := fun _ => 0, rcCommand := fun _ => 0, setpoint := fun _ => 0
    gyroADC := fun _ => 0, accADC := fun _ => 0, motor := fun _ => 0, servo := fun _ => 0
    vbatLatest := 0, amperageLatest := 0, BaroAlt := 0, magADC := fun _ => 0, surfaceRaw := 0
    rssi := 0, headspeed := 0, debug := fun _ => 0, debug32 := fun _ => 0 }

/-- The statics of `blackbox.c` at power-on, with the reset template of `blackboxConfig`
(`p_ratio` 32, serial device, accelerometer recorded, normal mode). -/
def State.boot : State :=
  { blackboxConfig := { p_ratio := 32, device := BLACKBOX_DEVICE_SERIAL, record_acc := 1
                        mode := BLACKBOX_MODE_NORMAL }
    blackboxState := .DISABLED
    blackboxLastArmingBeep := 0, blackboxLastFlightModeFlags := 0, blackboxLastGovState := 0
    headerIndex := 0, u := 0, blackboxConditionCache := 0
    blackboxIteration := 0, blackboxLoopIndex := 0, blackboxPFrameIndex := 0
    blackboxIFrameIndex := 0, blackboxIInterval := 0, blackboxPInterval := 0
    blackboxSInterval := 0, blackboxSlowFrameIterationTimer := 0
    blackboxLoggedAnyFrames := false, vbatReference := 0
    gpsHistory := { GPS_home := fun _ => 0, GPS_coord := fun _ => 0, GPS_numSat := 0 }
    slowHistory := { flightModeFlags := 0, stateFlags := 0, failsafePhase := 0
                     rxSignalReceived := false, rxFlightChannelsValid := false }
    blackboxHistoryRing := fun _ => blackboxMainState_t.zero
    blackboxHistory := fun _ => 0
    blackboxModeActivationConditionPresent := false, startedLoggingInTestMode := false
    resetTime := 0, needComma := false, cacheFlushNextState := .DISABLED
    blackboxHeaderBudget := 0, reserveCalls := 0, log := [], deviceOps := [] }

/-- The power-on state with another `p_ratio`. -/
def State.bootWithRatio (p : Nat) : State :=
  { State.boot with blackboxConfig := { State.boot.blackboxConfig with p_ratio := p } }

/-- An armed craft on a 1 kHz loop with two motors, a voltage meter, and a device that accepts
everything. -/
def Env.flying : Env :=
  { currentTimeUs := 5000000, millis := 5000, armed := true, rcModeBlackbox := true
    rcModeBlackboxErase := false, modeActivationConditionPresent := false, featureGPS := false
    areMotorsRunning := true, sharedBlackboxAndMspPort := false, deviceOpen := true
    deviceBeginLog := true, deviceReserve := fun _ _ => true, deviceFlushForceComplete := true
    deviceEndLog := fun _ => true, deviceFlushForce := true, deviceFull := false, erased := false
    replenishHeaderBudget := fun x => x, getMotorCount := 2, pid_D := fun _ => 10
    sensorMag := false, sensorBaro := false, sensorRangefinder := false, sensorAcc := true
    voltageMeterConfigured := true, currentMeterConfigured := false
    currentMeterSourceADC := false, isRssiConfigured := false, debugModeActive := false
    getBatteryVoltageLatest := 420, pidGetLooptime := 1000, getArmingBeepTimeMicros := 0
    rcModeActivationMask := 0, getGovernorState := 0, stateFlags := 0, failsafePhase := 0
    rxIsReceivingSignal := true, rxAreFlightChannelsValid := true
    source := blackboxMainState_t.zero, GPS_home := fun _ => 0
    gpsSol := { numSat := 0, lat := 0, lon := 0, altCm := 0, groundSpeed := 0, groundCourse := 0 }
    sysinfoLine := fun _ => none }

/-- The same craft with a motor count of five. -/
def Env.fiveMotors : Env := { Env.flying with getMotorCount := 5 }

/-- A session in its RUNNING state: the power-on state after `blackboxInit`, with the condition
cache built, the voltage reference taken and the history pointers set as `blackboxStart` does. -/
def State.running : State :=
  let s := blackboxBuildConditionCache Build.full Env.flying
    (blackboxInit Env.flying State.boot)
  { s with
    blackboxState := .RUNNING
    vbatReference := 420
    blackboxHistory := fun g => if g = 0 then 0 else if g = 1 then 1 else if g = 2 then 2 else 0 }

/-- The same craft at another time of the flight loop. -/
def Env.atTime (t : Nat) : Env := { Env.flying with currentTimeUs := t }

/-- The same craft with a changed flight-mode activation mask. -/
def Env.modeChanged : Env := { Env.flying with rcModeActivationMask := 1 }

/-- The same craft with the given roll P term. -/
def Env.withRollP (p : Int) : Env :=
  { Env.flying with
    source := { blackboxMainState_t.zero with axisPID_P := fun i => if i = 0 then p else 0 } }

/-- A session with `p_ratio` 0 as it enters RUNNING: after `blackboxInit`, with the condition
cache built and the state set by `blackboxSetState`. -/
def State.runningIntraOnly : State :=
  blackboxSetState Env.flying .RUNNING
    (blackboxBuildConditionCache Build.full Env.flying
      (blackboxInit Env.flying (State.bootWithRatio 0)))

/-- The recorder after `blackboxInit` on the power-on state: STOPPED, with the intervals set. -/
def State.stopped : State := blackboxInit Env.flying State.boot

/-- The same craft with a device that cannot be opened. -/
def Env.deviceUnavailable : Env := { Env.flying with deviceOpen := false }

/-- The same craft with a device that reports full. -/
def Env.fullDevice : Env := { Env.flying with deviceFull := true }

/-- The craft disarmed with the BOXBLACKBOXERASE switch on. -/
def Env.eraseSwitch : Env := { Env.flying with armed := false, rcModeBlackboxErase := true }

/-- The recorder two ticks after the erase switch came on in STOPPED: in ERASING. -/
def State.erasing : State :=
  blackboxUpdate Build.full Env.eraseSwitch (blackboxUpdate Build.full Env.eraseSwitch State.stopped)

/-- The same craft at the given `millis()`, with a device whose forced flush does not complete. -/
def Env.atMillis (t : Nat) : Env := { Env.flying with millis := t, deviceFlushForce := false }

/-- A session that `blackboxFinish` ended 96 ms before `millis()` wraps: in SHUTTING_DOWN. -/
def State.shuttingDown : State := blackboxFinish (Env.atMillis 4294967200) State.running

/-- The recorder after an armed tick in STOPPED whose `blackboxDeviceOpen()` failed: DISABLED. -/
def State.disabled : State := blackboxUpdate Build.full Env.deviceUnavailable State.stopped

/-- A sequence of calls: tick n of `blackboxUpdate` comes 200 ms after tick n - 1. -/
def Op.tickAt (n : Nat) : Op := Op.update (Env.atMillis (5000 + 200 * n))

/-- A RUNNING session whose BOXBLACKBOX mode has an activation condition, so that the switch
pauses it. -/
def State.runningWithSwitch : State :=
  { State.running with blackboxModeActivationConditionPresent := true }

/-- The same craft with the BOXBLACKBOX switch off. -/
def Env.switchOff : Env := { Env.flying with rcModeBlackbox := false }

/-- The same craft in a build with `USE_RPM_FILTER` and every other section compiled in: case 59
of `blackboxWriteSysinfo` is the `gyro_rpm_filter_bank_motor_index` line, here with all sixteen
entries 0; the lines before it are stood for by a short one. -/
def Env.rpmFilter : Env :=
  { Env.flying with
    sysinfoLine := fun n =>
      if n < 59 then some (headerLineText "looptime" "125")
      else if n = 59 then some (sysinfoRpmFilterBankMotorIndex (fun _ => 0))
      else none }

/-- The recorder in SEND_SYSINFO with `xmitState.headerIndex` at case 59. -/
def State.sysinfoAtRpmFilter : State :=
  (blackboxSetState Env.flying .SEND_SYSINFO State.stopped).setHeaderIndex 59

/-- A device that refuses every other reservation. -/
def Env.stuttering : Env := { Env.flying with deviceReserve := fun n _ => decide (n % 2 = 1) }

/-- The state at the start of the field definitions of the slow frame. -/
def State.slowHeader : State := blackboxSetState Env.flying .SEND_SLOW_HEADER State.stopped

/-- The same craft on a flight loop of the given period in microseconds. -/
def Env.withLooptime (t : Nat) : Env := { Env.flying with pidGetLooptime := t }

/-- The craft armed with the BOXBLACKBOXERASE switch on. -/
def Env.armedEraseSwitch : Env := { Env.flying with rcModeBlackboxErase := true }

/-- The state in the field definitions of the slow frame, at the first field of the line of
names. -/
def State.slowHeaderField : State := State.slowHeader.setU 0

/-! ## Theorems -/

/-! ### Machine integer facts -/

theorem toU32_lt (x : Int) : toU32 x < 4294967296 := by
  unfold toU32
  have h := Int.emod_lt_of_pos x (show (0 : Int) < 4294967296 by norm_num)
  have h0 := Int.emod_nonneg x (show (4294967296 : Int) ≠ 0 by norm_num)
  omega

theorem toU32_cast (x : Int) : ((toU32 x : Nat) : Int) = x % 4294967296 := by
  unfold toU32
  have h0 := Int.emod_nonneg x (show (4294967296 : Int) ≠ 0 by norm_num)
  omega

theorem vbatIntraValue_eq (r c : Nat) :
    ((vbatIntraValue r c : Nat) : Int) = ((r : Int) - (c : Int)) % 16384 := by
  unfold vbatIntraValue
  have h := Nat.and_pow_two_sub_one_eq_mod (toU32 ((r : Int) - (c : Int))) 14
  norm_num at h
  rw [h]
  push_cast
  rw [toU32_cast]
  exact Int.emod_emod_of_dvd _ (by norm_num)

/-! ### Frame counts and the fixed part of the state -/

/-! ### What the frame writers leave alone -/

theorem fixed_writeSlowFrame (s : State) : (writeSlowFrame s).fixed = s.fixed := rfl

theorem fixed_writeSlowFrameIfNeeded (e : Env) (s : State) :
    (writeSlowFrameIfNeeded e s).1.fixed = s.fixed := by
  unfold writeSlowFrameIfNeeded
  dsimp only
  split_ifs <;> rfl

theorem fixed_writeGPSHomeFrame (e : Env) (s : State) : (writeGPSHomeFrame e s).fixed = s.fixed :=
  rfl

theorem fixed_writeGPSFrame (e : Env) (s : State) : (writeGPSFrame e s).fixed = s.fixed := rfl

theorem fixed_blackboxLogEvent (event : Nat) (data : flightLogEventData_t) (s : State) :
    (blackboxLogEvent event data s).fixed = s.fixed := by
  unfold blackboxLogEvent
  split_ifs <;> rfl

theorem fixed_blackboxCheckAndLogArmingBeep (e : Env) (s : State) :
    (blackboxCheckAndLogArmingBeep e s).fixed = s.fixed := by
  unfold blackboxCheckAndLogArmingBeep
  dsimp only
  split_ifs <;> repeat (first | rfl | rw [fixed_blackboxLogEvent])

theorem fixed_blackboxCheckAndLogFlightMode (e : Env) (s : State) :
    (blackboxCheckAndLogFlightMode e s).fixed = s.fixed := by
  unfold blackboxCheckAndLogFlightMode blackboxLogEvent
  dsimp only
  split_ifs <;> rfl

theorem fixed_loadMainState (b : Build) (e : Env) (s : State) :
    (loadMainState b e s).fixed = s.fixed := rfl

theorem fixed_writeIntraframe (b : Build) (e : Env) (s : State) :
    (writeIntraframe b e s).fixed = s.fixed := rfl

theorem fixed_writeInterframe (b : Build) (e : Env) (s : State) :
    (writeInterframe b e s).fixed = s.fixed := rfl

theorem fixed_pushDeviceOp (s : State) (op : DeviceOp) : (s.pushDeviceOp op).fixed = s.fixed :=
  rfl

theorem fixed_blackboxLogIteration_gps (e : Env) (s : State) :
    (blackboxLogIteration.gps e s).fixed = s.fixed := by
  unfold blackboxLogIteration.gps
  split_ifs <;> simp only [fixed_writeGPSFrame, fixed_writeGPSHomeFrame]

theorem fixed_blackboxLogIteration (b : Build) (e : Env) (s : State) :
    (blackboxLogIteration b e s).fixed = s.fixed := by
  unfold blackboxLogIteration
  dsimp only
  rw [fixed_pushDeviceOp]
  split_ifs <;>
    simp only [fixed_writeIntraframe, fixed_writeInterframe, fixed_loadMainState,
      fixed_writeSlowFrameIfNeeded, fixed_blackboxLogIteration_gps,
      fixed_blackboxCheckAndLogFlightMode, fixed_blackboxCheckAndLogArmingBeep]

/-! ### Frames added by each writer -/

theorem frames_append (s : State) (l : List LogItem) (c : Char) :
    State.frames { s with log := s.log ++ l } c
      = s.frames c + l.countP (fun x => x.marker? == some c) := by
  simp [State.frames, List.countP_append]

theorem frames_writeIntraframe (b : Build) (e : Env) (s : State) (c : Char) :
    (writeIntraframe b e s).frames c = s.frames c + if c = 'I' then 1 else 0 := by
  simp only [writeIntraframe, State.frames, List.countP_append, List.countP_cons,
    List.countP_nil, LogItem.marker?]
  by_cases h : c = 'I'
  · subst h; simp
  · have : ¬ ('I' = c) := fun h' => h h'.symm
    simp [h, this]

theorem frames_writeInterframe (b : Build) (e : Env) (s : State) (c : Char) :
    (writeInterframe b e s).frames c = s.frames c + if c = 'P' then 1 else 0 := by
  simp only [writeInterframe, State.frames, List.countP_append, List.countP_cons,
    List.countP_nil, LogItem.marker?]
  by_cases h : c = 'P'
  · subst h; simp
  · have : ¬ ('P' = c) := fun h' => h h'.symm
    simp [h, this]

theorem frames_loadMainState (b : Build) (e : Env) (s : State) (c : Char) :
    (loadMainState b e s).frames c = s.frames c := rfl

theorem frames_pushDeviceOp (s : State) (op : DeviceOp) (c : Char) :
    (s.pushDeviceOp op).frames c = s.frames c := rfl

theorem frames_writeSlowFrame (s : State) (c : Char) (hc : c = 'I' ∨ c = 'P') :
    (writeSlowFrame s).frames c = s.frames c := by
  rcases hc with rfl | rfl <;>
    simp [writeSlowFrame, State.frames, List.countP_append, LogItem.marker?]

theorem frames_writeSlowFrameIfNeeded (e : Env) (s : State) (c : Char) (hc : c = 'I' ∨ c = 'P') :
    (writeSlowFrameIfNeeded e s).1.frames c = s.frames c := by
  unfold writeSlowFrameIfNeeded
  dsimp only
  split_ifs <;> first | rfl | (rw [frames_writeSlowFrame _ _ hc]; rfl)

theorem frames_writeGPSHomeFrame (e : Env) (s : State) (c : Char) (hc : c = 'I' ∨ c = 'P') :
    (writeGPSHomeFrame e s).frames c = s.frames c := by
  rcases hc with rfl | rfl <;>
    simp [writeGPSHomeFrame, State.frames, List.countP_append, LogItem.marker?]

theorem frames_writeGPSFrame (e : Env) (s : State) (c : Char) (hc : c = 'I' ∨ c = 'P') :
    (writeGPSFrame e s).frames c = s.frames c := by
  rcases hc with rfl | rfl <;>
    simp [writeGPSFrame, State.frames, List.countP_append, LogItem.marker?]

theorem frames_blackboxLogEvent (event : Nat) (data : flightLogEventData_t) (s : State)
    (c : Char) (hc : c = 'I' ∨ c = 'P') :
    (blackboxLogEvent event data s).frames c = s.frames c := by
  unfold blackboxLogEvent
  split_ifs <;>
    first
    | rfl
    | (rcases hc with rfl | rfl <;>
        simp [State.frames, List.countP_append, LogItem.marker?])

theorem frames_blackboxCheckAndLogArmingBeep (e : Env) (s : State) (c : Char)
    (hc : c = 'I' ∨ c = 'P') :
    (blackboxCheckAndLogArmingBeep e s).frames c = s.frames c := by
  unfold blackboxCheckAndLogArmingBeep
  dsimp only
  split_ifs
  · rw [frames_blackboxLogEvent _ _ _ _ hc]; rfl
  · rfl

theorem frames_blackboxCheckAndLogFlightMode (e : Env) (s : State) (c : Char)
    (hc : c = 'I' ∨ c = 'P') :
    (blackboxCheckAndLogFlightMode e s).frames c = s.frames c := by
  unfold blackboxCheckAndLogFlightMode
  dsimp only
  split_ifs <;>
    first
    | rfl
    | (rw [frames_blackboxLogEvent _ _ _ _ hc]; rfl)
    | (rw [frames_blackboxLogEvent _ _ _ _ hc]; show State.frames (blackboxLogEvent _ _ _) c = _
       rw [frames_blackboxLogEvent _ _ _ _ hc]; rfl)

theorem frames_blackboxLogIteration_gps (e : Env) (s : State) (c : Char)
    (hc : c = 'I' ∨ c = 'P') :
    (blackboxLogIteration.gps e s).frames c = s.frames c := by
  unfold blackboxLogIteration.gps
  split_ifs <;>
    simp only [frames_writeGPSFrame _ _ _ hc, frames_writeGPSHomeFrame _ _ _ hc]

/-! ### The iteration timers -/

theorem advance_IInterval (s : State) :
    (blackboxAdvanceIterationTimers s).blackboxIInterval = s.blackboxIInterval := by
  unfold blackboxAdvanceIterationTimers
  dsimp only
  split_ifs <;> rfl

theorem advance_PInterval (s : State) :
    (blackboxAdvanceIterationTimers s).blackboxPInterval = s.blackboxPInterval := by
  unfold blackboxAdvanceIterationTimers
  dsimp only
  split_ifs <;> rfl

theorem advance_config (s : State) :
    (blackboxAdvanceIterationTimers s).blackboxConfig = s.blackboxConfig := by
  unfold blackboxAdvanceIterationTimers
  dsimp only
  split_ifs <;> rfl

theorem advance_log (s : State) :
    (blackboxAdvanceIterationTimers s).log = s.log := by
  unfold blackboxAdvanceIterationTimers
  dsimp only
  split_ifs <;> rfl

/-- The loop index after one advance, for an interval in the positive `int16_t` range. -/
theorem advance_loopIndex (s : State) (I : Nat) (hI : s.blackboxIInterval = (I : Int))
    (h1 : 1 ≤ I) (h2 : I ≤ 32767) (hr : s.blackboxLoopIndex < I) :
    (blackboxAdvanceIterationTimers s).blackboxLoopIndex = (s.blackboxLoopIndex + 1) % I := by
  unfold blackboxAdvanceIterationTimers
  dsimp only
  have hm : (s.blackboxLoopIndex + 1) % 65536 = s.blackboxLoopIndex + 1 :=
    Nat.mod_eq_of_lt (by omega)
  rw [hm, hI]
  by_cases hc : s.blackboxLoopIndex + 1 = I
  · have : (((s.blackboxLoopIndex + 1 : Nat) : Int) ≥ (I : Int)) := by omega
    rw [if_pos this, hc, Nat.mod_self]
  · have hlt : s.blackboxLoopIndex + 1 < I := by omega
    have : ¬ (((s.blackboxLoopIndex + 1 : Nat) : Int) ≥ (I : Int)) := by omega
    rw [if_neg this, Nat.mod_eq_of_lt hlt]
    split_ifs <;> rfl

/-- The P-frame index after one advance. -/
theorem advance_PFrameIndex (s : State) (I P : Nat) (hI : s.blackboxIInterval = (I : Int))
    (hP : s.blackboxPInterval = (P : Int))
    (h2 : I ≤ 32767) (hr : s.blackboxLoopIndex < I ∨ I = 0) (hq : s.blackboxPFrameIndex < 32767) :
    (blackboxAdvanceIterationTimers s).blackboxPFrameIndex =
      if s.blackboxLoopIndex + 1 ≥ I then 0
      else if s.blackboxPFrameIndex + 1 ≥ P then 0 else s.blackboxPFrameIndex + 1 := by
  unfold blackboxAdvanceIterationTimers
  dsimp only
  have hm : (s.blackboxLoopIndex + 1) % 65536 = s.blackboxLoopIndex + 1 ∨ I = 0 := by
    rcases hr with hr | hr
    · left; exact Nat.mod_eq_of_lt (by omega)
    · right; exact hr
  have hm2 : (s.blackboxPFrameIndex + 1) % 65536 = s.blackboxPFrameIndex + 1 :=
    Nat.mod_eq_of_lt (by omega)
  rw [hm2, hI, hP]
  by_cases hc : s.blackboxLoopIndex + 1 ≥ I
  · have : ((((s.blackboxLoopIndex + 1) % 65536 : Nat) : Int) ≥ (I : Int)) := by
      rcases hm with hm | hm
      · rw [hm]; omega
      · subst hm; omega
    rw [if_pos this, if_pos hc]
  · have hm' : (s.blackboxLoopIndex + 1) % 65536 = s.blackboxLoopIndex + 1 := by
      rcases hm with hm | hm
      · exact hm
      · omega
    have : ¬ ((((s.blackboxLoopIndex + 1) % 65536 : Nat) : Int) ≥ (I : Int)) := by
      rw [hm']; omega
    rw [if_neg this, if_neg hc]
    by_cases hp : s.blackboxPFrameIndex + 1 ≥ P
    · rw [if_pos (by omega), if_pos hp]
    · rw [if_neg (by omega), if_neg hp]

theorem advance_loopIndex_zero (s : State) (hI : s.blackboxIInterval = 0) :
    (blackboxAdvanceIterationTimers s).blackboxLoopIndex = 0 := by
  unfold blackboxAdvanceIterationTimers
  dsimp only
  rw [hI, if_pos (by omega)]

/-- After k advances from reset counters the loop index is k mod I. -/
theorem iterate_advance_loopIndex (s : State) (I : Nat) (hI : s.blackboxIInterval = (I : Int))
    (h1 : 1 ≤ I) (h2 : I ≤ 32767) (k : Nat) :
    (blackboxAdvanceIterationTimers^[k] (blackboxResetIterationTimers s)).blackboxIInterval = (I : Int)
    ∧ (blackboxAdvanceIterationTimers^[k] (blackboxResetIterationTimers s)).blackboxLoopIndex = k % I := by
  induction k with
  | zero => exact ⟨hI, by simp [blackboxResetIterationTimers]⟩
  | succ k ih =>
    rw [Function.iterate_succ_apply']
    obtain ⟨ih1, ih2⟩ := ih
    refine ⟨by rw [advance_IInterval]; exact ih1, ?_⟩
    rw [advance_loopIndex _ I ih1 h1 h2 (by rw [ih2]; exact Nat.mod_lt _ (by omega)), ih2]
    exact Nat.mod_add_mod k I 1 ▸ rfl

theorem fixed_loopIndex {s t : State} (h : s.fixed = t.fixed) :
    s.blackboxLoopIndex = t.blackboxLoopIndex := by
  simp only [State.fixed, Prod.mk.injEq] at h; exact h.2.2.2.2.1

theorem fixed_PFrameIndex {s t : State} (h : s.fixed = t.fixed) :
    s.blackboxPFrameIndex = t.blackboxPFrameIndex := by
  simp only [State.fixed, Prod.mk.injEq] at h; exact h.2.2.2.2.2.1

theorem fixed_IInterval {s t : State} (h : s.fixed = t.fixed) :
    s.blackboxIInterval = t.blackboxIInterval := by
  simp only [State.fixed, Prod.mk.injEq] at h; exact h.2.2.1

theorem fixed_PInterval {s t : State} (h : s.fixed = t.fixed) :
    s.blackboxPInterval = t.blackboxPInterval := by
  simp only [State.fixed, Prod.mk.injEq] at h; exact h.2.2.2.1

theorem fixed_config {s t : State} (h : s.fixed = t.fixed) :
    s.blackboxConfig = t.blackboxConfig := by
  simp only [State.fixed, Prod.mk.injEq] at h; exact h.1

theorem fixed_cache {s t : State} (h : s.fixed = t.fixed) :
    s.blackboxConditionCache = t.blackboxConditionCache := by
  simp only [State.fixed, Prod.mk.injEq] at h; exact h.2.1

theorem fixed_state {s t : State} (h : s.fixed = t.fixed) :
    s.blackboxState = t.blackboxState := by
  simp only [State.fixed, Prod.mk.injEq] at h; exact h.2.2.2.2.2.2

theorem shouldLogPFrame_of_fixed {s t : State} (h : s.fixed = t.fixed) :
    blackboxShouldLogPFrame s = blackboxShouldLogPFrame t := by
  unfold blackboxShouldLogPFrame
  rw [fixed_PFrameIndex h, fixed_config h]

theorem shouldLogIFrame_of_fixed {s t : State} (h : s.fixed = t.fixed) :
    blackboxShouldLogIFrame s = blackboxShouldLogIFrame t := by
  unfold blackboxShouldLogIFrame
  rw [fixed_loopIndex h]

/-- An iteration adds one I frame exactly when `blackboxShouldLogIFrame` holds. -/
theorem frames_blackboxLogIteration_I (b : Build) (e : Env) (s : State) :
    (blackboxLogIteration b e s).frames 'I'
      = s.frames 'I' + if blackboxShouldLogIFrame s then 1 else 0 := by
  have hc : ('I' : Char) = 'I' ∨ ('I' : Char) = 'P' := Or.inl rfl
  unfold blackboxLogIteration
  dsimp only
  rw [frames_pushDeviceOp]
  split_ifs <;>
    simp [frames_writeIntraframe, frames_writeInterframe, frames_loadMainState,
      frames_writeSlowFrameIfNeeded _ _ _ hc, frames_blackboxLogIteration_gps _ _ _ hc,
      frames_blackboxCheckAndLogFlightMode _ _ _ hc, frames_blackboxCheckAndLogArmingBeep _ _ _ hc]

/-- An iteration adds one P frame exactly when it is not an I-frame iteration and
`blackboxShouldLogPFrame` holds. -/
theorem frames_blackboxLogIteration_P (b : Build) (e : Env) (s : State) :
    (blackboxLogIteration b e s).frames 'P'
      = s.frames 'P' +
        if blackboxShouldLogIFrame s = false ∧ blackboxShouldLogPFrame s = true then 1 else 0 := by
  have hc : ('P' : Char) = 'I' ∨ ('P' : Char) = 'P' := Or.inr rfl
  have hP : blackboxShouldLogPFrame
      (blackboxCheckAndLogFlightMode e (blackboxCheckAndLogArmingBeep e s))
      = blackboxShouldLogPFrame s :=
    shouldLogPFrame_of_fixed
      ((fixed_blackboxCheckAndLogFlightMode e _).trans (fixed_blackboxCheckAndLogArmingBeep e s))
  unfold blackboxLogIteration
  dsimp only
  rw [frames_pushDeviceOp, hP]
  split_ifs <;>
    simp_all [frames_writeIntraframe, frames_writeInterframe, frames_loadMainState,
      frames_writeSlowFrameIfNeeded _ _ _ hc, frames_blackboxLogIteration_gps _ _ _ hc,
      frames_blackboxCheckAndLogFlightMode _ _ _ hc, frames_blackboxCheckAndLogArmingBeep _ _ _ hc]

theorem fixed_advance_of_fixed {s t : State} (h : s.fixed = t.fixed) :
    (blackboxAdvanceIterationTimers s).fixed = (blackboxAdvanceIterationTimers t).fixed := by
  have h1 := fixed_loopIndex h
  have h2 := fixed_PFrameIndex h
  have h3 := fixed_IInterval h
  have h4 := fixed_PInterval h
  have h5 := fixed_config h
  have h6 := fixed_cache h
  have h7 := fixed_state h
  unfold blackboxAdvanceIterationTimers
  dsimp only
  rw [h1, h2, h3, h4]
  split_ifs <;> simp [State.fixed, h5, h6, h7, h3, h4]

/-- The frame writers do not touch the timers: after n unpaused ticks the cadence part of the
state is what n bare advances give. -/
theorem fixed_blackboxRun (b : Build) (envs : Nat → Env) (n : Nat) (s : State) :
    (blackboxRun b envs n s).fixed = (blackboxAdvanceIterationTimers^[n] s).fixed := by
  induction n with
  | zero => rfl
  | succ n ih =>
    rw [Function.iterate_succ_apply']
    show (blackboxAdvanceIterationTimers (blackboxLogIteration b (envs n) _)).fixed = _
    exact fixed_advance_of_fixed ((fixed_blackboxLogIteration b (envs n) _).trans ih)

theorem frames_advance (s : State) (c : Char) :
    (blackboxAdvanceIterationTimers s).frames c = s.frames c := by
  unfold State.frames
  rw [advance_log]

/-! ### Interval computation and iteration timers -/

theorem toInt16_of_lt {n : Nat} (h : n < 32768) : toInt16 n = (n : Int) := by
  unfold toInt16
  have : n % 65536 = n := Nat.mod_eq_of_lt (by omega)
  rw [this, if_pos h]

theorem toU16_of_nat {n : Nat} (h : n < 65536) : toU16 (n : Int) = n := by
  unfold toU16
  omega

@[simp] theorem blackboxSetState_IInterval (e : Env) (st : BlackboxState) (s : State) :
    (blackboxSetState e st s).blackboxIInterval = s.blackboxIInterval := by
  cases st <;> rfl

@[simp] theorem blackboxSetState_PInterval (e : Env) (st : BlackboxState) (s : State) :
    (blackboxSetState e st s).blackboxPInterval = s.blackboxPInterval := by
  cases st <;> rfl

@[simp] theorem blackboxSetState_config (e : Env) (st : BlackboxState) (s : State) :
    (blackboxSetState e st s).blackboxConfig = s.blackboxConfig := by
  cases st <;> rfl

-- C7
theorem blackboxInit_IInterval_raw (e : Env) (s : State) :
    (blackboxInit e s).blackboxIInterval = toInt16 ((32 * 1000 / e.pidGetLooptime) % 65536) := by
  unfold blackboxInit
  dsimp only
  split_ifs <;> simp [blackboxResetIterationTimers]

theorem blackboxInit_PInterval_raw (e : Env) (s : State) :
    (blackboxInit e s).blackboxPInterval =
      if s.blackboxConfig.p_ratio = 0 then 0
      else if (s.blackboxConfig.p_ratio : Int) > toInt16 ((32 * 1000 / e.pidGetLooptime) % 65536)
          ∧ toInt16 ((32 * 1000 / e.pidGetLooptime) % 65536) ≥ 32 then 1
      else toInt16 (toU16 (Int.tdiv (toInt16 ((32 * 1000 / e.pidGetLooptime) % 65536))
        s.blackboxConfig.p_ratio)) := by
  unfold blackboxInit
  dsimp only [blackboxResetIterationTimers]
  split_ifs <;> simp

theorem blackboxInit_config (e : Env) (s : State) :
    (blackboxInit e s).blackboxConfig = s.blackboxConfig := by
  unfold blackboxInit
  dsimp only [blackboxResetIterationTimers]
  split_ifs <;> simp

theorem init_P_aux (I p : Nat) (hI : I ≤ 32000) (_hp : p ≠ 0) :
    toInt16 (toU16 (Int.tdiv (I : Int) (p : Int))) = ((I / p : Nat) : Int) := by
  have h5 : Int.tdiv (I : Int) (p : Int) = ((I / p : Nat) : Int) := by
    rw [Int.tdiv_eq_ediv (Int.natCast_nonneg _) (Int.natCast_nonneg _)]; norm_cast
  have h4 : I / p ≤ 32000 := le_trans (Nat.div_le_self _ _) hI
  rw [h5, toU16_of_nat (by omega), toInt16_of_lt (by omega)]

theorem looptime_interval (t : Nat) :
    toInt16 ((32 * 1000 / t) % 65536) = ((32000 / t : Nat) : Int) := by
  have h1 : 32000 / t ≤ 32000 := Nat.div_le_self _ _
  have h2 : (32 * 1000 / t) % 65536 = 32000 / t := by norm_num; omega
  rw [h2]; exact toInt16_of_lt (by omega)

theorem blackboxInit_IInterval (e : Env) (s : State) :
    (blackboxInit e s).blackboxIInterval = ((32000 / e.pidGetLooptime : Nat) : Int) := by
  rw [blackboxInit_IInterval_raw, looptime_interval]

theorem blackboxInit_PInterval (e : Env) (s : State) :
    (blackboxInit e s).blackboxPInterval =
      if s.blackboxConfig.p_ratio = 0 then 0
      else if s.blackboxConfig.p_ratio > 32000 / e.pidGetLooptime ∧ 32000 / e.pidGetLooptime ≥ 32 then 1
      else ((32000 / e.pidGetLooptime / s.blackboxConfig.p_ratio : Nat) : Int) := by
  rw [blackboxInit_PInterval_raw, looptime_interval]
  have h1 : 32000 / e.pidGetLooptime ≤ 32000 := Nat.div_le_self _ _
  generalize 32000 / e.pidGetLooptime = I at *
  generalize s.blackboxConfig.p_ratio = p at *
  by_cases hp : p = 0
  · simp [hp]
  · rw [if_neg hp, if_neg hp, init_P_aux I p h1 hp]
    by_cases hq : p > I ∧ I ≥ 32
    · rw [if_pos hq, if_pos (by omega)]
    · rw [if_neg hq, if_neg (by omega)]

theorem succ_mod_max (r P : Nat) :
    (r + 1) % max P 1 = if r % max P 1 + 1 ≥ P then 0 else r % max P 1 + 1 := by
  rcases Nat.eq_zero_or_pos P with h | h
  · subst h; simp [Nat.mod_one]
  · have hm : max P 1 = P := max_eq_left h
    rw [hm]
    have hlt : r % P < P := Nat.mod_lt _ h
    have h1 : r + 1 = P * (r / P) + (r % P + 1) := by
      have := Nat.div_add_mod r P; omega
    by_cases hc : r % P + 1 ≥ P
    · rw [if_pos hc]
      have h2 : r % P + 1 = P := by omega
      rw [h1, Nat.mul_add_mod, h2, Nat.mod_self]
    · rw [if_neg hc, h1, Nat.mul_add_mod, Nat.mod_eq_of_lt (by omega)]

theorem sub_mod_of_le (k d I : Nat) (h : d ≤ k % I) : (k - d) % I = k % I - d := by
  rcases Nat.eq_zero_or_pos I with h0 | h0
  · subst h0; simp
  · have hlt : k % I < I := Nat.mod_lt _ h0
    have h1 : k - d = I * (k / I) + (k % I - d) := by
      have := Nat.div_add_mod k I; omega
    rw [h1, Nat.mul_add_mod, Nat.mod_eq_of_lt (by omega)]

/-- After k advances from reset counters: the loop index is k mod I and the P-frame index is
(k mod I) mod max(P, 1). -/
theorem iterate_advance_timers (s : State) (I P : Nat) (hI : s.blackboxIInterval = (I : Int))
    (hP : s.blackboxPInterval = (P : Int)) (h1 : 1 ≤ I) (h2 : I ≤ 32767) (h3 : P ≤ 32767)
    (k : Nat) :
    (blackboxAdvanceIterationTimers^[k] (blackboxResetIterationTimers s)).blackboxIInterval = (I : Int)
    ∧ (blackboxAdvanceIterationTimers^[k] (blackboxResetIterationTimers s)).blackboxPInterval = (P : Int)
    ∧ (blackboxAdvanceIterationTimers^[k] (blackboxResetIterationTimers s)).blackboxLoopIndex = k % I
    ∧ (blackboxAdvanceIterationTimers^[k] (blackboxResetIterationTimers s)).blackboxPFrameIndex
        = (k % I) % max P 1
    ∧ (blackboxAdvanceIterationTimers^[k] (blackboxResetIterationTimers s)).blackboxConfig
        = s.blackboxConfig := by
  induction k with
  | zero =>
    refine ⟨hI, hP, ?_, ?_, rfl⟩ <;> simp [blackboxResetIterationTimers]
  | succ k ih =>
    rw [Function.iterate_succ_apply']
    obtain ⟨ih1, ih2, ih3, ih4, ih5⟩ := ih
    have hr : k % I < I := Nat.mod_lt _ (by omega)
    have hq : (k % I) % max P 1 < max P 1 := Nat.mod_lt _ (by simp)
    have hmax : max P 1 ≤ 32767 := max_le h3 (by omega)
    have hL := advance_loopIndex _ I ih1 h1 h2 (by rw [ih3]; exact hr)
    have hLk : (k % I + 1) % I = (k + 1) % I := Nat.mod_add_mod k I 1
    refine ⟨by rw [advance_IInterval]; exact ih1, by rw [advance_PInterval]; exact ih2, ?_, ?_,
      by rw [advance_config]; exact ih5⟩
    · rw [hL, ih3, hLk]
    · rw [advance_PFrameIndex _ I P ih1 ih2 h2 (by left; rw [ih3]; exact hr)
        (by rw [ih4]; omega), ih3, ih4]
      by_cases hc : k % I + 1 ≥ I
      · rw [if_pos hc]
        have : k % I + 1 = I := by omega
        rw [← hLk, this, Nat.mod_self, Nat.zero_mod]
      · rw [if_neg hc, ← hLk, Nat.mod_eq_of_lt (show k % I + 1 < I by omega), succ_mod_max]

/-- With a zero I interval every advance leaves both indices at zero. -/
theorem iterate_advance_timers_zero (s : State) (hI : s.blackboxIInterval = 0) (k : Nat) :
    (blackboxAdvanceIterationTimers^[k] (blackboxResetIterationTimers s)).blackboxIInterval = 0
    ∧ (blackboxAdvanceIterationTimers^[k] (blackboxResetIterationTimers s)).blackboxLoopIndex = 0 := by
  induction k with
  | zero => exact ⟨hI, rfl⟩
  | succ k ih =>
    rw [Function.iterate_succ_apply']
    exact ⟨by rw [advance_IInterval]; exact ih.1, advance_loopIndex_zero _ ih.1⟩

/-! ### Cadence of intra frames -/

theorem blackboxInit_PInterval_nonneg (e : Env) (s : State) :
    0 ≤ (blackboxInit e s).blackboxPInterval ∧ (blackboxInit e s).blackboxPInterval ≤ 32767 := by
  rw [blackboxInit_PInterval]
  have h0 : 32000 / e.pidGetLooptime ≤ 32000 := Nat.div_le_self _ _
  have h1 : 32000 / e.pidGetLooptime / s.blackboxConfig.p_ratio ≤ 32000 / e.pidGetLooptime :=
    Nat.div_le_self _ _
  generalize 32000 / e.pidGetLooptime / s.blackboxConfig.p_ratio = Q at *
  generalize 32000 / e.pidGetLooptime = I at *
  split_ifs <;> constructor <;> omega

/-- The P frames of one iteration, k advances after `blackboxInit` and a reset. -/
theorem frames_P_after_init (b : Build) (e0 e : Env) (s : State) (k : Nat)
    (hp : 1 ≤ s.blackboxConfig.p_ratio) (t : State)
    (ht : t.fixed = (blackboxAdvanceIterationTimers^[k]
      (blackboxResetIterationTimers (blackboxInit e0 s))).fixed) :
    (blackboxLogIteration b e t).frames 'P' = t.frames 'P' +
      if 32000 / e0.pidGetLooptime ≠ 0 ∧ k % (32000 / e0.pidGetLooptime) ≠ 0
          ∧ (k % (32000 / e0.pidGetLooptime))
            % max ((blackboxInit e0 s).blackboxPInterval.toNat) 1 = 0
      then 1 else 0 := by
  rw [frames_blackboxLogIteration_P, shouldLogIFrame_of_fixed ht, shouldLogPFrame_of_fixed ht]
  congr 1
  have hI := blackboxInit_IInterval e0 s
  have hPn := blackboxInit_PInterval_nonneg e0 s
  have hle : 32000 / e0.pidGetLooptime ≤ 32000 := Nat.div_le_self _ _
  generalize 32000 / e0.pidGetLooptime = I at *
  have hP : (blackboxInit e0 s).blackboxPInterval
      = (((blackboxInit e0 s).blackboxPInterval.toNat : Nat) : Int) := by omega
  generalize (blackboxInit e0 s).blackboxPInterval.toNat = P at *
  have hP3 : P ≤ 32767 := by omega
  rcases Nat.eq_zero_or_pos I with h0 | h0
  · subst h0
    have hz := iterate_advance_timers_zero (blackboxInit e0 s) hI k
    simp [blackboxShouldLogIFrame, hz.2]
  · obtain ⟨_, _, i3, i4, i5⟩ :=
      iterate_advance_timers (blackboxInit e0 s) I P hI hP h0 (by omega) hP3 k
    have hcfg : s.blackboxConfig.p_ratio ≠ 0 := by omega
    simp only [blackboxShouldLogIFrame, blackboxShouldLogPFrame, i3, i4, i5,
      blackboxInit_config]
    have hI0 : I ≠ 0 := by omega
    by_cases ha : k % I = 0
    · simp [ha]
    · by_cases hb : k % I % max P 1 = 0 <;> simp [ha, hb, hcfg, hI0]

/-! ### Payload of the inter frame -/

theorem forall_mem_ite_nil {α : Type} (c : Prop) [Decidable c] (l : List α) (p : α → Prop) :
    (∀ x ∈ (if c then l else []), p x) ↔ (c → ∀ x ∈ l, p x) := by
  split_ifs with h <;> simp [h]

theorem interframe_no_iteration (b : Build) (e : Env) (t : State) :
    ∀ w ∈ writeInterframe.payload b e t, ∀ v ∈ w.vals, v.src ≠ Src.blackboxIteration := by
  simp only [writeInterframe.payload, writeInterframe.optionalDeltas,
    blackboxWriteSignedVBArray, blackboxWriteMainStateArrayUsingAveragePredictor]
  simp only [List.forall_mem_append, List.forall_mem_cons, forall_mem_ite_nil]
  simp [Write.vals]
  refine ⟨?_, ?_⟩
  · rintro x i _ _ rfl v hv
    simp only [List.mem_singleton] at hv
    subst hv
    simp
  · rintro v (⟨_, rfl⟩ | ⟨_, rfl⟩ | ⟨_, a, _, rfl⟩ | ⟨_, rfl⟩ | ⟨_, rfl⟩ | ⟨_, rfl⟩) <;> simp

/-! ### Spacing of inter frames -/

/-- The I frames of one iteration, k advances after `blackboxInit` and a reset. -/
theorem frames_I_after_init (b : Build) (e0 e : Env) (s : State) (k : Nat) (t : State)
    (ht : t.fixed = (blackboxAdvanceIterationTimers^[k]
      (blackboxResetIterationTimers (blackboxInit e0 s))).fixed) :
    (blackboxLogIteration b e t).frames 'I' = t.frames 'I' +
      if 32000 / e0.pidGetLooptime = 0 ∨ k % (32000 / e0.pidGetLooptime) = 0 then 1 else 0 := by
  rw [frames_blackboxLogIteration_I, shouldLogIFrame_of_fixed ht]
  congr 1
  have hI := blackboxInit_IInterval e0 s
  have hle : 32000 / e0.pidGetLooptime ≤ 32000 := Nat.div_le_self _ _
  generalize 32000 / e0.pidGetLooptime = I at *
  rcases Nat.eq_zero_or_pos I with h0 | h0
  · subst h0
    have hz := iterate_advance_timers_zero (blackboxInit e0 s) hI k
    simp [blackboxShouldLogIFrame, hz.2]
  · have i3 := (iterate_advance_loopIndex (blackboxInit e0 s) I hI h0 (by omega) k).2
    have hI0 : I ≠ 0 := by omega
    simp only [blackboxShouldLogIFrame, i3]
    by_cases ha : k % I = 0 <;> simp [ha, hI0]

theorem cadence_arith (I Q k : Nat) (_hI : 0 < I) (_hQ : 1 ≤ Q) (h1 : k % I ≠ 0)
    (h2 : (k % I) % Q = 0) :
    Q ≤ k ∧ (k - Q) % I = k % I - Q ∧ ((k - Q) % I) % Q = 0
    ∧ ∀ j, k - Q < j → j < k → j % I ≠ 0 ∧ (j % I) % Q ≠ 0 := by
  have hr : k % I ≤ k := Nat.mod_le _ _
  obtain ⟨m, hm⟩ : Q ∣ k % I := Nat.dvd_of_mod_eq_zero h2
  have hm1 : 1 ≤ m := by
    rcases Nat.eq_zero_or_pos m with h | h
    · subst h; simp at hm; exact absurd hm h1
    · exact h
  have hQr : Q ≤ k % I := by
    rw [hm]; exact Nat.le_mul_of_pos_right Q hm1
  have hsub := sub_mod_of_le k Q I hQr
  refine ⟨by omega, hsub, ?_, ?_⟩
  · rw [hsub, hm]
    have : Q * m - Q = Q * (m - 1) := by
      rw [Nat.mul_sub, Nat.mul_one]
    rw [this, Nat.mul_mod_right]
  · intro j hj1 hj2
    obtain ⟨d, hd⟩ : ∃ d, j = k - d ∧ 0 < d ∧ d < Q := ⟨k - j, by omega, by omega, by omega⟩
    obtain ⟨hjd, hd0, hdQ⟩ := hd
    have hsubd := sub_mod_of_le k d I (by omega)
    rw [hjd, hsubd]
    refine ⟨by omega, ?_⟩
    have e1 : k % I - d = Q * (m - 1) + (Q - d) := by
      have : Q * m = Q * (m - 1) + Q := by
        have hmm : m = (m - 1) + 1 := by omega
        conv_lhs => rw [hmm, Nat.mul_add, Nat.mul_one]
      omega
    rw [e1, Nat.mul_add_mod, Nat.mod_eq_of_lt (by omega)]
    omega

/-! ### Condition cache -/

theorem testBlackboxCondition_eq_testBit (s : State) (c : Nat) (hc : c < 32) :
    testBlackboxCondition s c = s.blackboxConditionCache.testBit c := by
  unfold testBlackboxCondition
  have h1 : (1 <<< c) % 4294967296 = 2 ^ c := by
    rw [Nat.one_shiftLeft]
    apply Nat.mod_eq_of_lt
    calc 2 ^ c < 2 ^ 32 := Nat.pow_lt_pow_right (by norm_num) hc
      _ = 4294967296 := by norm_num
  rw [h1, Nat.and_two_pow]
  cases h : s.blackboxConditionCache.testBit c <;> simp [h]

theorem step_testBit (b : Build) (e : Env) (s : State) (cache c i : Nat)
    (hcache : cache < 4294967296) (hc : c < 32) :
    (blackboxBuildConditionCache.step b e s cache c).testBit i
      = (cache.testBit i || (decide (c = i) && testBlackboxConditionUncached b e s c)) := by
  unfold blackboxBuildConditionCache.step
  split_ifs with h
  · have hlt : cache ||| 1 <<< c < 2 ^ 32 := by
      apply Nat.or_lt_two_pow (by simpa using hcache)
      rw [Nat.one_shiftLeft]
      exact Nat.pow_lt_pow_right (by norm_num) hc
    rw [Nat.mod_eq_of_lt (by simpa using hlt), Nat.testBit_or, Nat.one_shiftLeft,
      Nat.testBit_two_pow, h]
    simp
  · simp [h]

theorem step_lt (b : Build) (e : Env) (s : State) (cache c : Nat) :
    blackboxBuildConditionCache.step b e s cache c < 4294967296 ∨
      blackboxBuildConditionCache.step b e s cache c = cache := by
  unfold blackboxBuildConditionCache.step
  split_ifs
  · left; exact Nat.mod_lt _ (by norm_num)
  · right; rfl

theorem foldl_step (b : Build) (e : Env) (s : State) (l : List Nat) (hl : ∀ c ∈ l, c < 32)
    (cache : Nat) (hcache : cache < 4294967296) (i : Nat) :
    (l.foldl (blackboxBuildConditionCache.step b e s) cache) < 4294967296 ∧
    (l.foldl (blackboxBuildConditionCache.step b e s) cache).testBit i
      = (cache.testBit i || (decide (i ∈ l) && testBlackboxConditionUncached b e s i)) := by
  induction l generalizing cache with
  | nil => simp [hcache]
  | cons c l ih =>
    have hc : c < 32 := hl c (List.mem_cons_self _ _)
    have hl' : ∀ c ∈ l, c < 32 := fun x hx => hl x (List.mem_cons_of_mem _ hx)
    have hlt : blackboxBuildConditionCache.step b e s cache c < 4294967296 := by
      rcases step_lt b e s cache c with h | h
      · exact h
      · rw [h]; exact hcache
    obtain ⟨ih1, ih2⟩ := ih hl' _ hlt
    refine ⟨ih1, ?_⟩
    rw [List.foldl_cons, ih2, step_testBit b e s cache c i hcache hc]
    by_cases hci : c = i
    · subst hci; simp
      cases cache.testBit c <;> cases testBlackboxConditionUncached b e s c <;> simp
    · have : ¬ i = c := fun h => hci h.symm
      simp [hci, this]

/-- After the cache is built, the cached test agrees with the uncached one on every id. -/
theorem testBlackboxCondition_build (b : Build) (e : Env) (s : State) (id : Nat)
    (h1 : FLIGHT_LOG_FIELD_CONDITION_FIRST ≤ id) (h2 : id ≤ FLIGHT_LOG_FIELD_CONDITION_LAST) :
    testBlackboxCondition (blackboxBuildConditionCache b e s) id
      = testBlackboxConditionUncached b e s id := by
  have hid : id < 32 := by
    have : FLIGHT_LOG_FIELD_CONDITION_LAST = 22 := rfl
    omega
  rw [testBlackboxCondition_eq_testBit _ _ hid]
  unfold blackboxBuildConditionCache
  dsimp only
  have hmem : id ∈ List.range' FLIGHT_LOG_FIELD_CONDITION_FIRST
      (FLIGHT_LOG_FIELD_CONDITION_LAST + 1 - FLIGHT_LOG_FIELD_CONDITION_FIRST) := by
    rw [List.mem_range']
    refine ⟨id - FLIGHT_LOG_FIELD_CONDITION_FIRST, ?_, ?_⟩ <;>
      simp only [FLIGHT_LOG_FIELD_CONDITION_FIRST, FLIGHT_LOG_FIELD_CONDITION_LAST,
        FLIGHT_LOG_FIELD_CONDITION_ALWAYS, FLIGHT_LOG_FIELD_CONDITION_NEVER] at * <;> omega
  have hall : ∀ c ∈ List.range' FLIGHT_LOG_FIELD_CONDITION_FIRST
      (FLIGHT_LOG_FIELD_CONDITION_LAST + 1 - FLIGHT_LOG_FIELD_CONDITION_FIRST), c < 32 := by
    intro c hc
    rw [List.mem_range'] at hc
    obtain ⟨i, hi, rfl⟩ := hc
    simp only [FLIGHT_LOG_FIELD_CONDITION_FIRST, FLIGHT_LOG_FIELD_CONDITION_LAST,
        FLIGHT_LOG_FIELD_CONDITION_ALWAYS, FLIGHT_LOG_FIELD_CONDITION_NEVER] at *
    omega
  rw [(foldl_step b e s _ hall 0 (by norm_num) id).2]
  simp [hmem]

/-! ### Battery voltage field -/

theorem vbatIntraValue_lt (r c : Nat) : vbatIntraValue r c < 16384 := by
  have h := vbatIntraValue_eq r c
  have := Int.emod_lt_of_pos ((r : Int) - (c : Int)) (show (0 : Int) < 16384 by norm_num)
  omega

theorem signExtend14Bit_eq (w : Nat) (hw : w < 16384) :
    signExtend14Bit w = if w < 8192 then (w : Int) else (w : Int) - 16384 := by
  unfold signExtend14Bit
  have h : w &&& 0x2000 = (w.testBit 13).toNat * 2 ^ 13 := Nat.and_two_pow w 13
  rw [h, Nat.testBit_to_div_mod]
  have hp : (2 : Nat) ^ 13 = 8192 := by norm_num
  rw [hp]
  by_cases h1 : w < 8192
  · have : w / 8192 % 2 = 0 := by omega
    simp [this, h1]
  · have : w / 8192 % 2 = 1 := by omega
    simp [this, h1]

theorem vbat_roundtrip (r c : Nat) (h1 : -8192 ≤ (r : Int) - (c : Int))
    (h2 : (r : Int) - (c : Int) ≤ 8191) :
    (c : Int) = (r : Int) - signExtend14Bit (vbatIntraValue r c) := by
  have hlt := vbatIntraValue_lt r c
  have heq := vbatIntraValue_eq r c
  rw [signExtend14Bit_eq _ hlt]
  split_ifs with h <;> omega

theorem intraframe_vbat_mem (b : Build) (e : Env) (s : State)
    (hv : testBlackboxCondition s FLIGHT_LOG_FIELD_CONDITION_VBAT = true) :
    Write.unsignedVB ⟨.vbatLatest, vbatIntraValue s.vbatReference (s.history 0).vbatLatest⟩
      ∈ writeIntraframe.payload b e s := by
  simp [writeIntraframe.payload, hv]

theorem intraframe_vbat_unique (b : Build) (e : Env) (s : State) :
    ∀ w ∈ writeIntraframe.payload b e s, ∀ v ∈ w.vals, v.src = Src.vbatLatest →
      w = Write.unsignedVB
        ⟨.vbatLatest, vbatIntraValue s.vbatReference (s.history 0).vbatLatest⟩ := by
  simp only [writeIntraframe.payload, blackboxWriteSignedVBArray, blackboxWriteSigned16VBArray]
  simp only [List.forall_mem_append, List.forall_mem_cons, forall_mem_ite_nil]
  simp [Write.vals]
  rintro x i _ _ rfl v hv
  simp only [List.mem_singleton] at hv
  subst hv
  simp

/-! ### Declared and written fields -/

theorem filter_cons_ite {α : Type} (p : α → Bool) (a : α) (l : List α) :
    List.filter p (a :: l) = (if p a = true then [a] else []) ++ List.filter p l := by
  by_cases h : p a = true <;> simp [List.filter_cons, h]

theorem filter_ite_nil {α : Type} (p : α → Bool) (c : Prop) [Decidable c] (l : List α) :
    List.filter p (if c then l else []) = if c then List.filter p l else [] := by
  split_ifs <;> simp

theorem map_ite_nil {α β : Type} (f : α → β) (c : Prop) [Decidable c] (l : List α) :
    List.map f (if c then l else []) = if c then List.map f l else [] := by
  split_ifs <;> simp

theorem ite_cons_cons {α : Type} (c : Prop) [Decidable c] (a a' : α) (l : List α) :
    (if c then a :: a' :: l else []) = (if c then [a] else []) ++ (if c then a' :: l else []) := by
  split_ifs <;> simp

theorem ite_and_nil {α : Type} (x y : Bool) (l : List α) :
    (if (x && y) = true then l else []) = if x = true then (if y = true then l else []) else [] := by
  cases x <;> cases y <;> simp

theorem ite_append_nil {α : Type} (c : Prop) [Decidable c] (l l' : List α) :
    (if c then l ++ l' else []) = (if c then l else []) ++ (if c then l' else []) := by
  split_ifs <;> simp

theorem payloadFields_nil : payloadFields [] = [] := rfl

theorem payloadFields_cons (w : Write) (l : List Write) :
    payloadFields (w :: l) = w.fields.map (fun f => (f.1.fieldName, f.2)) ++ payloadFields l := by
  simp [payloadFields]

theorem payloadFields_append (l l' : List Write) :
    payloadFields (l ++ l') = payloadFields l ++ payloadFields l' := by
  simp [payloadFields]

theorem payloadFields_ite (c : Prop) [Decidable c] (l : List Write) :
    payloadFields (if c then l else []) = if c then payloadFields l else [] := by
  split_ifs <;> simp [payloadFields]

set_option maxHeartbeats 1000000 in
theorem intraframe_fields (b : Build) (e : Env) (s : State)
    (hA : testBlackboxCondition s FLIGHT_LOG_FIELD_CONDITION_ALWAYS = true)
    (hM : ∀ i, i < 4 → testBlackboxCondition s (FLIGHT_LOG_FIELD_CONDITION_AT_LEAST_MOTORS_1 + i)
      = decide (i < e.getMotorCount))
    (hm : e.getMotorCount ≤ 4) :
    payloadFields (writeIntraframe.payload b e s) = declaredIFields b s := by
  have r0 : List.range 0 = [] := rfl
  have r1 : List.range 1 = [0] := rfl
  have r2 : List.range 2 = [0, 1] := rfl
  have r3 : List.range 3 = [0, 1, 2] := rfl
  have r4 : List.range 4 = [0, 1, 2, 3] := rfl
  have r8 : List.range 8 = [0, 1, 2, 3, 4, 5, 6, 7] := rfl
  have hM0 := hM 0 (by norm_num)
  have hM1 := hM 1 (by norm_num)
  have hM2 := hM 2 (by norm_num)
  have hM3 := hM 3 (by norm_num)
  simp only [FLIGHT_LOG_FIELD_CONDITION_ALWAYS, FLIGHT_LOG_FIELD_CONDITION_AT_LEAST_MOTORS_1,
    Nat.reduceAdd] at hA hM0 hM1 hM2 hM3
  clear hM
  simp only [writeIntraframe.payload]
  generalize e.getMotorCount = m at *
  interval_cases m <;>
  · simp only [Nat.not_lt_zero, decide_False, decide_True, Nat.lt_irrefl, Nat.reduceLT,
      Nat.lt_one_iff, Nat.zero_lt_succ, Nat.ofNat_pos, OfNat.ofNat_ne_zero, one_ne_zero,
      Nat.one_lt_ofNat, zero_lt_one] at hM0 hM1 hM2 hM3
    simp only [declaredIFields, blackboxMainFields,
      blackboxWriteSignedVBArray, blackboxWriteSigned16VBArray,
      XYZ_AXIS_COUNT, DEBUG16_VALUE_COUNT, DEBUG32_VALUE_COUNT, THROTTLE, COLLECTIVE,
      FLIGHT_LOG_FIELD_CONDITION_ALWAYS, FLIGHT_LOG_FIELD_CONDITION_AT_LEAST_MOTORS_1,
      FLIGHT_LOG_FIELD_CONDITION_AT_LEAST_MOTORS_2, FLIGHT_LOG_FIELD_CONDITION_AT_LEAST_MOTORS_3,
      FLIGHT_LOG_FIELD_CONDITION_AT_LEAST_MOTORS_4, FLIGHT_LOG_FIELD_CONDITION_NONZERO_PID_D_0,
      FLIGHT_LOG_FIELD_CONDITION_NONZERO_PID_D_1, FLIGHT_LOG_FIELD_CONDITION_NONZERO_PID_D_2,
      FLIGHT_LOG_FIELD_CONDITION_VBAT, FLIGHT_LOG_FIELD_CONDITION_AMPERAGE_ADC,
      FLIGHT_LOG_FIELD_CONDITION_MAG, FLIGHT_LOG_FIELD_CONDITION_BARO,
      FLIGHT_LOG_FIELD_CONDITION_RANGEFINDER, FLIGHT_LOG_FIELD_CONDITION_RSSI,
      FLIGHT_LOG_FIELD_CONDITION_ACC, FLIGHT_LOG_FIELD_CONDITION_DEBUG,
      FLIGHT_LOG_FIELD_UNSIGNED, FLIGHT_LOG_FIELD_SIGNED,
      r0, r1, r2, r3, r4, r8, List.map_cons, List.map_nil, List.filter_append, List.map_append,
      filter_cons_ite, filter_ite_nil, map_ite_nil, List.filter_nil,
      payloadFields_append, payloadFields_cons, payloadFields_nil, payloadFields_ite,
      Write.fields, Src.fieldName, FlightLogFieldEncoding.wire, ite_and_nil, ite_cons_cons,
      ite_append_nil, hA, hM0, hM1, hM2, hM3, Nat.reduceAdd, if_true, if_false,
      List.append_assoc, List.nil_append, List.append_nil, List.cons_append, List.singleton_append,
      Nat.cast_ofNat, Nat.cast_zero, Nat.cast_one, Bool.false_eq_true]

set_option maxHeartbeats 1000000 in
theorem interframe_fields (b : Build) (e : Env) (s : State)
    (hA : testBlackboxCondition s FLIGHT_LOG_FIELD_CONDITION_ALWAYS = true)
    (hM : ∀ i, i < 4 → testBlackboxCondition s (FLIGHT_LOG_FIELD_CONDITION_AT_LEAST_MOTORS_1 + i)
      = decide (i < e.getMotorCount))
    (hm : e.getMotorCount ≤ 4) :
    payloadFields (writeInterframe.payload b e s) = declaredPFields b s := by
  have r0 : List.range 0 = [] := rfl
  have r1 : List.range 1 = [0] := rfl
  have r2 : List.range 2 = [0, 1] := rfl
  have r3 : List.range 3 = [0, 1, 2] := rfl
  have r4 : List.range 4 = [0, 1, 2, 3] := rfl
  have r8 : List.range 8 = [0, 1, 2, 3, 4, 5, 6, 7] := rfl
  have hM0 := hM 0 (by norm_num)
  have hM1 := hM 1 (by norm_num)
  have hM2 := hM 2 (by norm_num)
  have hM3 := hM 3 (by norm_num)
  simp only [FLIGHT_LOG_FIELD_CONDITION_ALWAYS, FLIGHT_LOG_FIELD_CONDITION_AT_LEAST_MOTORS_1,
    Nat.reduceAdd] at hA hM0 hM1 hM2 hM3
  clear hM
  simp only [writeInterframe.payload]
  generalize e.getMotorCount = m at *
  interval_cases m <;>
  · simp only [Nat.not_lt_zero, decide_False, decide_True, Nat.lt_irrefl, Nat.reduceLT,
      Nat.lt_one_iff, Nat.zero_lt_succ, Nat.ofNat_pos, OfNat.ofNat_ne_zero, one_ne_zero,
      Nat.one_lt_ofNat, zero_lt_one] at hM0 hM1 hM2 hM3
    simp only [declaredPFields, blackboxMainFields, writeInterframe.optionalDeltas,
      blackboxWriteSignedVBArray, blackboxWriteMainStateArrayUsingAveragePredictor,
      XYZ_AXIS_COUNT, DEBUG16_VALUE_COUNT, DEBUG32_VALUE_COUNT, THROTTLE, COLLECTIVE,
      FLIGHT_LOG_FIELD_CONDITION_ALWAYS, FLIGHT_LOG_FIELD_CONDITION_AT_LEAST_MOTORS_1,
      FLIGHT_LOG_FIELD_CONDITION_AT_LEAST_MOTORS_2, FLIGHT_LOG_FIELD_CONDITION_AT_LEAST_MOTORS_3,
      FLIGHT_LOG_FIELD_CONDITION_AT_LEAST_MOTORS_4, FLIGHT_LOG_FIELD_CONDITION_NONZERO_PID_D_0,
      FLIGHT_LOG_FIELD_CONDITION_NONZERO_PID_D_1, FLIGHT_LOG_FIELD_CONDITION_NONZERO_PID_D_2,
      FLIGHT_LOG_FIELD_CONDITION_VBAT, FLIGHT_LOG_FIELD_CONDITION_AMPERAGE_ADC,
      FLIGHT_LOG_FIELD_CONDITION_MAG, FLIGHT_LOG_FIELD_CONDITION_BARO,
      FLIGHT_LOG_FIELD_CONDITION_RANGEFINDER, FLIGHT_LOG_FIELD_CONDITION_RSSI,
      FLIGHT_LOG_FIELD_CONDITION_ACC, FLIGHT_LOG_FIELD_CONDITION_DEBUG,
      FLIGHT_LOG_FIELD_UNSIGNED, FLIGHT_LOG_FIELD_SIGNED,
      r0, r1, r2, r3, r4, r8, List.map_cons, List.map_nil, List.filter_append, List.map_append,
      filter_cons_ite, filter_ite_nil, map_ite_nil, List.filter_nil,
      payloadFields_append, payloadFields_cons, payloadFields_nil, payloadFields_ite,
      Write.fields, Src.fieldName, FlightLogFieldEncoding.wire, ite_and_nil, ite_cons_cons,
      ite_append_nil, hA, hM0, hM1, hM2, hM3, Nat.reduceAdd, if_true, if_false,
      List.append_assoc, List.nil_append, List.append_nil, List.cons_append, List.singleton_append,
      Nat.cast_ofNat, Nat.cast_zero, Nat.cast_one, Bool.false_eq_true,
      ne_eq, reduceCtorEq, not_false_eq_true, not_true_eq_false, decide_True, decide_False]

/-! ### Header emission -/

theorem headerOnly_refl (s : State) : s.headerOnly s := ⟨rfl, rfl, rfl, fun _ => rfl⟩

theorem headerOnly_trans {s t u : State} (h1 : s.headerOnly t) (h2 : t.headerOnly u) :
    s.headerOnly u :=
  ⟨h2.1.trans h1.1, h2.2.1.trans h1.2.1, h2.2.2.1.trans h1.2.2.1,
    fun c => (h2.2.2.2 c).trans (h1.2.2.2 c)⟩

theorem headerOnly_writeHeader (s : State) (w : Write) : s.headerOnly (s.writeHeader w) := by
  refine ⟨rfl, rfl, rfl, fun c => ?_⟩
  simp [State.writeHeader, State.frames, List.countP_append, LogItem.marker?]

theorem headerOnly_reserve (e : Env) (n : Nat) (s : State) :
    s.headerOnly (blackboxDeviceReserveBufferSpace e n s).1 := ⟨rfl, rfl, rfl, fun _ => rfl⟩

theorem headerOnly_setHeaderBudget (s : State) (v : Int) : s.headerOnly (s.setHeaderBudget v) :=
  ⟨rfl, rfl, rfl, fun _ => rfl⟩

theorem headerOnly_setU (s : State) (v : Nat) : s.headerOnly (s.setU v) :=
  ⟨rfl, rfl, rfl, fun _ => rfl⟩

theorem headerOnly_setHeaderIndex (s : State) (v : Nat) : s.headerOnly (s.setHeaderIndex v) :=
  ⟨rfl, rfl, rfl, fun _ => rfl⟩

theorem headerOnly_setNeedComma (s : State) (v : Bool) : s.headerOnly (s.setNeedComma v) :=
  ⟨rfl, rfl, rfl, fun _ => rfl⟩

theorem headerOnly_setCacheFlushNextState (s : State) (v : BlackboxState) :
    s.headerOnly (s.setCacheFlushNextState v) :=
  ⟨rfl, rfl, rfl, fun _ => rfl⟩

theorem headerOnly_field (fd : blackboxFieldDefinition_t) (n : Nat) (s : State) :
    s.headerOnly (sendFieldDefinition.field fd n s) := by
  have h2 := headerOnly_setHeaderBudget s (s.blackboxHeaderBudget - n)
  unfold sendFieldDefinition.field
  dsimp only
  generalize s.setHeaderBudget (s.blackboxHeaderBudget - n) = s2 at *
  have h3 : s2.headerOnly
      (if s2.needComma = true then s2.writeHeader (Write.byte ','.toNat)
        else s2.setNeedComma true) := by
    split_ifs
    · exact headerOnly_writeHeader _ _
    · exact headerOnly_setNeedComma _ _
  generalize (if s2.needComma = true then s2.writeHeader (Write.byte ','.toNat)
        else s2.setNeedComma true) = s3 at *
  refine headerOnly_trans (headerOnly_trans (headerOnly_trans h2 h3) ?_) (headerOnly_setU _ _)
  split_ifs
  · exact headerOnly_trans (headerOnly_writeHeader _ _) (headerOnly_writeHeader _ _)
  · exact headerOnly_writeHeader _ _
  · exact headerOnly_writeHeader _ _

theorem headerOnly_loop (e : Env) (defs : List blackboxFieldDefinition_t)
    (conds : Option (List Nat)) (fuel : Nat) (s : State) :
    s.headerOnly (sendFieldDefinition.loop e defs conds fuel s).1 := by
  induction fuel generalizing s with
  | zero => exact headerOnly_refl s
  | succ fuel ih =>
    unfold sendFieldDefinition.loop
    dsimp only
    split_ifs <;>
      first
      | exact headerOnly_refl s
      | exact headerOnly_reserve _ _ _
      | exact headerOnly_trans (headerOnly_setU _ _) (ih _)
      | exact headerOnly_trans
          (headerOnly_trans (headerOnly_reserve _ _ _) (headerOnly_field _ _ _)) (ih _)

theorem headerOnly_fst {α : Type} {s t : State} (x : α) (h : s.headerOnly t) :
    s.headerOnly (t, x).1 := h

theorem headerOnly_start_chain (s r : State) (h : s.headerOnly r) (w : Write) (a : Int → Int)
    (u : Nat → Nat) :
    s.headerOnly ((((r.writeHeader w).setHeaderBudget (a (r.writeHeader w).blackboxHeaderBudget)).setU
      (u (r.writeHeader w).u)).setNeedComma false) := by
  refine headerOnly_trans ?_ (headerOnly_setNeedComma _ _)
  refine headerOnly_trans ?_ (headerOnly_setU _ _)
  refine headerOnly_trans ?_ (headerOnly_setHeaderBudget _ _)
  exact headerOnly_trans h (headerOnly_writeHeader _ _)

theorem headerOnly_start (e : Env) (c1 c2 : Char) (n : Nat) (s : State) :
    s.headerOnly (sendFieldDefinition.start e c1 c2 n s).1 := by
  unfold sendFieldDefinition.start
  dsimp only
  split_ifs
  · exact headerOnly_fst _ (headerOnly_refl s)
  · exact headerOnly_fst _ (headerOnly_reserve _ _ _)
  · exact headerOnly_fst _ (headerOnly_start_chain s _ (headerOnly_reserve _ _ _) _
      (fun x => x - _) (fun x => (x + 1) % 4294967296))
  · exact headerOnly_fst _ (headerOnly_start_chain s _ (headerOnly_reserve _ _ _) _
      (fun x => x - _) (fun x => (x + 1) % 4294967296))
  · exact headerOnly_fst _ (headerOnly_refl s)

theorem headerOnly_finish (e : Env) (n : Int) (s : State) :
    s.headerOnly (sendFieldDefinition.finish e n s) := by
  unfold sendFieldDefinition.finish
  dsimp only
  split_ifs
  · refine headerOnly_trans ?_ (headerOnly_setU _ _)
    refine headerOnly_trans ?_ (headerOnly_setHeaderIndex _ _)
    refine headerOnly_trans ?_ (headerOnly_setHeaderBudget _ _)
    refine headerOnly_trans ?_ (headerOnly_writeHeader _ _)
    exact headerOnly_reserve _ _ _
  · exact headerOnly_reserve _ _ _
  · exact headerOnly_refl s

theorem headerOnly_sendFieldDefinition (e : Env) (c1 c2 : Char)
    (defs : List blackboxFieldDefinition_t) (conds : Option (List Nat)) (s : State) :
    s.headerOnly (sendFieldDefinition e c1 c2 defs conds s).1 := by
  unfold sendFieldDefinition
  dsimp only
  split
  · exact headerOnly_start _ _ _ _ _
  · split_ifs
    · exact headerOnly_fst _ (headerOnly_trans (headerOnly_start _ _ _ _ _) (headerOnly_loop _ _ _ _ _))
    · exact headerOnly_fst _ (headerOnly_trans
        (headerOnly_trans (headerOnly_start _ _ _ _ _) (headerOnly_loop _ _ _ _ _))
        (headerOnly_finish _ _ _))
    · exact headerOnly_fst _ (headerOnly_trans (headerOnly_start _ _ _ _ _) (headerOnly_loop _ _ _ _ _))
    · exact headerOnly_fst _ (headerOnly_trans
        (headerOnly_trans (headerOnly_start _ _ _ _ _) (headerOnly_loop _ _ _ _ _))
        (headerOnly_finish _ _ _))

theorem headerOnly_blackboxPrintfHeaderLine (text : String) (s : State) :
    s.headerOnly (blackboxPrintfHeaderLine text s) :=
  headerOnly_trans (headerOnly_writeHeader _ _) (headerOnly_setHeaderBudget _ _)

theorem headerOnly_blackboxWriteSysinfo (b : Build) (e : Env) (s : State) :
    s.headerOnly (blackboxWriteSysinfo b e s).1 := by
  unfold blackboxWriteSysinfo
  dsimp only
  split
  · exact headerOnly_fst _ (headerOnly_reserve _ _ _)
  · split
    · exact headerOnly_fst _ (headerOnly_reserve _ _ _)
    · refine headerOnly_fst _ ?_
      refine headerOnly_trans ?_ (headerOnly_setHeaderIndex _ _)
      refine headerOnly_trans (headerOnly_reserve e 64 s) ?_
      split_ifs
      · exact headerOnly_blackboxPrintfHeaderLine _ _
      · exact headerOnly_setHeaderIndex _ _
      · exact headerOnly_blackboxPrintfHeaderLine _ _
      · exact headerOnly_refl _
      · exact headerOnly_blackboxPrintfHeaderLine _ _

theorem headerOnly_sendHeader (s : State) : s.headerOnly (blackboxUpdate.sendHeader s) := by
  refine ⟨rfl, rfl, rfl, fun c => ?_⟩
  simp only [blackboxUpdate.sendHeader, State.frames, List.countP_append]
  have : List.countP (fun x => x.marker? == some c)
      (List.map (fun c => LogItem.header (Write.byte c.toNat))
        (List.take BLACKBOX_TARGET_HEADER_BUDGET_PER_ITERATION
          (List.drop s.headerIndex blackboxHeader.toList))) = 0 := by
    rw [List.countP_eq_zero]
    intro x hx
    rw [List.mem_map] at hx
    obtain ⟨a, _, rfl⟩ := hx
    simp [LogItem.marker?]
  rw [this, Nat.add_zero]

/-! ### State machine -/

theorem quiet_refl (s : State) : s.quiet s := ⟨rfl, rfl, fun _ => rfl⟩

theorem quiet_trans {s t u : State} (h1 : s.quiet t) (h2 : t.quiet u) : s.quiet u :=
  ⟨h2.1.trans h1.1, h2.2.1.trans h1.2.1,
    fun hp => (h2.2.2 (h1.1.trans hp)).trans (h1.2.2 hp)⟩

theorem keepsRatio_refl (s : State) : s.keepsRatio s := ⟨rfl, fun _ => rfl⟩

theorem keepsRatio_trans {s t u : State} (h1 : s.keepsRatio t) (h2 : t.keepsRatio u) :
    s.keepsRatio u :=
  ⟨h2.1.trans h1.1, fun hp => (h2.2 (h1.1.trans hp)).trans (h1.2 hp)⟩

theorem keepsRatio_of_quiet {s t : State} (h : s.quiet t) : s.keepsRatio t := ⟨h.1, h.2.2⟩

theorem quiet_of_headerOnly {s t : State} (h : s.headerOnly t) : s.quiet t :=
  ⟨by rw [h.1], h.2.1, fun _ => h.2.2.2 'P'⟩

theorem quiet_of_fixed {s t : State} (h : t.fixed = s.fixed)
    (hf : s.blackboxConfig.p_ratio = 0 → t.frames 'P' = s.frames 'P') : s.quiet t :=
  ⟨by rw [fixed_config h], fixed_cache h, hf⟩

theorem quiet_blackboxSetState (e : Env) (st : BlackboxState) (s : State) :
    s.quiet (blackboxSetState e st s) := by
  cases st <;> exact ⟨rfl, rfl, fun _ => rfl⟩

theorem blackboxSetState_state (e : Env) (st : BlackboxState) (s : State) :
    (blackboxSetState e st s).blackboxState = st := by
  cases st <;> rfl

theorem quiet_pushDeviceOp (s : State) (op : DeviceOp) : s.quiet (s.pushDeviceOp op) :=
  ⟨rfl, rfl, fun _ => rfl⟩

theorem quiet_setStartedLoggingInTestMode (s : State) (v : Bool) :
    s.quiet (s.setStartedLoggingInTestMode v) := ⟨rfl, rfl, fun _ => rfl⟩

theorem quiet_blackboxLogEvent (event : Nat) (data : flightLogEventData_t) (s : State) :
    s.quiet (blackboxLogEvent event data s) :=
  quiet_of_fixed (fixed_blackboxLogEvent _ _ _)
    (fun _ => frames_blackboxLogEvent _ _ _ _ (Or.inr rfl))

theorem advance_cache (s : State) :
    (blackboxAdvanceIterationTimers s).blackboxConditionCache = s.blackboxConditionCache := by
  unfold blackboxAdvanceIterationTimers
  dsimp only
  split_ifs <;> rfl

theorem advance_state (s : State) :
    (blackboxAdvanceIterationTimers s).blackboxState = s.blackboxState := by
  unfold blackboxAdvanceIterationTimers
  dsimp only
  split_ifs <;> rfl

theorem quiet_advance (s : State) : s.quiet (blackboxAdvanceIterationTimers s) :=
  ⟨by rw [advance_config], advance_cache s, fun _ => frames_advance s 'P'⟩

theorem shouldLogPFrame_of_p_ratio_zero (s : State) (hp : s.blackboxConfig.p_ratio = 0) :
    blackboxShouldLogPFrame s = false := by
  unfold blackboxShouldLogPFrame
  rw [hp]
  simp

theorem quiet_blackboxLogIteration (b : Build) (e : Env) (s : State) :
    s.quiet (blackboxLogIteration b e s) := by
  refine quiet_of_fixed (fixed_blackboxLogIteration b e s) (fun hp => ?_)
  rw [frames_blackboxLogIteration_P, shouldLogPFrame_of_p_ratio_zero s hp]
  simp

theorem quiet_blackboxFinish (e : Env) (s : State) : s.quiet (blackboxFinish e s) := by
  unfold blackboxFinish
  split
  all_goals first
    | exact quiet_refl s
    | exact quiet_blackboxSetState _ _ _
    | exact quiet_trans (quiet_blackboxLogEvent _ _ _) (quiet_blackboxSetState _ _ _)

theorem quiet_stopInTestMode (e : Env) (s : State) : s.quiet (stopInTestMode e s) := by
  unfold stopInTestMode
  split_ifs
  · exact quiet_trans (quiet_blackboxFinish e s) (quiet_setStartedLoggingInTestMode _ _)
  · exact quiet_refl s

theorem quiet_inMotorTestMode (e : Env) (s : State) : s.quiet (inMotorTestMode e s).1 := by
  unfold inMotorTestMode
  split_ifs
  · refine ⟨?_, ?_, fun _ => ?_⟩
    · rfl
    · rfl
    · unfold State.frames
      rfl
  · exact quiet_refl s

theorem inMotorTestMode_state (e : Env) (s : State) :
    (inMotorTestMode e s).1.blackboxState = s.blackboxState := by
  unfold inMotorTestMode
  split_ifs <;> rfl

theorem blackboxValidateConfig_keeps (b : Build) (s : State) :
    (blackboxValidateConfig b s).blackboxConfig.p_ratio = s.blackboxConfig.p_ratio
      ∧ (blackboxValidateConfig b s).log = s.log := by
  unfold blackboxValidateConfig
  split_ifs <;> exact ⟨rfl, rfl⟩

theorem keepsRatio_blackboxStart (b : Build) (e : Env) (s : State) :
    s.keepsRatio (blackboxStart b e s) := by
  obtain ⟨h1, h2⟩ := blackboxValidateConfig_keeps b s
  unfold blackboxStart
  dsimp only
  generalize blackboxValidateConfig b s = s1 at h1 h2
  have hf : ∀ t : State, t.log = s1.log → t.frames 'P' = s.frames 'P' := by
    intro t ht
    unfold State.frames
    rw [ht, h2]
  split_ifs
  · have h := quiet_blackboxSetState e .DISABLED s1
    exact ⟨h.1.trans h1, fun _ => hf _ (by cases s1; rfl)⟩
  · refine ⟨(quiet_blackboxSetState e .PREPARE_LOG_FILE _).1.trans h1, fun _ => hf _ ?_⟩
    rfl

theorem keepsRatio_startInTestMode (b : Build) (e : Env) (s : State) :
    s.keepsRatio (startInTestMode b e s) := by
  unfold startInTestMode
  split_ifs
  · exact keepsRatio_refl s
  · exact keepsRatio_trans (keepsRatio_blackboxStart b e s)
      (keepsRatio_of_quiet (quiet_setStartedLoggingInTestMode _ _))
  · exact keepsRatio_refl s

theorem quiet_setHeaderBudget (s : State) (v : Int) : s.quiet (s.setHeaderBudget v) :=
  quiet_of_headerOnly (headerOnly_setHeaderBudget s v)

theorem quiet_sendFieldDefinition (e : Env) (c1 c2 : Char)
    (defs : List blackboxFieldDefinition_t) (conds : Option (List Nat)) (s : State) (v : Int) :
    s.quiet (sendFieldDefinition e c1 c2 defs conds (s.setHeaderBudget v)).1 :=
  quiet_trans (quiet_setHeaderBudget s v)
    (quiet_of_headerOnly (headerOnly_sendFieldDefinition e c1 c2 defs conds _))

theorem quiet_setCacheFlushNextState (s : State) (v : BlackboxState) :
    s.quiet (s.setCacheFlushNextState v) :=
  quiet_of_headerOnly (headerOnly_setCacheFlushNextState s v)

theorem quiet_switch (b : Build) (e : Env) (s : State) (hs : s.blackboxState ≠ .STOPPED) :
    s.quiet (blackboxUpdate.switch b e s) := by
  unfold blackboxUpdate.switch
  split
  · exact absurd (by assumption) hs
  · -- PREPARE_LOG_FILE
    split_ifs
    · exact quiet_blackboxSetState _ _ _
    · exact quiet_refl s
  · -- SEND_HEADER
    dsimp only
    have h1 := quiet_setHeaderBudget s (e.replenishHeaderBudget s.blackboxHeaderBudget)
    have h2 := quiet_trans h1 (quiet_of_headerOnly (headerOnly_reserve e
      BLACKBOX_TARGET_HEADER_BUDGET_PER_ITERATION _))
    have h3 := quiet_trans h2 (quiet_of_headerOnly (headerOnly_sendHeader _))
    split_ifs
    · exact quiet_trans h3 (quiet_blackboxSetState _ _ _)
    · exact h3
    · exact h2
    · exact h1
  · -- SEND_MAIN_FIELD_HEADER
    dsimp only
    split_ifs
    · exact quiet_trans (quiet_sendFieldDefinition _ _ _ _ _ _ _) (quiet_blackboxSetState _ _ _)
    · exact quiet_trans (quiet_sendFieldDefinition _ _ _ _ _ _ _) (quiet_blackboxSetState _ _ _)
    · exact quiet_sendFieldDefinition _ _ _ _ _ _ _
  · -- SEND_GPS_H_HEADER
    dsimp only
    split_ifs
    · exact quiet_trans (quiet_sendFieldDefinition _ _ _ _ _ _ _) (quiet_blackboxSetState _ _ _)
    · exact quiet_sendFieldDefinition _ _ _ _ _ _ _
    · exact quiet_refl s
  · -- SEND_GPS_G_HEADER
    dsimp only
    split_ifs
    · exact quiet_trans (quiet_sendFieldDefinition _ _ _ _ _ _ _) (quiet_blackboxSetState _ _ _)
    · exact quiet_sendFieldDefinition _ _ _ _ _ _ _
    · exact quiet_refl s
  · -- SEND_SLOW_HEADER
    dsimp only
    split_ifs
    · exact quiet_trans (quiet_trans (quiet_sendFieldDefinition _ _ _ _ _ _ _)
        (quiet_setCacheFlushNextState _ _)) (quiet_blackboxSetState _ _ _)
    · exact quiet_sendFieldDefinition _ _ _ _ _ _ _
  · -- SEND_SYSINFO
    dsimp only
    have h1 := quiet_setHeaderBudget s (e.replenishHeaderBudget s.blackboxHeaderBudget)
    have h2 := quiet_trans h1 (quiet_of_headerOnly (headerOnly_blackboxWriteSysinfo b e _))
    split_ifs
    · exact quiet_trans (quiet_trans h2 (quiet_setCacheFlushNextState _ _))
        (quiet_blackboxSetState _ _ _)
    · exact h2
  · -- CACHE_FLUSH
    split_ifs
    · exact quiet_blackboxSetState _ _ _
    · exact quiet_refl s
  · -- PAUSED
    dsimp only
    refine quiet_trans ?_ (quiet_advance _)
    split_ifs
    · exact quiet_trans (quiet_trans (quiet_blackboxLogEvent _ _ _) (quiet_blackboxSetState _ _ _))
        (quiet_blackboxLogIteration _ _ _)
    · exact quiet_refl s
  · -- RUNNING
    dsimp only
    refine quiet_trans ?_ (quiet_advance _)
    split_ifs
    · exact quiet_blackboxSetState _ _ _
    · exact quiet_blackboxLogIteration _ _ _
  · -- SHUTTING_DOWN
    split_ifs
    · exact quiet_trans (quiet_pushDeviceOp _ _) (quiet_blackboxSetState _ _ _)
    · exact quiet_refl s
  · -- START_ERASE
    split_ifs
    · exact quiet_trans (quiet_trans (quiet_pushDeviceOp _ _) (quiet_blackboxSetState _ _ _))
        (quiet_pushDeviceOp _ _)
    · exact quiet_refl s
  · -- ERASING
    split_ifs
    · exact quiet_trans (quiet_blackboxSetState _ _ _) (quiet_pushDeviceOp _ _)
    · exact quiet_refl s
    · exact quiet_refl s
  · -- ERASED
    split_ifs
    · exact quiet_blackboxSetState _ _ _
    · exact quiet_refl s
    · exact quiet_refl s
  · exact quiet_refl s

theorem keepsRatio_switch (b : Build) (e : Env) (s : State) :
    s.keepsRatio (blackboxUpdate.switch b e s) := by
  by_cases hs : s.blackboxState = .STOPPED
  · unfold blackboxUpdate.switch
    rw [hs]
    dsimp only
    have h1 : s.keepsRatio (if e.armed = true then
        blackboxStart b e (s.pushDeviceOp DeviceOp.blackboxOpen) else s) := by
      split_ifs
      · exact keepsRatio_trans (keepsRatio_of_quiet (quiet_pushDeviceOp _ _))
          (keepsRatio_blackboxStart _ _ _)
      · exact keepsRatio_refl s
    generalize (if e.armed = true then
        blackboxStart b e (s.pushDeviceOp DeviceOp.blackboxOpen) else s) = s1 at h1
    split_ifs
    · exact keepsRatio_trans h1 (keepsRatio_of_quiet (quiet_blackboxSetState _ _ _))
    · exact h1
  · exact keepsRatio_of_quiet (quiet_switch b e s hs)

theorem keepsRatio_finish (b : Build) (e : Env) (s : State) :
    s.keepsRatio (blackboxUpdate.finish b e s) := by
  unfold blackboxUpdate.finish
  dsimp only
  have hm := keepsRatio_of_quiet (quiet_inMotorTestMode e s)
  split_ifs
  · exact keepsRatio_of_quiet (quiet_trans (quiet_blackboxSetState _ _ _)
      (quiet_setStartedLoggingInTestMode _ _))
  · exact keepsRatio_of_quiet (quiet_blackboxSetState _ _ _)
  · exact keepsRatio_refl s
  · exact keepsRatio_trans hm (keepsRatio_startInTestMode _ _ _)
  · exact hm
  · exact keepsRatio_trans hm (keepsRatio_of_quiet (quiet_stopInTestMode _ _))
  · exact hm
  · exact keepsRatio_startInTestMode _ _ _
  · exact keepsRatio_refl s
  · exact keepsRatio_refl s

theorem quiet_finish (b : Build) (e : Env) (s : State) (hs : s.blackboxState ≠ .STOPPED) :
    s.quiet (blackboxUpdate.finish b e s) := by
  unfold blackboxUpdate.finish
  dsimp only
  have hm := quiet_inMotorTestMode e s
  have hst := inMotorTestMode_state e s
  split_ifs with h1 h2 h3 h4 h5 h6
  · exact quiet_trans (quiet_blackboxSetState _ _ _) (quiet_setStartedLoggingInTestMode _ _)
  · exact quiet_blackboxSetState _ _ _
  · exact quiet_refl s
  · exact absurd (hst ▸ h6) hs
  · exact hm
  · exact quiet_trans hm (quiet_stopInTestMode _ _)
  · exact hm
  · exact quiet_refl s
  · exact quiet_refl s

theorem keepsRatio_blackboxUpdate (b : Build) (e : Env) (s : State) :
    s.keepsRatio (blackboxUpdate b e s) :=
  keepsRatio_trans (keepsRatio_switch b e s) (keepsRatio_finish b e _)

theorem quiet_blackboxUpdate (b : Build) (e : Env) (s : State)
    (h1 : s.blackboxState ≠ .STOPPED)
    (h2 : (blackboxUpdate.switch b e s).blackboxState ≠ .STOPPED) :
    s.quiet (blackboxUpdate b e s) :=
  quiet_trans (quiet_switch b e s h1) (quiet_finish b e _ h2)

theorem keepsRatio_apply (b : Build) (op : Op) (s : State) : s.keepsRatio (op.apply b s) := by
  cases op with
  | update e => exact keepsRatio_blackboxUpdate b e s
  | logEvent event data => exact keepsRatio_of_quiet (quiet_blackboxLogEvent event data s)
  | finish e => exact keepsRatio_of_quiet (quiet_blackboxFinish e s)
  | logIteration e => exact keepsRatio_of_quiet (quiet_blackboxLogIteration b e s)

theorem keepsRatio_runOps (b : Build) (ops : List Op) (s : State) :
    s.keepsRatio (runOps b ops s) := by
  induction ops generalizing s with
  | nil => exact keepsRatio_refl s
  | cons op ops ih => exact keepsRatio_trans (keepsRatio_apply b op s) (ih _)

theorem quiet_runOps (b : Build) (ops : List Op) (s : State)
    (h : sessionContinues b ops s = true) : s.quiet (runOps b ops s) := by
  induction ops generalizing s with
  | nil => exact quiet_refl s
  | cons op ops ih =>
    unfold sessionContinues at h
    rw [Bool.and_eq_true] at h
    refine quiet_trans ?_ (ih _ h.2)
    cases op with
    | update e =>
      have h1 := h.1
      simp only [Bool.and_eq_true, bne_iff_ne, ne_eq] at h1
      exact quiet_blackboxUpdate b e s h1.1 h1.2
    | logEvent event data => exact quiet_blackboxLogEvent event data s
    | finish e => exact quiet_blackboxFinish e s
    | logIteration e => exact quiet_blackboxLogIteration b e s

/-! ### Values of the inter frame -/

theorem toInt32_emod (n : Nat) : toInt32 n % 4294967296 = (n : Int) % 4294967296 := by
  unfold toInt32
  split_ifs <;> omega

theorem toInt32_range (n : Nat) : -2147483648 ≤ toInt32 n ∧ toInt32 n ≤ 2147483647 := by
  unfold toInt32
  split_ifs <;> omega

theorem wrapInt32_emod (x : Int) : wrapInt32 x % 4294967296 = x % 4294967296 := by
  unfold wrapInt32
  rw [toInt32_emod, toU32_cast]
  exact Int.emod_emod_of_dvd _ (by norm_num)

theorem wrapInt32_range (x : Int) : -2147483648 ≤ wrapInt32 x ∧ wrapInt32 x ≤ 2147483647 :=
  toInt32_range _

theorem wrapInt32_of_range (x : Int) (h1 : -2147483648 ≤ x) (h2 : x ≤ 2147483647) :
    wrapInt32 x = x := by
  have h := wrapInt32_emod x
  have hr := wrapInt32_range x
  omega

theorem wrapInt32_eq_iff (x : Int) : wrapInt32 x = x ↔ -2147483648 ≤ x ∧ x ≤ 2147483647 := by
  constructor
  · intro h
    have hr := wrapInt32_range x
    rw [h] at hr
    exact hr
  · exact fun h => wrapInt32_of_range x h.1 h.2

theorem time_delta_reconstructs (t0 t1 t2 : Nat) (h0 : t0 < 4294967296) :
    toU32 (toInt32 (toU32 ((t0 : Int) - 2 * (t1 : Int) + (t2 : Int)))
      + (2 * (t1 : Int) - (t2 : Int))) = t0 := by
  have h := wrapInt32_emod ((t0 : Int) - 2 * (t1 : Int) + (t2 : Int))
  unfold wrapInt32 at h
  have hc := toU32_cast (toInt32 (toU32 ((t0 : Int) - 2 * (t1 : Int) + (t2 : Int)))
      + (2 * (t1 : Int) - (t2 : Int)))
  generalize toInt32 (toU32 ((t0 : Int) - 2 * (t1 : Int) + (t2 : Int))) = v at *
  generalize toU32 (v + (2 * (t1 : Int) - (t2 : Int))) = r at *
  omega

theorem interframe_time_mem (b : Build) (e : Env) (s : State) :
    Write.signedVB ⟨.time, toInt32 (toU32
      (((s.history 0).time : Int) - 2 * ((s.history 1).time : Int) + ((s.history 2).time : Int)))⟩
      ∈ writeInterframe.payload b e s := by
  simp [writeInterframe.payload]

theorem interframe_time_unique (b : Build) (e : Env) (s : State) :
    ∀ w ∈ writeInterframe.payload b e s, ∀ v ∈ w.vals, v.src = Src.time →
      v.value = toInt32 (toU32 (((s.history 0).time : Int) - 2 * ((s.history 1).time : Int)
        + ((s.history 2).time : Int))) := by
  simp only [writeInterframe.payload, writeInterframe.optionalDeltas,
    blackboxWriteSignedVBArray, blackboxWriteMainStateArrayUsingAveragePredictor]
  simp only [List.forall_mem_append, List.forall_mem_cons, forall_mem_ite_nil]
  simp [Write.vals]
  refine ⟨?_, ?_⟩
  · rintro x i _ _ rfl v hv
    simp only [List.mem_singleton] at hv
    subst hv
    simp
  · rintro v (⟨_, rfl⟩ | ⟨_, rfl⟩ | ⟨_, a, _, rfl⟩ | ⟨_, rfl⟩ | ⟨_, rfl⟩ | ⟨_, rfl⟩) <;> simp
theorem interframe_average (b : Build) (e : Env) (s : State) :
    ∀ w ∈ writeInterframe.payload b e s, ∀ v ∈ w.vals, v.src.predictedFromAverage = true →
      v.value = (s.history 0).member v.src
        - Int.tdiv ((s.history 1).member v.src + (s.history 2).member v.src) 2 := by
  simp only [writeInterframe.payload, writeInterframe.optionalDeltas,
    blackboxWriteSignedVBArray, blackboxWriteMainStateArrayUsingAveragePredictor]
  simp only [List.forall_mem_append, List.forall_mem_cons, forall_mem_ite_nil]
  simp [Write.vals]
  repeat' apply And.intro
  all_goals first
    | (intros
       simp_all [Src.predictedFromAverage, blackboxMainState_t.member]
       done)
    | (rintro x i _ _ rfl v hv
       simp only [List.mem_singleton] at hv
       subst hv
       simp [Src.predictedFromAverage])
    | (rintro v (⟨_, rfl⟩ | ⟨_, rfl⟩ | ⟨_, a, _, rfl⟩ | ⟨_, rfl⟩ | ⟨_, rfl⟩ | ⟨_, rfl⟩) <;>
        simp [Src.predictedFromAverage])

theorem interframe_previous (b : Build) (e : Env) (s : State) :
    ∀ w ∈ writeInterframe.payload b e s, ∀ v ∈ w.vals, v.src.predictedFromPrevious = true →
      v.value = if v.src.isInt32Member then
          wrapInt32 ((s.history 0).member v.src - (s.history 1).member v.src)
        else (s.history 0).member v.src - (s.history 1).member v.src := by
  simp only [writeInterframe.payload, writeInterframe.optionalDeltas,
    blackboxWriteSignedVBArray, blackboxWriteMainStateArrayUsingAveragePredictor, arraySubInt32]
  simp only [List.forall_mem_append, List.forall_mem_cons, forall_mem_ite_nil]
  simp [Write.vals]
  repeat' apply And.intro
  all_goals first
    | (intros
       simp_all [Src.predictedFromPrevious, Src.isInt32Member, blackboxMainState_t.member]
       done)
    | (rintro x i _ _ rfl v hv
       simp only [List.mem_singleton] at hv
       subst hv
       simp [Src.predictedFromPrevious, Src.isInt32Member, blackboxMainState_t.member])
    | (rintro v (⟨_, rfl⟩ | ⟨_, rfl⟩ | ⟨_, a, _, rfl⟩ | ⟨_, rfl⟩ | ⟨_, rfl⟩ | ⟨_, rfl⟩) <;>
        simp [Src.predictedFromPrevious, Src.isInt32Member, blackboxMainState_t.member])

theorem interframe_gyro_mem (b : Build) (e : Env) (s : State) (i : Nat) (hi : i < XYZ_AXIS_COUNT) :
    Write.signedVB ⟨.gyroADC i, (s.history 0).gyroADC i
        - Int.tdiv ((s.history 1).gyroADC i + (s.history 2).gyroADC i) 2⟩
      ∈ writeInterframe.payload b e s := by
  simp only [writeInterframe.payload, blackboxWriteMainStateArrayUsingAveragePredictor]
  simp only [List.mem_append, List.mem_map, List.mem_range]
  exact Or.inl (Or.inl (Or.inl (Or.inl (Or.inl (Or.inr ⟨i, hi, rfl⟩)))))

theorem interframe_headspeed_mem (b : Build) (e : Env) (s : State) :
    Write.signedVB ⟨.headspeed, ((s.history 0).headspeed : Int) - (s.history 1).headspeed⟩
      ∈ writeInterframe.payload b e s := by
  simp [writeInterframe.payload]

theorem interframe_axisPID_P_mem (b : Build) (e : Env) (s : State) (i : Nat)
    (hi : i < XYZ_AXIS_COUNT) :
    Write.signedVB ⟨.axisPID_P i,
        wrapInt32 ((s.history 0).axisPID_P i - (s.history 1).axisPID_P i)⟩
      ∈ writeInterframe.payload b e s := by
  simp only [writeInterframe.payload, blackboxWriteSignedVBArray, arraySubInt32]
  simp only [List.mem_append, List.mem_map, List.mem_range, List.mem_cons]
  simp only [or_assoc]
  exact Or.inr (Or.inr (Or.inl ⟨i, hi, rfl⟩))

theorem interframe_accADC_mem (b : Build) (e : Env) (s : State)
    (hc : testBlackboxCondition s FLIGHT_LOG_FIELD_CONDITION_ACC = true) (i : Nat)
    (hi : i < XYZ_AXIS_COUNT) :
    Write.signedVB ⟨.accADC i, (s.history 0).accADC i
        - Int.tdiv ((s.history 1).accADC i + (s.history 2).accADC i) 2⟩
      ∈ writeInterframe.payload b e s := by
  simp only [writeInterframe.payload, blackboxWriteMainStateArrayUsingAveragePredictor, hc,
    if_true]
  simp only [List.mem_append, List.mem_map, List.mem_range]
  exact Or.inl (Or.inl (Or.inl (Or.inl (Or.inr ⟨i, hi, rfl⟩))))

theorem interframe_debug_mem (b : Build) (e : Env) (s : State)
    (hc : testBlackboxCondition s FLIGHT_LOG_FIELD_CONDITION_DEBUG = true) (i : Nat)
    (hi : i < DEBUG16_VALUE_COUNT) :
    Write.signedVB ⟨.debug i, (s.history 0).debug i
        - Int.tdiv ((s.history 1).debug i + (s.history 2).debug i) 2⟩
      ∈ writeInterframe.payload b e s := by
  simp only [writeInterframe.payload, blackboxWriteMainStateArrayUsingAveragePredictor, hc,
    if_true]
  simp only [List.mem_append, List.mem_map, List.mem_range]
  exact Or.inl (Or.inr ⟨i, hi, rfl⟩)

theorem tdiv_two_bounds (x : Int) :
    (0 ≤ x → 2 * Int.tdiv x 2 ≤ x ∧ x < 2 * Int.tdiv x 2 + 2)
    ∧ (x < 0 → 2 * Int.tdiv x 2 - 2 < x ∧ x ≤ 2 * Int.tdiv x 2) := by
  constructor
  · intro h
    rw [Int.tdiv_eq_ediv h (by norm_num)]
    omega
  · intro h
    have h1 : Int.tdiv x 2 = -(Int.tdiv (-x) 2) := by
      rw [Int.neg_tdiv, neg_neg]
    rw [h1, Int.tdiv_eq_ediv (by omega) (by norm_num)]
    omega

/-! ### History rotation -/

theorem succ_mod_three_ne (a : Nat) : (a + 1) % 3 ≠ a := by omega

theorem loadMainState_blackboxHistory (b : Build) (e : Env) (s : State) :
    (loadMainState b e s).blackboxHistory = s.blackboxHistory := rfl

theorem loadMainState_history_of_ne (b : Build) (e : Env) (s : State) (g : Nat)
    (h : s.blackboxHistory g ≠ s.blackboxHistory 0) :
    (loadMainState b e s).history g = s.history g := by
  simp only [State.history, loadMainState, if_neg h]

theorem loadMainState_ring_of_ne (b : Build) (e : Env) (s : State) (j : Nat)
    (h : j ≠ s.blackboxHistory 0) :
    (loadMainState b e s).blackboxHistoryRing j = s.blackboxHistoryRing j := by
  simp only [loadMainState, if_neg h]

theorem mainFrameWrite_blackboxHistory_zero (b : Build) (k : Bool) (e : Env) (s : State) :
    (mainFrameWrite b k e s).blackboxHistory 0 = (s.blackboxHistory 0 + 1) % 3 := by
  cases k <;> rfl

theorem mainFrameWrite_blackboxHistory_one (b : Build) (k : Bool) (e : Env) (s : State) :
    (mainFrameWrite b k e s).blackboxHistory 1 = s.blackboxHistory 0 := by
  cases k <;> rfl

theorem mainFrameWrite_ring (b : Build) (k : Bool) (e : Env) (s : State) :
    (mainFrameWrite b k e s).blackboxHistoryRing = (loadMainState b e s).blackboxHistoryRing := by
  cases k <;> rfl

theorem mainFrameWrite_history_one (b : Build) (k : Bool) (e : Env) (s : State) :
    (mainFrameWrite b k e s).history 1 = (loadMainState b e s).history 0 := by
  cases k <;> rfl

theorem mainFrameWrite_intra_history_two (b : Build) (e : Env) (s : State) :
    (mainFrameWrite b true e s).history 2 = (loadMainState b e s).history 0 := rfl

theorem mainFrameWrite_inter_history_two (b : Build) (e : Env) (s : State) :
    (mainFrameWrite b false e s).history 2 = (loadMainState b e s).history 1 := rfl

/-- After a main-frame write and a following inter frame, generation 2 is the snapshot loaded
for the first of the two. -/
theorem two_writes_history_two (b : Build) (k : Bool) (e1 e2 : Env) (s : State) :
    (mainFrameWrite b false e2 (mainFrameWrite b k e1 s)).history 2
      = (loadMainState b e1 s).history 0 := by
  rw [mainFrameWrite_inter_history_two, loadMainState_history_of_ne, mainFrameWrite_history_one]
  rw [mainFrameWrite_blackboxHistory_one, mainFrameWrite_blackboxHistory_zero]
  exact (succ_mod_three_ne _).symm

/-- While the write after them is encoded, generation 2 is still that snapshot. -/
theorem two_writes_then_load_history_two (b : Build) (k : Bool) (e1 e2 e3 : Env) (s : State) :
    (loadMainState b e3 (mainFrameWrite b false e2 (mainFrameWrite b k e1 s))).history 2
      = (loadMainState b e1 s).history 0 := by
  rw [loadMainState_history_of_ne, two_writes_history_two]
  show (loadMainState b e2 (mainFrameWrite b k e1 s)).blackboxHistory 1
    ≠ ((loadMainState b e2 (mainFrameWrite b k e1 s)).blackboxHistory 0 + 1) % 3
  rw [loadMainState_blackboxHistory, mainFrameWrite_blackboxHistory_one,
    mainFrameWrite_blackboxHistory_zero]
  omega

theorem mainFrameWrites_append (b : Build) (ws1 ws2 : List (Bool × Env)) (s : State) :
    mainFrameWrites b (ws1 ++ ws2) s = mainFrameWrites b ws2 (mainFrameWrites b ws1 s) := by
  simp [mainFrameWrites, List.foldl_append]

theorem mainFrameWrites_pair (b : Build) (w1 w2 : Bool × Env) (s : State) :
    mainFrameWrites b [w1, w2] s = mainFrameWrite b w2.1 w2.2 (mainFrameWrite b w1.1 w1.2 s) :=
  rfl

/-! ### Slow frames and frame counts by marker -/

theorem writeSlowFrame_frames (s : State) (c : Char) :
    (writeSlowFrame s).frames c = s.frames c + if c = 'S' then 1 else 0 := by
  simp only [writeSlowFrame, State.frames, List.countP_append, List.countP_cons,
    List.countP_nil, LogItem.marker?]
  by_cases h : c = 'S'
  · subst h; simp
  · have : ¬ ('S' = c) := fun h' => h h'.symm
    simp [h, this]

theorem writeSlowFrameIfNeeded_result (e : Env) (s : State) :
    (writeSlowFrameIfNeeded e s).2 = true ↔
      (s.blackboxSlowFrameIterationTimer ≥ s.blackboxSInterval
        ∨ loadSlowState e ≠ s.slowHistory) := by
  unfold writeSlowFrameIfNeeded
  dsimp only
  split_ifs with h1 h2
  · simp [h1]
  · simp [h2]
  · simp only [Bool.false_eq_true, false_iff, not_or]
    exact ⟨h1, h2⟩

theorem writeSlowFrameIfNeeded_of_true (e : Env) (s : State)
    (h : (writeSlowFrameIfNeeded e s).2 = true) :
    (writeSlowFrameIfNeeded e s).1
      = writeSlowFrame { s with slowHistory := loadSlowState e } := by
  unfold writeSlowFrameIfNeeded at h ⊢
  dsimp only at h ⊢
  split_ifs with h1 h2
  · rfl
  · rfl
  · rw [if_neg h1, if_neg h2] at h
    exact absurd h (by simp)

theorem writeSlowFrameIfNeeded_of_false (e : Env) (s : State)
    (h : (writeSlowFrameIfNeeded e s).2 = false) :
    (writeSlowFrameIfNeeded e s).1 = s := by
  unfold writeSlowFrameIfNeeded at h ⊢
  dsimp only at h ⊢
  split_ifs with h1 h2
  · rw [if_pos h1] at h
    exact absurd h (by simp)
  · rw [if_neg h1, if_pos h2] at h
    exact absurd h (by simp)
  · rfl

theorem writeSlowFrameIfNeeded_frames (e : Env) (s : State) (c : Char) :
    (writeSlowFrameIfNeeded e s).1.frames c = s.frames c +
      if c = 'S' ∧ (s.blackboxSlowFrameIterationTimer ≥ s.blackboxSInterval
        ∨ loadSlowState e ≠ s.slowHistory) then 1 else 0 := by
  by_cases h : (s.blackboxSlowFrameIterationTimer ≥ s.blackboxSInterval
        ∨ loadSlowState e ≠ s.slowHistory)
  · rw [writeSlowFrameIfNeeded_of_true e s ((writeSlowFrameIfNeeded_result e s).2 h),
      writeSlowFrame_frames]
    simp only [h, and_true]
    rfl
  · have hf : (writeSlowFrameIfNeeded e s).2 = false := by
      rw [← Bool.not_eq_true, writeSlowFrameIfNeeded_result]
      exact h
    rw [writeSlowFrameIfNeeded_of_false e s hf]
    simp [h]

theorem blackboxLogEvent_frames (event : Nat) (data : flightLogEventData_t) (s : State)
    (c : Char) (hc : c ≠ 'E') :
    (blackboxLogEvent event data s).frames c = s.frames c := by
  have hne : ¬ ('E' = c) := fun h' => hc h'.symm
  unfold blackboxLogEvent
  split_ifs <;>
    first
    | rfl
    | simp [State.frames, List.countP_append, LogItem.marker?, hne]

theorem blackboxCheckAndLogArmingBeep_frames (e : Env) (s : State) (c : Char) (hc : c ≠ 'E') :
    (blackboxCheckAndLogArmingBeep e s).frames c = s.frames c := by
  unfold blackboxCheckAndLogArmingBeep
  dsimp only
  split_ifs
  · rw [blackboxLogEvent_frames _ _ _ _ hc]; rfl
  · rfl

theorem blackboxCheckAndLogFlightMode_frames (e : Env) (s : State) (c : Char) (hc : c ≠ 'E') :
    (blackboxCheckAndLogFlightMode e s).frames c = s.frames c := by
  unfold blackboxCheckAndLogFlightMode
  dsimp only
  split_ifs <;>
    first
    | rfl
    | (rw [blackboxLogEvent_frames _ _ _ _ hc]; rfl)
    | (rw [blackboxLogEvent_frames _ _ _ _ hc]; show State.frames (blackboxLogEvent _ _ _) c = _
       rw [blackboxLogEvent_frames _ _ _ _ hc]; rfl)

theorem writeGPSHomeFrame_frames (e : Env) (s : State) (c : Char) (hc : c ≠ 'H') :
    (writeGPSHomeFrame e s).frames c = s.frames c := by
  have : ¬ ('H' = c) := fun h' => hc h'.symm
  simp [writeGPSHomeFrame, State.frames, List.countP_append, LogItem.marker?, this]

theorem writeGPSFrame_frames (e : Env) (s : State) (c : Char) (hc : c ≠ 'G') :
    (writeGPSFrame e s).frames c = s.frames c := by
  have : ¬ ('G' = c) := fun h' => hc h'.symm
  simp [writeGPSFrame, State.frames, List.countP_append, LogItem.marker?, this]

theorem blackboxLogIteration_gps_frames (e : Env) (s : State) (c : Char) (h1 : c ≠ 'H')
    (h2 : c ≠ 'G') :
    (blackboxLogIteration.gps e s).frames c = s.frames c := by
  unfold blackboxLogIteration.gps
  split_ifs
  · rw [writeGPSFrame_frames _ _ _ h2, writeGPSHomeFrame_frames _ _ _ h1]
  · rw [writeGPSFrame_frames _ _ _ h2]
  · rfl
  · rfl

/-- The S frames of one call of `blackboxLogIteration` in intra-only logging. -/
theorem frames_blackboxLogIteration_S_intra_only (b : Build) (e : Env) (s : State)
    (hp : s.blackboxConfig.p_ratio = 0) :
    (blackboxLogIteration b e s).frames 'S' = s.frames 'S' +
      if blackboxShouldLogIFrame s = true
          ∧ (s.blackboxSlowFrameIterationTimer ≥ s.blackboxSInterval
            ∨ loadSlowState e ≠ s.slowHistory) then 1 else 0 := by
  have hE : ('S' : Char) ≠ 'E' := by decide
  have hH : ('S' : Char) ≠ 'H' := by decide
  have hG : ('S' : Char) ≠ 'G' := by decide
  have honly : blackboxIsOnlyLoggingIntraframes s = true := by
    simp [blackboxIsOnlyLoggingIntraframes, hp]
  unfold blackboxLogIteration
  dsimp only
  rw [frames_pushDeviceOp]
  by_cases hI : blackboxShouldLogIFrame s = true
  · rw [if_pos hI, if_pos honly, frames_writeIntraframe, frames_loadMainState,
      writeSlowFrameIfNeeded_frames]
    simp [hI]
  · rw [if_neg hI]
    have hP : blackboxShouldLogPFrame
        (blackboxCheckAndLogFlightMode e (blackboxCheckAndLogArmingBeep e s)) = false := by
      apply shouldLogPFrame_of_p_ratio_zero
      rw [fixed_config (fixed_blackboxCheckAndLogFlightMode e _),
        fixed_config (fixed_blackboxCheckAndLogArmingBeep e s)]
      exact hp
    rw [hP]
    simp only [Bool.false_eq_true, if_false, hI, false_and, Nat.add_zero]
    split_ifs
    · rw [blackboxLogIteration_gps_frames _ _ _ hH hG, blackboxCheckAndLogFlightMode_frames _ _ _ hE,
        blackboxCheckAndLogArmingBeep_frames _ _ _ hE]
    · rw [blackboxCheckAndLogFlightMode_frames _ _ _ hE,
        blackboxCheckAndLogArmingBeep_frames _ _ _ hE]

/-! ### Event frames and the growth of the log -/

theorem mem_written (s t : State) (x : LogItem) (l : List LogItem) (h1 : s.log <+: l)
    (h2 : l ++ [x] <+: t.log) : x ∈ s.written t := by
  obtain ⟨a, rfl⟩ := h1
  obtain ⟨c, hc⟩ := h2
  unfold State.written
  rw [← hc]
  simp

theorem blackboxSetState_log (e : Env) (st : BlackboxState) (s : State) :
    (blackboxSetState e st s).log = s.log := by
  cases st <;> rfl

theorem blackboxLogEvent_log (event : Nat) (data : flightLogEventData_t) (s : State)
    (hs : s.blackboxState = .RUNNING ∨ s.blackboxState = .PAUSED) :
    (blackboxLogEvent event data s).log = s.log ++
      [LogItem.frame 'E' (Write.byte (event % 256) :: blackboxLogEvent.payload event data)] := by
  unfold blackboxLogEvent
  rw [if_neg (not_not.mpr hs)]

theorem blackboxLogEvent_of_not (event : Nat) (data : flightLogEventData_t) (s : State)
    (hs : ¬ (s.blackboxState = .RUNNING ∨ s.blackboxState = .PAUSED)) :
    blackboxLogEvent event data s = s := by
  unfold blackboxLogEvent
  rw [if_pos hs]

theorem blackboxLogEvent_log_grows (event : Nat) (data : flightLogEventData_t) (s : State) :
    s.log <+: (blackboxLogEvent event data s).log := by
  by_cases hs : s.blackboxState = .RUNNING ∨ s.blackboxState = .PAUSED
  · rw [blackboxLogEvent_log event data s hs]
    exact List.prefix_append _ _
  · rw [blackboxLogEvent_of_not event data s hs]

theorem blackboxLogEvent_log_of (event : Nat) (data : flightLogEventData_t) (s0 s : State)
    (hl : s.log = s0.log) (hs : s.blackboxState = .RUNNING ∨ s.blackboxState = .PAUSED) :
    (blackboxLogEvent event data s).log = s0.log ++
      [LogItem.frame 'E' (Write.byte (event % 256) :: blackboxLogEvent.payload event data)] := by
  rw [blackboxLogEvent_log event data s hs, hl]

theorem blackboxLogEvent_log_grows_of (event : Nat) (data : flightLogEventData_t)
    (s0 s : State) (hl : s.log = s0.log) :
    s0.log <+: (blackboxLogEvent event data s).log := by
  rw [← hl]
  exact blackboxLogEvent_log_grows event data s

theorem blackboxLogEvent_blackboxState (event : Nat) (data : flightLogEventData_t) (s : State) :
    (blackboxLogEvent event data s).blackboxState = s.blackboxState :=
  fixed_state (fixed_blackboxLogEvent event data s)

theorem blackboxCheckAndLogArmingBeep_log (e : Env) (s : State)
    (hs : s.blackboxState = .RUNNING) (h : e.getArmingBeepTimeMicros ≠ s.blackboxLastArmingBeep) :
    (blackboxCheckAndLogArmingBeep e s).log = s.log ++
      [LogItem.frame 'E' [Write.byte FLIGHT_LOG_EVENT_SYNC_BEEP,
        Write.unsignedVB ⟨.event 0, e.getArmingBeepTimeMicros⟩]] := by
  unfold blackboxCheckAndLogArmingBeep
  dsimp only
  rw [if_pos h]
  exact blackboxLogEvent_log_of _ _ s _ rfl (Or.inl hs)

theorem blackboxCheckAndLogArmingBeep_log_grows (e : Env) (s : State) :
    s.log <+: (blackboxCheckAndLogArmingBeep e s).log := by
  unfold blackboxCheckAndLogArmingBeep
  dsimp only
  split_ifs
  · exact blackboxLogEvent_log_grows_of _ _ s _ rfl
  · exact List.prefix_refl _

theorem blackboxCheckAndLogArmingBeep_keeps (e : Env) (s : State) :
    (blackboxCheckAndLogArmingBeep e s).blackboxState = s.blackboxState
    ∧ (blackboxCheckAndLogArmingBeep e s).blackboxLastFlightModeFlags
        = s.blackboxLastFlightModeFlags
    ∧ (blackboxCheckAndLogArmingBeep e s).blackboxLastGovState = s.blackboxLastGovState := by
  unfold blackboxCheckAndLogArmingBeep blackboxLogEvent
  dsimp only
  split_ifs <;> exact ⟨rfl, rfl, rfl⟩

theorem blackboxCheckAndLogFlightMode_log_grows (e : Env) (s : State) :
    s.log <+: (blackboxCheckAndLogFlightMode e s).log := by
  unfold blackboxCheckAndLogFlightMode
  dsimp only
  have h1 : s.log <+: (if e.rcModeActivationMask % 4294967296 ≠ s.blackboxLastFlightModeFlags then
      blackboxLogEvent FLIGHT_LOG_EVENT_FLIGHTMODE
        { flightMode_lastFlags := s.blackboxLastFlightModeFlags
          flightMode_flags := e.rcModeActivationMask % 4294967296 }
        { s with blackboxLastFlightModeFlags := e.rcModeActivationMask % 4294967296 }
      else s).log := by
    split_ifs
    · exact blackboxLogEvent_log_grows_of _ _ s _ rfl
    · exact List.prefix_refl _
  generalize (if e.rcModeActivationMask % 4294967296 ≠ s.blackboxLastFlightModeFlags then
      blackboxLogEvent FLIGHT_LOG_EVENT_FLIGHTMODE
        { flightMode_lastFlags := s.blackboxLastFlightModeFlags
          flightMode_flags := e.rcModeActivationMask % 4294967296 }
        { s with blackboxLastFlightModeFlags := e.rcModeActivationMask % 4294967296 }
      else s) = s1 at h1 ⊢
  split_ifs
  · exact h1.trans (blackboxLogEvent_log_grows_of _ _ s1 _ rfl)
  · exact h1

/-- The flight-mode event of `blackboxCheckAndLogFlightMode`. -/
theorem blackboxCheckAndLogFlightMode_mode (e : Env) (s : State)
    (hs : s.blackboxState = .RUNNING)
    (h : e.rcModeActivationMask % 4294967296 ≠ s.blackboxLastFlightModeFlags) :
    s.log ++ [LogItem.frame 'E' [Write.byte FLIGHT_LOG_EVENT_FLIGHTMODE,
        Write.unsignedVB ⟨.event 0, (e.rcModeActivationMask % 4294967296 : Nat)⟩,
        Write.unsignedVB ⟨.event 1, s.blackboxLastFlightModeFlags⟩]]
      <+: (blackboxCheckAndLogFlightMode e s).log := by
  unfold blackboxCheckAndLogFlightMode
  dsimp only
  rw [if_pos h]
  have h1 : (blackboxLogEvent FLIGHT_LOG_EVENT_FLIGHTMODE
        { flightMode_lastFlags := s.blackboxLastFlightModeFlags
          flightMode_flags := e.rcModeActivationMask % 4294967296 }
        { s with blackboxLastFlightModeFlags := e.rcModeActivationMask % 4294967296 }).log
      = s.log ++ [LogItem.frame 'E' [Write.byte FLIGHT_LOG_EVENT_FLIGHTMODE,
        Write.unsignedVB ⟨.event 0, (e.rcModeActivationMask % 4294967296 : Nat)⟩,
        Write.unsignedVB ⟨.event 1, s.blackboxLastFlightModeFlags⟩]] := by
    exact blackboxLogEvent_log_of _ _ s _ rfl (Or.inl hs)
  rw [← h1]
  generalize blackboxLogEvent FLIGHT_LOG_EVENT_FLIGHTMODE
        { flightMode_lastFlags := s.blackboxLastFlightModeFlags
          flightMode_flags := e.rcModeActivationMask % 4294967296 }
        { s with blackboxLastFlightModeFlags := e.rcModeActivationMask % 4294967296 } = s1
  split_ifs
  · exact blackboxLogEvent_log_grows_of _ _ s1 _ rfl
  · exact List.prefix_refl _

/-- The governor event of `blackboxCheckAndLogFlightMode`. -/
theorem blackboxCheckAndLogFlightMode_gov (e : Env) (s : State)
    (hs : s.blackboxState = .RUNNING)
    (h : e.getGovernorState % 256 ≠ s.blackboxLastGovState) :
    ∃ l, s.log <+: l ∧
      l ++ [LogItem.frame 'E' [Write.byte FLIGHT_LOG_EVENT_GOVSTATE,
        Write.unsignedVB ⟨.event 0, (e.getGovernorState % 256 : Nat)⟩]]
      = (blackboxCheckAndLogFlightMode e s).log := by
  unfold blackboxCheckAndLogFlightMode
  dsimp only
  have h1 : s.log <+: (if e.rcModeActivationMask % 4294967296 ≠ s.blackboxLastFlightModeFlags then
      blackboxLogEvent FLIGHT_LOG_EVENT_FLIGHTMODE
        { flightMode_lastFlags := s.blackboxLastFlightModeFlags
          flightMode_flags := e.rcModeActivationMask % 4294967296 }
        { s with blackboxLastFlightModeFlags := e.rcModeActivationMask % 4294967296 }
      else s).log := by
    split_ifs
    · exact blackboxLogEvent_log_grows_of _ _ s _ rfl
    · exact List.prefix_refl _
  have h2 : (if e.rcModeActivationMask % 4294967296 ≠ s.blackboxLastFlightModeFlags then
      blackboxLogEvent FLIGHT_LOG_EVENT_FLIGHTMODE
        { flightMode_lastFlags := s.blackboxLastFlightModeFlags
          flightMode_flags := e.rcModeActivationMask % 4294967296 }
        { s with blackboxLastFlightModeFlags := e.rcModeActivationMask % 4294967296 }
      else s).blackboxLastGovState = s.blackboxLastGovState
      ∧ (if e.rcModeActivationMask % 4294967296 ≠ s.blackboxLastFlightModeFlags then
      blackboxLogEvent FLIGHT_LOG_EVENT_FLIGHTMODE
        { flightMode_lastFlags := s.blackboxLastFlightModeFlags
          flightMode_flags := e.rcModeActivationMask % 4294967296 }
        { s with blackboxLastFlightModeFlags := e.rcModeActivationMask % 4294967296 }
      else s).blackboxState = .RUNNING := by
    unfold blackboxLogEvent
    split_ifs <;> exact ⟨rfl, hs⟩
  generalize (if e.rcModeActivationMask % 4294967296 ≠ s.blackboxLastFlightModeFlags then
      blackboxLogEvent FLIGHT_LOG_EVENT_FLIGHTMODE
        { flightMode_lastFlags := s.blackboxLastFlightModeFlags
          flightMode_flags := e.rcModeActivationMask % 4294967296 }
        { s with blackboxLastFlightModeFlags := e.rcModeActivationMask % 4294967296 }
      else s) = s1 at h1 h2 ⊢
  rw [h2.1, if_pos h]
  refine ⟨s1.log, h1, ?_⟩
  exact (blackboxLogEvent_log_of FLIGHT_LOG_EVENT_GOVSTATE
    { govState_govState := e.getGovernorState % 256 } s1
    (s1.setLastGovState (e.getGovernorState % 256)) rfl (Or.inl h2.2)).symm

theorem writeSlowFrame_log_grows (s0 s : State) (hl : s.log = s0.log) :
    s0.log <+: (writeSlowFrame s).log := by
  rw [← hl]
  exact List.prefix_append _ _

theorem writeSlowFrameIfNeeded_log_grows (e : Env) (s : State) :
    s.log <+: (writeSlowFrameIfNeeded e s).1.log := by
  unfold writeSlowFrameIfNeeded
  dsimp only
  split_ifs
  · exact writeSlowFrame_log_grows s _ rfl
  · exact writeSlowFrame_log_grows s _ rfl
  · exact List.prefix_refl _

theorem writeInterframe_log_grows (b : Build) (e : Env) (s : State) :
    s.log <+: (writeInterframe b e s).log := List.prefix_append _ _

theorem writeGPSHomeFrame_log_grows (e : Env) (s : State) :
    s.log <+: (writeGPSHomeFrame e s).log := List.prefix_append _ _

theorem writeGPSFrame_log_grows (e : Env) (s : State) :
    s.log <+: (writeGPSFrame e s).log := List.prefix_append _ _

theorem blackboxLogIteration_gps_log_grows (e : Env) (s : State) :
    s.log <+: (blackboxLogIteration.gps e s).log := by
  unfold blackboxLogIteration.gps
  split_ifs
  · exact (writeGPSHomeFrame_log_grows e s).trans (writeGPSFrame_log_grows e _)
  · exact writeGPSFrame_log_grows e s
  · exact List.prefix_refl _
  · exact List.prefix_refl _

/-- In an iteration that is not an intra iteration, what the two event checks wrote stays in
the log of the iteration. -/
theorem blackboxLogIteration_events_log_grows (b : Build) (e : Env) (s : State)
    (hI : blackboxShouldLogIFrame s = false) :
    (blackboxCheckAndLogFlightMode e (blackboxCheckAndLogArmingBeep e s)).log
      <+: (blackboxLogIteration b e s).log := by
  unfold blackboxLogIteration
  dsimp only
  rw [hI]
  simp only [Bool.false_eq_true, if_false]
  show _ <+: State.log (if b.USE_GPS = true then _ else _)
  generalize blackboxCheckAndLogFlightMode e (blackboxCheckAndLogArmingBeep e s) = s1
  have h2 : s1.log <+: (if blackboxShouldLogPFrame s1 = true then
      writeInterframe b e (loadMainState b e (writeSlowFrameIfNeeded e s1).1) else s1).log := by
    split_ifs
    · exact (writeSlowFrameIfNeeded_log_grows e s1).trans
        (writeInterframe_log_grows b e (loadMainState b e (writeSlowFrameIfNeeded e s1).1))
    · exact List.prefix_refl _
  generalize (if blackboxShouldLogPFrame s1 = true then
      writeInterframe b e (loadMainState b e (writeSlowFrameIfNeeded e s1).1) else s1) = s2 at h2 ⊢
  split_ifs
  · exact h2.trans (blackboxLogIteration_gps_log_grows e s2)
  · exact h2

theorem blackboxStart_log (b : Build) (e : Env) (s : State) :
    (blackboxStart b e s).log = s.log := by
  obtain ⟨_, h2⟩ := blackboxValidateConfig_keeps b s
  unfold blackboxStart
  dsimp only
  generalize blackboxValidateConfig b s = s1 at h2
  split_ifs
  · rw [blackboxSetState_log]
    exact h2
  · rw [blackboxSetState_log, ← h2]
    rfl

theorem startInTestMode_log (b : Build) (e : Env) (s : State) :
    (startInTestMode b e s).log = s.log := by
  unfold startInTestMode
  split_ifs
  · rfl
  · exact blackboxStart_log b e s
  · rfl

theorem blackboxFinish_log_grows (e : Env) (s : State) :
    s.log <+: (blackboxFinish e s).log := by
  unfold blackboxFinish
  split
  all_goals (try rw [blackboxSetState_log])
  all_goals first
    | exact List.prefix_refl _
    | exact blackboxLogEvent_log_grows _ _ _

theorem stopInTestMode_log_grows (e : Env) (s : State) :
    s.log <+: (stopInTestMode e s).log := by
  unfold stopInTestMode
  split_ifs
  · exact blackboxFinish_log_grows e s
  · exact List.prefix_refl _

theorem inMotorTestMode_log (e : Env) (s : State) : (inMotorTestMode e s).1.log = s.log := by
  unfold inMotorTestMode
  split_ifs <;> rfl

theorem blackboxUpdate_finish_log_grows (b : Build) (e : Env) (s : State) :
    s.log <+: (blackboxUpdate.finish b e s).log := by
  unfold blackboxUpdate.finish
  dsimp only
  have hm := inMotorTestMode_log e s
  split_ifs
  · exact (blackboxSetState_log e .STOPPED s).symm ▸ List.prefix_refl _
  · rw [blackboxSetState_log]
  · exact List.prefix_refl _
  · rw [startInTestMode_log, hm]
  · rw [hm]
  · rw [← hm]
    exact stopInTestMode_log_grows e _
  · rw [hm]
  · rw [startInTestMode_log]
  · exact List.prefix_refl _
  · exact List.prefix_refl _

/-- A tick that starts in RUNNING and does not pause logs the iteration and advances the
timers. -/
theorem blackboxUpdate_switch_running (b : Build) (e : Env) (s : State)
    (hs : s.blackboxState = .RUNNING)
    (hlog : (s.blackboxModeActivationConditionPresent && !e.rcModeBlackbox
      && !s.startedLoggingInTestMode) = false) :
    blackboxUpdate.switch b e s = blackboxAdvanceIterationTimers (blackboxLogIteration b e s) := by
  unfold blackboxUpdate.switch
  rw [hs]
  dsimp only
  rw [hlog]
  rfl

theorem blackboxUpdate_running_log_grows (b : Build) (e : Env) (s : State)
    (hs : s.blackboxState = .RUNNING)
    (hlog : (s.blackboxModeActivationConditionPresent && !e.rcModeBlackbox
      && !s.startedLoggingInTestMode) = false) :
    (blackboxLogIteration b e s).log <+: (blackboxUpdate b e s).log := by
  unfold blackboxUpdate
  rw [blackboxUpdate_switch_running b e s hs hlog]
  have h := blackboxUpdate_finish_log_grows b e
    (blackboxAdvanceIterationTimers (blackboxLogIteration b e s))
  rw [advance_log] at h
  exact h

/-! ### Frame of header emission -/

theorem emits_refl (s : State) : s.emits s := rfl

theorem emits_trans {s t u : State} (h1 : s.emits t) (h2 : t.emits u) : s.emits u := by
  unfold State.emits at *
  rw [h2, h1]

theorem emits_writeHeader (s : State) (w : Write) : s.emits (s.writeHeader w) := rfl

theorem emits_reserve (e : Env) (n : Nat) (s : State) :
    s.emits (blackboxDeviceReserveBufferSpace e n s).1 := rfl

theorem emits_setHeaderBudget (s : State) (v : Int) : s.emits (s.setHeaderBudget v) := rfl

theorem emits_setU (s : State) (v : Nat) : s.emits (s.setU v) := rfl

theorem emits_setHeaderIndex (s : State) (v : Nat) : s.emits (s.setHeaderIndex v) := rfl

theorem emits_setNeedComma (s : State) (v : Bool) : s.emits (s.setNeedComma v) := rfl

theorem emits_field (fd : blackboxFieldDefinition_t) (n : Nat) (s : State) :
    s.emits (sendFieldDefinition.field fd n s) := by
  have h2 := emits_setHeaderBudget s (s.blackboxHeaderBudget - n)
  unfold sendFieldDefinition.field
  dsimp only
  generalize s.setHeaderBudget (s.blackboxHeaderBudget - n) = s2 at *
  have h3 : s2.emits
      (if s2.needComma = true then s2.writeHeader (Write.byte ','.toNat)
        else s2.setNeedComma true) := by
    split_ifs
    · exact emits_writeHeader _ _
    · exact emits_setNeedComma _ _
  generalize (if s2.needComma = true then s2.writeHeader (Write.byte ','.toNat)
        else s2.setNeedComma true) = s3 at *
  refine emits_trans (emits_trans (emits_trans h2 h3) ?_) (emits_setU _ _)
  split_ifs
  · exact emits_trans (emits_writeHeader _ _) (emits_writeHeader _ _)
  · exact emits_writeHeader _ _
  · exact emits_writeHeader _ _

theorem emits_fst {α : Type} {s t : State} (x : α) (h : s.emits t) :
    s.emits (t, x).1 := h

theorem emits_loop (e : Env) (defs : List blackboxFieldDefinition_t)
    (conds : Option (List Nat)) (fuel : Nat) (s : State) :
    s.emits (sendFieldDefinition.loop e defs conds fuel s).1 := by
  induction fuel generalizing s with
  | zero => exact emits_refl s
  | succ fuel ih =>
    unfold sendFieldDefinition.loop
    dsimp only
    split_ifs
    · exact emits_fst _ (emits_reserve _ _ _)
    · exact emits_trans (emits_trans (emits_reserve _ _ _) (emits_field _ _ _)) (ih _)
    · exact emits_fst _ (emits_reserve _ _ _)
    · exact emits_trans (emits_trans (emits_reserve _ _ _) (emits_field _ _ _)) (ih _)
    · exact emits_trans (emits_setU _ _) (ih _)
    · exact emits_refl s

theorem emits_start_chain (s r : State) (h : s.emits r) (w : Write) (a : Int → Int)
    (u : Nat → Nat) :
    s.emits ((((r.writeHeader w).setHeaderBudget (a (r.writeHeader w).blackboxHeaderBudget)).setU
      (u (r.writeHeader w).u)).setNeedComma false) := by
  refine emits_trans ?_ (emits_setNeedComma _ _)
  refine emits_trans ?_ (emits_setU _ _)
  refine emits_trans ?_ (emits_setHeaderBudget _ _)
  exact emits_trans h (emits_writeHeader _ _)

theorem emits_start (e : Env) (c1 c2 : Char) (n : Nat) (s : State) :
    s.emits (sendFieldDefinition.start e c1 c2 n s).1 := by
  unfold sendFieldDefinition.start
  dsimp only
  split_ifs
  · exact emits_fst _ (emits_refl s)
  · exact emits_fst _ (emits_reserve _ _ _)
  · exact emits_fst _ (emits_start_chain s _ (emits_reserve _ _ _) _
      (fun x => x - _) (fun x => (x + 1) % 4294967296))
  · exact emits_fst _ (emits_start_chain s _ (emits_reserve _ _ _) _
      (fun x => x - _) (fun x => (x + 1) % 4294967296))
  · exact emits_fst _ (emits_refl s)

theorem emits_finish (e : Env) (n : Int) (s : State) :
    s.emits (sendFieldDefinition.finish e n s) := by
  unfold sendFieldDefinition.finish
  dsimp only
  split_ifs
  · refine emits_trans ?_ (emits_setU _ _)
    refine emits_trans ?_ (emits_setHeaderIndex _ _)
    refine emits_trans ?_ (emits_setHeaderBudget _ _)
    refine emits_trans ?_ (emits_writeHeader _ _)
    exact emits_reserve _ _ _
  · exact emits_reserve _ _ _
  · exact emits_refl s

theorem emits_sendFieldDefinition (e : Env) (c1 c2 : Char)
    (defs : List blackboxFieldDefinition_t) (conds : Option (List Nat)) (s : State) :
    s.emits (sendFieldDefinition e c1 c2 defs conds s).1 := by
  unfold sendFieldDefinition
  dsimp only
  split
  · exact emits_start _ _ _ _ _
  · split_ifs
    · exact emits_fst _ (emits_trans (emits_start _ _ _ _ _) (emits_loop _ _ _ _ _))
    · exact emits_fst _ (emits_trans
        (emits_trans (emits_start _ _ _ _ _) (emits_loop _ _ _ _ _))
        (emits_finish _ _ _))
    · exact emits_fst _ (emits_trans (emits_start _ _ _ _ _) (emits_loop _ _ _ _ _))
    · exact emits_fst _ (emits_trans
        (emits_trans (emits_start _ _ _ _ _) (emits_loop _ _ _ _ _))
        (emits_finish _ _ _))

theorem emits_blackboxPrintfHeaderLine (text : String) (s : State) :
    s.emits (blackboxPrintfHeaderLine text s) :=
  emits_trans (emits_writeHeader _ _) (emits_setHeaderBudget _ _)

theorem emits_blackboxWriteSysinfo (b : Build) (e : Env) (s : State) :
    s.emits (blackboxWriteSysinfo b e s).1 := by
  unfold blackboxWriteSysinfo
  dsimp only
  split
  · exact emits_fst _ (emits_reserve _ _ _)
  · split
    · exact emits_fst _ (emits_reserve _ _ _)
    · refine emits_fst _ ?_
      refine emits_trans ?_ (emits_setHeaderIndex _ _)
      refine emits_trans (emits_reserve e 64 s) ?_
      split_ifs
      · exact emits_blackboxPrintfHeaderLine _ _
      · exact emits_setHeaderIndex _ _
      · exact emits_blackboxPrintfHeaderLine _ _
      · exact emits_refl _
      · exact emits_blackboxPrintfHeaderLine _ _

theorem emits_sendHeader (s : State) : s.emits (blackboxUpdate.sendHeader s) := rfl

/-! ### Frame of the frame writers -/

theorem records_refl (s : State) : s.records s := rfl

theorem records_trans {s t u : State} (h1 : s.records t) (h2 : t.records u) : s.records u := by
  unfold State.records at *
  rw [h2, h1]

theorem records_writeSlowFrame (s : State) : s.records (writeSlowFrame s) := rfl

theorem records_writeSlowFrameIfNeeded (e : Env) (s : State) :
    s.records (writeSlowFrameIfNeeded e s).1 := by
  unfold writeSlowFrameIfNeeded
  dsimp only
  split_ifs <;> rfl

theorem records_writeGPSHomeFrame (e : Env) (s : State) : s.records (writeGPSHomeFrame e s) :=
  rfl

theorem records_writeGPSFrame (e : Env) (s : State) : s.records (writeGPSFrame e s) := rfl

theorem records_blackboxLogEvent (event : Nat) (data : flightLogEventData_t) (s : State) :
    s.records (blackboxLogEvent event data s) := by
  unfold blackboxLogEvent
  split_ifs <;> rfl

theorem records_blackboxCheckAndLogArmingBeep (e : Env) (s : State) :
    s.records (blackboxCheckAndLogArmingBeep e s) := by
  unfold blackboxCheckAndLogArmingBeep blackboxLogEvent
  dsimp only
  split_ifs <;> rfl

theorem records_blackboxCheckAndLogFlightMode (e : Env) (s : State) :
    s.records (blackboxCheckAndLogFlightMode e s) := by
  unfold blackboxCheckAndLogFlightMode blackboxLogEvent
  dsimp only
  split_ifs <;> rfl

theorem records_loadMainState (b : Build) (e : Env) (s : State) :
    s.records (loadMainState b e s) := rfl

theorem records_writeIntraframe (b : Build) (e : Env) (s : State) :
    s.records (writeIntraframe b e s) := rfl

theorem records_writeInterframe (b : Build) (e : Env) (s : State) :
    s.records (writeInterframe b e s) := rfl

theorem records_pushDeviceOp (s : State) (op : DeviceOp) : s.records (s.pushDeviceOp op) := rfl

theorem records_blackboxLogIteration_gps (e : Env) (s : State) :
    s.records (blackboxLogIteration.gps e s) := by
  unfold blackboxLogIteration.gps
  split_ifs
  · exact records_trans (records_writeGPSHomeFrame e s) (records_writeGPSFrame e _)
  · exact records_writeGPSFrame e s
  · exact records_refl s
  · exact records_refl s

theorem records_blackboxLogIteration (b : Build) (e : Env) (s : State) :
    s.records (blackboxLogIteration b e s) := by
  unfold blackboxLogIteration
  dsimp only
  refine records_trans ?_ (records_pushDeviceOp _ _)
  have h1 := records_trans (records_blackboxCheckAndLogArmingBeep e s)
    (records_blackboxCheckAndLogFlightMode e _)
  split_ifs
  · exact records_trans (records_trans (records_writeSlowFrameIfNeeded e s)
      (records_loadMainState b e _)) (records_writeIntraframe b e _)
  · exact records_trans (records_loadMainState b e _) (records_writeIntraframe b e _)
  · exact records_trans (records_trans (records_trans (records_trans h1
      (records_writeSlowFrameIfNeeded e _)) (records_loadMainState b e _))
      (records_writeInterframe b e _)) (records_blackboxLogIteration_gps e _)
  · exact records_trans h1 (records_blackboxLogIteration_gps e _)
  · exact records_trans (records_trans (records_trans h1
      (records_writeSlowFrameIfNeeded e _)) (records_loadMainState b e _))
      (records_writeInterframe b e _)
  · exact h1

theorem latches_of_emits {s t : State} (h : s.emits t) : t.latches = s.latches := by
  have h1 : t = _ := h
  rw [h1]
  rfl

theorem latches_of_records {s t : State} (h : s.records t) : t.latches = s.latches := by
  have h1 : t = _ := h
  rw [h1]
  rfl

theorem counters_of_records {s t : State} (h : s.records t) : t.counters = s.counters := by
  have h1 : t = _ := h
  rw [h1]
  rfl

theorem state_of_emits {s t : State} (h : s.emits t) : t.blackboxState = s.blackboxState := by
  have h1 : t = _ := h
  rw [h1]

theorem state_of_records {s t : State} (h : s.records t) :
    t.blackboxState = s.blackboxState := by
  have h1 : t = _ := h
  rw [h1]

theorem blackboxSetState_latches (e : Env) (st : BlackboxState) (s : State) :
    (blackboxSetState e st s).latches = s.latches := by
  cases st <;> rfl

theorem blackboxSetState_counters (e : Env) (st : BlackboxState) (s : State) :
    (blackboxSetState e st s).counters = s.counters := by
  cases st <;> rfl

theorem advance_latches (s : State) :
    (blackboxAdvanceIterationTimers s).latches = s.latches := by
  unfold blackboxAdvanceIterationTimers
  dsimp only
  split_ifs <;> rfl

theorem blackboxStart_latches (b : Build) (e : Env) (s : State) :
    (blackboxStart b e s).latches = s.latches := by
  unfold blackboxStart blackboxValidateConfig
  dsimp only
  split_ifs <;> rfl

theorem blackboxStart_state (b : Build) (e : Env) (s : State) :
    (blackboxStart b e s).blackboxState = .DISABLED
      ∨ (blackboxStart b e s).blackboxState = .PREPARE_LOG_FILE := by
  unfold blackboxStart
  dsimp only
  split_ifs
  · exact Or.inl (blackboxSetState_state _ _ _)
  · exact Or.inr (blackboxSetState_state _ _ _)

/-! ### Latches and counters through the primitives -/

theorem flag_of_emits {s t : State} (h : s.emits t) :
    t.startedLoggingInTestMode = s.startedLoggingInTestMode :=
  congrArg Prod.fst (latches_of_emits h)

theorem next_of_emits {s t : State} (h : s.emits t) :
    t.cacheFlushNextState = s.cacheFlushNextState :=
  congrArg Prod.snd (latches_of_emits h)

theorem flag_of_records {s t : State} (h : s.records t) :
    t.startedLoggingInTestMode = s.startedLoggingInTestMode :=
  congrArg Prod.fst (latches_of_records h)

theorem next_of_records {s t : State} (h : s.records t) :
    t.cacheFlushNextState = s.cacheFlushNextState :=
  congrArg Prod.snd (latches_of_records h)

theorem sendFieldDefinition_state (e : Env) (c1 c2 : Char)
    (defs : List blackboxFieldDefinition_t) (conds : Option (List Nat)) (s : State) :
    (sendFieldDefinition e c1 c2 defs conds s).1.blackboxState = s.blackboxState :=
  state_of_emits (emits_sendFieldDefinition e c1 c2 defs conds s)

theorem sendFieldDefinition_flag (e : Env) (c1 c2 : Char)
    (defs : List blackboxFieldDefinition_t) (conds : Option (List Nat)) (s : State) :
    (sendFieldDefinition e c1 c2 defs conds s).1.startedLoggingInTestMode = s.startedLoggingInTestMode :=
  flag_of_emits (emits_sendFieldDefinition e c1 c2 defs conds s)

theorem sendFieldDefinition_next (e : Env) (c1 c2 : Char)
    (defs : List blackboxFieldDefinition_t) (conds : Option (List Nat)) (s : State) :
    (sendFieldDefinition e c1 c2 defs conds s).1.cacheFlushNextState = s.cacheFlushNextState :=
  next_of_emits (emits_sendFieldDefinition e c1 c2 defs conds s)

theorem blackboxWriteSysinfo_state (b : Build) (e : Env) (s : State) :
    (blackboxWriteSysinfo b e s).1.blackboxState = s.blackboxState :=
  state_of_emits (emits_blackboxWriteSysinfo b e s)

theorem blackboxWriteSysinfo_flag (b : Build) (e : Env) (s : State) :
    (blackboxWriteSysinfo b e s).1.startedLoggingInTestMode = s.startedLoggingInTestMode :=
  flag_of_emits (emits_blackboxWriteSysinfo b e s)

theorem blackboxWriteSysinfo_next (b : Build) (e : Env) (s : State) :
    (blackboxWriteSysinfo b e s).1.cacheFlushNextState = s.cacheFlushNextState :=
  next_of_emits (emits_blackboxWriteSysinfo b e s)

theorem blackboxLogIteration_state (b : Build) (e : Env) (s : State) :
    (blackboxLogIteration b e s).blackboxState = s.blackboxState :=
  state_of_records (records_blackboxLogIteration b e s)

theorem blackboxLogIteration_flag (b : Build) (e : Env) (s : State) :
    (blackboxLogIteration b e s).startedLoggingInTestMode = s.startedLoggingInTestMode :=
  flag_of_records (records_blackboxLogIteration b e s)

theorem blackboxLogIteration_next (b : Build) (e : Env) (s : State) :
    (blackboxLogIteration b e s).cacheFlushNextState = s.cacheFlushNextState :=
  next_of_records (records_blackboxLogIteration b e s)

theorem blackboxLogEvent_flag (event : Nat) (data : flightLogEventData_t) (s : State) :
    (blackboxLogEvent event data s).startedLoggingInTestMode = s.startedLoggingInTestMode :=
  flag_of_records (records_blackboxLogEvent event data s)

theorem blackboxLogEvent_next (event : Nat) (data : flightLogEventData_t) (s : State) :
    (blackboxLogEvent event data s).cacheFlushNextState = s.cacheFlushNextState :=
  next_of_records (records_blackboxLogEvent event data s)

theorem blackboxLogEvent_counters (event : Nat) (data : flightLogEventData_t) (s : State) :
    (blackboxLogEvent event data s).counters = s.counters :=
  counters_of_records (records_blackboxLogEvent event data s)

theorem blackboxSetState_flag (e : Env) (st : BlackboxState) (s : State) :
    (blackboxSetState e st s).startedLoggingInTestMode = s.startedLoggingInTestMode :=
  congrArg Prod.fst (blackboxSetState_latches e st s)

theorem blackboxSetState_next (e : Env) (st : BlackboxState) (s : State) :
    (blackboxSetState e st s).cacheFlushNextState = s.cacheFlushNextState :=
  congrArg Prod.snd (blackboxSetState_latches e st s)

theorem advance_flag (s : State) :
    (blackboxAdvanceIterationTimers s).startedLoggingInTestMode = s.startedLoggingInTestMode :=
  congrArg Prod.fst (advance_latches s)

theorem advance_next (s : State) :
    (blackboxAdvanceIterationTimers s).cacheFlushNextState = s.cacheFlushNextState :=
  congrArg Prod.snd (advance_latches s)

theorem blackboxStart_flag (b : Build) (e : Env) (s : State) :
    (blackboxStart b e s).startedLoggingInTestMode = s.startedLoggingInTestMode :=
  congrArg Prod.fst (blackboxStart_latches b e s)

theorem blackboxStart_next (b : Build) (e : Env) (s : State) :
    (blackboxStart b e s).cacheFlushNextState = s.cacheFlushNextState :=
  congrArg Prod.snd (blackboxStart_latches b e s)

theorem setHeaderBudget_state (s : State) (v : Int) :
    (s.setHeaderBudget v).blackboxState = s.blackboxState := rfl

theorem setHeaderBudget_flag (s : State) (v : Int) :
    (s.setHeaderBudget v).startedLoggingInTestMode = s.startedLoggingInTestMode := rfl

theorem setHeaderBudget_next (s : State) (v : Int) :
    (s.setHeaderBudget v).cacheFlushNextState = s.cacheFlushNextState := rfl

theorem setCacheFlushNextState_state (s : State) (v : BlackboxState) :
    (s.setCacheFlushNextState v).blackboxState = s.blackboxState := rfl

theorem setCacheFlushNextState_flag (s : State) (v : BlackboxState) :
    (s.setCacheFlushNextState v).startedLoggingInTestMode = s.startedLoggingInTestMode := rfl

theorem pushDeviceOp_state (s : State) (op : DeviceOp) :
    (s.pushDeviceOp op).blackboxState = s.blackboxState := rfl

theorem pushDeviceOp_flag (s : State) (op : DeviceOp) :
    (s.pushDeviceOp op).startedLoggingInTestMode = s.startedLoggingInTestMode := rfl

theorem pushDeviceOp_next (s : State) (op : DeviceOp) :
    (s.pushDeviceOp op).cacheFlushNextState = s.cacheFlushNextState := rfl

theorem setStartedLoggingInTestMode_state (s : State) (v : Bool) :
    (s.setStartedLoggingInTestMode v).blackboxState = s.blackboxState := rfl

theorem setStartedLoggingInTestMode_next (s : State) (v : Bool) :
    (s.setStartedLoggingInTestMode v).cacheFlushNextState = s.cacheFlushNextState := rfl

theorem reserve_state (e : Env) (n : Nat) (s : State) :
    (blackboxDeviceReserveBufferSpace e n s).1.blackboxState = s.blackboxState := rfl

theorem reserve_flag (e : Env) (n : Nat) (s : State) :
    (blackboxDeviceReserveBufferSpace e n s).1.startedLoggingInTestMode = s.startedLoggingInTestMode := rfl

theorem reserve_next (e : Env) (n : Nat) (s : State) :
    (blackboxDeviceReserveBufferSpace e n s).1.cacheFlushNextState = s.cacheFlushNextState := rfl

theorem sendHeader_state (s : State) :
    (blackboxUpdate.sendHeader s).blackboxState = s.blackboxState := rfl

theorem sendHeader_flag (s : State) :
    (blackboxUpdate.sendHeader s).startedLoggingInTestMode = s.startedLoggingInTestMode := rfl

theorem sendHeader_next (s : State) :
    (blackboxUpdate.sendHeader s).cacheFlushNextState = s.cacheFlushNextState := rfl

/-- The `switch` of `blackboxUpdate` never assigns `startedLoggingInTestMode`. -/
theorem switch_flag (b : Build) (e : Env) (s : State) :
    (blackboxUpdate.switch b e s).startedLoggingInTestMode = s.startedLoggingInTestMode := by
  unfold blackboxUpdate.switch
  split <;> (try dsimp only) <;> (try split_ifs) <;>
    simp only [blackboxSetState_flag, sendFieldDefinition_flag, blackboxWriteSysinfo_flag,
      blackboxLogIteration_flag, blackboxLogEvent_flag, advance_flag, blackboxStart_flag,
      setHeaderBudget_flag, setCacheFlushNextState_flag, pushDeviceOp_flag, reserve_flag,
      sendHeader_flag]

/-- The state after the `switch` of `blackboxUpdate` is in the transition table. -/
theorem switch_successors (b : Build) (e : Env) (s : State) :
    (blackboxUpdate.switch b e s).blackboxState
      ∈ s.blackboxState.successors s.cacheFlushNextState := by
  by_cases h0 : s.blackboxState = .STOPPED
  · unfold blackboxUpdate.switch
    rw [h0]
    dsimp only
    have h1 := blackboxStart_state b e (s.pushDeviceOp DeviceOp.blackboxOpen)
    split_ifs
    · simp [BlackboxState.successors, blackboxSetState_state]
    · simp [BlackboxState.successors, blackboxSetState_state]
    · rcases h1 with h1 | h1 <;> simp [BlackboxState.successors, h1]
    · simp [BlackboxState.successors, h0]
  · unfold blackboxUpdate.switch
    split <;> rename_i hs <;> (try dsimp only) <;> (try split_ifs) <;>
      first
      | exact absurd hs h0
      | simp only [hs, BlackboxState.successors, blackboxSetState_state,
          sendFieldDefinition_state, blackboxWriteSysinfo_state, blackboxLogIteration_state,
          advance_state, setHeaderBudget_state, setCacheFlushNextState_state,
          pushDeviceOp_state, reserve_state, sendHeader_state, List.mem_cons,
          List.mem_singleton, true_or, or_true]

/-- Outside SEND_SLOW_HEADER and SEND_SYSINFO the `switch` keeps `cacheFlushNextState`. -/
theorem switch_next (b : Build) (e : Env) (s : State)
    (h1 : s.blackboxState ≠ .SEND_SLOW_HEADER) (h2 : s.blackboxState ≠ .SEND_SYSINFO) :
    (blackboxUpdate.switch b e s).cacheFlushNextState = s.cacheFlushNextState := by
  unfold blackboxUpdate.switch
  split <;> rename_i hs <;> (try dsimp only) <;> (try split_ifs) <;>
    first
    | exact absurd hs h1
    | exact absurd hs h2
    | simp only [blackboxSetState_next, sendFieldDefinition_next, blackboxWriteSysinfo_next,
        blackboxLogIteration_next, blackboxLogEvent_next, advance_next, blackboxStart_next,
        setHeaderBudget_next, pushDeviceOp_next, reserve_next, sendHeader_next]

/-- From SEND_SLOW_HEADER the `switch` either stays, keeping `cacheFlushNextState`, or enters
CACHE_FLUSH with SEND_SYSINFO as the state to follow. -/
theorem switch_SEND_SLOW_HEADER (b : Build) (e : Env) (s : State)
    (hs : s.blackboxState = .SEND_SLOW_HEADER) :
    ((blackboxUpdate.switch b e s).blackboxState = .SEND_SLOW_HEADER
        ∧ (blackboxUpdate.switch b e s).cacheFlushNextState = s.cacheFlushNextState)
      ∨ ((blackboxUpdate.switch b e s).blackboxState = .CACHE_FLUSH
        ∧ (blackboxUpdate.switch b e s).cacheFlushNextState = .SEND_SYSINFO) := by
  unfold blackboxUpdate.switch
  rw [hs]
  dsimp only
  split_ifs
  · exact Or.inr ⟨blackboxSetState_state _ _ _, by rw [blackboxSetState_next]; rfl⟩
  · refine Or.inl ⟨?_, ?_⟩
    · rw [sendFieldDefinition_state, setHeaderBudget_state, hs]
    · rw [sendFieldDefinition_next, setHeaderBudget_next]

/-- From SEND_SYSINFO the `switch` either stays, keeping `cacheFlushNextState`, or enters
CACHE_FLUSH with RUNNING as the state to follow. -/
theorem switch_SEND_SYSINFO (b : Build) (e : Env) (s : State)
    (hs : s.blackboxState = .SEND_SYSINFO) :
    ((blackboxUpdate.switch b e s).blackboxState = .SEND_SYSINFO
        ∧ (blackboxUpdate.switch b e s).cacheFlushNextState = s.cacheFlushNextState)
      ∨ ((blackboxUpdate.switch b e s).blackboxState = .CACHE_FLUSH
        ∧ (blackboxUpdate.switch b e s).cacheFlushNextState = .RUNNING) := by
  unfold blackboxUpdate.switch
  rw [hs]
  dsimp only
  split_ifs
  · exact Or.inr ⟨blackboxSetState_state _ _ _, by rw [blackboxSetState_next]; rfl⟩
  · refine Or.inl ⟨?_, ?_⟩
    · rw [blackboxWriteSysinfo_state, setHeaderBudget_state, hs]
    · rw [blackboxWriteSysinfo_next, setHeaderBudget_next]

theorem switch_DISABLED (b : Build) (e : Env) (s : State) (hs : s.blackboxState = .DISABLED) :
    blackboxUpdate.switch b e s = s := by
  unfold blackboxUpdate.switch
  rw [hs]

theorem switch_CACHE_FLUSH (b : Build) (e : Env) (s : State)
    (hs : s.blackboxState = .CACHE_FLUSH) :
    blackboxUpdate.switch b e s
      = if e.deviceFlushForceComplete then blackboxSetState e s.cacheFlushNextState s else s := by
  unfold blackboxUpdate.switch
  rw [hs]

theorem switch_PAUSED (b : Build) (e : Env) (s : State) (hs : s.blackboxState = .PAUSED) :
    blackboxUpdate.switch b e s
      = blackboxAdvanceIterationTimers
          (if e.rcModeBlackbox && blackboxShouldLogIFrame s then
            blackboxLogIteration b e (blackboxSetState e .RUNNING
              (blackboxLogEvent FLIGHT_LOG_EVENT_LOGGING_RESUME
                { loggingResume_logIteration := s.blackboxIteration
                  loggingResume_currentTime := e.currentTimeUs % 4294967296 } s))
          else s) := by
  unfold blackboxUpdate.switch
  rw [hs]

theorem switch_RUNNING (b : Build) (e : Env) (s : State) (hs : s.blackboxState = .RUNNING) :
    blackboxUpdate.switch b e s
      = blackboxAdvanceIterationTimers
          (if s.blackboxModeActivationConditionPresent && !e.rcModeBlackbox
              && !s.startedLoggingInTestMode then
            blackboxSetState e .PAUSED s
          else blackboxLogIteration b e s) := by
  unfold blackboxUpdate.switch
  rw [hs]

theorem switch_SHUTTING_DOWN (b : Build) (e : Env) (s : State)
    (hs : s.blackboxState = .SHUTTING_DOWN) :
    blackboxUpdate.switch b e s
      = if e.deviceEndLog s.blackboxLoggedAnyFrames
            && (decide (e.millis % 4294967296 >
                  (s.startTime + BLACKBOX_SHUTDOWN_TIMEOUT_MILLIS) % 4294967296)
                || e.deviceFlushForce) then
          blackboxSetState e .STOPPED (s.pushDeviceOp DeviceOp.deviceClose)
        else s := by
  unfold blackboxUpdate.switch
  rw [hs]

theorem switch_START_ERASE (b : Build) (e : Env) (s : State)
    (hs : s.blackboxState = .START_ERASE) :
    blackboxUpdate.switch b e s
      = if b.USE_FLASHFS then
          (blackboxSetState e .ERASING (s.pushDeviceOp DeviceOp.eraseAll)).pushDeviceOp
            DeviceOp.beeper
        else s := by
  unfold blackboxUpdate.switch
  rw [hs]

theorem switch_ERASING (b : Build) (e : Env) (s : State) (hs : s.blackboxState = .ERASING) :
    blackboxUpdate.switch b e s
      = if b.USE_FLASHFS then
          if e.erased then (blackboxSetState e .ERASED s).pushDeviceOp DeviceOp.beeper else s
        else s := by
  unfold blackboxUpdate.switch
  rw [hs]

theorem switch_ERASED (b : Build) (e : Env) (s : State) (hs : s.blackboxState = .ERASED) :
    blackboxUpdate.switch b e s
      = if b.USE_FLASHFS then
          if e.rcModeBlackboxErase = false then blackboxSetState e .STOPPED s else s
        else s := by
  unfold blackboxUpdate.switch
  rw [hs]

theorem blackboxFinish_of_stopped (e : Env) (s : State)
    (h : s.blackboxState = .DISABLED ∨ s.blackboxState = .STOPPED
      ∨ s.blackboxState = .SHUTTING_DOWN) : blackboxFinish e s = s := by
  unfold blackboxFinish
  rcases h with h | h | h <;> rw [h]

theorem blackboxFinish_of_logging (e : Env) (s : State)
    (h : s.blackboxState = .RUNNING ∨ s.blackboxState = .PAUSED) :
    blackboxFinish e s
      = blackboxSetState e .SHUTTING_DOWN (blackboxLogEvent FLIGHT_LOG_EVENT_LOG_END {} s) := by
  unfold blackboxFinish
  rcases h with h | h <;> rw [h]

theorem blackboxFinish_of_other (e : Env) (s : State)
    (h1 : ¬ (s.blackboxState = .DISABLED ∨ s.blackboxState = .STOPPED
      ∨ s.blackboxState = .SHUTTING_DOWN))
    (h2 : ¬ (s.blackboxState = .RUNNING ∨ s.blackboxState = .PAUSED)) :
    blackboxFinish e s = blackboxSetState e .SHUTTING_DOWN s := by
  unfold blackboxFinish
  split <;> simp_all

theorem blackboxFinish_state (e : Env) (s : State)
    (h1 : ¬ (s.blackboxState = .DISABLED ∨ s.blackboxState = .STOPPED
      ∨ s.blackboxState = .SHUTTING_DOWN)) :
    (blackboxFinish e s).blackboxState = .SHUTTING_DOWN := by
  by_cases h2 : s.blackboxState = .RUNNING ∨ s.blackboxState = .PAUSED
  · rw [blackboxFinish_of_logging e s h2, blackboxSetState_state]
  · rw [blackboxFinish_of_other e s h1 h2, blackboxSetState_state]

theorem blackboxFinish_log (e : Env) (s : State) :
    (blackboxFinish e s).log
      = if s.blackboxState = .RUNNING ∨ s.blackboxState = .PAUSED then
          s.log ++ [LogItem.frame 'E' [Write.byte FLIGHT_LOG_EVENT_LOG_END,
            Write.str "End of log", Write.byte 0]]
        else s.log := by
  by_cases h2 : s.blackboxState = .RUNNING ∨ s.blackboxState = .PAUSED
  · rw [if_pos h2, blackboxFinish_of_logging e s h2, blackboxSetState_log,
      blackboxLogEvent_log _ _ s h2]
    rfl
  · rw [if_neg h2]
    by_cases h1 : s.blackboxState = .DISABLED ∨ s.blackboxState = .STOPPED
        ∨ s.blackboxState = .SHUTTING_DOWN
    · rw [blackboxFinish_of_stopped e s h1]
    · rw [blackboxFinish_of_other e s h1 h2, blackboxSetState_log]

theorem blackboxFinish_twice (e e2 : Env) (s : State) :
    blackboxFinish e2 (blackboxFinish e s) = blackboxFinish e s := by
  by_cases h1 : s.blackboxState = .DISABLED ∨ s.blackboxState = .STOPPED
      ∨ s.blackboxState = .SHUTTING_DOWN
  · rw [blackboxFinish_of_stopped e s h1, blackboxFinish_of_stopped e2 s h1]
  · exact blackboxFinish_of_stopped e2 _ (Or.inr (Or.inr (blackboxFinish_state e s h1)))

theorem inMotorTestMode_flag (e : Env) (s : State) :
    (inMotorTestMode e s).1.startedLoggingInTestMode = s.startedLoggingInTestMode := by
  unfold inMotorTestMode
  split_ifs <;> rfl

theorem inMotorTestMode_next (e : Env) (s : State) :
    (inMotorTestMode e s).1.cacheFlushNextState = s.cacheFlushNextState := by
  unfold inMotorTestMode
  split_ifs <;> rfl

theorem blackboxFinish_next (e : Env) (s : State) :
    (blackboxFinish e s).cacheFlushNextState = s.cacheFlushNextState := by
  unfold blackboxFinish
  split <;> simp only [blackboxSetState_next, blackboxLogEvent_next]

theorem blackboxFinish_flag (e : Env) (s : State) :
    (blackboxFinish e s).startedLoggingInTestMode = s.startedLoggingInTestMode := by
  unfold blackboxFinish
  split <;> simp only [blackboxSetState_flag, blackboxLogEvent_flag]

/-- The state after `blackboxFinish`: the same state or SHUTTING_DOWN. -/
theorem blackboxFinish_state_cases (e : Env) (s : State) :
    (blackboxFinish e s).blackboxState = s.blackboxState
      ∨ (blackboxFinish e s).blackboxState = .SHUTTING_DOWN := by
  by_cases h1 : s.blackboxState = .DISABLED ∨ s.blackboxState = .STOPPED
      ∨ s.blackboxState = .SHUTTING_DOWN
  · rw [blackboxFinish_of_stopped e s h1]
    exact Or.inl rfl
  · exact Or.inr (blackboxFinish_state e s h1)

theorem startInTestMode_next (b : Build) (e : Env) (s : State) :
    (startInTestMode b e s).cacheFlushNextState = s.cacheFlushNextState := by
  unfold startInTestMode
  split_ifs
  · rfl
  · rw [setStartedLoggingInTestMode_next, blackboxStart_next]
  · rfl

theorem stopInTestMode_next (e : Env) (s : State) :
    (stopInTestMode e s).cacheFlushNextState = s.cacheFlushNextState := by
  unfold stopInTestMode
  split_ifs
  · rw [setStartedLoggingInTestMode_next, blackboxFinish_next]
  · rfl

/-- The state after `startInTestMode`: the same state with the same flag, or a session that
`blackboxStart` began or refused. -/
theorem startInTestMode_state (b : Build) (e : Env) (s : State) :
    startInTestMode b e s = s
      ∨ (startInTestMode b e s).blackboxState = .DISABLED
      ∨ (startInTestMode b e s).blackboxState = .PREPARE_LOG_FILE := by
  unfold startInTestMode
  split_ifs
  · exact Or.inl rfl
  · rw [setStartedLoggingInTestMode_state]
    exact Or.inr (blackboxStart_state b e s)
  · exact Or.inl rfl

/-- The effect of `stopInTestMode`: nothing when the flag is clear; otherwise the flag is cleared
and the state is the one `blackboxFinish` leaves. -/
theorem stopInTestMode_cases (e : Env) (s : State) :
    (s.startedLoggingInTestMode = false ∧ stopInTestMode e s = s)
      ∨ (s.startedLoggingInTestMode = true
        ∧ (stopInTestMode e s).startedLoggingInTestMode = false
        ∧ (stopInTestMode e s).blackboxState = (blackboxFinish e s).blackboxState) := by
  unfold stopInTestMode
  split_ifs with h
  · exact Or.inr ⟨h, rfl, rfl⟩
  · exact Or.inl ⟨by simpa using h, rfl⟩

/-- The second half of `blackboxUpdate` never assigns `cacheFlushNextState`. -/
theorem finish_next (b : Build) (e : Env) (s : State) :
    (blackboxUpdate.finish b e s).cacheFlushNextState = s.cacheFlushNextState := by
  unfold blackboxUpdate.finish
  dsimp only
  split_ifs <;>
    simp only [blackboxSetState_next, setStartedLoggingInTestMode_next, startInTestMode_next,
      stopInTestMode_next, inMotorTestMode_next]

/-- With a full device and a state that the check does not exempt, the second half of
`blackboxUpdate` ends in STOPPED with the test-mode flag clear. -/
theorem finish_full (b : Build) (e : Env) (s : State) (hf : e.deviceFull = true)
    (hs : b.USE_FLASHFS = false ∨ (s.blackboxState ≠ .ERASING ∧ s.blackboxState ≠ .START_ERASE
      ∧ s.blackboxState ≠ .ERASED)) :
    (blackboxUpdate.finish b e s).blackboxState = .STOPPED
      ∧ (blackboxUpdate.finish b e s).startedLoggingInTestMode = false := by
  unfold blackboxUpdate.finish
  dsimp only
  rw [if_pos hf, if_pos hs]
  split_ifs with h
  · exact ⟨by rw [setStartedLoggingInTestMode_state, blackboxSetState_state], rfl⟩
  · exact ⟨blackboxSetState_state _ _ _, by simpa using h⟩

/-- With a full device, a build with flash storage leaves the erase states as they are. -/
theorem finish_full_erase (b : Build) (e : Env) (s : State) (hf : e.deviceFull = true)
    (hb : b.USE_FLASHFS = true)
    (hs : s.blackboxState = .ERASING ∨ s.blackboxState = .START_ERASE
      ∨ s.blackboxState = .ERASED) :
    blackboxUpdate.finish b e s = s := by
  unfold blackboxUpdate.finish
  dsimp only
  rw [if_pos hf, if_neg]
  rw [hb]
  rcases hs with hs | hs | hs <;> simp [hs]

/-- Where the second half of `blackboxUpdate` can leave the state machine. -/
theorem finish_state (b : Build) (e : Env) (s : State) :
    ((blackboxUpdate.finish b e s).blackboxState = s.blackboxState
        ∧ ((blackboxUpdate.finish b e s).startedLoggingInTestMode = s.startedLoggingInTestMode
          ∨ (blackboxUpdate.finish b e s).startedLoggingInTestMode = false))
      ∨ (e.deviceFull = true ∧ (blackboxUpdate.finish b e s).blackboxState = .STOPPED)
      ∨ (e.deviceFull = false ∧ s.blackboxState = .STOPPED
        ∧ ((blackboxUpdate.finish b e s).blackboxState = .DISABLED
          ∨ (blackboxUpdate.finish b e s).blackboxState = .PREPARE_LOG_FILE))
      ∨ (e.deviceFull = false ∧ s.startedLoggingInTestMode = true
        ∧ s.blackboxConfig.mode = BLACKBOX_MODE_MOTOR_TEST
        ∧ (blackboxUpdate.finish b e s).blackboxState = .SHUTTING_DOWN) := by
  unfold blackboxUpdate.finish
  dsimp only
  have hms := inMotorTestMode_state e s
  have hmf := inMotorTestMode_flag e s
  by_cases h1 : e.deviceFull = true
  · rw [if_pos h1]
    split_ifs
    · exact Or.inr (Or.inl ⟨h1, by rw [setStartedLoggingInTestMode_state, blackboxSetState_state]⟩)
    · exact Or.inr (Or.inl ⟨h1, blackboxSetState_state _ _ _⟩)
    · exact Or.inl ⟨rfl, Or.inl rfl⟩
  · have h1f : e.deviceFull = false := by simpa using h1
    rw [if_neg h1]
    by_cases h2 : s.blackboxConfig.mode = BLACKBOX_MODE_MOTOR_TEST
    · rw [if_pos h2]
      by_cases h3 : (inMotorTestMode e s).2 = true
      · rw [if_pos h3]
        by_cases h4 : (inMotorTestMode e s).1.blackboxState = .STOPPED
        · rw [if_pos h4]
          rcases startInTestMode_state b e (inMotorTestMode e s).1 with h | h
          · rw [h]
            exact Or.inl ⟨hms, Or.inl hmf⟩
          · exact Or.inr (Or.inr (Or.inl ⟨h1f, hms ▸ h4, h⟩))
        · rw [if_neg h4]
          exact Or.inl ⟨hms, Or.inl hmf⟩
      · rw [if_neg h3]
        by_cases h4 : (inMotorTestMode e s).1.blackboxState ≠ .STOPPED
        · rw [if_pos h4]
          rcases stopInTestMode_cases e (inMotorTestMode e s).1 with ⟨_, h⟩ | ⟨hf, hc, hst⟩
          · rw [h]
            exact Or.inl ⟨hms, Or.inl hmf⟩
          · rcases blackboxFinish_state_cases e (inMotorTestMode e s).1 with h | h
            · exact Or.inl ⟨by rw [hst, h, hms], Or.inr hc⟩
            · exact Or.inr (Or.inr (Or.inr ⟨h1f, hmf ▸ hf, h2, by rw [hst, h]⟩))
        · rw [if_neg h4]
          exact Or.inl ⟨hms, Or.inl hmf⟩
    · rw [if_neg h2]
      by_cases h3 : s.blackboxConfig.mode = BLACKBOX_MODE_ALWAYS_ON
      · rw [if_pos h3]
        by_cases h4 : s.blackboxState = .STOPPED
        · rw [if_pos h4]
          rcases startInTestMode_state b e s with h | h
          · rw [h]
            exact Or.inl ⟨rfl, Or.inl rfl⟩
          · exact Or.inr (Or.inr (Or.inl ⟨h1f, h4, h⟩))
        · rw [if_neg h4]
          exact Or.inl ⟨rfl, Or.inl rfl⟩
      · rw [if_neg h3]
        exact Or.inl ⟨rfl, Or.inl rfl⟩

/-- The second half of `blackboxUpdate` writes nothing while the test-mode flag is clear. -/
theorem finish_log (b : Build) (e : Env) (s : State) (hf : s.startedLoggingInTestMode = false) :
    (blackboxUpdate.finish b e s).log = s.log := by
  unfold blackboxUpdate.finish
  dsimp only
  have hmf := inMotorTestMode_flag e s
  have hml := inMotorTestMode_log e s
  split_ifs
  · exact blackboxSetState_log e .STOPPED s
  · exact blackboxSetState_log e .STOPPED s
  · rfl
  · rw [startInTestMode_log, hml]
  · exact hml
  · rcases stopInTestMode_cases e (inMotorTestMode e s).1 with ⟨_, h⟩ | ⟨h, _⟩
    · rw [h, hml]
    · rw [hmf, hf] at h
      exact absurd h (by decide)
  · exact hml
  · rw [startInTestMode_log]
  · rfl
  · rfl

theorem switch_RUNNING_pause (b : Build) (e : Env) (s : State)
    (hs : s.blackboxState = .RUNNING)
    (ht : (blackboxUpdate.switch b e s).blackboxState = .PAUSED) :
    s.startedLoggingInTestMode = false := by
  rw [switch_RUNNING b e s hs, advance_state] at ht
  split_ifs at ht with h
  · simp only [Bool.and_eq_true, Bool.not_eq_true'] at h
    exact h.2
  · rw [blackboxLogIteration_state, hs] at ht
    cases ht

theorem switch_PAUSED_resume (b : Build) (e : Env) (s : State)
    (hs : s.blackboxState = .PAUSED) :
    ((blackboxUpdate.switch b e s).blackboxState = .RUNNING
      ↔ (e.rcModeBlackbox = true ∧ blackboxShouldLogIFrame s = true)) := by
  rw [switch_PAUSED b e s hs, advance_state]
  split_ifs with h
  · rw [blackboxLogIteration_state, blackboxSetState_state]
    simp only [Bool.and_eq_true] at h
    exact ⟨fun _ => h, fun _ => rfl⟩
  · rw [hs]
    simp only [Bool.and_eq_true] at h
    exact ⟨fun h1 => (by cases h1), fun h1 => absurd h1 h⟩

/-- The `switch` leaves CACHE_FLUSH only when the forced flush is complete, and then for the
state held in `cacheFlushNextState`. -/
theorem switch_CACHE_FLUSH_leave (b : Build) (e : Env) (s : State)
    (hs : s.blackboxState = .CACHE_FLUSH)
    (ht : (blackboxUpdate.switch b e s).blackboxState ≠ .CACHE_FLUSH) :
    e.deviceFlushForceComplete = true
      ∧ (blackboxUpdate.switch b e s).blackboxState = s.cacheFlushNextState := by
  rw [switch_CACHE_FLUSH b e s hs] at ht ⊢
  split_ifs at ht ⊢ with h
  · exact ⟨h, blackboxSetState_state _ _ _⟩
  · exact absurd hs ht

/-- How a tick can end in one of the four states RUNNING, PAUSED, CACHE_FLUSH, SEND_SYSINFO:
the second half of `blackboxUpdate` enters none of them. -/
theorem update_state_of_switch (b : Build) (e : Env) (s : State) (x : BlackboxState)
    (hx : x = .RUNNING ∨ x = .PAUSED ∨ x = .CACHE_FLUSH ∨ x = .SEND_SYSINFO)
    (h : (blackboxUpdate b e s).blackboxState = x) :
    (blackboxUpdate.switch b e s).blackboxState = x := by
  unfold blackboxUpdate at h
  rcases finish_state b e (blackboxUpdate.switch b e s) with
    ⟨h1, _⟩ | ⟨_, h1⟩ | ⟨_, _, h1⟩ | ⟨_, _, _, h1⟩
  · rw [← h1]
    exact h
  · rw [h1] at h
    rcases hx with hx | hx | hx | hx <;> rw [hx] at h <;> cases h
  · rcases h1 with h1 | h1 <;> rw [h1] at h <;>
      rcases hx with hx | hx | hx | hx <;> rw [hx] at h <;> cases h
  · rw [h1] at h
    rcases hx with hx | hx | hx | hx <;> rw [hx] at h <;> cases h

theorem update_into_RUNNING (b : Build) (e : Env) (s : State)
    (h : (blackboxUpdate b e s).blackboxState = .RUNNING) :
    s.blackboxState = .RUNNING ∨ s.blackboxState = .PAUSED
      ∨ (s.blackboxState = .CACHE_FLUSH ∧ s.cacheFlushNextState = .RUNNING
        ∧ e.deviceFlushForceComplete = true) := by
  have ht := update_state_of_switch b e s _ (Or.inl rfl) h
  have hsucc := switch_successors b e s
  rw [ht] at hsucc
  by_cases hc : s.blackboxState = .CACHE_FLUSH
  · have h1 := switch_CACHE_FLUSH_leave b e s hc (by rw [ht]; decide)
    exact Or.inr (Or.inr ⟨hc, by rw [← h1.2, ht], h1.1⟩)
  · revert hsucc hc
    cases s.blackboxState <;> simp [BlackboxState.successors]

theorem update_into_PAUSED (b : Build) (e : Env) (s : State)
    (h : (blackboxUpdate b e s).blackboxState = .PAUSED) :
    s.blackboxState = .PAUSED
      ∨ (s.blackboxState = .RUNNING ∧ s.startedLoggingInTestMode = false)
      ∨ (s.blackboxState = .CACHE_FLUSH ∧ s.cacheFlushNextState = .PAUSED) := by
  have ht := update_state_of_switch b e s _ (Or.inr (Or.inl rfl)) h
  have hsucc := switch_successors b e s
  rw [ht] at hsucc
  by_cases hc : s.blackboxState = .CACHE_FLUSH
  · have h1 := switch_CACHE_FLUSH_leave b e s hc (by rw [ht]; decide)
    exact Or.inr (Or.inr ⟨hc, by rw [← h1.2, ht]⟩)
  · by_cases hr : s.blackboxState = .RUNNING
    · exact Or.inr (Or.inl ⟨hr, switch_RUNNING_pause b e s hr ht⟩)
    · revert hsucc hc hr
      cases s.blackboxState <;> simp [BlackboxState.successors]

theorem update_into_SEND_SYSINFO (b : Build) (e : Env) (s : State)
    (h : (blackboxUpdate b e s).blackboxState = .SEND_SYSINFO) :
    s.blackboxState = .SEND_SYSINFO
      ∨ (s.blackboxState = .CACHE_FLUSH ∧ s.cacheFlushNextState = .SEND_SYSINFO
        ∧ e.deviceFlushForceComplete = true) := by
  have ht := update_state_of_switch b e s _ (Or.inr (Or.inr (Or.inr rfl))) h
  have hsucc := switch_successors b e s
  rw [ht] at hsucc
  by_cases hc : s.blackboxState = .CACHE_FLUSH
  · have h1 := switch_CACHE_FLUSH_leave b e s hc (by rw [ht]; decide)
    exact Or.inr ⟨hc, by rw [← h1.2, ht], h1.1⟩
  · revert hsucc hc
    cases s.blackboxState <;> simp [BlackboxState.successors]

theorem update_next (b : Build) (e : Env) (s : State)
    (h1 : s.blackboxState ≠ .SEND_SLOW_HEADER) (h2 : s.blackboxState ≠ .SEND_SYSINFO) :
    (blackboxUpdate b e s).cacheFlushNextState = s.cacheFlushNextState := by
  unfold blackboxUpdate
  rw [finish_next, switch_next b e s h1 h2]

theorem update_into_CACHE_FLUSH (b : Build) (e : Env) (s : State)
    (h : (blackboxUpdate b e s).blackboxState = .CACHE_FLUSH) :
    (s.blackboxState = .CACHE_FLUSH
        ∧ (blackboxUpdate b e s).cacheFlushNextState = s.cacheFlushNextState)
      ∨ (s.blackboxState = .SEND_SLOW_HEADER
        ∧ (blackboxUpdate b e s).cacheFlushNextState = .SEND_SYSINFO)
      ∨ (s.blackboxState = .SEND_SYSINFO
        ∧ (blackboxUpdate b e s).cacheFlushNextState = .RUNNING) := by
  have ht := update_state_of_switch b e s _ (Or.inr (Or.inr (Or.inl rfl))) h
  have hn : (blackboxUpdate b e s).cacheFlushNextState
      = (blackboxUpdate.switch b e s).cacheFlushNextState := by
    unfold blackboxUpdate
    rw [finish_next]
  rw [hn]
  by_cases h1 : s.blackboxState = .SEND_SLOW_HEADER
  · rcases switch_SEND_SLOW_HEADER b e s h1 with ⟨h2, _⟩ | ⟨_, h2⟩
    · rw [h2] at ht
      cases ht
    · exact Or.inr (Or.inl ⟨h1, h2⟩)
  · by_cases h2 : s.blackboxState = .SEND_SYSINFO
    · rcases switch_SEND_SYSINFO b e s h2 with ⟨h3, _⟩ | ⟨_, h3⟩
      · rw [h3] at ht
        cases ht
      · exact Or.inr (Or.inr ⟨h2, h3⟩)
    · refine Or.inl ⟨?_, switch_next b e s h1 h2⟩
      have hsucc := switch_successors b e s
      rw [ht] at hsucc
      by_contra hc
      have hne : s.blackboxState ≠ .CACHE_FLUSH := hc
      revert hsucc h1 h2 hne
      cases s.blackboxState <;> simp [BlackboxState.successors]

/-! ### Runs of calls -/

/-- A call other than `blackboxUpdate` keeps the state or, for `blackboxFinish`, moves it to
SHUTTING_DOWN, and keeps the two latches. -/
theorem apply_other (b : Build) (op : Op) (s : State) (h : ∀ e, op ≠ .update e) :
    ((op.apply b s).blackboxState = s.blackboxState
        ∨ (op.apply b s).blackboxState = .SHUTTING_DOWN)
      ∧ (op.apply b s).startedLoggingInTestMode = s.startedLoggingInTestMode
      ∧ (op.apply b s).cacheFlushNextState = s.cacheFlushNextState := by
  cases op with
  | update e => exact absurd rfl (h e)
  | logEvent event data =>
    exact ⟨Or.inl (blackboxLogEvent_blackboxState event data s), blackboxLogEvent_flag _ _ _,
      blackboxLogEvent_next _ _ _⟩
  | finish e =>
    exact ⟨blackboxFinish_state_cases e s, blackboxFinish_flag e s, blackboxFinish_next e s⟩
  | logIteration e =>
    exact ⟨Or.inl (blackboxLogIteration_state b e s), blackboxLogIteration_flag b e s,
      blackboxLogIteration_next b e s⟩

theorem apply_into_RUNNING (b : Build) (op : Op) (s : State)
    (h : (op.apply b s).blackboxState = .RUNNING) :
    s.blackboxState = .RUNNING ∨ s.blackboxState = .PAUSED
      ∨ (s.blackboxState = .CACHE_FLUSH ∧ s.cacheFlushNextState = .RUNNING
        ∧ ∃ e, op = .update e ∧ e.deviceFlushForceComplete = true) := by
  by_cases hop : ∃ e, op = .update e
  · obtain ⟨e, rfl⟩ := hop
    rcases update_into_RUNNING b e s h with h1 | h1 | ⟨h1, h2, h3⟩
    · exact Or.inl h1
    · exact Or.inr (Or.inl h1)
    · exact Or.inr (Or.inr ⟨h1, h2, e, rfl, h3⟩)
  · have h1 := (apply_other b op s (fun e he => hop ⟨e, he⟩)).1
    rw [h] at h1
    rcases h1 with h1 | h1
    · exact Or.inl h1.symm
    · cases h1

theorem apply_into_SEND_SYSINFO (b : Build) (op : Op) (s : State)
    (h : (op.apply b s).blackboxState = .SEND_SYSINFO) :
    s.blackboxState = .SEND_SYSINFO
      ∨ (s.blackboxState = .CACHE_FLUSH ∧ s.cacheFlushNextState = .SEND_SYSINFO
        ∧ ∃ e, op = .update e ∧ e.deviceFlushForceComplete = true) := by
  by_cases hop : ∃ e, op = .update e
  · obtain ⟨e, rfl⟩ := hop
    rcases update_into_SEND_SYSINFO b e s h with h1 | ⟨h1, h2, h3⟩
    · exact Or.inl h1
    · exact Or.inr ⟨h1, h2, e, rfl, h3⟩
  · have h1 := (apply_other b op s (fun e he => hop ⟨e, he⟩)).1
    rw [h] at h1
    rcases h1 with h1 | h1
    · exact Or.inl h1.symm
    · cases h1

theorem apply_into_PAUSED (b : Build) (op : Op) (s : State)
    (h : (op.apply b s).blackboxState = .PAUSED) :
    s.blackboxState = .PAUSED
      ∨ (s.blackboxState = .RUNNING ∧ s.startedLoggingInTestMode = false)
      ∨ (s.blackboxState = .CACHE_FLUSH ∧ s.cacheFlushNextState = .PAUSED) := by
  by_cases hop : ∃ e, op = .update e
  · obtain ⟨e, rfl⟩ := hop
    exact update_into_PAUSED b e s h
  · have h1 := (apply_other b op s (fun e he => hop ⟨e, he⟩)).1
    rw [h] at h1
    rcases h1 with h1 | h1
    · exact Or.inl h1.symm
    · cases h1

theorem apply_into_CACHE_FLUSH (b : Build) (op : Op) (s : State)
    (h : (op.apply b s).blackboxState = .CACHE_FLUSH) :
    (s.blackboxState = .CACHE_FLUSH
        ∧ (op.apply b s).cacheFlushNextState = s.cacheFlushNextState)
      ∨ (s.blackboxState = .SEND_SLOW_HEADER
        ∧ (op.apply b s).cacheFlushNextState = .SEND_SYSINFO)
      ∨ (s.blackboxState = .SEND_SYSINFO
        ∧ (op.apply b s).cacheFlushNextState = .RUNNING) := by
  by_cases hop : ∃ e, op = .update e
  · obtain ⟨e, rfl⟩ := hop
    exact update_into_CACHE_FLUSH b e s h
  · have h1 := apply_other b op s (fun e he => hop ⟨e, he⟩)
    rw [h] at h1
    rcases h1.1 with h2 | h2
    · exact Or.inl ⟨h2.symm, h1.2.2⟩
    · cases h2

/-- A tick that ends in PAUSED leaves the test-mode flag as it was or clear. -/
theorem update_flag_paused (b : Build) (e : Env) (s : State)
    (h : (blackboxUpdate b e s).blackboxState = .PAUSED) :
    (blackboxUpdate b e s).startedLoggingInTestMode = s.startedLoggingInTestMode
      ∨ (blackboxUpdate b e s).startedLoggingInTestMode = false := by
  unfold blackboxUpdate at h ⊢
  rcases finish_state b e (blackboxUpdate.switch b e s) with
    ⟨_, h1⟩ | ⟨_, h1⟩ | ⟨_, _, h1⟩ | ⟨_, _, _, h1⟩
  · rw [switch_flag] at h1
    exact h1
  · rw [h1] at h
    cases h
  · rcases h1 with h1 | h1 <;> rw [h1] at h <;> cases h
  · rw [h1] at h
    cases h

theorem apply_coherent (b : Build) (op : Op) (s : State) (hs : s.coherent) :
    (op.apply b s).coherent := by
  constructor
  · intro h
    have hsrc : s.startedLoggingInTestMode = false := by
      rcases apply_into_PAUSED b op s h with h1 | ⟨_, h1⟩ | ⟨h1, h2⟩
      · exact hs.1 h1
      · exact h1
      · rcases hs.2 h1 with h3 | h3 <;> rw [h3] at h2 <;> cases h2
    by_cases hop : ∃ e, op = .update e
    · obtain ⟨e, rfl⟩ := hop
      rcases update_flag_paused b e s h with h1 | h1
      · exact h1.trans hsrc
      · exact h1
    · exact (apply_other b op s (fun e he => hop ⟨e, he⟩)).2.1.trans hsrc
  · intro h
    rcases apply_into_CACHE_FLUSH b op s h with ⟨h1, h2⟩ | ⟨_, h2⟩ | ⟨_, h2⟩
    · rw [h2]
      exact hs.2 h1
    · exact Or.inl h2
    · exact Or.inr h2

theorem coherent_of_state (s : State) (h1 : s.blackboxState ≠ .PAUSED)
    (h2 : s.blackboxState ≠ .CACHE_FLUSH) : s.coherent :=
  ⟨fun h => absurd h h1, fun h => absurd h h2⟩

theorem runOps_coherent (b : Build) (ops : List Op) (s : State) (hs : s.coherent) :
    (runOps b ops s).coherent := by
  induction ops generalizing s with
  | nil => exact hs
  | cons op ops ih => exact ih _ (apply_coherent b op s hs)

theorem runCalls_coherent (b : Build) (calls : Nat → Op) (n : Nat) (s : State)
    (hs : s.coherent) : (runCalls b calls n s).coherent := by
  induction n with
  | zero => exact hs
  | succ n ih => exact apply_coherent b (calls n) _ ih

/-- Whenever the machine is in CACHE_FLUSH with RUNNING to follow, it came there from
SEND_SYSINFO and has been in CACHE_FLUSH since. -/
theorem runCalls_flush_origin (b : Build) (calls : Nat → Op) (s0 : State)
    (h0 : s0.blackboxState ≠ .CACHE_FLUSH) (n : Nat)
    (h1 : (runCalls b calls n s0).blackboxState = .CACHE_FLUSH)
    (h2 : (runCalls b calls n s0).cacheFlushNextState = .RUNNING) :
    ∃ i, i < n ∧ (runCalls b calls i s0).blackboxState = .SEND_SYSINFO
      ∧ ∀ k, i < k → k ≤ n → (runCalls b calls k s0).blackboxState = .CACHE_FLUSH := by
  induction n with
  | zero => exact absurd h1 h0
  | succ n ih =>
    rcases apply_into_CACHE_FLUSH b (calls n) (runCalls b calls n s0) h1 with
      ⟨h3, h4⟩ | ⟨_, h4⟩ | ⟨h3, _⟩
    · obtain ⟨i, hi, hsys, hall⟩ := ih h3 (h4 ▸ h2)
      refine ⟨i, Nat.lt_succ_of_lt hi, hsys, fun k hk hk2 => ?_⟩
      rcases Nat.lt_or_ge k (n + 1) with h5 | h5
      · exact hall k hk (Nat.lt_succ_iff.mp h5)
      · have : k = n + 1 := Nat.le_antisymm hk2 h5
        rw [this]
        exact h1
    · have h5 : (runCalls b calls (n + 1) s0).cacheFlushNextState = .SEND_SYSINFO := h4
      rw [h5] at h2
      cases h2
    · refine ⟨n, Nat.lt_succ_self n, h3, fun k hk hk2 => ?_⟩
      have : k = n + 1 := Nat.le_antisymm hk2 hk
      rw [this]
      exact h1

/-- A header state is followed by RUNNING or PAUSED only after SEND_SYSINFO and then
CACHE_FLUSH. -/
theorem runCalls_header_funnel (b : Build) (calls : Nat → Op) (s0 : State)
    (h0 : s0.blackboxState ≠ .CACHE_FLUSH) (hc : s0.coherent) (j : Nat) :
    ∀ i, i ≤ j →
      ((runCalls b calls i s0).blackboxState = .SEND_MAIN_FIELD_HEADER
        ∨ (runCalls b calls i s0).blackboxState = .SEND_GPS_H_HEADER
        ∨ (runCalls b calls i s0).blackboxState = .SEND_GPS_G_HEADER
        ∨ (runCalls b calls i s0).blackboxState = .SEND_SLOW_HEADER) →
      ((runCalls b calls (j + 1) s0).blackboxState = .RUNNING
        ∨ (runCalls b calls (j + 1) s0).blackboxState = .PAUSED) →
      ∃ k l, i < k ∧ k < l ∧ l ≤ j ∧ (runCalls b calls k s0).blackboxState = .SEND_SYSINFO
        ∧ (runCalls b calls l s0).blackboxState = .CACHE_FLUSH := by
  induction j with
  | zero =>
    intro i hi hh hr
    have hi0 : i = 0 := Nat.le_zero.mp hi
    subst hi0
    have hsrc : (runCalls b calls 0 s0).blackboxState = .RUNNING
        ∨ (runCalls b calls 0 s0).blackboxState = .PAUSED
        ∨ (runCalls b calls 0 s0).blackboxState = .CACHE_FLUSH := by
      rcases hr with hr | hr
      · rcases apply_into_RUNNING b (calls 0) _ hr with h | h | ⟨h, _⟩
        · exact Or.inl h
        · exact Or.inr (Or.inl h)
        · exact Or.inr (Or.inr h)
      · rcases apply_into_PAUSED b (calls 0) _ hr with h | ⟨h, _⟩ | ⟨h, _⟩
        · exact Or.inr (Or.inl h)
        · exact Or.inl h
        · exact Or.inr (Or.inr h)
    rcases hh with hh | hh | hh | hh <;> rw [hh] at hsrc <;> simp at hsrc
  | succ j ih =>
    intro i hi hh hr
    have hcoh := runCalls_coherent b calls (j + 1) s0 hc
    have hsrc : ((runCalls b calls (j + 1) s0).blackboxState = .RUNNING
        ∨ (runCalls b calls (j + 1) s0).blackboxState = .PAUSED)
        ∨ ((runCalls b calls (j + 1) s0).blackboxState = .CACHE_FLUSH
          ∧ (runCalls b calls (j + 1) s0).cacheFlushNextState = .RUNNING) := by
      rcases hr with hr | hr
      · rcases apply_into_RUNNING b (calls (j + 1)) _ hr with h | h | ⟨h, h2, _⟩
        · exact Or.inl (Or.inl h)
        · exact Or.inl (Or.inr h)
        · exact Or.inr ⟨h, h2⟩
      · rcases apply_into_PAUSED b (calls (j + 1)) _ hr with h | ⟨h, _⟩ | ⟨h, h2⟩
        · exact Or.inl (Or.inr h)
        · exact Or.inl (Or.inl h)
        · rcases hcoh.2 h with h3 | h3 <;> rw [h3] at h2 <;> cases h2
    rcases hsrc with hsrc | ⟨hcf, hnext⟩
    · have hlt : i ≤ j := by
        rcases Nat.lt_or_ge i (j + 1) with h | h
        · exact Nat.lt_succ_iff.mp h
        · have : i = j + 1 := Nat.le_antisymm hi h
          rw [this] at hh
          rcases hsrc with hsrc | hsrc <;> rw [hsrc] at hh <;> simp at hh
      obtain ⟨k, l, h1, h2, h3, h4, h5⟩ := ih i hlt hh hsrc
      exact ⟨k, l, h1, h2, Nat.le_succ_of_le h3, h4, h5⟩
    · obtain ⟨i2, hi2, hsys, hall⟩ := runCalls_flush_origin b calls s0 h0 (j + 1) hcf hnext
      have hlt : i < i2 := by
        rcases Nat.lt_trichotomy i i2 with h | h | h
        · exact h
        · rw [h, hsys] at hh
          simp at hh
        · have := hall i h hi
          rw [this] at hh
          simp at hh
      exact ⟨i2, j + 1, hlt, hi2, Nat.le_refl _, hsys, hcf⟩

/-! ### Resuming from PAUSED -/

theorem writeSlowFrameIfNeeded_log_cases (e : Env) (s : State) :
    (writeSlowFrameIfNeeded e s).1.log = s.log
      ∨ ∃ p, (writeSlowFrameIfNeeded e s).1.log = s.log ++ [LogItem.frame 'S' p] := by
  unfold writeSlowFrameIfNeeded
  dsimp only
  split_ifs
  · exact Or.inr ⟨_, rfl⟩
  · exact Or.inr ⟨_, rfl⟩
  · exact Or.inl rfl

/-- An iteration logged on an intra-frame boundary writes an 'I' frame, preceded by at most
one slow frame. -/
theorem blackboxLogIteration_intra_log (b : Build) (e : Env) (s : State)
    (h : blackboxShouldLogIFrame s = true) :
    ∃ pre payload, (blackboxLogIteration b e s).log = s.log ++ pre ++ [LogItem.frame 'I' payload]
      ∧ (pre = [] ∨ ∃ p, pre = [LogItem.frame 'S' p]) := by
  unfold blackboxLogIteration
  dsimp only
  rw [if_pos h]
  split_ifs
  · rcases writeSlowFrameIfNeeded_log_cases e s with h1 | ⟨p, h1⟩
    · refine ⟨[], writeIntraframe.payload b e (loadMainState b e (writeSlowFrameIfNeeded e s).1),
        ?_, Or.inl rfl⟩
      show (writeSlowFrameIfNeeded e s).1.log ++ _ = _
      rw [h1, List.append_nil]
    · refine ⟨[LogItem.frame 'S' p],
        writeIntraframe.payload b e (loadMainState b e (writeSlowFrameIfNeeded e s).1),
        ?_, Or.inr ⟨p, rfl⟩⟩
      show (writeSlowFrameIfNeeded e s).1.log ++ _ = _
      rw [h1]
  · exact ⟨[], writeIntraframe.payload b e (loadMainState b e s),
      by rw [List.append_nil]; rfl, Or.inl rfl⟩

/-- The log after the `switch` of a tick that resumes from PAUSED. -/
theorem switch_PAUSED_resume_log (b : Build) (e : Env) (s : State)
    (hs : s.blackboxState = .PAUSED) (h1 : e.rcModeBlackbox = true)
    (h2 : blackboxShouldLogIFrame s = true) :
    ∃ pre payload, (blackboxUpdate.switch b e s).log
        = s.log ++ [LogItem.frame 'E' [Write.byte FLIGHT_LOG_EVENT_LOGGING_RESUME,
            Write.unsignedVB ⟨.event 0, s.blackboxIteration⟩,
            Write.unsignedVB ⟨.event 1, e.currentTimeUs % 4294967296⟩]]
          ++ pre ++ [LogItem.frame 'I' payload]
      ∧ (pre = [] ∨ ∃ p, pre = [LogItem.frame 'S' p]) := by
  rw [switch_PAUSED b e s hs, advance_log, h1, h2]
  simp only [Bool.and_self, if_true]
  have hl := blackboxLogEvent_log FLIGHT_LOG_EVENT_LOGGING_RESUME
    { loggingResume_logIteration := s.blackboxIteration
      loggingResume_currentTime := e.currentTimeUs % 4294967296 } s (Or.inr hs)
  have hc := blackboxLogEvent_counters FLIGHT_LOG_EVENT_LOGGING_RESUME
    { loggingResume_logIteration := s.blackboxIteration
      loggingResume_currentTime := e.currentTimeUs % 4294967296 } s
  generalize blackboxLogEvent FLIGHT_LOG_EVENT_LOGGING_RESUME
    { loggingResume_logIteration := s.blackboxIteration
      loggingResume_currentTime := e.currentTimeUs % 4294967296 } s = s1 at hl hc
  have h3 : blackboxShouldLogIFrame (blackboxSetState e .RUNNING s1) = true := by
    have h4 := blackboxSetState_counters e .RUNNING s1
    rw [hc] at h4
    simp only [State.counters, Prod.mk.injEq] at h4
    unfold blackboxShouldLogIFrame at h2 ⊢
    rw [h4.2.1]
    exact h2
  obtain ⟨pre, payload, h5, h6⟩ := blackboxLogIteration_intra_log b e _ h3
  refine ⟨pre, payload, ?_, h6⟩
  rw [h5, blackboxSetState_log, hl]
  rfl

/-! ### Length of a header line -/

theorem toDigitsCore_length_pos (b fuel n : Nat) (ds : List Char) :
    ds.length ≤ (Nat.toDigitsCore b fuel n ds).length := by
  induction fuel generalizing n ds with
  | zero => simp [Nat.toDigitsCore]
  | succ fuel ih =>
    simp only [Nat.toDigitsCore]
    split_ifs
    · simp
    · exact le_trans (by simp) (ih _ _)

theorem nat_repr_length_pos (n : Nat) : 1 ≤ (Nat.repr n).length := by
  unfold Nat.repr Nat.toDigits
  simp only [List.asString, String.length]
  simp only [Nat.toDigitsCore]
  split_ifs
  · simp
  · exact le_trans (by simp) (toDigitsCore_length_pos _ _ _ _)

theorem int_toString_length_pos (i : Int) : 1 ≤ (toString i).length := by
  cases i with
  | ofNat n => exact nat_repr_length_pos n
  | negSucc n =>
    show 1 ≤ ("-" ++ Nat.repr (n + 1)).length
    rw [String.length_append]
    have := nat_repr_length_pos (n + 1)
    omega

theorem intercalate_go_length (acc s : String) (l : List String) :
    (String.intercalate.go acc s l).length
      = acc.length + (l.map (fun a => s.length + a.length)).sum := by
  induction l generalizing acc with
  | nil => simp [String.intercalate.go]
  | cons a l ih =>
    simp only [String.intercalate.go, ih, String.length_append, List.map_cons, List.sum_cons]
    omega

theorem formatDecimalList_length (vals : List Int) (h : vals ≠ []) :
    2 * vals.length - 1 ≤ (formatDecimalList vals).length := by
  unfold formatDecimalList
  cases vals with
  | nil => exact absurd rfl h
  | cons v vs =>
    simp only [List.map_cons, String.intercalate, intercalate_go_length, List.length_cons]
    have h1 := int_toString_length_pos v
    have h2 : 2 * vs.length ≤ (List.map (fun a => ",".length + a.length)
        (List.map toString vs)).sum := by
      induction vs with
      | nil => simp
      | cons w ws ih =>
        simp only [List.map_cons, List.sum_cons, List.length_cons]
        have h3 := int_toString_length_pos w
        have h4 : ",".length = 1 := rfl
        have := ih (by simp)
        omega
    omega

theorem sysinfoRpmFilterBankMotorIndex_length (f : Nat → Int) :
    67 ≤ (sysinfoRpmFilterBankMotorIndex f).length := by
  unfold sysinfoRpmFilterBankMotorIndex headerLineText
  simp only [String.length_append]
  have h := formatDecimalList_length ((List.range 16).map f) (by simp)
  simp only [List.length_map, List.length_range] at h
  have h1 : "H ".length = 2 := rfl
  have h2 : "gyro_rpm_filter_bank_motor_index".length = 32 := by decide
  have h3 : ":".length = 1 := rfl
  have h4 : "\n".length = 1 := rfl
  omega

/-! ### Parts of sendFieldDefinition -/

theorem toInt32_succ (u : Nat) (h : toInt32 u ≠ 2147483647) :
    toInt32 ((u + 1) % 4294967296) = toInt32 u + 1 := by
  unfold toInt32 at *
  split_ifs at * <;> omega

theorem fieldIndex_setU_succ (s t : State) (h : s.fieldIndex < 2147483647) :
    (t.setU ((s.u + 1) % 4294967296)).fieldIndex = s.fieldIndex + 1 := by
  unfold State.fieldIndex at *
  exact toInt32_succ s.u (by omega)

theorem reserve_fst (e e2 : Env) (n : Nat) (s : State) :
    (blackboxDeviceReserveBufferSpace e n s).1 = (blackboxDeviceReserveBufferSpace e2 n s).1 :=
  rfl

theorem reserve_withRoom (e : Env) (n : Nat) (s : State) :
    (blackboxDeviceReserveBufferSpace e.withRoom n s).2 = true := rfl

theorem reserve_position (e : Env) (n : Nat) (s : State) :
    (blackboxDeviceReserveBufferSpace e n s).1.position = s.position := rfl

theorem field_u (fd : blackboxFieldDefinition_t) (n : Nat) (s : State) :
    (sendFieldDefinition.field fd n s).u = (s.u + 1) % 4294967296 := by
  unfold sendFieldDefinition.field
  dsimp only
  split_ifs <;>
    simp only [State.setU, State.writeHeader, State.setNeedComma, State.setHeaderBudget]

theorem field_headerIndex (fd : blackboxFieldDefinition_t) (n : Nat) (s : State) :
    (sendFieldDefinition.field fd n s).headerIndex = s.headerIndex := by
  unfold sendFieldDefinition.field
  dsimp only
  split_ifs <;>
    simp only [State.setU, State.writeHeader, State.setNeedComma, State.setHeaderBudget]

theorem field_fieldIndex (fd : blackboxFieldDefinition_t) (n : Nat) (s : State)
    (h : s.fieldIndex < 2147483647) :
    (sendFieldDefinition.field fd n s).fieldIndex = s.fieldIndex + 1 := by
  unfold State.fieldIndex at *
  rw [field_u]
  exact toInt32_succ s.u (by omega)

/-- One pass of the loop of `sendFieldDefinition`. -/
theorem loop_succ (e : Env) (defs : List blackboxFieldDefinition_t) (conds : Option (List Nat))
    (fuel : Nat) (s : State) :
    sendFieldDefinition.loop e defs conds (fuel + 1) s
      = if s.fieldIndex < (defs.length : Int) then
          if sendFieldDefinition.included conds s = true then
            if (blackboxDeviceReserveBufferSpace e
                (sendFieldDefinition.bytesToWrite defs s) s).2 = false then
              ((blackboxDeviceReserveBufferSpace e
                (sendFieldDefinition.bytesToWrite defs s) s).1, true)
            else
              sendFieldDefinition.loop e defs conds fuel
                (sendFieldDefinition.field (defs.getD s.fieldIndex.toNat default)
                  (sendFieldDefinition.bytesToWrite defs s)
                  (blackboxDeviceReserveBufferSpace e
                    (sendFieldDefinition.bytesToWrite defs s) s).1)
          else sendFieldDefinition.loop e defs conds fuel (s.setU ((s.u + 1) % 4294967296))
        else (s, false) := by
  rfl

theorem loop_zero (e : Env) (defs : List blackboxFieldDefinition_t) (conds : Option (List Nat))
    (s : State) : sendFieldDefinition.loop e defs conds 0 s = (s, false) := rfl

/-- Inside a line, a unit is one pass of the loop body: the field is written after its
reservation, or left out. -/
theorem unit_of_field (e : Env) (c1 c2 : Char) (defs : List blackboxFieldDefinition_t)
    (conds : Option (List Nat)) (s : State) (h1 : s.fieldIndex ≠ -1)
    (h2 : s.fieldIndex < (defs.length : Int)) :
    sendFieldDefinition.unit e c1 c2 defs conds s
      = if sendFieldDefinition.included conds s = true then
          sendFieldDefinition.field (defs.getD s.fieldIndex.toNat default)
            (sendFieldDefinition.bytesToWrite defs s)
            (blackboxDeviceReserveBufferSpace e (sendFieldDefinition.bytesToWrite defs s) s).1
        else s.setU ((s.u + 1) % 4294967296) := by
  unfold sendFieldDefinition.unit
  rw [if_neg h1, if_pos h2, loop_succ, if_pos h2]
  by_cases hinc : sendFieldDefinition.included conds s = true
  · simp only [hinc, if_true, reserve_withRoom, Bool.true_eq_false, if_false, loop_zero]
    rfl
  · simp only [hinc, Bool.false_eq_true, if_false, loop_zero]

/-! ### The loop as whole units -/

theorem pending_of_field (defs : List blackboxFieldDefinition_t) (s : State)
    (h1 : s.fieldIndex ≠ -1) (h2 : s.fieldIndex < (defs.length : Int)) :
    sendFieldDefinition.pending defs s = sendFieldDefinition.bytesToWrite defs s := by
  unfold sendFieldDefinition.pending sendFieldDefinition.bytesToWrite
  rw [if_neg h1, if_pos h2]

theorem unit_fieldIndex_of_field (e : Env) (c1 c2 : Char)
    (defs : List blackboxFieldDefinition_t) (conds : Option (List Nat)) (s : State)
    (hlen : defs.length < 2147483648) (h1 : s.fieldIndex ≠ -1)
    (h2 : s.fieldIndex < (defs.length : Int)) :
    (sendFieldDefinition.unit e c1 c2 defs conds s).fieldIndex = s.fieldIndex + 1
      ∧ (sendFieldDefinition.unit e c1 c2 defs conds s).headerIndex = s.headerIndex := by
  rw [unit_of_field e c1 c2 defs conds s h1 h2]
  have hf : s.fieldIndex < 2147483647 := by omega
  split_ifs
  · constructor
    · have h := field_fieldIndex (defs.getD s.fieldIndex.toNat default)
        (sendFieldDefinition.bytesToWrite defs s)
        (blackboxDeviceReserveBufferSpace e (sendFieldDefinition.bytesToWrite defs s) s).1 hf
      exact h
    · exact field_headerIndex _ _ _
  · exact ⟨fieldIndex_setU_succ s s hf, rfl⟩

/-- The loop of `sendFieldDefinition` makes whole units: it ends after some number of them,
or stops before a unit whose reservation failed, with only the count of reservations
changed. -/
theorem loop_units (e : Env) (c1 c2 : Char) (defs : List blackboxFieldDefinition_t)
    (conds : Option (List Nat)) (hlen : defs.length < 2147483648) (fuel : Nat) (s : State)
    (h0 : 0 ≤ s.fieldIndex) :
    ∃ k, ((sendFieldDefinition.loop e defs conds fuel s).2 = false →
        (sendFieldDefinition.loop e defs conds fuel s).1
          = (sendFieldDefinition.unit e c1 c2 defs conds)^[k] s)
      ∧ ((sendFieldDefinition.loop e defs conds fuel s).2 = true →
        (sendFieldDefinition.loop e defs conds fuel s).1
          = (blackboxDeviceReserveBufferSpace e
              (sendFieldDefinition.pending defs
                ((sendFieldDefinition.unit e c1 c2 defs conds)^[k] s))
              ((sendFieldDefinition.unit e c1 c2 defs conds)^[k] s)).1
        ∧ e.deviceReserve ((sendFieldDefinition.unit e c1 c2 defs conds)^[k] s).reserveCalls
            (sendFieldDefinition.pending defs
              ((sendFieldDefinition.unit e c1 c2 defs conds)^[k] s)) = false) := by
  induction fuel generalizing s with
  | zero => exact ⟨0, fun _ => rfl, fun h => (by cases h)⟩
  | succ fuel ih =>
    rw [loop_succ]
    by_cases h2 : s.fieldIndex < (defs.length : Int)
    · have h1 : s.fieldIndex ≠ -1 := by omega
      have hu := unit_of_field e c1 c2 defs conds s h1 h2
      have hf := (unit_fieldIndex_of_field e c1 c2 defs conds s hlen h1 h2).1
      have h0u : 0 ≤ (sendFieldDefinition.unit e c1 c2 defs conds s).fieldIndex := by omega
      rw [if_pos h2]
      by_cases hinc : sendFieldDefinition.included conds s = true
      · rw [if_pos hinc] at hu ⊢
        by_cases hr : (blackboxDeviceReserveBufferSpace e
            (sendFieldDefinition.bytesToWrite defs s) s).2 = false
        · rw [if_pos hr]
          refine ⟨0, fun h => (by cases h), fun _ => ?_⟩
          rw [Function.iterate_zero, id, pending_of_field defs s h1 h2]
          exact ⟨rfl, hr⟩
        · rw [if_neg hr, ← hu]
          obtain ⟨k, hk⟩ := ih _ h0u
          exact ⟨k + 1, by simpa only [Function.iterate_succ_apply] using hk⟩
      · rw [if_neg hinc] at hu ⊢
        rw [← hu]
        obtain ⟨k, hk⟩ := ih _ h0u
        exact ⟨k + 1, by simpa only [Function.iterate_succ_apply] using hk⟩
    · rw [if_neg h2]
      exact ⟨0, fun _ => rfl, fun h => (by cases h)⟩

/-- Where the loop of `sendFieldDefinition` leaves the field index. -/
theorem loop_fieldIndex (e : Env) (defs : List blackboxFieldDefinition_t)
    (conds : Option (List Nat)) (hlen : defs.length < 2147483648) (fuel : Nat) (s : State)
    (h0 : 0 ≤ s.fieldIndex) (h1 : s.fieldIndex ≤ (defs.length : Int)) :
    s.fieldIndex ≤ (sendFieldDefinition.loop e defs conds fuel s).1.fieldIndex
      ∧ (sendFieldDefinition.loop e defs conds fuel s).1.fieldIndex ≤ (defs.length : Int)
      ∧ (sendFieldDefinition.loop e defs conds fuel s).1.headerIndex = s.headerIndex
      ∧ ((sendFieldDefinition.loop e defs conds fuel s).2 = false →
        (defs.length : Int) - s.fieldIndex ≤ fuel →
        (sendFieldDefinition.loop e defs conds fuel s).1.fieldIndex = (defs.length : Int)) := by
  induction fuel generalizing s with
  | zero =>
    refine ⟨le_refl _, h1, rfl, fun _ h => ?_⟩
    show s.fieldIndex = _
    simp only [Nat.cast_zero] at h
    omega
  | succ fuel ih =>
    rw [loop_succ]
    by_cases h2 : s.fieldIndex < (defs.length : Int)
    · rw [if_pos h2]
      have hf : s.fieldIndex < 2147483647 := by omega
      by_cases hinc : sendFieldDefinition.included conds s = true
      · rw [if_pos hinc]
        by_cases hr : (blackboxDeviceReserveBufferSpace e
            (sendFieldDefinition.bytesToWrite defs s) s).2 = false
        · rw [if_pos hr]
          exact ⟨le_refl _, h1, rfl, fun h => (by cases h)⟩
        · rw [if_neg hr]
          have hx : (sendFieldDefinition.field (defs.getD s.fieldIndex.toNat default)
            (sendFieldDefinition.bytesToWrite defs s)
            (blackboxDeviceReserveBufferSpace e (sendFieldDefinition.bytesToWrite defs s)
              s).1).fieldIndex = s.fieldIndex + 1 :=
            field_fieldIndex (defs.getD s.fieldIndex.toNat default)
              (sendFieldDefinition.bytesToWrite defs s)
              (blackboxDeviceReserveBufferSpace e (sendFieldDefinition.bytesToWrite defs s) s).1
              hf
          have hh : (sendFieldDefinition.field (defs.getD s.fieldIndex.toNat default)
            (sendFieldDefinition.bytesToWrite defs s)
            (blackboxDeviceReserveBufferSpace e (sendFieldDefinition.bytesToWrite defs s)
              s).1).headerIndex = s.headerIndex := field_headerIndex _ _ _
          generalize sendFieldDefinition.field (defs.getD s.fieldIndex.toNat default)
            (sendFieldDefinition.bytesToWrite defs s)
            (blackboxDeviceReserveBufferSpace e (sendFieldDefinition.bytesToWrite defs s)
              s).1 = x at hx hh ⊢
          obtain ⟨i1, i2, i3, i4⟩ := ih x (by omega) (by omega)
          refine ⟨by omega, i2, i3.trans hh, fun h hfu => i4 h ?_⟩
          push_cast at hfu
          omega
      · rw [if_neg hinc]
        have hx := fieldIndex_setU_succ s s hf
        have hh : (s.setU ((s.u + 1) % 4294967296)).headerIndex = s.headerIndex := rfl
        generalize s.setU ((s.u + 1) % 4294967296) = x at hx hh ⊢
        obtain ⟨i1, i2, i3, i4⟩ := ih x (by omega) (by omega)
        refine ⟨by omega, i2, i3.trans hh, fun h hfu => i4 h ?_⟩
        push_cast at hfu
        omega
    · rw [if_neg h2]
      refine ⟨le_refl _, h1, rfl, fun _ _ => ?_⟩
      show s.fieldIndex = _
      omega

/-! ### The first and the last part as units -/

theorem headerCount_le (c2 : Char) : sendFieldDefinition.headerCount c2 ≤ 6 := by
  unfold sendFieldDefinition.headerCount
  split_ifs <;> decide

theorem start_done (e : Env) (c1 c2 : Char) (s : State) (h1 : s.fieldIndex = -1)
    (h2 : sendFieldDefinition.headerCount c2 ≤ s.headerIndex) :
    sendFieldDefinition.start e c1 c2 (sendFieldDefinition.headerCount c2) s
      = (s, some false) := by
  unfold sendFieldDefinition.start
  rw [if_pos h1, if_pos h2]

theorem start_skip (e : Env) (c1 c2 : Char) (n : Nat) (s : State) (h1 : s.fieldIndex ≠ -1) :
    sendFieldDefinition.start e c1 c2 n s = (s, none) := by
  unfold sendFieldDefinition.start
  rw [if_neg h1]

theorem pending_of_start (defs : List blackboxFieldDefinition_t) (s : State)
    (h1 : s.fieldIndex = -1) :
    sendFieldDefinition.pending defs s
      = "H Field x :".length + (blackboxFieldHeaderNames.getD s.headerIndex "").length := by
  unfold sendFieldDefinition.pending
  rw [if_pos h1]

theorem start_fail (e : Env) (c1 c2 : Char) (defs : List blackboxFieldDefinition_t) (s : State)
    (h1 : s.fieldIndex = -1) (h2 : s.headerIndex < sendFieldDefinition.headerCount c2)
    (h3 : e.deviceReserve s.reserveCalls (sendFieldDefinition.pending defs s) = false) :
    sendFieldDefinition.start e c1 c2 (sendFieldDefinition.headerCount c2) s
      = ((blackboxDeviceReserveBufferSpace e (sendFieldDefinition.pending defs s) s).1,
          some true) := by
  rw [pending_of_start defs s h1] at h3 ⊢
  unfold sendFieldDefinition.start
  rw [if_pos h1, if_neg (by omega)]
  dsimp only
  have h4 : (blackboxDeviceReserveBufferSpace e ("H Field x :".length
      + (blackboxFieldHeaderNames.getD s.headerIndex "").length) s).2 = false := h3
  rw [if_pos h4]

theorem start_ok (e : Env) (c1 c2 : Char) (defs : List blackboxFieldDefinition_t)
    (conds : Option (List Nat)) (s : State)
    (h1 : s.fieldIndex = -1) (h2 : s.headerIndex < sendFieldDefinition.headerCount c2)
    (h3 : e.deviceReserve s.reserveCalls (sendFieldDefinition.pending defs s) = true) :
    sendFieldDefinition.start e c1 c2 (sendFieldDefinition.headerCount c2) s
      = (sendFieldDefinition.unit e c1 c2 defs conds s, none) := by
  rw [pending_of_start defs s h1] at h3
  have h4 : (blackboxDeviceReserveBufferSpace e ("H Field x :".length
      + (blackboxFieldHeaderNames.getD s.headerIndex "").length) s).2 = true := h3
  have hge : ¬ s.headerIndex ≥ sendFieldDefinition.headerCount c2 := by omega
  unfold sendFieldDefinition.unit
  rw [if_pos h1]
  unfold sendFieldDefinition.start
  simp only [h1, if_true, hge, if_false, h4, reserve_withRoom, Bool.true_eq_false]
  rfl

theorem unit_of_done (e : Env) (c1 c2 : Char) (defs : List blackboxFieldDefinition_t)
    (conds : Option (List Nat)) (s : State) (h : sendFieldDefinition.done c2 s) :
    sendFieldDefinition.unit e c1 c2 defs conds s = s := by
  unfold sendFieldDefinition.unit
  rw [if_pos h.1, start_done e.withRoom c1 c2 s h.1 h.2]

theorem unit_start_position (e : Env) (c1 c2 : Char) (defs : List blackboxFieldDefinition_t)
    (conds : Option (List Nat)) (s : State)
    (h1 : s.fieldIndex = -1) (h2 : s.headerIndex < sendFieldDefinition.headerCount c2) :
    (sendFieldDefinition.unit e c1 c2 defs conds s).fieldIndex = 0
      ∧ (sendFieldDefinition.unit e c1 c2 defs conds s).headerIndex = s.headerIndex := by
  have hge : ¬ s.headerIndex ≥ sendFieldDefinition.headerCount c2 := by omega
  unfold sendFieldDefinition.unit
  rw [if_pos h1]
  unfold sendFieldDefinition.start
  simp only [if_pos h1, if_neg hge, reserve_withRoom, Bool.true_eq_false, if_false]
  simp only [State.fieldIndex, State.setNeedComma, State.setU, State.writeHeader,
    State.setHeaderBudget, blackboxDeviceReserveBufferSpace, and_true]
  have h3 := toInt32_succ s.u (by unfold State.fieldIndex at h1; omega)
  unfold State.fieldIndex at h1
  omega

theorem finish_skip (e : Env) (n : Int) (s : State) (h : s.fieldIndex ≠ n) :
    sendFieldDefinition.finish e n s = s := by
  unfold sendFieldDefinition.finish
  rw [if_neg h]

theorem pending_of_finish (defs : List blackboxFieldDefinition_t) (s : State)
    (h : s.fieldIndex = (defs.length : Int)) : sendFieldDefinition.pending defs s = 1 := by
  unfold sendFieldDefinition.pending
  rw [if_neg (by omega), if_neg (by omega)]

theorem finish_fail (e : Env) (defs : List blackboxFieldDefinition_t) (s : State)
    (h1 : s.fieldIndex = (defs.length : Int))
    (h3 : e.deviceReserve s.reserveCalls (sendFieldDefinition.pending defs s) = false) :
    sendFieldDefinition.finish e defs.length s
      = (blackboxDeviceReserveBufferSpace e (sendFieldDefinition.pending defs s) s).1 := by
  rw [pending_of_finish defs s h1] at h3 ⊢
  unfold sendFieldDefinition.finish
  rw [if_pos h1]
  dsimp only
  have h4 : (blackboxDeviceReserveBufferSpace e 1 s).2 = false := h3
  rw [if_neg (by rw [h4]; decide)]

theorem finish_ok (e : Env) (c1 c2 : Char) (defs : List blackboxFieldDefinition_t)
    (conds : Option (List Nat)) (s : State)
    (h1 : s.fieldIndex = (defs.length : Int))
    (h3 : e.deviceReserve s.reserveCalls (sendFieldDefinition.pending defs s) = true) :
    sendFieldDefinition.finish e defs.length s
      = sendFieldDefinition.unit e c1 c2 defs conds s := by
  rw [pending_of_finish defs s h1] at h3
  have h4 : (blackboxDeviceReserveBufferSpace e 1 s).2 = true := h3
  unfold sendFieldDefinition.unit
  rw [if_neg (by omega), if_neg (by omega)]
  unfold sendFieldDefinition.finish
  simp only [if_pos h1, h4, reserve_withRoom, if_true]
  rfl

theorem unit_finish_position (e : Env) (c1 c2 : Char) (defs : List blackboxFieldDefinition_t)
    (conds : Option (List Nat)) (s : State) (h1 : s.fieldIndex = (defs.length : Int)) :
    (sendFieldDefinition.unit e c1 c2 defs conds s).fieldIndex = -1
      ∧ (sendFieldDefinition.unit e c1 c2 defs conds s).headerIndex
          = (s.headerIndex + 1) % 4294967296 := by
  unfold sendFieldDefinition.unit
  rw [if_neg (by omega), if_neg (by omega)]
  unfold sendFieldDefinition.finish
  simp only [if_pos h1, reserve_withRoom, if_true]
  simp only [State.fieldIndex, State.setU, State.setHeaderIndex, State.writeHeader,
    State.setHeaderBudget, blackboxDeviceReserveBufferSpace, and_true]
  decide

theorem unit_valid (e : Env) (c1 c2 : Char) (defs : List blackboxFieldDefinition_t)
    (conds : Option (List Nat)) (hlen : defs.length < 2147483648) (s : State)
    (hv : sendFieldDefinition.valid c2 defs s) :
    sendFieldDefinition.valid c2 defs (sendFieldDefinition.unit e c1 c2 defs conds s) := by
  unfold sendFieldDefinition.valid at hv ⊢
  rcases hv with h1 | ⟨h1, h2, h3⟩
  · by_cases h2 : s.headerIndex < sendFieldDefinition.headerCount c2
    · obtain ⟨h4, h5⟩ := unit_start_position e c1 c2 defs conds s h1 h2
      exact Or.inr ⟨by omega, by omega, by omega⟩
    · rw [unit_of_done e c1 c2 defs conds s ⟨h1, by omega⟩]
      exact Or.inl h1
  · by_cases h4 : s.fieldIndex < (defs.length : Int)
    · obtain ⟨h5, h6⟩ := unit_fieldIndex_of_field e c1 c2 defs conds s hlen (by omega) h4
      exact Or.inr ⟨by omega, by omega, by omega⟩
    · exact Or.inl (unit_finish_position e c1 c2 defs conds s (by omega)).1

theorem iterate_unit_valid (e : Env) (c1 c2 : Char) (defs : List blackboxFieldDefinition_t)
    (conds : Option (List Nat)) (hlen : defs.length < 2147483648) (k : Nat) (s : State)
    (hv : sendFieldDefinition.valid c2 defs s) :
    sendFieldDefinition.valid c2 defs ((sendFieldDefinition.unit e c1 c2 defs conds)^[k] s) := by
  induction k generalizing s with
  | zero => exact hv
  | succ k ih =>
    rw [Function.iterate_succ_apply]
    exact ih _ (unit_valid e c1 c2 defs conds hlen s hv)

/-! ### A call as whole units -/

theorem sendFieldDefinition_of_some (e : Env) (c1 c2 : Char)
    (defs : List blackboxFieldDefinition_t) (conds : Option (List Nat)) (s t : State)
    (r : Bool)
    (h : sendFieldDefinition.start e c1 c2 (sendFieldDefinition.headerCount c2) s
      = (t, some r)) :
    sendFieldDefinition e c1 c2 defs conds s = (t, r) := by
  unfold sendFieldDefinition.headerCount at h
  unfold sendFieldDefinition
  dsimp only
  rw [h]

theorem sendFieldDefinition_of_none (e : Env) (c1 c2 : Char)
    (defs : List blackboxFieldDefinition_t) (conds : Option (List Nat)) (s t : State)
    (h : sendFieldDefinition.start e c1 c2 (sendFieldDefinition.headerCount c2) s
      = (t, none)) :
    sendFieldDefinition e c1 c2 defs conds s
      = if (sendFieldDefinition.loop e defs conds
            ((defs.length : Int) - t.fieldIndex).toNat t).2 = true then
          ((sendFieldDefinition.loop e defs conds
            ((defs.length : Int) - t.fieldIndex).toNat t).1, true)
        else
          (sendFieldDefinition.finish e defs.length
            (sendFieldDefinition.loop e defs conds
              ((defs.length : Int) - t.fieldIndex).toNat t).1,
            decide ((sendFieldDefinition.finish e defs.length
              (sendFieldDefinition.loop e defs conds
                ((defs.length : Int) - t.fieldIndex).toNat t).1).headerIndex
              < sendFieldDefinition.headerCount c2)) := by
  unfold sendFieldDefinition.headerCount at h ⊢
  unfold sendFieldDefinition
  dsimp only
  rw [h]

/-- The part of `sendFieldDefinition` after the name of the line, from a position inside a
line. -/
theorem rest_outcome (e : Env) (c1 c2 : Char) (defs : List blackboxFieldDefinition_t)
    (conds : Option (List Nat)) (hlen : defs.length < 2147483648) (t : State)
    (h0 : 0 ≤ t.fieldIndex) (h1 : t.fieldIndex ≤ (defs.length : Int))
    (h2 : t.headerIndex < sendFieldDefinition.headerCount c2) :
    ∃ k, sendFieldDefinition.outcome e c1 c2 defs conds t
      (if (sendFieldDefinition.loop e defs conds
            ((defs.length : Int) - t.fieldIndex).toNat t).2 = true then
          ((sendFieldDefinition.loop e defs conds
            ((defs.length : Int) - t.fieldIndex).toNat t).1, true)
        else
          (sendFieldDefinition.finish e defs.length
            (sendFieldDefinition.loop e defs conds
              ((defs.length : Int) - t.fieldIndex).toNat t).1,
            decide ((sendFieldDefinition.finish e defs.length
              (sendFieldDefinition.loop e defs conds
                ((defs.length : Int) - t.fieldIndex).toNat t).1).headerIndex
              < sendFieldDefinition.headerCount c2))) k := by
  obtain ⟨k, hk1, hk2⟩ := loop_units e c1 c2 defs conds hlen
    ((defs.length : Int) - t.fieldIndex).toNat t h0
  obtain ⟨_, _, hh, hf⟩ := loop_fieldIndex e defs conds hlen
    ((defs.length : Int) - t.fieldIndex).toNat t h0 h1
  generalize sendFieldDefinition.loop e defs conds
    ((defs.length : Int) - t.fieldIndex).toNat t = l at hk1 hk2 hh hf
  by_cases hl : l.2 = true
  · rw [if_pos hl]
    exact ⟨k, Or.inr ⟨rfl, (hk2 hl).1, (hk2 hl).2⟩⟩
  · have hl2 : l.2 = false := by simpa using hl
    rw [if_neg hl]
    have hfi : l.1.fieldIndex = (defs.length : Int) := hf hl2 (by omega)
    have hx := hk1 hl2
    by_cases hr : e.deviceReserve l.1.reserveCalls (sendFieldDefinition.pending defs l.1) = true
    · refine ⟨k + 1, Or.inl ?_⟩
      rw [finish_ok e c1 c2 defs conds l.1 hfi hr]
      obtain ⟨u1, u2⟩ := unit_finish_position e c1 c2 defs conds l.1 hfi
      have hc := headerCount_le c2
      refine ⟨?_, fun _ => Nat.succ_le_succ (Nat.zero_le k), fun hd => ⟨u1, ?_⟩⟩
      · show sendFieldDefinition.unit e c1 c2 defs conds l.1 = _
        rw [Function.iterate_succ_apply', hx]
      · have hd2 : ¬ ((sendFieldDefinition.unit e c1 c2 defs conds l.1).headerIndex
            < sendFieldDefinition.headerCount c2) := by simpa using hd
        show sendFieldDefinition.headerCount c2
          ≤ (sendFieldDefinition.unit e c1 c2 defs conds l.1).headerIndex
        omega
    · have hr2 : e.deviceReserve l.1.reserveCalls (sendFieldDefinition.pending defs l.1)
          = false := by simpa using hr
      refine ⟨k, Or.inr ?_⟩
      rw [finish_fail e defs l.1 hfi hr2]
      refine ⟨?_, by rw [hx], by rw [← hx]; exact hr2⟩
      have : (blackboxDeviceReserveBufferSpace e (sendFieldDefinition.pending defs l.1)
          l.1).1.headerIndex = t.headerIndex := hh
      simp only [this, decide_eq_true_eq]
      exact h2

/-- A call of `sendFieldDefinition` from a valid position makes whole units. -/
theorem call_outcome (e : Env) (c1 c2 : Char) (defs : List blackboxFieldDefinition_t)
    (conds : Option (List Nat)) (hlen : defs.length < 2147483648) (s : State)
    (hv : sendFieldDefinition.valid c2 defs s) :
    ∃ k, sendFieldDefinition.outcome e c1 c2 defs conds s
      (sendFieldDefinition e c1 c2 defs conds s) k := by
  rcases hv with h1 | ⟨h1, h2, h3⟩
  · by_cases h2 : s.headerIndex < sendFieldDefinition.headerCount c2
    · by_cases hr : e.deviceReserve s.reserveCalls (sendFieldDefinition.pending defs s) = true
      · have hs := start_ok e c1 c2 defs conds s h1 h2 hr
        rw [sendFieldDefinition_of_none e c1 c2 defs conds s _ hs]
        obtain ⟨u1, u2⟩ := unit_start_position e c1 c2 defs conds s h1 h2
        obtain ⟨k, hk⟩ := rest_outcome e c1 c2 defs conds hlen
          (sendFieldDefinition.unit e c1 c2 defs conds s) (by omega) (by omega) (by omega)
        refine ⟨k + 1, ?_⟩
        unfold sendFieldDefinition.outcome at hk ⊢
        simp only [Function.iterate_succ_apply]
        rcases hk with ⟨a1, a2, a3⟩ | hk
        · exact Or.inl ⟨a1, fun _ => Nat.succ_le_succ (Nat.zero_le k), a3⟩
        · exact Or.inr hk
      · have hr2 : e.deviceReserve s.reserveCalls (sendFieldDefinition.pending defs s)
            = false := by simpa using hr
        rw [sendFieldDefinition_of_some e c1 c2 defs conds s _ _
          (start_fail e c1 c2 defs s h1 h2 hr2)]
        exact ⟨0, Or.inr ⟨rfl, rfl, hr2⟩⟩
    · rw [sendFieldDefinition_of_some e c1 c2 defs conds s _ _
        (start_done e c1 c2 s h1 (by omega))]
      exact ⟨0, Or.inl ⟨rfl, fun h => (by cases h), fun _ => ⟨h1, Nat.le_of_not_lt h2⟩⟩⟩
  · rw [sendFieldDefinition_of_none e c1 c2 defs conds s _
      (start_skip e c1 c2 _ s (by omega))]
    exact rest_outcome e c1 c2 defs conds hlen s h1 h2 h3

/-! ### Units act on the position -/

theorem position_eq_iff (s t : State) :
    s.position = t.position ↔ s.log = t.log ∧ s.headerIndex = t.headerIndex ∧ s.u = t.u
      ∧ s.needComma = t.needComma ∧ s.blackboxConditionCache = t.blackboxConditionCache := by
  simp only [State.position, Prod.mk.injEq]

theorem fieldIndex_of_position (s t : State) (h : s.position = t.position) :
    s.fieldIndex = t.fieldIndex := by
  obtain ⟨_, _, hu, _, _⟩ := (position_eq_iff s t).1 h
  unfold State.fieldIndex
  rw [hu]

theorem included_of_position (conds : Option (List Nat)) (s t : State)
    (h : s.position = t.position) :
    sendFieldDefinition.included conds s = sendFieldDefinition.included conds t := by
  have hf := fieldIndex_of_position s t h
  obtain ⟨_, _, _, _, hc⟩ := (position_eq_iff s t).1 h
  unfold sendFieldDefinition.included
  cases conds with
  | none => rfl
  | some cs =>
    show testBlackboxCondition s _ = testBlackboxCondition t _
    unfold testBlackboxCondition
    rw [hf, hc]

theorem bytesToWrite_of_position (defs : List blackboxFieldDefinition_t) (s t : State)
    (h : s.position = t.position) :
    sendFieldDefinition.bytesToWrite defs s = sendFieldDefinition.bytesToWrite defs t := by
  have hf := fieldIndex_of_position s t h
  obtain ⟨_, hh, _, _, _⟩ := (position_eq_iff s t).1 h
  unfold sendFieldDefinition.bytesToWrite
  rw [hf, hh]

theorem field_position (fd : blackboxFieldDefinition_t) (n m : Nat) (s t : State)
    (h : s.position = t.position) :
    (sendFieldDefinition.field fd n s).position = (sendFieldDefinition.field fd m t).position := by
  obtain ⟨hl, hh, hu, hn, hc⟩ := (position_eq_iff s t).1 h
  unfold sendFieldDefinition.field
  simp only [State.setU, State.writeHeader, State.setNeedComma, State.setHeaderBudget, hn, hh]
  split_ifs <;>
    simp only [State.position, hl, hh, hu, hn, hc]

theorem setU_position (n : Nat) (s t : State) (h : s.position = t.position) :
    (s.setU n).position = (t.setU n).position := by
  obtain ⟨hl, hh, hu, hn, hc⟩ := (position_eq_iff s t).1 h
  simp only [State.setU, State.position, hl, hh, hn, hc]

/-- A unit reads and writes the position only. -/
theorem unit_position (e : Env) (c1 c2 : Char) (defs : List blackboxFieldDefinition_t)
    (conds : Option (List Nat)) (s t : State) (h : s.position = t.position) :
    (sendFieldDefinition.unit e c1 c2 defs conds s).position
      = (sendFieldDefinition.unit e c1 c2 defs conds t).position := by
  have hf := fieldIndex_of_position s t h
  obtain ⟨hl, hh, hu, hn, hc⟩ := (position_eq_iff s t).1 h
  by_cases h1 : s.fieldIndex = -1
  · have h1t : t.fieldIndex = -1 := hf ▸ h1
    by_cases h2 : s.headerIndex ≥ sendFieldDefinition.headerCount c2
    · have h2t : t.headerIndex ≥ sendFieldDefinition.headerCount c2 := by rw [← hh]; exact h2
      rw [unit_of_done e c1 c2 defs conds s ⟨h1, h2⟩, unit_of_done e c1 c2 defs conds t ⟨h1t, h2t⟩]
      exact h
    · have h2t : ¬ t.headerIndex ≥ sendFieldDefinition.headerCount c2 := by rw [← hh]; exact h2
      have hs : sendFieldDefinition.unit e c1 c2 defs conds s
          = (((((blackboxDeviceReserveBufferSpace e.withRoom ("H Field x :".length
              + (blackboxFieldHeaderNames.getD s.headerIndex "").length) s).1.writeHeader
                (Write.str (sendFieldDefinition.lineName c1 c2 s.headerIndex))).setHeaderBudget
              (s.blackboxHeaderBudget
                - (sendFieldDefinition.lineName c1 c2 s.headerIndex).length)).setU
              ((s.u + 1) % 4294967296)).setNeedComma false) := by
        unfold sendFieldDefinition.unit sendFieldDefinition.start
        simp only [if_pos h1, if_neg h2, reserve_withRoom, Bool.true_eq_false, if_false]
        rfl
      have ht : sendFieldDefinition.unit e c1 c2 defs conds t
          = (((((blackboxDeviceReserveBufferSpace e.withRoom ("H Field x :".length
              + (blackboxFieldHeaderNames.getD t.headerIndex "").length) t).1.writeHeader
                (Write.str (sendFieldDefinition.lineName c1 c2 t.headerIndex))).setHeaderBudget
              (t.blackboxHeaderBudget
                - (sendFieldDefinition.lineName c1 c2 t.headerIndex).length)).setU
              ((t.u + 1) % 4294967296)).setNeedComma false) := by
        unfold sendFieldDefinition.unit sendFieldDefinition.start
        simp only [if_pos h1t, if_neg h2t, reserve_withRoom, Bool.true_eq_false, if_false]
        rfl
      rw [hs, ht]
      simp only [State.setNeedComma, State.setU, State.setHeaderBudget, State.writeHeader,
        blackboxDeviceReserveBufferSpace, State.position, hl, hh, hu, hn, hc]
  · have h1t : t.fieldIndex ≠ -1 := hf ▸ h1
    by_cases h2 : s.fieldIndex < (defs.length : Int)
    · have h2t : t.fieldIndex < (defs.length : Int) := hf ▸ h2
      rw [unit_of_field e c1 c2 defs conds s h1 h2, unit_of_field e c1 c2 defs conds t h1t h2t,
        included_of_position conds s t h, hf, hu]
      split_ifs
      · exact field_position _ _ _ _ _ h
      · exact setU_position _ s t h
    · have h2t : ¬ t.fieldIndex < (defs.length : Int) := hf ▸ h2
      by_cases h3 : s.fieldIndex = (defs.length : Int)
      · have h3t : t.fieldIndex = (defs.length : Int) := hf ▸ h3
        have hs : sendFieldDefinition.unit e c1 c2 defs conds s
            = ((((blackboxDeviceReserveBufferSpace e.withRoom 1 s).1.writeHeader
                (Write.byte 10)).setHeaderBudget (s.blackboxHeaderBudget - 1)).setHeaderIndex
                ((s.headerIndex + 1) % 4294967296)).setU 4294967295 := by
          unfold sendFieldDefinition.unit
          rw [if_neg h1, if_neg h2]
          unfold sendFieldDefinition.finish
          simp only [if_pos h3, reserve_withRoom, if_true]
          rfl
        have ht : sendFieldDefinition.unit e c1 c2 defs conds t
            = ((((blackboxDeviceReserveBufferSpace e.withRoom 1 t).1.writeHeader
                (Write.byte 10)).setHeaderBudget (t.blackboxHeaderBudget - 1)).setHeaderIndex
                ((t.headerIndex + 1) % 4294967296)).setU 4294967295 := by
          unfold sendFieldDefinition.unit
          rw [if_neg h1t, if_neg h2t]
          unfold sendFieldDefinition.finish
          simp only [if_pos h3t, reserve_withRoom, if_true]
          rfl
        rw [hs, ht]
        simp only [State.setHeaderIndex, State.setU, State.setHeaderBudget, State.writeHeader,
          blackboxDeviceReserveBufferSpace, State.position, hl, hh, hn, hc]
      · have h3t : t.fieldIndex ≠ (defs.length : Int) := hf ▸ h3
        unfold sendFieldDefinition.unit
        rw [if_neg h1, if_neg h1t, if_neg h2, if_neg h2t, finish_skip _ _ s h3,
          finish_skip _ _ t h3t]
        exact h

theorem iterate_unit_position (e : Env) (c1 c2 : Char) (defs : List blackboxFieldDefinition_t)
    (conds : Option (List Nat)) (k : Nat) (s t : State) (h : s.position = t.position) :
    ((sendFieldDefinition.unit e c1 c2 defs conds)^[k] s).position
      = ((sendFieldDefinition.unit e c1 c2 defs conds)^[k] t).position := by
  induction k generalizing s t with
  | zero => exact h
  | succ k ih =>
    rw [Function.iterate_succ_apply, Function.iterate_succ_apply]
    exact ih _ _ (unit_position e c1 c2 defs conds s t h)

theorem valid_of_position (c2 : Char) (defs : List blackboxFieldDefinition_t) (s t : State)
    (h : s.position = t.position) (hv : sendFieldDefinition.valid c2 defs s) :
    sendFieldDefinition.valid c2 defs t := by
  have hf := fieldIndex_of_position s t h
  obtain ⟨_, hh, _, _, _⟩ := (position_eq_iff s t).1 h
  unfold sendFieldDefinition.valid at *
  rw [← hf, ← hh]
  exact hv

theorem done_of_position (c2 : Char) (s t : State)
    (h : s.position = t.position) (hv : sendFieldDefinition.done c2 s) :
    sendFieldDefinition.done c2 t := by
  have hf := fieldIndex_of_position s t h
  obtain ⟨_, hh, _, _, _⟩ := (position_eq_iff s t).1 h
  unfold sendFieldDefinition.done at *
  rw [← hf, ← hh]
  exact hv

/-! ### Runs of calls of sendFieldDefinition -/

theorem pending_of_position (defs : List blackboxFieldDefinition_t) (s t : State)
    (h : s.position = t.position) :
    sendFieldDefinition.pending defs s = sendFieldDefinition.pending defs t := by
  have hf := fieldIndex_of_position s t h
  obtain ⟨_, hh, _, _, _⟩ := (position_eq_iff s t).1 h
  unfold sendFieldDefinition.pending
  rw [hf, hh]

theorem remaining_of_position (c2 : Char) (defs : List blackboxFieldDefinition_t) (s t : State)
    (h : s.position = t.position) :
    sendFieldDefinition.remaining c2 defs s = sendFieldDefinition.remaining c2 defs t := by
  have hf := fieldIndex_of_position s t h
  obtain ⟨_, hh, _, _, _⟩ := (position_eq_iff s t).1 h
  unfold sendFieldDefinition.remaining
  rw [hf, hh]

/-- A unit from a position that is not the end makes the measure one less. -/
theorem remaining_unit (e : Env) (c1 c2 : Char) (defs : List blackboxFieldDefinition_t)
    (conds : Option (List Nat)) (hlen : defs.length < 2147483648) (s : State)
    (hv : sendFieldDefinition.valid c2 defs s) (hd : ¬ sendFieldDefinition.done c2 s) :
    sendFieldDefinition.remaining c2 defs (sendFieldDefinition.unit e c1 c2 defs conds s) + 1
      = sendFieldDefinition.remaining c2 defs s := by
  have hc := headerCount_le c2
  unfold sendFieldDefinition.done at hd
  unfold sendFieldDefinition.remaining
  rcases hv with h1 | ⟨h1, h2, h3⟩
  · have h2 : s.headerIndex < sendFieldDefinition.headerCount c2 := by
      by_contra hn
      exact hd ⟨h1, by omega⟩
    obtain ⟨u1, u2⟩ := unit_start_position e c1 c2 defs conds s h1 h2
    rw [u1, u2, h1]
    obtain ⟨d, hd2⟩ : ∃ d, sendFieldDefinition.headerCount c2 - s.headerIndex = d + 1 :=
      ⟨sendFieldDefinition.headerCount c2 - s.headerIndex - 1, by omega⟩
    rw [hd2, Nat.succ_mul]
    generalize d * (defs.length + 2) = x
    simp only [Int.reduceNeg, neg_add_cancel, Int.toNat_zero, zero_add, Int.toNat_one]
    omega
  · obtain ⟨d, hd2⟩ : ∃ d, sendFieldDefinition.headerCount c2 - s.headerIndex = d + 1 :=
      ⟨sendFieldDefinition.headerCount c2 - s.headerIndex - 1, by omega⟩
    by_cases h4 : s.fieldIndex < (defs.length : Int)
    · obtain ⟨u1, u2⟩ := unit_fieldIndex_of_field e c1 c2 defs conds s hlen (by omega) h4
      rw [u1, u2, hd2, Nat.succ_mul]
      generalize d * (defs.length + 2) = x
      omega
    · have h5 : s.fieldIndex = (defs.length : Int) := by omega
      obtain ⟨u1, u2⟩ := unit_finish_position e c1 c2 defs conds s h5
      rw [u1, u2, h5]
      have h6 : (s.headerIndex + 1) % 4294967296 = s.headerIndex + 1 := by omega
      have h7 : sendFieldDefinition.headerCount c2 - (s.headerIndex + 1) = d := by omega
      rw [h6, h7, hd2, Nat.succ_mul]
      generalize d * (defs.length + 2) = x
      simp only [Int.reduceNeg, neg_add_cancel, Int.toNat_zero]
      omega

theorem remaining_unit_le (e : Env) (c1 c2 : Char) (defs : List blackboxFieldDefinition_t)
    (conds : Option (List Nat)) (hlen : defs.length < 2147483648) (s : State)
    (hv : sendFieldDefinition.valid c2 defs s) :
    sendFieldDefinition.remaining c2 defs (sendFieldDefinition.unit e c1 c2 defs conds s)
      ≤ sendFieldDefinition.remaining c2 defs s := by
  by_cases hd : sendFieldDefinition.done c2 s
  · rw [unit_of_done e c1 c2 defs conds s hd]
  · have := remaining_unit e c1 c2 defs conds hlen s hv hd
    omega

theorem remaining_iterate_le (e : Env) (c1 c2 : Char) (defs : List blackboxFieldDefinition_t)
    (conds : Option (List Nat)) (hlen : defs.length < 2147483648) (k : Nat) (s : State)
    (hv : sendFieldDefinition.valid c2 defs s) :
    sendFieldDefinition.remaining c2 defs ((sendFieldDefinition.unit e c1 c2 defs conds)^[k] s)
      ≤ sendFieldDefinition.remaining c2 defs s := by
  induction k generalizing s with
  | zero => exact le_refl _
  | succ k ih =>
    rw [Function.iterate_succ_apply]
    exact le_trans (ih _ (unit_valid e c1 c2 defs conds hlen s hv))
      (remaining_unit_le e c1 c2 defs conds hlen s hv)

theorem remaining_iterate_lt (e : Env) (c1 c2 : Char) (defs : List blackboxFieldDefinition_t)
    (conds : Option (List Nat)) (hlen : defs.length < 2147483648) (k : Nat) (s : State)
    (hv : sendFieldDefinition.valid c2 defs s) (hd : ¬ sendFieldDefinition.done c2 s)
    (hk : 1 ≤ k) :
    sendFieldDefinition.remaining c2 defs ((sendFieldDefinition.unit e c1 c2 defs conds)^[k] s)
      < sendFieldDefinition.remaining c2 defs s := by
  obtain ⟨j, rfl⟩ : ∃ j, k = j + 1 := ⟨k - 1, by omega⟩
  rw [Function.iterate_succ_apply]
  have h1 := remaining_iterate_le e c1 c2 defs conds hlen j _
    (unit_valid e c1 c2 defs conds hlen s hv)
  have h2 := remaining_unit e c1 c2 defs conds hlen s hv hd
  omega

/-- From the end, units change nothing. -/
theorem iterate_unit_of_done (e : Env) (c1 c2 : Char) (defs : List blackboxFieldDefinition_t)
    (conds : Option (List Nat)) (k : Nat) (s : State) (h : sendFieldDefinition.done c2 s) :
    (sendFieldDefinition.unit e c1 c2 defs conds)^[k] s = s := by
  induction k with
  | zero => rfl
  | succ k ih => rw [Function.iterate_succ_apply, unit_of_done e c1 c2 defs conds s h, ih]

/-- Two numbers of units that both reach the end reach the same state. -/
theorem iterate_unit_done_unique (e : Env) (c1 c2 : Char)
    (defs : List blackboxFieldDefinition_t) (conds : Option (List Nat)) (m n : Nat) (s : State)
    (hm : sendFieldDefinition.done c2 ((sendFieldDefinition.unit e c1 c2 defs conds)^[m] s))
    (hn : sendFieldDefinition.done c2 ((sendFieldDefinition.unit e c1 c2 defs conds)^[n] s)) :
    (sendFieldDefinition.unit e c1 c2 defs conds)^[m] s
      = (sendFieldDefinition.unit e c1 c2 defs conds)^[n] s := by
  rcases Nat.le_total m n with h | h
  · obtain ⟨d, rfl⟩ := Nat.exists_eq_add_of_le h
    rw [Nat.add_comm, Function.iterate_add_apply, iterate_unit_of_done e c1 c2 defs conds d _ hm]
  · obtain ⟨d, rfl⟩ := Nat.exists_eq_add_of_le h
    rw [Nat.add_comm, Function.iterate_add_apply, iterate_unit_of_done e c1 c2 defs conds d _ hn]

theorem calls_succ (e : Env) (c1 c2 : Char) (defs : List blackboxFieldDefinition_t)
    (conds : Option (List Nat)) (n : Nat) (s : State) :
    sendFieldDefinition.calls e c1 c2 defs conds (n + 1) s
      = if (sendFieldDefinition e c1 c2 defs conds s).2 = true then
          sendFieldDefinition.calls e c1 c2 defs conds n
            (sendFieldDefinition e c1 c2 defs conds s).1
        else sendFieldDefinition e c1 c2 defs conds s := rfl

/-- After any number of calls the position is the one of a whole number of units, and a run
that ended is at the end. -/
theorem calls_units (e : Env) (c1 c2 : Char) (defs : List blackboxFieldDefinition_t)
    (conds : Option (List Nat)) (hlen : defs.length < 2147483648) (n : Nat) (s : State)
    (hv : sendFieldDefinition.valid c2 defs s) :
    ∃ m, (sendFieldDefinition.calls e c1 c2 defs conds n s).1.position
        = ((sendFieldDefinition.unit e c1 c2 defs conds)^[m] s).position
      ∧ ((sendFieldDefinition.calls e c1 c2 defs conds n s).2 = false →
        sendFieldDefinition.done c2 (sendFieldDefinition.calls e c1 c2 defs conds n s).1) := by
  induction n generalizing s with
  | zero => exact ⟨0, rfl, fun h => (by cases h)⟩
  | succ n ih =>
    rw [calls_succ]
    obtain ⟨k, hk⟩ := call_outcome e c1 c2 defs conds hlen s hv
    have hvk := iterate_unit_valid e c1 c2 defs conds hlen k s hv
    generalize sendFieldDefinition e c1 c2 defs conds s = r at hk
    rcases hk with ⟨a1, a2, a3⟩ | ⟨a1, a2, a3⟩
    · by_cases hr : r.2 = true
      · rw [if_pos hr]
        obtain ⟨m, hm1, hm2⟩ := ih r.1 (a1 ▸ hvk)
        refine ⟨m + k, ?_, hm2⟩
        rw [hm1, a1, Function.iterate_add_apply]
      · rw [if_neg hr]
        exact ⟨k, by rw [a1], fun h => a3 h⟩
    · rw [if_pos a1]
      have hp : r.1.position
          = ((sendFieldDefinition.unit e c1 c2 defs conds)^[k] s).position := by
        rw [a2]
        exact reserve_position _ _ _
      obtain ⟨m, hm1, hm2⟩ := ih r.1 (valid_of_position c2 defs _ _ hp.symm hvk)
      refine ⟨m + k, ?_, hm2⟩
      rw [hm1, Function.iterate_add_apply]
      exact iterate_unit_position e c1 c2 defs conds m _ _ hp

/-! ### The end of header emission -/

theorem call_of_done (e : Env) (c1 c2 : Char) (defs : List blackboxFieldDefinition_t)
    (conds : Option (List Nat)) (s : State) (h : sendFieldDefinition.done c2 s) :
    sendFieldDefinition e c1 c2 defs conds s = (s, false) :=
  sendFieldDefinition_of_some e c1 c2 defs conds s _ _ (start_done e c1 c2 s h.1 h.2)

theorem withRoom_unit (e : Env) (c1 c2 : Char) (defs : List blackboxFieldDefinition_t)
    (conds : Option (List Nat)) :
    sendFieldDefinition.unit e.withRoom c1 c2 defs conds
      = sendFieldDefinition.unit e c1 c2 defs conds := rfl

/-- When every reservation is granted at some later attempt, the calls of
`sendFieldDefinition` come to the one that returns false. -/
theorem calls_end (e : Env) (c1 c2 : Char) (defs : List blackboxFieldDefinition_t)
    (conds : Option (List Nat)) (hlen : defs.length < 2147483648)
    (hfair : ∀ n bytes, ∃ m, n ≤ m ∧ e.deviceReserve m bytes = true) (s : State)
    (hv : sendFieldDefinition.valid c2 defs s) :
    ∃ n, (sendFieldDefinition.calls e c1 c2 defs conds n s).2 = false := by
  suffices hmain : ∀ R s, sendFieldDefinition.valid c2 defs s →
      sendFieldDefinition.remaining c2 defs s = R →
      ∃ n, (sendFieldDefinition.calls e c1 c2 defs conds n s).2 = false from
    hmain _ s hv rfl
  intro R
  induction R using Nat.strong_induction_on with
  | _ R ihR =>
    have inner : ∀ d s, sendFieldDefinition.valid c2 defs s →
        sendFieldDefinition.remaining c2 defs s = R →
        e.deviceReserve (s.reserveCalls + d) (sendFieldDefinition.pending defs s) = true →
        ∃ n, (sendFieldDefinition.calls e c1 c2 defs conds n s).2 = false := by
      intro d
      induction d using Nat.strong_induction_on with
      | _ d ihd =>
        intro s hv hR hd
        obtain ⟨k, hk⟩ := call_outcome e c1 c2 defs conds hlen s hv
        have hvk := iterate_unit_valid e c1 c2 defs conds hlen k s hv
        have hdone := call_of_done e c1 c2 defs conds s
        have hstep := fun n => calls_succ e c1 c2 defs conds n s
        generalize sendFieldDefinition e c1 c2 defs conds s = r at hk hdone hstep
        have hnd : r.2 = true → ¬ sendFieldDefinition.done c2 s := by
          intro hr hdn
          rw [hdone hdn] at hr
          cases hr
        rcases hk with ⟨a1, a2, a3⟩ | ⟨a1, a2, a3⟩
        · by_cases hr : r.2 = true
          · have hlt := remaining_iterate_lt e c1 c2 defs conds hlen k s hv (hnd hr) (a2 hr)
            obtain ⟨n, hn⟩ := ihR _ (hR ▸ hlt) r.1 (a1 ▸ hvk) (by rw [a1])
            exact ⟨n + 1, by rw [hstep, if_pos hr]; exact hn⟩
          · refine ⟨1, ?_⟩
            rw [hstep, if_neg hr]
            simpa using hr
        · have hp : r.1.position
              = ((sendFieldDefinition.unit e c1 c2 defs conds)^[k] s).position := by
            rw [a2]
            exact reserve_position _ _ _
          have hvr := valid_of_position c2 defs _ _ hp.symm hvk
          by_cases hk0 : k = 0
          · subst hk0
            have a3s : e.deviceReserve s.reserveCalls (sendFieldDefinition.pending defs s)
                = false := a3
            have hd0 : d ≠ 0 := by
              intro h0
              subst h0
              rw [Nat.add_zero, a3s] at hd
              cases hd
            have hps : r.1.position = s.position := hp
            have hrc : r.1.reserveCalls = s.reserveCalls + 1 := by rw [a2]; rfl
            obtain ⟨n, hn⟩ := ihd (d - 1) (by omega) r.1 hvr
              (by rw [remaining_of_position c2 defs _ _ hps]; exact hR)
              (by
                rw [pending_of_position defs _ _ hps, hrc]
                have : s.reserveCalls + 1 + (d - 1) = s.reserveCalls + d := by omega
                rw [this]
                exact hd)
            exact ⟨n + 1, by rw [hstep, if_pos a1]; exact hn⟩
          · have hlt := remaining_iterate_lt e c1 c2 defs conds hlen k s hv (hnd a1)
              (by omega)
            obtain ⟨n, hn⟩ := ihR _ (hR ▸ hlt) r.1 hvr
              (remaining_of_position c2 defs _ _ hp)
            exact ⟨n + 1, by rw [hstep, if_pos a1]; exact hn⟩
    intro s hv hR
    obtain ⟨m, hm1, hm2⟩ := hfair s.reserveCalls (sendFieldDefinition.pending defs s)
    obtain ⟨d, rfl⟩ := Nat.exists_eq_add_of_le hm1
    exact inner d s hv hR hm2

/-- Two runs of calls that both ended, one on any device and one on a device that grants
every reservation, wrote the same log. -/
theorem calls_same_log (e : Env) (c1 c2 : Char) (defs : List blackboxFieldDefinition_t)
    (conds : Option (List Nat)) (hlen : defs.length < 2147483648) (s : State)
    (hv : sendFieldDefinition.valid c2 defs s) (n m : Nat)
    (hn : (sendFieldDefinition.calls e c1 c2 defs conds n s).2 = false)
    (hm : (sendFieldDefinition.calls e.withRoom c1 c2 defs conds m s).2 = false) :
    (sendFieldDefinition.calls e c1 c2 defs conds n s).1.log
      = (sendFieldDefinition.calls e.withRoom c1 c2 defs conds m s).1.log := by
  obtain ⟨i, hi1, hi2⟩ := calls_units e c1 c2 defs conds hlen n s hv
  obtain ⟨j, hj1, hj2⟩ := calls_units e.withRoom c1 c2 defs conds hlen m s hv
  rw [withRoom_unit] at hj1
  have di := done_of_position c2 _ _ hi1 (hi2 hn)
  have dj := done_of_position c2 _ _ hj1 (hj2 hm)
  have hij := iterate_unit_done_unique e c1 c2 defs conds i j s di dj
  have hpos : (sendFieldDefinition.calls e c1 c2 defs conds n s).1.position
      = (sendFieldDefinition.calls e.withRoom c1 c2 defs conds m s).1.position := by
    rw [hi1, hj1, hij]
  exact ((position_eq_iff _ _).1 hpos).1

theorem withRoom_fair (e : Env) :
    ∀ n bytes, ∃ m, n ≤ m ∧ e.withRoom.deviceReserve m bytes = true :=
  fun n _ => ⟨n, le_refl n, rfl⟩

theorem stuttering_fair :
    ∀ n bytes, ∃ m, n ≤ m ∧ Env.stuttering.deviceReserve m bytes = true := by
  intro n bytes
  refine ⟨2 * n + 1, by omega, ?_⟩
  show decide ((2 * n + 1) % 2 = 1) = true
  rw [decide_eq_true_eq]
  omega

/-! ### Device selection -/

theorem validate_of_supported (b : Build) (s : State)
    (h : (b.USE_FLASHFS ∧ s.blackboxConfig.device = BLACKBOX_DEVICE_FLASH)
      ∨ (b.USE_SDCARD ∧ s.blackboxConfig.device = BLACKBOX_DEVICE_SDCARD)
      ∨ s.blackboxConfig.device = BLACKBOX_DEVICE_SERIAL) :
    blackboxValidateConfig b s = s := by
  unfold blackboxValidateConfig
  rw [if_pos h]

theorem validate_of_unsupported (b : Build) (s : State)
    (h : ¬ ((b.USE_FLASHFS ∧ s.blackboxConfig.device = BLACKBOX_DEVICE_FLASH)
      ∨ (b.USE_SDCARD ∧ s.blackboxConfig.device = BLACKBOX_DEVICE_SDCARD)
      ∨ s.blackboxConfig.device = BLACKBOX_DEVICE_SERIAL)) :
    blackboxValidateConfig b s
      = { s with blackboxConfig := { s.blackboxConfig with device := BLACKBOX_DEVICE_SERIAL } } := by
  unfold blackboxValidateConfig
  rw [if_neg h]

/-! ### The value of blackboxGetRateDenom -/

theorem blackboxGetRateDenom_eq (s : State) :
    ((blackboxGetRateDenom s : Nat) : Int) = s.blackboxPInterval % 256 := by
  unfold blackboxGetRateDenom toU32
  omega

/-! ### The P-frame index and the GPS home frame -/

/-- After an advance of the timers the P-frame index is zero or below the P interval. -/
theorem advance_PFrameIndex_small (s : State) :
    (blackboxAdvanceIterationTimers s).blackboxPFrameIndex = 0
      ∨ ((blackboxAdvanceIterationTimers s).blackboxPFrameIndex : Int) < s.blackboxPInterval := by
  unfold blackboxAdvanceIterationTimers
  dsimp only
  split_ifs with h1 h2
  · exact Or.inl rfl
  · exact Or.inl rfl
  · right
    show (((s.blackboxPFrameIndex + 1) % 65536 : Nat) : Int) < s.blackboxPInterval
    omega

theorem iterate_advance_PFrameIndex_small (n : Nat) (s : State)
    (h0 : s.blackboxPFrameIndex = 0 ∨ (s.blackboxPFrameIndex : Int) < s.blackboxPInterval) :
    (blackboxAdvanceIterationTimers^[n] s).blackboxIInterval = s.blackboxIInterval
      ∧ (blackboxAdvanceIterationTimers^[n] s).blackboxPInterval = s.blackboxPInterval
      ∧ ((blackboxAdvanceIterationTimers^[n] s).blackboxPFrameIndex = 0
        ∨ ((blackboxAdvanceIterationTimers^[n] s).blackboxPFrameIndex : Int)
            < s.blackboxPInterval) := by
  induction n with
  | zero => exact ⟨rfl, rfl, h0⟩
  | succ n ih =>
    rw [Function.iterate_succ_apply']
    obtain ⟨h1, h2, _⟩ := ih
    refine ⟨by rw [advance_IInterval, h1], by rw [advance_PInterval, h2], ?_⟩
    have := advance_PFrameIndex_small (blackboxAdvanceIterationTimers^[n] s)
    rw [h2] at this
    exact this

/-- In a running session whose P interval is at most half the I interval, the P-frame index
never reaches half the I interval. -/
theorem run_PFrameIndex_ne_half (b : Build) (envs : Nat → Env) (n : Nat) (s : State)
    (hI : 2 ≤ s.blackboxIInterval)
    (hP : s.blackboxPInterval ≤ Int.tdiv s.blackboxIInterval 2)
    (h0 : s.blackboxPFrameIndex = 0) :
    ((blackboxRun b envs n s).blackboxPFrameIndex : Int)
      ≠ Int.tdiv (blackboxRun b envs n s).blackboxIInterval 2 := by
  have hf := fixed_blackboxRun b envs n s
  obtain ⟨h1, h2, h3⟩ := iterate_advance_PFrameIndex_small n s (Or.inl h0)
  rw [fixed_PFrameIndex hf, fixed_IInterval hf, h1]
  have h4 : 1 ≤ Int.tdiv s.blackboxIInterval 2 := by
    rw [Int.tdiv_eq_ediv (by omega) (by omega)]
    omega
  rcases h3 with h3 | h3
  · rw [h3]
    omega
  · omega

/-! ### The cache and the GPS frame -/

theorem testBlackboxCondition_of_cache (s t : State)
    (h : s.blackboxConditionCache = t.blackboxConditionCache) (c : Nat) :
    testBlackboxCondition s c = testBlackboxCondition t c := by
  unfold testBlackboxCondition
  rw [h]

/-- With the cache that `blackboxBuildConditionCache` built, the condition ALWAYS is set and
NOT_LOGGING_EVERY_FRAME is set exactly when `p_ratio` was not 1. -/
theorem built_cache_gps (b : Build) (e0 : Env) (s0 s : State)
    (hc : s.blackboxConditionCache = (blackboxBuildConditionCache b e0 s0).blackboxConditionCache) :
    testBlackboxCondition s FLIGHT_LOG_FIELD_CONDITION_ALWAYS = true
      ∧ testBlackboxCondition s FLIGHT_LOG_FIELD_CONDITION_NOT_LOGGING_EVERY_FRAME
          = (s0.blackboxConfig.p_ratio != 1) := by
  constructor
  · rw [testBlackboxCondition_of_cache s _ hc,
      testBlackboxCondition_build b e0 s0 _ (by decide) (by decide)]
    rfl
  · rw [testBlackboxCondition_of_cache s _ hc,
      testBlackboxCondition_build b e0 s0 _ (by decide) (by decide)]
    rfl

/-! ### The chain of history pointers -/

theorem blackboxStart_blackboxHistory (b : Build) (e : Env) (s : State)
    (ho : e.deviceOpen = true) :
    (blackboxStart b e s).blackboxHistory 0 = 0 ∧ (blackboxStart b e s).blackboxHistory 1 = 1
      ∧ (blackboxStart b e s).blackboxHistory 2 = 2 := by
  unfold blackboxStart
  dsimp only
  rw [if_neg (by rw [ho]; decide)]
  exact ⟨rfl, rfl, rfl⟩

theorem mainFrameWrite_intra_blackboxHistory_two (b : Build) (e : Env) (s : State) :
    (mainFrameWrite b true e s).blackboxHistory 2 = s.blackboxHistory 0 := rfl

theorem mainFrameWrite_inter_blackboxHistory_two (b : Build) (e : Env) (s : State) :
    (mainFrameWrite b false e s).blackboxHistory 2 = s.blackboxHistory 1 := rfl

/-- The chain of the history pointers: generation 0 is the slot after generation 1, and
generation 2 is generation 1 or the slot before it. Every main-frame write keeps it. -/
theorem chain_mainFrameWrite (b : Build) (k : Bool) (e : Env) (s : State)
    (h : s.blackboxHistory 0 = (s.blackboxHistory 1 + 1) % 3 ∧ s.blackboxHistory 1 < 3
      ∧ (s.blackboxHistory 2 = s.blackboxHistory 1
        ∨ (s.blackboxHistory 2 + 1) % 3 = s.blackboxHistory 1 ∧ s.blackboxHistory 2 < 3)) :
    (mainFrameWrite b k e s).blackboxHistory 0
        = ((mainFrameWrite b k e s).blackboxHistory 1 + 1) % 3
      ∧ (mainFrameWrite b k e s).blackboxHistory 1 < 3
      ∧ ((mainFrameWrite b k e s).blackboxHistory 2 = (mainFrameWrite b k e s).blackboxHistory 1
        ∨ ((mainFrameWrite b k e s).blackboxHistory 2 + 1) % 3
            = (mainFrameWrite b k e s).blackboxHistory 1
          ∧ (mainFrameWrite b k e s).blackboxHistory 2 < 3) := by
  rw [mainFrameWrite_blackboxHistory_zero, mainFrameWrite_blackboxHistory_one]
  cases k
  · rw [mainFrameWrite_inter_blackboxHistory_two]
    omega
  · rw [mainFrameWrite_intra_blackboxHistory_two]
    omega

theorem chain_mainFrameWrites (b : Build) (ws : List (Bool × Env)) (s : State)
    (h : s.blackboxHistory 0 = (s.blackboxHistory 1 + 1) % 3 ∧ s.blackboxHistory 1 < 3
      ∧ (s.blackboxHistory 2 = s.blackboxHistory 1
        ∨ (s.blackboxHistory 2 + 1) % 3 = s.blackboxHistory 1 ∧ s.blackboxHistory 2 < 3)) :
    (mainFrameWrites b ws s).blackboxHistory 0
        = ((mainFrameWrites b ws s).blackboxHistory 1 + 1) % 3
      ∧ (mainFrameWrites b ws s).blackboxHistory 1 < 3
      ∧ ((mainFrameWrites b ws s).blackboxHistory 2 = (mainFrameWrites b ws s).blackboxHistory 1
        ∨ ((mainFrameWrites b ws s).blackboxHistory 2 + 1) % 3
            = (mainFrameWrites b ws s).blackboxHistory 1
          ∧ (mainFrameWrites b ws s).blackboxHistory 2 < 3) := by
  induction ws generalizing s with
  | nil => exact h
  | cons w ws ih => exact ih _ (chain_mainFrameWrite b w.1 w.2 s h)

/-- An intra frame written with generation 0 in one of the three slots starts the chain. -/
theorem chain_of_intra (b : Build) (e : Env) (s : State) (h : s.blackboxHistory 0 < 3) :
    (mainFrameWrite b true e s).blackboxHistory 0
        = ((mainFrameWrite b true e s).blackboxHistory 1 + 1) % 3
      ∧ (mainFrameWrite b true e s).blackboxHistory 1 < 3
      ∧ ((mainFrameWrite b true e s).blackboxHistory 2
          = (mainFrameWrite b true e s).blackboxHistory 1
        ∨ ((mainFrameWrite b true e s).blackboxHistory 2 + 1) % 3
            = (mainFrameWrite b true e s).blackboxHistory 1
          ∧ (mainFrameWrite b true e s).blackboxHistory 2 < 3) := by
  rw [mainFrameWrite_blackboxHistory_zero, mainFrameWrite_blackboxHistory_one,
    mainFrameWrite_intra_blackboxHistory_two]
  exact ⟨rfl, h, Or.inl rfl⟩

/-! ### Writes without data frames -/

theorem dataless_of_log {s t : State} (h : t.log = s.log) : s.dataless t :=
  ⟨[], by rw [h, List.append_nil], fun _ hx => (by cases hx)⟩

theorem dataless_refl (s : State) : s.dataless s := dataless_of_log rfl

theorem dataless_trans {s t u : State} (h1 : s.dataless t) (h2 : t.dataless u) :
    s.dataless u := by
  obtain ⟨l1, e1, p1⟩ := h1
  obtain ⟨l2, e2, p2⟩ := h2
  refine ⟨l1 ++ l2, by rw [e2, e1, List.append_assoc], fun x hx => ?_⟩
  rcases List.mem_append.1 hx with hx | hx
  · exact p1 x hx
  · exact p2 x hx

theorem dataless_writeHeader (s : State) (w : Write) : s.dataless (s.writeHeader w) :=
  ⟨[LogItem.header w], rfl, fun x hx => by
    rw [List.mem_singleton] at hx
    rw [hx]
    exact Or.inl rfl⟩

theorem dataless_reserve (e : Env) (n : Nat) (s : State) :
    s.dataless (blackboxDeviceReserveBufferSpace e n s).1 := dataless_of_log rfl

theorem dataless_setHeaderBudget (s : State) (v : Int) : s.dataless (s.setHeaderBudget v) :=
  dataless_of_log rfl

theorem dataless_setU (s : State) (v : Nat) : s.dataless (s.setU v) := dataless_of_log rfl

theorem dataless_setHeaderIndex (s : State) (v : Nat) : s.dataless (s.setHeaderIndex v) :=
  dataless_of_log rfl

theorem dataless_setNeedComma (s : State) (v : Bool) : s.dataless (s.setNeedComma v) :=
  dataless_of_log rfl

theorem dataless_field (fd : blackboxFieldDefinition_t) (n : Nat) (s : State) :
    s.dataless (sendFieldDefinition.field fd n s) := by
  have h2 := dataless_setHeaderBudget s (s.blackboxHeaderBudget - n)
  unfold sendFieldDefinition.field
  dsimp only
  generalize s.setHeaderBudget (s.blackboxHeaderBudget - n) = s2 at *
  have h3 : s2.dataless
      (if s2.needComma = true then s2.writeHeader (Write.byte ','.toNat)
        else s2.setNeedComma true) := by
    split_ifs
    · exact dataless_writeHeader _ _
    · exact dataless_setNeedComma _ _
  generalize (if s2.needComma = true then s2.writeHeader (Write.byte ','.toNat)
        else s2.setNeedComma true) = s3 at *
  refine dataless_trans (dataless_trans (dataless_trans h2 h3) ?_) (dataless_setU _ _)
  split_ifs
  · exact dataless_trans (dataless_writeHeader _ _) (dataless_writeHeader _ _)
  · exact dataless_writeHeader _ _
  · exact dataless_writeHeader _ _

theorem dataless_fst {α : Type} {s t : State} (x : α) (h : s.dataless t) :
    s.dataless (t, x).1 := h

theorem dataless_loop (e : Env) (defs : List blackboxFieldDefinition_t)
    (conds : Option (List Nat)) (fuel : Nat) (s : State) :
    s.dataless (sendFieldDefinition.loop e defs conds fuel s).1 := by
  induction fuel generalizing s with
  | zero => exact dataless_refl s
  | succ fuel ih =>
    unfold sendFieldDefinition.loop
    dsimp only
    split_ifs
    · exact dataless_fst _ (dataless_reserve _ _ _)
    · exact dataless_trans (dataless_trans (dataless_reserve _ _ _) (dataless_field _ _ _))
        (ih _)
    · exact dataless_fst _ (dataless_reserve _ _ _)
    · exact dataless_trans (dataless_trans (dataless_reserve _ _ _) (dataless_field _ _ _))
        (ih _)
    · exact dataless_trans (dataless_setU _ _) (ih _)
    · exact dataless_refl s

theorem dataless_start_chain (s r : State) (h : s.dataless r) (w : Write) (a : Int → Int)
    (u : Nat → Nat) :
    s.dataless ((((r.writeHeader w).setHeaderBudget
      (a (r.writeHeader w).blackboxHeaderBudget)).setU
      (u (r.writeHeader w).u)).setNeedComma false) := by
  refine dataless_trans ?_ (dataless_setNeedComma _ _)
  refine dataless_trans ?_ (dataless_setU _ _)
  refine dataless_trans ?_ (dataless_setHeaderBudget _ _)
  exact dataless_trans h (dataless_writeHeader _ _)

theorem dataless_start (e : Env) (c1 c2 : Char) (n : Nat) (s : State) :
    s.dataless (sendFieldDefinition.start e c1 c2 n s).1 := by
  unfold sendFieldDefinition.start
  dsimp only
  split_ifs
  · exact dataless_fst _ (dataless_refl s)
  · exact dataless_fst _ (dataless_reserve _ _ _)
  · exact dataless_fst _ (dataless_start_chain s _ (dataless_reserve _ _ _) _
      (fun x => x - _) (fun x => (x + 1) % 4294967296))
  · exact dataless_fst _ (dataless_start_chain s _ (dataless_reserve _ _ _) _
      (fun x => x - _) (fun x => (x + 1) % 4294967296))
  · exact dataless_fst _ (dataless_refl s)

theorem dataless_finish (e : Env) (n : Int) (s : State) :
    s.dataless (sendFieldDefinition.finish e n s) := by
  unfold sendFieldDefinition.finish
  dsimp only
  split_ifs
  · refine dataless_trans ?_ (dataless_setU _ _)
    refine dataless_trans ?_ (dataless_setHeaderIndex _ _)
    refine dataless_trans ?_ (dataless_setHeaderBudget _ _)
    refine dataless_trans ?_ (dataless_writeHeader _ _)
    exact dataless_reserve _ _ _
  · exact dataless_reserve _ _ _
  · exact dataless_refl s

theorem dataless_sendFieldDefinition (e : Env) (c1 c2 : Char)
    (defs : List blackboxFieldDefinition_t) (conds : Option (List Nat)) (s : State) :
    s.dataless (sendFieldDefinition e c1 c2 defs conds s).1 := by
  unfold sendFieldDefinition
  dsimp only
  split
  · exact dataless_start _ _ _ _ _
  · split_ifs
    · exact dataless_fst _ (dataless_trans (dataless_start _ _ _ _ _) (dataless_loop _ _ _ _ _))
    · exact dataless_fst _ (dataless_trans
        (dataless_trans (dataless_start _ _ _ _ _) (dataless_loop _ _ _ _ _))
        (dataless_finish _ _ _))
    · exact dataless_fst _ (dataless_trans (dataless_start _ _ _ _ _) (dataless_loop _ _ _ _ _))
    · exact dataless_fst _ (dataless_trans
        (dataless_trans (dataless_start _ _ _ _ _) (dataless_loop _ _ _ _ _))
        (dataless_finish _ _ _))

theorem dataless_blackboxPrintfHeaderLine (text : String) (s : State) :
    s.dataless (blackboxPrintfHeaderLine text s) :=
  dataless_trans (dataless_writeHeader _ _) (dataless_setHeaderBudget _ _)

theorem dataless_blackboxWriteSysinfo (b : Build) (e : Env) (s : State) :
    s.dataless (blackboxWriteSysinfo b e s).1 := by
  unfold blackboxWriteSysinfo
  dsimp only
  split
  · exact dataless_fst _ (dataless_reserve _ _ _)
  · split
    · exact dataless_fst _ (dataless_reserve _ _ _)
    · refine dataless_fst _ ?_
      refine dataless_trans ?_ (dataless_setHeaderIndex _ _)
      refine dataless_trans (dataless_reserve e 64 s) ?_
      split_ifs
      · exact dataless_blackboxPrintfHeaderLine _ _
      · exact dataless_setHeaderIndex _ _
      · exact dataless_blackboxPrintfHeaderLine _ _
      · exact dataless_refl _
      · exact dataless_blackboxPrintfHeaderLine _ _

theorem dataless_sendHeader (s : State) : s.dataless (blackboxUpdate.sendHeader s) :=
  ⟨_, rfl, fun x hx => by
    obtain ⟨c, _, hc⟩ := List.mem_map.1 hx
    rw [← hc]
    exact Or.inl rfl⟩

theorem dataless_blackboxSetState (e : Env) (st : BlackboxState) (s : State) :
    s.dataless (blackboxSetState e st s) := dataless_of_log (blackboxSetState_log e st s)

theorem dataless_pushDeviceOp (s : State) (op : DeviceOp) : s.dataless (s.pushDeviceOp op) :=
  dataless_of_log rfl

theorem dataless_setStartedLoggingInTestMode (s : State) (v : Bool) :
    s.dataless (s.setStartedLoggingInTestMode v) := dataless_of_log rfl

theorem dataless_setCacheFlushNextState (s : State) (v : BlackboxState) :
    s.dataless (s.setCacheFlushNextState v) := dataless_of_log rfl

theorem dataless_advance (s : State) : s.dataless (blackboxAdvanceIterationTimers s) :=
  dataless_of_log (advance_log s)

theorem dataless_blackboxLogEvent (event : Nat) (data : flightLogEventData_t) (s : State) :
    s.dataless (blackboxLogEvent event data s) := by
  unfold blackboxLogEvent
  split_ifs
  · exact ⟨_, rfl, fun x hx => by
      rw [List.mem_singleton] at hx
      rw [hx]
      exact Or.inr rfl⟩
  · exact dataless_refl s

theorem dataless_blackboxStart (b : Build) (e : Env) (s : State) :
    s.dataless (blackboxStart b e s) := dataless_of_log (blackboxStart_log b e s)

theorem dataless_startInTestMode (b : Build) (e : Env) (s : State) :
    s.dataless (startInTestMode b e s) := dataless_of_log (startInTestMode_log b e s)

theorem dataless_blackboxFinish (e : Env) (s : State) : s.dataless (blackboxFinish e s) := by
  refine ⟨if s.blackboxState = .RUNNING ∨ s.blackboxState = .PAUSED then
      [LogItem.frame 'E' [Write.byte FLIGHT_LOG_EVENT_LOG_END, Write.str "End of log",
        Write.byte 0]] else [], ?_, ?_⟩
  · rw [blackboxFinish_log]
    split_ifs
    · rfl
    · rw [List.append_nil]
  · intro x hx
    split_ifs at hx
    · rw [List.mem_singleton] at hx
      rw [hx]
      exact Or.inr rfl
    · cases hx

theorem dataless_stopInTestMode (e : Env) (s : State) : s.dataless (stopInTestMode e s) := by
  unfold stopInTestMode
  split_ifs
  · exact dataless_trans (dataless_blackboxFinish e s) (dataless_setStartedLoggingInTestMode _ _)
  · exact dataless_refl s

theorem dataless_inMotorTestMode (e : Env) (s : State) :
    s.dataless (inMotorTestMode e s).1 := dataless_of_log (inMotorTestMode_log e s)

/-! ### Ticks without data frames -/

theorem dataless_sendFieldDefinition_budget (e : Env) (c1 c2 : Char)
    (defs : List blackboxFieldDefinition_t) (conds : Option (List Nat)) (s : State) (v : Int) :
    s.dataless (sendFieldDefinition e c1 c2 defs conds (s.setHeaderBudget v)).1 :=
  dataless_trans (dataless_setHeaderBudget s v) (dataless_sendFieldDefinition e c1 c2 defs conds _)

/-- The `switch` of `blackboxUpdate` writes no data frame unless it starts in RUNNING, or in
PAUSED and resumes. -/
theorem dataless_switch (b : Build) (e : Env) (s : State)
    (h1 : s.blackboxState ≠ .RUNNING)
    (h2 : ¬ (s.blackboxState = .PAUSED
      ∧ (e.rcModeBlackbox && blackboxShouldLogIFrame s) = true)) :
    s.dataless (blackboxUpdate.switch b e s) := by
  unfold blackboxUpdate.switch
  split
  · -- STOPPED
    dsimp only
    have hs1 : s.dataless (if e.armed = true then
        blackboxStart b e (s.pushDeviceOp DeviceOp.blackboxOpen) else s) := by
      split_ifs
      · exact dataless_trans (dataless_pushDeviceOp _ _) (dataless_blackboxStart _ _ _)
      · exact dataless_refl s
    generalize (if e.armed = true then
        blackboxStart b e (s.pushDeviceOp DeviceOp.blackboxOpen) else s) = s1 at hs1
    split_ifs
    · exact dataless_trans hs1 (dataless_blackboxSetState _ _ _)
    · exact hs1
  · -- PREPARE_LOG_FILE
    split_ifs
    · exact dataless_blackboxSetState _ _ _
    · exact dataless_refl s
  · -- SEND_HEADER
    dsimp only
    have h1 := dataless_setHeaderBudget s (e.replenishHeaderBudget s.blackboxHeaderBudget)
    have h2 := dataless_trans h1 (dataless_reserve e
      BLACKBOX_TARGET_HEADER_BUDGET_PER_ITERATION _)
    have h3 := dataless_trans h2 (dataless_sendHeader _)
    split_ifs
    · exact dataless_trans h3 (dataless_blackboxSetState _ _ _)
    · exact h3
    · exact h2
    · exact h1
  · -- SEND_MAIN_FIELD_HEADER
    dsimp only
    split_ifs
    · exact dataless_trans (dataless_sendFieldDefinition_budget _ _ _ _ _ _ _)
        (dataless_blackboxSetState _ _ _)
    · exact dataless_trans (dataless_sendFieldDefinition_budget _ _ _ _ _ _ _)
        (dataless_blackboxSetState _ _ _)
    · exact dataless_sendFieldDefinition_budget _ _ _ _ _ _ _
  · -- SEND_GPS_H_HEADER
    dsimp only
    split_ifs
    · exact dataless_trans (dataless_sendFieldDefinition_budget _ _ _ _ _ _ _)
        (dataless_blackboxSetState _ _ _)
    · exact dataless_sendFieldDefinition_budget _ _ _ _ _ _ _
    · exact dataless_refl s
  · -- SEND_GPS_G_HEADER
    dsimp only
    split_ifs
    · exact dataless_trans (dataless_sendFieldDefinition_budget _ _ _ _ _ _ _)
        (dataless_blackboxSetState _ _ _)
    · exact dataless_sendFieldDefinition_budget _ _ _ _ _ _ _
    · exact dataless_refl s
  · -- SEND_SLOW_HEADER
    dsimp only
    split_ifs
    · exact dataless_trans (dataless_trans (dataless_sendFieldDefinition_budget _ _ _ _ _ _ _)
        (dataless_setCacheFlushNextState _ _)) (dataless_blackboxSetState _ _ _)
    · exact dataless_sendFieldDefinition_budget _ _ _ _ _ _ _
  · -- SEND_SYSINFO
    dsimp only
    have h1 := dataless_setHeaderBudget s (e.replenishHeaderBudget s.blackboxHeaderBudget)
    have h2 := dataless_trans h1 (dataless_blackboxWriteSysinfo b e _)
    split_ifs
    · exact dataless_trans (dataless_trans h2 (dataless_setCacheFlushNextState _ _))
        (dataless_blackboxSetState _ _ _)
    · exact h2
  · -- CACHE_FLUSH
    split_ifs
    · exact dataless_blackboxSetState _ _ _
    · exact dataless_refl s
  · -- PAUSED
    dsimp only
    refine dataless_trans ?_ (dataless_advance _)
    rw [if_neg (fun h => h2 ⟨by assumption, h⟩)]
    exact dataless_refl s
  · -- RUNNING
    exact absurd (by assumption) h1
  · -- SHUTTING_DOWN
    split_ifs
    · exact dataless_trans (dataless_pushDeviceOp _ _) (dataless_blackboxSetState _ _ _)
    · exact dataless_refl s
  · -- START_ERASE
    split_ifs
    · exact dataless_trans (dataless_trans (dataless_pushDeviceOp _ _)
        (dataless_blackboxSetState _ _ _)) (dataless_pushDeviceOp _ _)
    · exact dataless_refl s
  · -- ERASING
    split_ifs
    · exact dataless_trans (dataless_blackboxSetState _ _ _) (dataless_pushDeviceOp _ _)
    · exact dataless_refl s
    · exact dataless_refl s
  · -- ERASED
    split_ifs
    · exact dataless_blackboxSetState _ _ _
    · exact dataless_refl s
    · exact dataless_refl s
  · exact dataless_refl s

/-- The second half of `blackboxUpdate` writes no data frame. -/
theorem dataless_update_finish (b : Build) (e : Env) (s : State) :
    s.dataless (blackboxUpdate.finish b e s) := by
  unfold blackboxUpdate.finish
  dsimp only
  have hm := dataless_inMotorTestMode e s
  split_ifs
  · exact dataless_trans (dataless_blackboxSetState _ _ _)
      (dataless_setStartedLoggingInTestMode _ _)
  · exact dataless_blackboxSetState _ _ _
  · exact dataless_refl s
  · exact dataless_trans hm (dataless_startInTestMode _ _ _)
  · exact hm
  · exact dataless_trans hm (dataless_stopInTestMode _ _)
  · exact hm
  · exact dataless_startInTestMode _ _ _
  · exact dataless_refl s
  · exact dataless_refl s

/-! ### Written and reserved bytes of a field definition -/

theorem written_of_log {s t : State} {l : List LogItem} (h : t.log = s.log ++ l) :
    s.written t = l := by
  unfold State.written
  rw [h, List.drop_left]

theorem headerBytes_append (l1 l2 : List LogItem) :
    headerBytes (l1 ++ l2) = headerBytes l1 + headerBytes l2 := by
  unfold headerBytes
  rw [List.map_append, List.sum_append]

theorem headerBytes_map_header (ws : List Write) :
    headerBytes (ws.map LogItem.header) = (ws.map Write.textBytes).sum := by
  unfold headerBytes
  rw [List.map_map]
  rfl

/-- What the loop body of `sendFieldDefinition` writes for an included field: a comma when
one is due, then the entry. -/
theorem field_log (fd : blackboxFieldDefinition_t) (n : Nat) (s : State) :
    (sendFieldDefinition.field fd n s).log
      = s.log ++ ((if s.needComma = true then [Write.byte ','.toNat] else [])
          ++ sendFieldDefinition.entry fd s.headerIndex).map LogItem.header := by
  unfold sendFieldDefinition.field sendFieldDefinition.entry
  simp only [State.setU, State.writeHeader, State.setNeedComma, State.setHeaderBudget]
  by_cases hc : s.needComma = true <;> by_cases hh : s.headerIndex = 0 <;>
    by_cases hi : fd.fieldNameIndex = -1 <;>
    simp [hc, hh, hi]

theorem field_needComma (fd : blackboxFieldDefinition_t) (n : Nat) (s : State) :
    (sendFieldDefinition.field fd n s).needComma = true := by
  unfold sendFieldDefinition.field
  simp only [State.setU, State.writeHeader, State.setNeedComma, State.setHeaderBudget]
  by_cases hc : s.needComma = true <;> by_cases hh : s.headerIndex = 0 <;>
    by_cases hi : fd.fieldNameIndex = -1 <;>
    simp [hc, hh, hi]

theorem field_cache (fd : blackboxFieldDefinition_t) (n : Nat) (s : State) :
    (sendFieldDefinition.field fd n s).blackboxConditionCache = s.blackboxConditionCache := by
  unfold sendFieldDefinition.field
  simp only [State.setU, State.writeHeader, State.setNeedComma, State.setHeaderBudget]
  by_cases hc : s.needComma = true <;> by_cases hh : s.headerIndex = 0 <;>
    by_cases hi : fd.fieldNameIndex = -1 <;>
    simp [hc, hh, hi]

/-- The bytes written for an entry whose bracketed index has at most 4 characters and whose
numbers have at most 2 are within the `bytesToWrite` reserved for it. -/
theorem field_bytes_le (fd : blackboxFieldDefinition_t) (s : State)
    (h1 : ("[" ++ toString fd.fieldNameIndex ++ "]").length ≤ 4)
    (h2 : (toString (fd.arr.getD (s.headerIndex - 1) 0)).length ≤ 2) :
    headerBytes (s.written (sendFieldDefinition.field fd
        (1 + (if s.headerIndex = 0 then fd.name.length + 2 + 2 else 2)) s))
      ≤ 1 + (if s.headerIndex = 0 then fd.name.length + 2 + 2 else 2) := by
  rw [written_of_log (field_log fd _ s), headerBytes_map_header, List.map_append,
    List.sum_append]
  have hcomma : ((if s.needComma = true then [Write.byte ','.toNat] else []).map
      Write.textBytes).sum ≤ 1 := by
    split_ifs
    · exact le_refl _
    · exact Nat.zero_le _
  have hentry : ((sendFieldDefinition.entry fd s.headerIndex).map Write.textBytes).sum
      ≤ (if s.headerIndex = 0 then fd.name.length + 2 + 2 else 2) := by
    unfold sendFieldDefinition.entry
    by_cases hh : s.headerIndex = 0
    · rw [if_pos hh, if_pos hh]
      by_cases hi : fd.fieldNameIndex = -1
      · rw [if_neg (by simpa using hi)]
        simp only [List.map_cons, List.map_nil, List.sum_cons, List.sum_nil, Write.textBytes]
        omega
      · rw [if_pos hi]
        simp only [List.map_cons, List.map_nil, List.sum_cons, List.sum_nil, Write.textBytes]
        omega
    · rw [if_neg hh, if_neg hh]
      simp only [List.map_cons, List.map_nil, List.sum_cons, List.sum_nil, Write.textBytes]
      omega
  omega

theorem ite_nil_sublist {α : Type} (c : Prop) [Decidable c] (l : List α) :
    (if c then l else []).Sublist l := by
  split_ifs
  · exact List.Sublist.refl l
  · exact List.nil_sublist l

/-- Every build's table of main fields is part of the table with every section compiled. -/
theorem mainFields_sublist (b : Build) :
    (blackboxMainFields b).Sublist (blackboxMainFields Build.full) := by
  unfold blackboxMainFields
  simp only [Build.full, if_true]
  repeat' apply List.Sublist.append
  all_goals first
    | exact List.Sublist.refl _
    | exact ite_nil_sublist _ _

set_option maxRecDepth 100000 in
theorem mainFields_full_short :
    ∀ d ∈ blackboxMainFields Build.full,
      ("[" ++ toString d.generic.fieldNameIndex ++ "]").length ≤ 4
        ∧ ∀ i < 5, (toString (d.generic.arr.getD i 0)).length ≤ 2 := by
  decide

set_option maxRecDepth 100000 in
theorem gpsGFields_short :
    ∀ d ∈ blackboxGpsGFields,
      ("[" ++ toString d.generic.fieldNameIndex ++ "]").length ≤ 4
        ∧ ∀ i < 3, (toString (d.generic.arr.getD i 0)).length ≤ 2 := by
  decide

set_option maxRecDepth 100000 in
theorem gpsHFields_short :
    ∀ d ∈ blackboxGpsHFields,
      ("[" ++ toString d.generic.fieldNameIndex ++ "]").length ≤ 4
        ∧ ∀ i < 3, (toString (d.generic.arr.getD i 0)).length ≤ 2 := by
  decide

set_option maxRecDepth 100000 in
theorem slowFields_short :
    ∀ d ∈ blackboxSlowFields,
      ("[" ++ toString d.generic.fieldNameIndex ++ "]").length ≤ 4
        ∧ ∀ i < 3, (toString (d.generic.arr.getD i 0)).length ≤ 2 := by
  decide

/-- In each of the four tables, with the number of header lines of its family, every entry
has a bracketed index of at most 4 characters and, on the lines after the first, a number of
at most 2. -/
theorem tables_short (b : Build) :
    ∀ p ∈ [((blackboxMainFields b).map (·.generic), 6),
        (blackboxGpsGFields.map (·.generic), 4), (blackboxGpsHFields.map (·.generic), 4),
        (blackboxSlowFields.map (·.generic), 4)],
      ∀ fd ∈ p.1, ("[" ++ toString fd.fieldNameIndex ++ "]").length ≤ 4
        ∧ ∀ i < p.2 - 1, (toString (fd.arr.getD i 0)).length ≤ 2 := by
  intro p hp fd hfd
  simp only [List.mem_cons, List.mem_singleton, List.not_mem_nil, or_false] at hp
  rcases hp with rfl | rfl | rfl | rfl
  · obtain ⟨d, hd, rfl⟩ := List.mem_map.1 hfd
    exact mainFields_full_short d ((mainFields_sublist b).subset hd)
  · obtain ⟨d, hd, rfl⟩ := List.mem_map.1 hfd
    exact gpsGFields_short d hd
  · obtain ⟨d, hd, rfl⟩ := List.mem_map.1 hfd
    exact gpsHFields_short d hd
  · obtain ⟨d, hd, rfl⟩ := List.mem_map.1 hfd
    exact slowFields_short d hd

theorem getD_mem_of_lt {α : Type} (l : List α) (i : Nat) (d : α) (h : i < l.length) :
    l.getD i d ∈ l := by
  rw [List.getD_eq_getElem l d h]
  exact List.getElem_mem h

/-- The text that opens a line has the length reserved for it. -/
theorem lineName_length (c1 c2 : Char) (h : Nat) :
    (sendFieldDefinition.lineName c1 c2 h).length
      = "H Field x :".length + (blackboxFieldHeaderNames.getD h "").length := by
  unfold sendFieldDefinition.lineName
  simp only [String.length_append, String.length_singleton]
  have h1 : "H Field ".length = 8 := by decide
  have h2 : " ".length = 1 := by decide
  have h3 : ":".length = 1 := by decide
  have h4 : "H Field x :".length = 11 := by decide
  omega

/-- The first part of `sendFieldDefinition`, when its reservation is granted, writes the text
that opens the line. -/
theorem start_log (e : Env) (c1 c2 : Char) (s : State) (h1 : s.fieldIndex = -1)
    (h2 : s.headerIndex < sendFieldDefinition.headerCount c2)
    (h3 : e.deviceReserve s.reserveCalls ("H Field x :".length
      + (blackboxFieldHeaderNames.getD s.headerIndex "").length) = true) :
    (sendFieldDefinition.start e c1 c2 (sendFieldDefinition.headerCount c2) s).1.log
      = s.log ++ [LogItem.header (Write.str (sendFieldDefinition.lineName c1 c2 s.headerIndex))] := by
  have h4 : (blackboxDeviceReserveBufferSpace e ("H Field x :".length
      + (blackboxFieldHeaderNames.getD s.headerIndex "").length) s).2 = true := h3
  have hge : ¬ s.headerIndex ≥ sendFieldDefinition.headerCount c2 := by omega
  unfold sendFieldDefinition.start
  simp only [h1, if_true, hge, if_false, h4, Bool.true_eq_false]
  rfl

/-! ### Entries separated by commas -/

theorem separated_true (xs : List (List Write)) :
    sendFieldDefinition.separated true xs
      = (xs.map (fun x => [Write.byte ','.toNat] ++ x)).flatten := by
  induction xs with
  | nil => rfl
  | cons x xs ih =>
    unfold sendFieldDefinition.separated
    rw [ih]
    simp

theorem intercalate_cons {α : Type} (sep x : List α) (xs : List (List α)) :
    List.intercalate sep (x :: xs) = x ++ (xs.map (fun y => sep ++ y)).flatten := by
  induction xs generalizing x with
  | nil => simp [List.intercalate]
  | cons y ys ih =>
    have h := ih y
    simp only [List.intercalate, List.intersperse, List.flatten_cons, List.map_cons,
      List.append_assoc] at h ⊢
    rw [h]

/-- Written with the flag clear at the start, the entries are separated by commas. -/
theorem separated_false (xs : List (List Write)) :
    sendFieldDefinition.separated false xs = List.intercalate [Write.byte ','.toNat] xs := by
  cases xs with
  | nil => rfl
  | cons x xs =>
    unfold sendFieldDefinition.separated
    rw [separated_true, intercalate_cons]
    simp

theorem included_eq_listed (conds : Option (List Nat)) (s : State) :
    sendFieldDefinition.included conds s
      = sendFieldDefinition.listed conds s s.fieldIndex.toNat := by
  unfold sendFieldDefinition.included sendFieldDefinition.listed
  cases conds <;> rfl

theorem listed_of_cache (conds : Option (List Nat)) (s t : State)
    (h : s.blackboxConditionCache = t.blackboxConditionCache) :
    sendFieldDefinition.listed conds s = sendFieldDefinition.listed conds t := by
  funext i
  unfold sendFieldDefinition.listed
  cases conds with
  | none => rfl
  | some cs =>
    show testBlackboxCondition s _ = testBlackboxCondition t _
    unfold testBlackboxCondition
    rw [h]

theorem entries_of_cache (defs : List blackboxFieldDefinition_t) (conds : Option (List Nat))
    (s t : State) (h : s.blackboxConditionCache = t.blackboxConditionCache) (n : Nat) :
    sendFieldDefinition.entries defs conds s n = sendFieldDefinition.entries defs conds t n := by
  unfold sendFieldDefinition.entries
  rw [listed_of_cache conds s t h]

theorem line_of_cache (c1 c2 : Char) (defs : List blackboxFieldDefinition_t)
    (conds : Option (List Nat)) (s t : State)
    (h : s.blackboxConditionCache = t.blackboxConditionCache) (n : Nat) :
    sendFieldDefinition.line c1 c2 defs conds s n
      = sendFieldDefinition.line c1 c2 defs conds t n := by
  unfold sendFieldDefinition.line
  rw [entries_of_cache defs conds s t h]

/-! ### The units of the fields of a line -/

theorem separated_cons (nc : Bool) (x : List Write) (xs : List (List Write)) :
    sendFieldDefinition.separated nc (x :: xs)
      = (if nc = true then [Write.byte ','.toNat] else []) ++ x
        ++ sendFieldDefinition.separated true xs := rfl

/-- A unit inside a line: the entry of the field, after a comma when one is due, if the field
is listed; nothing otherwise. -/
theorem unit_field_log (e : Env) (c1 c2 : Char) (defs : List blackboxFieldDefinition_t)
    (conds : Option (List Nat)) (s : State) (h1 : s.fieldIndex ≠ -1)
    (h2 : s.fieldIndex < (defs.length : Int)) :
    (sendFieldDefinition.unit e c1 c2 defs conds s).log
        = s.log ++ (if sendFieldDefinition.listed conds s s.fieldIndex.toNat = true then
            (if s.needComma = true then [Write.byte ','.toNat] else [])
              ++ sendFieldDefinition.entry (defs.getD s.fieldIndex.toNat default) s.headerIndex
          else []).map LogItem.header
      ∧ (sendFieldDefinition.unit e c1 c2 defs conds s).needComma
        = (s.needComma || sendFieldDefinition.listed conds s s.fieldIndex.toNat)
      ∧ (sendFieldDefinition.unit e c1 c2 defs conds s).blackboxConditionCache
        = s.blackboxConditionCache := by
  rw [unit_of_field e c1 c2 defs conds s h1 h2, included_eq_listed]
  by_cases hl : sendFieldDefinition.listed conds s s.fieldIndex.toNat = true
  · rw [if_pos hl, if_pos hl, hl, Bool.or_true]
    exact ⟨field_log _ _ _, field_needComma _ _ _, field_cache _ _ _⟩
  · rw [if_neg hl, if_neg hl]
    have hl2 : sendFieldDefinition.listed conds s s.fieldIndex.toNat = false := by
      simpa using hl
    rw [hl2, Bool.or_false]
    exact ⟨by rw [List.map_nil, List.append_nil]; rfl, rfl, rfl⟩

/-- The units over the remaining fields of a line write their entries, separated by commas. -/
theorem iterate_unit_fields (e : Env) (c1 c2 : Char) (defs : List blackboxFieldDefinition_t)
    (conds : Option (List Nat)) (hlen : defs.length < 2147483648) (k : Nat) (s : State)
    (h0 : 0 ≤ s.fieldIndex) (hk : s.fieldIndex + k = (defs.length : Int)) :
    ((sendFieldDefinition.unit e c1 c2 defs conds)^[k] s).log
        = s.log ++ (sendFieldDefinition.separated s.needComma
            (((List.range' s.fieldIndex.toNat k).filter
              (sendFieldDefinition.listed conds s)).map
              (fun i => sendFieldDefinition.entry (defs.getD i default)
                s.headerIndex))).map LogItem.header
      ∧ ((sendFieldDefinition.unit e c1 c2 defs conds)^[k] s).fieldIndex = (defs.length : Int)
      ∧ ((sendFieldDefinition.unit e c1 c2 defs conds)^[k] s).headerIndex = s.headerIndex
      ∧ ((sendFieldDefinition.unit e c1 c2 defs conds)^[k] s).blackboxConditionCache
        = s.blackboxConditionCache := by
  induction k generalizing s with
  | zero =>
    refine ⟨?_, by simpa using hk, rfl, rfl⟩
    simp [sendFieldDefinition.separated]
  | succ k ih =>
    have h1 : s.fieldIndex ≠ -1 := by omega
    have h2 : s.fieldIndex < (defs.length : Int) := by omega
    obtain ⟨u1, u2⟩ := unit_fieldIndex_of_field e c1 c2 defs conds s hlen h1 h2
    obtain ⟨u3, u4, u5⟩ := unit_field_log e c1 c2 defs conds s h1 h2
    obtain ⟨i1, i2, i3, i4⟩ := ih (sendFieldDefinition.unit e c1 c2 defs conds s)
      (by omega) (by rw [u1]; push_cast at hk ⊢; omega)
    rw [Function.iterate_succ_apply]
    refine ⟨?_, i2, by rw [i3, u2], by rw [i4, u5]⟩
    have hn : (s.fieldIndex + 1).toNat = s.fieldIndex.toNat + 1 := by omega
    rw [i1, u3, u1, u2, u4, hn, listed_of_cache conds _ s u5, List.range'_succ,
      List.filter_cons]
    by_cases hl : sendFieldDefinition.listed conds s s.fieldIndex.toNat = true
    · rw [if_pos hl, if_pos hl, hl, Bool.or_true, List.map_cons]
      rw [separated_cons]
      simp only [List.map_append, List.append_assoc]
    · have hl2 : sendFieldDefinition.listed conds s s.fieldIndex.toNat = false := by
        simpa using hl
      rw [if_neg hl, if_neg hl, hl2, Bool.or_false, List.map_nil, List.append_nil]

/-! ### Lines of field definitions -/

/-- The unit at the start of a line writes the text that opens it and clears the comma flag. -/
theorem unit_start_log (e : Env) (c1 c2 : Char) (defs : List blackboxFieldDefinition_t)
    (conds : Option (List Nat)) (s : State) (h1 : s.fieldIndex = -1)
    (h2 : s.headerIndex < sendFieldDefinition.headerCount c2) :
    (sendFieldDefinition.unit e c1 c2 defs conds s).log
        = s.log ++ [LogItem.header (Write.str (sendFieldDefinition.lineName c1 c2 s.headerIndex))]
      ∧ (sendFieldDefinition.unit e c1 c2 defs conds s).needComma = false
      ∧ (sendFieldDefinition.unit e c1 c2 defs conds s).blackboxConditionCache
        = s.blackboxConditionCache := by
  have hge : ¬ s.headerIndex ≥ sendFieldDefinition.headerCount c2 := by omega
  have hs : sendFieldDefinition.unit e c1 c2 defs conds s
      = (((((blackboxDeviceReserveBufferSpace e.withRoom ("H Field x :".length
          + (blackboxFieldHeaderNames.getD s.headerIndex "").length) s).1.writeHeader
            (Write.str (sendFieldDefinition.lineName c1 c2 s.headerIndex))).setHeaderBudget
          (s.blackboxHeaderBudget
            - (sendFieldDefinition.lineName c1 c2 s.headerIndex).length)).setU
          ((s.u + 1) % 4294967296)).setNeedComma false) := by
    unfold sendFieldDefinition.unit sendFieldDefinition.start
    simp only [if_pos h1, if_neg hge, reserve_withRoom, Bool.true_eq_false, if_false]
    rfl
  rw [hs]
  simp only [State.setNeedComma, State.setU, State.setHeaderBudget, State.writeHeader,
    blackboxDeviceReserveBufferSpace, and_self]

/-- The unit at the end of a line writes the newline. -/
theorem unit_finish_log (e : Env) (c1 c2 : Char) (defs : List blackboxFieldDefinition_t)
    (conds : Option (List Nat)) (s : State) (h1 : s.fieldIndex = (defs.length : Int)) :
    (sendFieldDefinition.unit e c1 c2 defs conds s).log
        = s.log ++ [LogItem.header (Write.byte '\n'.toNat)]
      ∧ (sendFieldDefinition.unit e c1 c2 defs conds s).blackboxConditionCache
        = s.blackboxConditionCache := by
  have hs : sendFieldDefinition.unit e c1 c2 defs conds s
      = ((((blackboxDeviceReserveBufferSpace e.withRoom 1 s).1.writeHeader
          (Write.byte '\n'.toNat)).setHeaderBudget (s.blackboxHeaderBudget - 1)).setHeaderIndex
          ((s.headerIndex + 1) % 4294967296)).setU 4294967295 := by
    unfold sendFieldDefinition.unit
    rw [if_neg (by omega), if_neg (by omega)]
    unfold sendFieldDefinition.finish
    simp only [if_pos h1, reserve_withRoom, if_true]
    rfl
  rw [hs]
  simp only [State.setHeaderIndex, State.setU, State.setHeaderBudget, State.writeHeader,
    blackboxDeviceReserveBufferSpace, and_self]

/-- The units of one line write the line. -/
theorem iterate_unit_line (e : Env) (c1 c2 : Char) (defs : List blackboxFieldDefinition_t)
    (conds : Option (List Nat)) (hlen : defs.length < 2147483648) (s : State)
    (h1 : s.fieldIndex = -1) (h2 : s.headerIndex < sendFieldDefinition.headerCount c2) :
    ((sendFieldDefinition.unit e c1 c2 defs conds)^[defs.length + 2] s).log
        = s.log ++ (sendFieldDefinition.line c1 c2 defs conds s s.headerIndex).map
            LogItem.header
      ∧ ((sendFieldDefinition.unit e c1 c2 defs conds)^[defs.length + 2] s).fieldIndex = -1
      ∧ ((sendFieldDefinition.unit e c1 c2 defs conds)^[defs.length + 2] s).headerIndex
        = s.headerIndex + 1
      ∧ ((sendFieldDefinition.unit e c1 c2 defs conds)^[defs.length + 2] s).blackboxConditionCache
        = s.blackboxConditionCache := by
  have hc := headerCount_le c2
  obtain ⟨a1, a2, a3⟩ := unit_start_log e c1 c2 defs conds s h1 h2
  obtain ⟨a4, a5⟩ := unit_start_position e c1 c2 defs conds s h1 h2
  obtain ⟨b1, b2, b3, b4⟩ := iterate_unit_fields e c1 c2 defs conds hlen defs.length
    (sendFieldDefinition.unit e c1 c2 defs conds s) (by omega) (by rw [a4]; omega)
  obtain ⟨d1, d2⟩ := unit_finish_log e c1 c2 defs conds _ b2
  obtain ⟨d3, d4⟩ := unit_finish_position e c1 c2 defs conds _ b2
  rw [Function.iterate_succ_apply', Function.iterate_succ_apply]
  refine ⟨?_, d3, by rw [d4, b3, a5]; omega, by rw [d2, b4, a3]⟩
  rw [d1, b1, a1, a2, a4, a5, listed_of_cache conds _ s a3, separated_false]
  unfold sendFieldDefinition.line sendFieldDefinition.entries
  rw [List.range_eq_range']
  simp only [Int.toNat_zero, List.map_append, List.append_assoc, List.map_cons, List.map_nil,
    List.singleton_append]

/-- The units of the lines that remain write these lines and reach the end. -/
theorem iterate_unit_lines (e : Env) (c1 c2 : Char) (defs : List blackboxFieldDefinition_t)
    (conds : Option (List Nat)) (hlen : defs.length < 2147483648) (j : Nat) (s : State)
    (h1 : s.fieldIndex = -1) (hj : s.headerIndex + j = sendFieldDefinition.headerCount c2) :
    ((sendFieldDefinition.unit e c1 c2 defs conds)^[j * (defs.length + 2)] s).log
        = s.log ++ (((List.range' s.headerIndex j).map
            (sendFieldDefinition.line c1 c2 defs conds s)).flatten).map LogItem.header
      ∧ sendFieldDefinition.done c2
          ((sendFieldDefinition.unit e c1 c2 defs conds)^[j * (defs.length + 2)] s) := by
  induction j generalizing s with
  | zero =>
    rw [Nat.zero_mul]
    refine ⟨by simp, h1, ?_⟩
    show sendFieldDefinition.headerCount c2 ≤ s.headerIndex
    omega
  | succ j ih =>
    obtain ⟨a1, a2, a3, a4⟩ := iterate_unit_line e c1 c2 defs conds hlen s h1 (by omega)
    obtain ⟨b1, b2⟩ := ih _ a2 (by rw [a3]; omega)
    have hm : (j + 1) * (defs.length + 2) = j * (defs.length + 2) + (defs.length + 2) := by
      ring
    rw [hm, Function.iterate_add_apply]
    refine ⟨?_, b2⟩
    rw [b1, a1, a3, List.range'_succ, List.map_cons, List.flatten_cons, List.map_append,
      List.append_assoc]
    have hl : sendFieldDefinition.line c1 c2 defs conds
        ((sendFieldDefinition.unit e c1 c2 defs conds)^[defs.length + 2] s)
        = sendFieldDefinition.line c1 c2 defs conds s := by
      funext n
      exact line_of_cache c1 c2 defs conds _ s a4 n
    rw [hl]

/-- A run of calls of `sendFieldDefinition` that came to its end wrote the header lines of the
family, one after the other. -/
theorem calls_lines (e : Env) (c1 c2 : Char) (defs : List blackboxFieldDefinition_t)
    (conds : Option (List Nat)) (hlen : defs.length < 2147483648) (s : State)
    (hu : s.fieldIndex = -1) (hi : s.headerIndex = 0) (n : Nat)
    (hn : (sendFieldDefinition.calls e c1 c2 defs conds n s).2 = false) :
    (sendFieldDefinition.calls e c1 c2 defs conds n s).1.log
      = s.log ++ (((List.range (sendFieldDefinition.headerCount c2)).map
          (sendFieldDefinition.line c1 c2 defs conds s)).flatten).map LogItem.header := by
  obtain ⟨m, hm1, hm2⟩ := calls_units e c1 c2 defs conds hlen n s (Or.inl hu)
  obtain ⟨l1, l2⟩ := iterate_unit_lines e c1 c2 defs conds hlen
    (sendFieldDefinition.headerCount c2) s hu (by omega)
  have dm := done_of_position c2 _ _ hm1 (hm2 hn)
  have heq := iterate_unit_done_unique e c1 c2 defs conds m _ s dm l2
  rw [((position_eq_iff _ _).1 hm1).1, heq, l1, hi, List.range_eq_range']

/-! ### Entries as text -/

/-- An entry is text, and not empty. -/
theorem entry_text (fd : blackboxFieldDefinition_t) (n : Nat) :
    sendFieldDefinition.entry fd n ≠ []
      ∧ ∀ w ∈ sendFieldDefinition.entry fd n, ∃ t, w = Write.str t := by
  unfold sendFieldDefinition.entry
  split_ifs
  · refine ⟨List.cons_ne_nil _ _, fun w hw => ?_⟩
    simp only [List.mem_cons, List.mem_singleton, List.not_mem_nil, or_false] at hw
    rcases hw with rfl | rfl
    · exact ⟨_, rfl⟩
    · exact ⟨_, rfl⟩
  · refine ⟨List.cons_ne_nil _ _, fun w hw => ?_⟩
    simp only [List.mem_singleton] at hw
    exact ⟨_, hw⟩
  · refine ⟨List.cons_ne_nil _ _, fun w hw => ?_⟩
    simp only [List.mem_singleton] at hw
    exact ⟨_, hw⟩

/-! ### The first frame of a run -/

set_option maxRecDepth 100000 in
/-- C1: at a motor count of five, with the condition cache built for that motor count, both
`writeIntraframe` and `writeInterframe` write five motor values, while the catalog entries
selected by the cache (the fields the `H Field I` lines list, and those of them with a P encoding
other than NULL) hold four `motor` fields: the fields written are not the fields declared. -/
theorem motor_fields_five_motors :
    ((payloadFields (writeIntraframe.payload Build.full Env.fiveMotors
        (blackboxBuildConditionCache Build.full Env.fiveMotors State.running))).filter
          (fun f => f.1.1 == "motor")).length = 5
    ∧ ((declaredIFields Build.full
        (blackboxBuildConditionCache Build.full Env.fiveMotors State.running)).filter
          (fun f => f.1.1 == "motor")).length = 4
    ∧ ((payloadFields (writeInterframe.payload Build.full Env.fiveMotors
        (blackboxBuildConditionCache Build.full Env.fiveMotors State.running))).filter
          (fun f => f.1.1 == "motor")).length = 5
    ∧ ((declaredPFields Build.full
        (blackboxBuildConditionCache Build.full Env.fiveMotors State.running)).filter
          (fun f => f.1.1 == "motor")).length = 4
    ∧ payloadFields (writeIntraframe.payload Build.full Env.fiveMotors
        (blackboxBuildConditionCache Build.full Env.fiveMotors State.running))
      ≠ declaredIFields Build.full
        (blackboxBuildConditionCache Build.full Env.fiveMotors State.running)
    ∧ payloadFields (writeInterframe.payload Build.full Env.fiveMotors
        (blackboxBuildConditionCache Build.full Env.fiveMotors State.running))
      ≠ declaredPFields Build.full
        (blackboxBuildConditionCache Build.full Env.fiveMotors State.running) := by
  refine ⟨?_, ?_, ?_, ?_, ?_, ?_⟩ <;> decide

/-- C2: after `blackboxBuildConditionCache`, for every condition id from
`FLIGHT_LOG_FIELD_CONDITION_FIRST` to `FLIGHT_LOG_FIELD_CONDITION_LAST`, `testBlackboxCondition`
returns the value `testBlackboxConditionUncached` had on the configuration the cache was built
from. The cached test is a function of the cache alone, so it returns that value on every state
holding this cache, whatever else has changed, and it yields no new state. -/
theorem cached_condition_agrees (b : Build) (e : Env) (s : State) (id : Nat)
    (h1 : FLIGHT_LOG_FIELD_CONDITION_FIRST ≤ id) (h2 : id ≤ FLIGHT_LOG_FIELD_CONDITION_LAST) :
    testBlackboxCondition (blackboxBuildConditionCache b e s) id
        = testBlackboxConditionUncached b e s id
    ∧ ∀ t : State,
        t.blackboxConditionCache = (blackboxBuildConditionCache b e s).blackboxConditionCache →
        testBlackboxCondition t id = testBlackboxConditionUncached b e s id := by
  have h := testBlackboxCondition_build b e s id h1 h2
  refine ⟨h, fun t ht => ?_⟩
  rw [← h]
  unfold testBlackboxCondition
  rw [ht]

theorem cached_condition_agrees_witness :
    (FLIGHT_LOG_FIELD_CONDITION_FIRST ≤ FLIGHT_LOG_FIELD_CONDITION_VBAT
      ∧ FLIGHT_LOG_FIELD_CONDITION_VBAT ≤ FLIGHT_LOG_FIELD_CONDITION_LAST)
    ∧ testBlackboxCondition (blackboxBuildConditionCache Build.full Env.flying State.boot)
        FLIGHT_LOG_FIELD_CONDITION_VBAT
      = testBlackboxConditionUncached Build.full Env.flying State.boot
        FLIGHT_LOG_FIELD_CONDITION_VBAT :=
  ⟨⟨by decide, by decide⟩,
    (cached_condition_agrees Build.full Env.flying State.boot FLIGHT_LOG_FIELD_CONDITION_VBAT
      (by decide) (by decide)).1⟩

/-- C3: while a session goes on (no tick of `blackboxUpdate` starts in STOPPED or brings the
state machine to STOPPED, the two places from which `blackboxStart` is reached), no sequence of
`blackboxUpdate`, `blackboxLogEvent`, `blackboxFinish` and `blackboxLogIteration` calls, in any
environments, changes `blackboxConditionCache`, so `testBlackboxCondition` keeps its value for
every id; the frame writers and `sendFieldDefinition` leave the cache as it is on every state. -/
theorem session_cache_invariant (b : Build) (ops : List Op) (s : State)
    (h : sessionContinues b ops s = true) :
    (runOps b ops s).blackboxConditionCache = s.blackboxConditionCache
    ∧ (∀ id, testBlackboxCondition (runOps b ops s) id = testBlackboxCondition s id)
    ∧ ∀ (e : Env) (t : State),
        (writeIntraframe b e t).blackboxConditionCache = t.blackboxConditionCache
        ∧ (writeInterframe b e t).blackboxConditionCache = t.blackboxConditionCache
        ∧ ∀ c1 c2 defs conds,
            (sendFieldDefinition e c1 c2 defs conds t).1.blackboxConditionCache
              = t.blackboxConditionCache := by
  have hq := (quiet_runOps b ops s h).2.1
  refine ⟨hq, fun id => ?_, fun e t => ⟨rfl, rfl, fun c1 c2 defs conds => ?_⟩⟩
  · unfold testBlackboxCondition
    rw [hq]
  · exact (headerOnly_sendFieldDefinition e c1 c2 defs conds t).2.1

set_option maxRecDepth 100000 in
theorem session_cache_invariant_witness :
    sessionContinues Build.full
        [Op.update Env.flying, Op.logEvent FLIGHT_LOG_EVENT_SYNC_BEEP {}, Op.update Env.flying,
          Op.finish Env.flying]
        (blackboxStart Build.full Env.flying (blackboxInit Env.flying State.boot)) = true
    ∧ (runOps Build.full
        [Op.update Env.flying, Op.logEvent FLIGHT_LOG_EVENT_SYNC_BEEP {}, Op.update Env.flying,
          Op.finish Env.flying]
        (blackboxStart Build.full Env.flying
          (blackboxInit Env.flying State.boot))).blackboxConditionCache
      = (blackboxStart Build.full Env.flying
          (blackboxInit Env.flying State.boot)).blackboxConditionCache :=
  ⟨by decide, (session_cache_invariant Build.full _ _ (by decide)).1⟩

set_option maxRecDepth 100000 in
/-- C5, as stated, fails: at a loop time of 1000 and `p_ratio` 5 the intervals are 32 and 6;
iteration 36 is not an intra iteration and 36 is divisible by 6, yet `blackboxShouldLogPFrame` is
false there and `blackboxLogIteration` writes no P frame. -/
theorem interframe_cadence_counterexample :
    1 ≤ (State.bootWithRatio 5).blackboxConfig.p_ratio
    ∧ (blackboxInit Env.flying (State.bootWithRatio 5)).blackboxIInterval = 32
    ∧ (blackboxInit Env.flying (State.bootWithRatio 5)).blackboxPInterval = 6
    ∧ 36 % 32 ≠ 0 ∧ 36 % 6 = 0
    ∧ blackboxShouldLogPFrame (blackboxAdvanceIterationTimers^[36]
        (blackboxResetIterationTimers (blackboxInit Env.flying (State.bootWithRatio 5)))) = false
    ∧ (blackboxLogIteration Build.full Env.flying (blackboxAdvanceIterationTimers^[36]
        (blackboxResetIterationTimers
          (blackboxInit Env.flying (State.bootWithRatio 5))))).frames 'P'
      = (blackboxAdvanceIterationTimers^[36]
        (blackboxResetIterationTimers
          (blackboxInit Env.flying (State.bootWithRatio 5)))).frames 'P' := by
  refine ⟨?_, ?_, ?_, ?_, ?_, ?_, ?_⟩ <;> decide

/-- C5, amended: after `blackboxInit` with a loop time of at least 1 and `p_ratio ≥ 1`, and
`blackboxResetIterationTimers`, in
a state whose counters are those after k calls of `blackboxAdvanceIterationTimers` (as in the
k-th unpaused iteration), `blackboxLogIteration` writes a P frame exactly when
`blackboxIInterval ≠ 0`, `k mod blackboxIInterval ≠ 0` and `k mod blackboxIInterval` is divisible
by `max(blackboxPInterval, 1)`: the P cadence restarts at every intra iteration and a P interval
of zero acts as one. -/
theorem interframe_cadence (b : Build) (e0 : Env) (envs : Nat → Env) (s : State) (k : Nat)
    (_hl : 1 ≤ e0.pidGetLooptime) (hp : 1 ≤ s.blackboxConfig.p_ratio) :
    (∀ (e : Env) (t : State),
      t.fixed = (blackboxAdvanceIterationTimers^[k]
        (blackboxResetIterationTimers (blackboxInit e0 s))).fixed →
      (blackboxLogIteration b e t).frames 'P' = t.frames 'P' +
        if (blackboxInit e0 s).blackboxIInterval.toNat ≠ 0
            ∧ k % (blackboxInit e0 s).blackboxIInterval.toNat ≠ 0
            ∧ (k % (blackboxInit e0 s).blackboxIInterval.toNat)
              % max ((blackboxInit e0 s).blackboxPInterval.toNat) 1 = 0
        then 1 else 0)
    ∧ (blackboxLogIteration b (envs k)
        (blackboxRun b envs k (blackboxResetIterationTimers (blackboxInit e0 s)))).frames 'P'
      = (blackboxRun b envs k (blackboxResetIterationTimers (blackboxInit e0 s))).frames 'P' +
        if (blackboxInit e0 s).blackboxIInterval.toNat ≠ 0
            ∧ k % (blackboxInit e0 s).blackboxIInterval.toNat ≠ 0
            ∧ (k % (blackboxInit e0 s).blackboxIInterval.toNat)
              % max ((blackboxInit e0 s).blackboxPInterval.toNat) 1 = 0
        then 1 else 0 := by
  have hI : (blackboxInit e0 s).blackboxIInterval.toNat = 32000 / e0.pidGetLooptime := by
    rw [blackboxInit_IInterval, Int.toNat_ofNat]
  rw [hI]
  exact ⟨fun e t ht => frames_P_after_init b e0 e s k hp t ht,
    frames_P_after_init b e0 (envs k) s k hp _ (fixed_blackboxRun b envs k _)⟩

set_option maxRecDepth 100000 in
theorem interframe_cadence_witness :
    (1 ≤ Env.flying.pidGetLooptime ∧ 1 ≤ (State.bootWithRatio 5).blackboxConfig.p_ratio)
    ∧ (blackboxLogIteration Build.full Env.flying
        (blackboxRun Build.full (fun _ => Env.flying) 6
          (blackboxResetIterationTimers
            (blackboxInit Env.flying (State.bootWithRatio 5))))).frames 'P'
      = (blackboxRun Build.full (fun _ => Env.flying) 6
          (blackboxResetIterationTimers
            (blackboxInit Env.flying (State.bootWithRatio 5)))).frames 'P' + 1 := by
  refine ⟨⟨by decide, by decide⟩, ?_⟩
  have h := (interframe_cadence Build.full Env.flying (fun _ => Env.flying)
    (State.bootWithRatio 5) 6 (by decide) (by decide)).2
  rw [h]
  decide

/-- C6: when `p_ratio = 0`, `blackboxShouldLogPFrame` is false, and no sequence of
`blackboxUpdate`, `blackboxLogIteration`, `blackboxLogEvent` and `blackboxFinish` calls changes
`p_ratio` or the number of P frames in the log: `blackboxShouldLogPFrame` stays false and no P
frame is ever written. -/
theorem no_interframe_when_ratio_zero (b : Build) (ops : List Op) (s : State)
    (hp : s.blackboxConfig.p_ratio = 0) :
    blackboxShouldLogPFrame s = false
    ∧ (runOps b ops s).blackboxConfig.p_ratio = 0
    ∧ blackboxShouldLogPFrame (runOps b ops s) = false
    ∧ (runOps b ops s).frames 'P' = s.frames 'P' := by
  have h := keepsRatio_runOps b ops s
  have h0 : (runOps b ops s).blackboxConfig.p_ratio = 0 := h.1.trans hp
  exact ⟨shouldLogPFrame_of_p_ratio_zero s hp, h0, shouldLogPFrame_of_p_ratio_zero _ h0,
    h.2 hp⟩

theorem no_interframe_when_ratio_zero_witness :
    (State.bootWithRatio 0).blackboxConfig.p_ratio = 0
    ∧ (runOps Build.full [Op.update Env.flying, Op.logIteration Env.flying]
        (State.bootWithRatio 0)).frames 'P' = (State.bootWithRatio 0).frames 'P' :=
  ⟨by decide, (no_interframe_when_ratio_zero Build.full
    [Op.update Env.flying, Op.logIteration Env.flying] (State.bootWithRatio 0)
    (by decide)).2.2.2⟩

/-- C7, as stated, fails: at a loop time of 1000 and `p_ratio` 33, `blackboxInit` sets an intra
interval of 32 and an inter interval of 1, while `floor(32 / 33)` is 0. -/
theorem blackboxInit_intervals_counterexample :
    1 ≤ (State.bootWithRatio 33).blackboxConfig.p_ratio
    ∧ (blackboxInit Env.flying (State.bootWithRatio 33)).blackboxIInterval = 32
    ∧ (blackboxInit Env.flying (State.bootWithRatio 33)).blackboxPInterval = 1
    ∧ (blackboxInit Env.flying (State.bootWithRatio 33)).blackboxPInterval
      ≠ (blackboxInit Env.flying (State.bootWithRatio 33)).blackboxIInterval
        / ((State.bootWithRatio 33).blackboxConfig.p_ratio : Int) := by
  refine ⟨?_, ?_, ?_, ?_⟩ <;> decide

/-- C7, amended: for a loop time of at least 1, `blackboxInit` sets
`blackboxIInterval = floor(32000 / looptime)`, and `blackboxPInterval` to 0 when `p_ratio = 0`,
to 1 when `p_ratio > blackboxIInterval` and `blackboxIInterval ≥ 32`, and to
`floor(blackboxIInterval / p_ratio)` otherwise; for loop time 1000 and `p_ratio` 32 the intervals
are 32 and 1. -/
theorem blackboxInit_intervals (e : Env) (s : State) (_hl : 1 ≤ e.pidGetLooptime) :
    (blackboxInit e s).blackboxIInterval = ((32000 / e.pidGetLooptime : Nat) : Int)
    ∧ (blackboxInit e s).blackboxPInterval =
        (if s.blackboxConfig.p_ratio = 0 then 0
          else if s.blackboxConfig.p_ratio > 32000 / e.pidGetLooptime
              ∧ 32000 / e.pidGetLooptime ≥ 32 then 1
          else ((32000 / e.pidGetLooptime / s.blackboxConfig.p_ratio : Nat) : Int))
    ∧ (e.pidGetLooptime = 1000 → s.blackboxConfig.p_ratio = 32 →
        (blackboxInit e s).blackboxIInterval = 32 ∧ (blackboxInit e s).blackboxPInterval = 1) := by
  refine ⟨blackboxInit_IInterval e s, blackboxInit_PInterval e s, fun h1 h2 => ?_⟩
  rw [blackboxInit_IInterval, blackboxInit_PInterval, h1, h2]
  constructor <;> norm_num

theorem blackboxInit_intervals_witness :
    1 ≤ Env.flying.pidGetLooptime
    ∧ (blackboxInit Env.flying State.boot).blackboxIInterval
      = ((32000 / Env.flying.pidGetLooptime : Nat) : Int) :=
  ⟨by decide, (blackboxInit_intervals Env.flying State.boot (by decide)).1⟩

/-- C8: `writeInterframe` passes no value of the iteration counter to any encoder, and in a
session set up by `blackboxInit` with a loop time of at least 1 and `p_ratio ≥ 1` and run
without a pause, an iteration k that
writes a P frame comes exactly `max(blackboxPInterval, 1)` iterations after an iteration that
wrote a main frame (I or P), with no main frame written in between. -/
theorem interframe_fixed_cadence (b : Build) (e0 : Env) (envs : Nat → Env) (s : State)
    (_hl : 1 ≤ e0.pidGetLooptime) (hp : 1 ≤ s.blackboxConfig.p_ratio) (k : Nat)
    (hk : (blackboxLogIteration b (envs k)
            (blackboxRun b envs k (blackboxResetIterationTimers (blackboxInit e0 s)))).frames 'P'
          = (blackboxRun b envs k
              (blackboxResetIterationTimers (blackboxInit e0 s))).frames 'P' + 1) :
    (∀ (e : Env) (t : State), ∀ w ∈ writeInterframe.payload b e t, ∀ v ∈ w.vals,
        v.src ≠ Src.blackboxIteration)
    ∧ max (blackboxInit e0 s).blackboxPInterval.toNat 1 ≤ k
    ∧ State.mainFrames (blackboxLogIteration b
          (envs (k - max (blackboxInit e0 s).blackboxPInterval.toNat 1))
          (blackboxRun b envs (k - max (blackboxInit e0 s).blackboxPInterval.toNat 1)
            (blackboxResetIterationTimers (blackboxInit e0 s))))
        = State.mainFrames (blackboxRun b envs (k - max (blackboxInit e0 s).blackboxPInterval.toNat 1)
            (blackboxResetIterationTimers (blackboxInit e0 s))) + 1
    ∧ ∀ j, k - max (blackboxInit e0 s).blackboxPInterval.toNat 1 < j → j < k →
        State.mainFrames (blackboxLogIteration b (envs j)
          (blackboxRun b envs j (blackboxResetIterationTimers (blackboxInit e0 s))))
        = State.mainFrames (blackboxRun b envs j
            (blackboxResetIterationTimers (blackboxInit e0 s))) := by
  have fP := fun j => frames_P_after_init b e0 (envs j) s j hp _ (fixed_blackboxRun b envs j _)
  have fI := fun j => frames_I_after_init b e0 (envs j) s j _ (fixed_blackboxRun b envs j _)
  have hk' := fP k
  rw [hk] at hk'
  have hQ : 1 ≤ max (blackboxInit e0 s).blackboxPInterval.toNat 1 := le_max_right _ _
  generalize max (blackboxInit e0 s).blackboxPInterval.toNat 1 = Q at *
  generalize 32000 / e0.pidGetLooptime = I at *
  have hc : I ≠ 0 ∧ k % I ≠ 0 ∧ k % I % Q = 0 := by
    by_contra h
    rw [if_neg h] at hk'
    omega
  obtain ⟨a1, a2, a3, a4⟩ := cadence_arith I Q k (by omega) hQ hc.2.1 hc.2.2
  refine ⟨fun e t => interframe_no_iteration b e t, a1, ?_, ?_⟩
  · unfold State.mainFrames
    rw [fP (k - Q), fI (k - Q)]
    by_cases hz : (k - Q) % I = 0
    · simp [hz, hc.1]; omega
    · simp [hz, hc.1, a3]; omega
  · intro j hj1 hj2
    obtain ⟨b1, b2⟩ := a4 j hj1 hj2
    unfold State.mainFrames
    rw [fP j, fI j]
    simp [b1, b2, hc.1]

set_option maxRecDepth 100000 in
theorem interframe_fixed_cadence_witness :
    (1 ≤ Env.flying.pidGetLooptime ∧ 1 ≤ State.boot.blackboxConfig.p_ratio)
    ∧ (blackboxLogIteration Build.full Env.flying
        (blackboxRun Build.full (fun _ => Env.flying) 1
          (blackboxResetIterationTimers (blackboxInit Env.flying State.boot)))).frames 'P'
      = (blackboxRun Build.full (fun _ => Env.flying) 1
          (blackboxResetIterationTimers (blackboxInit Env.flying State.boot))).frames 'P' + 1
    ∧ max (blackboxInit Env.flying State.boot).blackboxPInterval.toNat 1 ≤ 1 := by
  have hk : (blackboxLogIteration Build.full Env.flying
        (blackboxRun Build.full (fun _ => Env.flying) 1
          (blackboxResetIterationTimers (blackboxInit Env.flying State.boot)))).frames 'P'
      = (blackboxRun Build.full (fun _ => Env.flying) 1
          (blackboxResetIterationTimers (blackboxInit Env.flying State.boot))).frames 'P' + 1 := by
    rw [frames_P_after_init Build.full Env.flying Env.flying State.boot 1 (by decide) _
      (fixed_blackboxRun Build.full (fun _ => Env.flying) 1 _)]
    decide
  exact ⟨⟨by decide, by decide⟩, hk,
    (interframe_fixed_cadence Build.full Env.flying (fun _ => Env.flying) State.boot
      (by decide) (by decide) 1 hk).2.1⟩

/-- C9: when the VBAT condition is set, `writeIntraframe` passes to the unsigned variable-byte
encoder, as its one voltage value, `(vbatReference - vbatLatest) & 0x3FFF`; that value lies in
0..16383 and equals `(reference - current) mod 2^14`; for reference 420 and current 415 it is
5. -/
theorem intraframe_vbat_value (b : Build) (e : Env) (s : State)
    (hv : testBlackboxCondition s FLIGHT_LOG_FIELD_CONDITION_VBAT = true) :
    Write.unsignedVB ⟨.vbatLatest, vbatIntraValue s.vbatReference (s.history 0).vbatLatest⟩
      ∈ writeIntraframe.payload b e s
    ∧ (∀ w ∈ writeIntraframe.payload b e s, ∀ v ∈ w.vals, v.src = Src.vbatLatest →
        w = Write.unsignedVB
          ⟨.vbatLatest, vbatIntraValue s.vbatReference (s.history 0).vbatLatest⟩)
    ∧ (∀ r c : Nat, vbatIntraValue r c = toU32 ((r : Int) - (c : Int)) &&& 0x3FFF
        ∧ vbatIntraValue r c < 16384
        ∧ ((vbatIntraValue r c : Nat) : Int) = ((r : Int) - (c : Int)) % 16384)
    ∧ vbatIntraValue 420 415 = 5 :=
  ⟨intraframe_vbat_mem b e s hv, intraframe_vbat_unique b e s,
    fun r c => ⟨rfl, vbatIntraValue_lt r c, vbatIntraValue_eq r c⟩, by decide⟩

set_option maxRecDepth 100000 in
theorem intraframe_vbat_value_witness :
    testBlackboxCondition State.running FLIGHT_LOG_FIELD_CONDITION_VBAT = true
    ∧ Write.unsignedVB
        ⟨.vbatLatest, vbatIntraValue State.running.vbatReference
          (State.running.history 0).vbatLatest⟩
      ∈ writeIntraframe.payload Build.full Env.flying State.running :=
  ⟨by decide, (intraframe_vbat_value Build.full Env.flying State.running (by decide)).1⟩

/-- C10: the intra-frame voltage encoding is lossless: when the VBAT condition is set and
`-8192 ≤ reference - current ≤ 8191`, the value `writeIntraframe` writes for the voltage is
`(reference - current) & 0x3FFF`, and the current voltage equals the reference minus the 14-bit
sign extension of that value. -/
theorem intraframe_vbat_lossless (b : Build) (e : Env) (s : State)
    (hv : testBlackboxCondition s FLIGHT_LOG_FIELD_CONDITION_VBAT = true)
    (h1 : -8192 ≤ (s.vbatReference : Int) - ((s.history 0).vbatLatest : Int))
    (h2 : (s.vbatReference : Int) - ((s.history 0).vbatLatest : Int) ≤ 8191) :
    Write.unsignedVB ⟨.vbatLatest, vbatIntraValue s.vbatReference (s.history 0).vbatLatest⟩
      ∈ writeIntraframe.payload b e s
    ∧ ((s.history 0).vbatLatest : Int)
      = (s.vbatReference : Int)
        - signExtend14Bit (vbatIntraValue s.vbatReference (s.history 0).vbatLatest) :=
  ⟨intraframe_vbat_mem b e s hv, vbat_roundtrip _ _ h1 h2⟩

set_option maxRecDepth 100000 in
theorem intraframe_vbat_lossless_witness :
    (testBlackboxCondition State.running FLIGHT_LOG_FIELD_CONDITION_VBAT = true
      ∧ -8192 ≤ (State.running.vbatReference : Int) - ((State.running.history 0).vbatLatest : Int)
      ∧ (State.running.vbatReference : Int) - ((State.running.history 0).vbatLatest : Int) ≤ 8191)
    ∧ ((State.running.history 0).vbatLatest : Int)
      = (State.running.vbatReference : Int)
        - signExtend14Bit (vbatIntraValue State.running.vbatReference
            (State.running.history 0).vbatLatest) :=
  ⟨⟨by decide, by decide, by decide⟩,
    (intraframe_vbat_lossless Build.full Env.flying State.running (by decide) (by decide)
      (by decide)).2⟩

/-! ### Claims on predictors, history, slow frames and events -/

/-- C11: the time value `writeInterframe` writes is the signed 32-bit reading of
`(t0 - 2*t1 + t2) mod 2^32`, with t0, t1, t2 the times of generations 0, 1 and 2, that is t0
minus the straight-line prediction `2*t1 - t2` in 32 bits; it is the only time value of the
frame, and for a 32-bit t0 adding the prediction back modulo 2^32 gives t0. -/
theorem interframe_time_delta (b : Build) (e : Env) (s : State)
    (h0 : (s.history 0).time < 4294967296) :
    Write.signedVB ⟨.time, toInt32 (toU32
        (((s.history 0).time : Int) - 2 * ((s.history 1).time : Int) + ((s.history 2).time : Int)))⟩
      ∈ writeInterframe.payload b e s
    ∧ (∀ w ∈ writeInterframe.payload b e s, ∀ v ∈ w.vals, v.src = Src.time →
        v.value = toInt32 (toU32 (((s.history 0).time : Int) - 2 * ((s.history 1).time : Int)
          + ((s.history 2).time : Int))))
    ∧ toInt32 (toU32 (((s.history 0).time : Int) - 2 * ((s.history 1).time : Int)
          + ((s.history 2).time : Int)))
        = wrapInt32 (((s.history 0).time : Int)
            - (2 * ((s.history 1).time : Int) - ((s.history 2).time : Int)))
    ∧ toInt32 (toU32 (((s.history 0).time : Int) - 2 * ((s.history 1).time : Int)
          + ((s.history 2).time : Int))) % 4294967296
        = (((s.history 0).time : Int) - 2 * ((s.history 1).time : Int)
          + ((s.history 2).time : Int)) % 4294967296
    ∧ -2147483648 ≤ toInt32 (toU32 (((s.history 0).time : Int)
          - 2 * ((s.history 1).time : Int) + ((s.history 2).time : Int)))
    ∧ toInt32 (toU32 (((s.history 0).time : Int) - 2 * ((s.history 1).time : Int)
          + ((s.history 2).time : Int))) ≤ 2147483647
    ∧ toU32 (toInt32 (toU32 (((s.history 0).time : Int) - 2 * ((s.history 1).time : Int)
          + ((s.history 2).time : Int)))
        + (2 * ((s.history 1).time : Int) - ((s.history 2).time : Int)))
      = (s.history 0).time := by
  refine ⟨interframe_time_mem b e s, interframe_time_unique b e s, ?_, wrapInt32_emod _,
    (toInt32_range _).1, (toInt32_range _).2, time_delta_reconstructs _ _ _ h0⟩
  unfold wrapInt32
  congr 2
  ring

set_option maxRecDepth 100000 in
theorem interframe_time_delta_witness :
    (State.running.history 0).time < 4294967296
    ∧ toU32 (toInt32 (toU32 (((State.running.history 0).time : Int)
          - 2 * ((State.running.history 1).time : Int) + ((State.running.history 2).time : Int)))
        + (2 * ((State.running.history 1).time : Int) - ((State.running.history 2).time : Int)))
      = (State.running.history 0).time :=
  ⟨by decide,
    (interframe_time_delta Build.full Env.flying State.running (by decide)).2.2.2.2.2.2⟩

/-- C12: every value `writeInterframe` writes for an element of the gyro, accelerometer or debug
array is `cur - q`, with `cur` the element in generation 0 and `q` the quotient `(p1 + p2) / 2`
rounded toward zero of the elements in generations 1 and 2; the gyro values are written always,
the accelerometer and debug values under their conditions. For 16-bit `cur`, `p1`, `p2` the sum
and the difference stay within 32 bits, and adding `q` back gives `cur`. -/
theorem interframe_average_predictor (b : Build) (e : Env) (s : State) :
    (∀ w ∈ writeInterframe.payload b e s, ∀ v ∈ w.vals, v.src.predictedFromAverage = true →
      v.value = (s.history 0).member v.src
        - Int.tdiv ((s.history 1).member v.src + (s.history 2).member v.src) 2)
    ∧ (∀ i, i < XYZ_AXIS_COUNT →
        Write.signedVB ⟨.gyroADC i, (s.history 0).gyroADC i
            - Int.tdiv ((s.history 1).gyroADC i + (s.history 2).gyroADC i) 2⟩
          ∈ writeInterframe.payload b e s)
    ∧ (testBlackboxCondition s FLIGHT_LOG_FIELD_CONDITION_ACC = true → ∀ i, i < XYZ_AXIS_COUNT →
        Write.signedVB ⟨.accADC i, (s.history 0).accADC i
            - Int.tdiv ((s.history 1).accADC i + (s.history 2).accADC i) 2⟩
          ∈ writeInterframe.payload b e s)
    ∧ (testBlackboxCondition s FLIGHT_LOG_FIELD_CONDITION_DEBUG = true →
        ∀ i, i < DEBUG16_VALUE_COUNT →
        Write.signedVB ⟨.debug i, (s.history 0).debug i
            - Int.tdiv ((s.history 1).debug i + (s.history 2).debug i) 2⟩
          ∈ writeInterframe.payload b e s)
    ∧ (∀ cur p1 p2 : Int, -32768 ≤ cur → cur ≤ 32767 → -32768 ≤ p1 → p1 ≤ 32767 →
        -32768 ≤ p2 → p2 ≤ 32767 →
        (-2147483648 ≤ p1 + p2 ∧ p1 + p2 ≤ 2147483647)
        ∧ (-2147483648 ≤ cur - Int.tdiv (p1 + p2) 2 ∧ cur - Int.tdiv (p1 + p2) 2 ≤ 2147483647)
        ∧ (0 ≤ p1 + p2 → 2 * Int.tdiv (p1 + p2) 2 ≤ p1 + p2
            ∧ p1 + p2 < 2 * Int.tdiv (p1 + p2) 2 + 2)
        ∧ (p1 + p2 < 0 → 2 * Int.tdiv (p1 + p2) 2 - 2 < p1 + p2
            ∧ p1 + p2 ≤ 2 * Int.tdiv (p1 + p2) 2)
        ∧ (cur - Int.tdiv (p1 + p2) 2) + Int.tdiv (p1 + p2) 2 = cur) := by
  refine ⟨interframe_average b e s, fun i hi => interframe_gyro_mem b e s i hi,
    fun hc i hi => interframe_accADC_mem b e s hc i hi,
    fun hc i hi => interframe_debug_mem b e s hc i hi, ?_⟩
  intro cur p1 p2 c1 c2 a1 a2 b1 b2
  have hb := tdiv_two_bounds (p1 + p2)
  refine ⟨⟨by omega, by omega⟩, ?_, hb.1, hb.2, by omega⟩
  rcases le_or_lt 0 (p1 + p2) with h | h
  · have := hb.1 h
    constructor <;> omega
  · have := hb.2 h
    constructor <;> omega

set_option maxRecDepth 100000 in
theorem interframe_average_predictor_witness :
    (0 < XYZ_AXIS_COUNT
      ∧ (-32768 ≤ (5 : Int) ∧ (5 : Int) ≤ 32767 ∧ -32768 ≤ (3 : Int) ∧ (3 : Int) ≤ 32767
        ∧ -32768 ≤ (-4 : Int) ∧ (-4 : Int) ≤ 32767))
    ∧ Write.signedVB ⟨.gyroADC 0, (State.running.history 0).gyroADC 0
          - Int.tdiv ((State.running.history 1).gyroADC 0
              + (State.running.history 2).gyroADC 0) 2⟩
        ∈ writeInterframe.payload Build.full Env.flying State.running
    ∧ ((5 : Int) - Int.tdiv (3 + -4) 2) + Int.tdiv (3 + -4) 2 = 5 :=
  ⟨⟨by decide, by decide⟩,
    (interframe_average_predictor Build.full Env.flying State.running).2.1 0 (by decide),
    ((interframe_average_predictor Build.full Env.flying State.running).2.2.2.2 5 3 (-4)
      (by decide) (by decide) (by decide) (by decide) (by decide) (by decide)).2.2.2.2⟩

set_option maxRecDepth 100000 in
/-- C13, as stated, fails: with a roll P term of -1 in the previous snapshot and 2147483647 in
the current one (both `int32_t` values), the exact difference is 2147483648, while the value
`writeInterframe` hands to the encoder for it is -2147483648. -/
theorem interframe_deltas_counterexample :
    ((loadMainState Build.full (Env.withRollP 2147483647)
        (mainFrameWrite Build.full true (Env.withRollP (-1)) State.running)).history 0).axisPID_P 0
      = 2147483647
    ∧ ((loadMainState Build.full (Env.withRollP 2147483647)
        (mainFrameWrite Build.full true (Env.withRollP (-1)) State.running)).history 1).axisPID_P 0
      = -1
    ∧ (2147483647 : Int) - (-1) = 2147483648
    ∧ Write.signedVB ⟨.axisPID_P 0, -2147483648⟩
      ∈ writeInterframe.payload Build.full (Env.withRollP 2147483647)
          (loadMainState Build.full (Env.withRollP 2147483647)
            (mainFrameWrite Build.full true (Env.withRollP (-1)) State.running))
    ∧ ∀ w ∈ writeInterframe.payload Build.full (Env.withRollP 2147483647)
          (loadMainState Build.full (Env.withRollP 2147483647)
            (mainFrameWrite Build.full true (Env.withRollP (-1)) State.running)),
        ∀ v ∈ w.vals, v.src = Src.axisPID_P 0 → v.value ≠ 2147483648 := by
  refine ⟨by decide, by decide, by decide, by decide, by decide⟩

/-- C13, amended: every value `writeInterframe` computes against the previous generation is,
for a 16-bit member (rcCommand, setpoint, voltage, magnetometer, RSSI, motor, servo, headspeed),
the exact difference current - previous, and for an `int32_t` member (PID P/I/D/F terms,
amperage, barometer, rangefinder, debug32) that difference as an `int32_t`, which is the exact
difference whenever it lies in -2^31 .. 2^31 - 1. -/
theorem interframe_deltas (b : Build) (e : Env) (s : State) :
    ∀ w ∈ writeInterframe.payload b e s, ∀ v ∈ w.vals, v.src.predictedFromPrevious = true →
      (v.src.isInt32Member = false →
        v.value = (s.history 0).member v.src - (s.history 1).member v.src)
      ∧ (v.src.isInt32Member = true →
        v.value = wrapInt32 ((s.history 0).member v.src - (s.history 1).member v.src)
        ∧ (-2147483648 ≤ (s.history 0).member v.src - (s.history 1).member v.src →
            (s.history 0).member v.src - (s.history 1).member v.src ≤ 2147483647 →
            v.value = (s.history 0).member v.src - (s.history 1).member v.src)) := by
  intro w hw v hv hp
  have h := interframe_previous b e s w hw v hv hp
  constructor
  · intro h32
    rw [h, h32]
    rfl
  · intro h32
    rw [h32, if_pos rfl] at h
    exact ⟨h, fun h1 h2 => h.trans (wrapInt32_of_range _ h1 h2)⟩

set_option maxRecDepth 100000 in
theorem interframe_deltas_witness :
    (Write.signedVB ⟨.headspeed, ((State.running.history 0).headspeed : Int)
          - (State.running.history 1).headspeed⟩
        ∈ writeInterframe.payload Build.full Env.flying State.running
      ∧ (⟨.headspeed, ((State.running.history 0).headspeed : Int)
          - (State.running.history 1).headspeed⟩ : Val)
        ∈ (Write.signedVB ⟨.headspeed, ((State.running.history 0).headspeed : Int)
          - (State.running.history 1).headspeed⟩).vals
      ∧ Src.headspeed.predictedFromPrevious = true ∧ Src.headspeed.isInt32Member = false)
    ∧ ((State.running.history 0).headspeed : Int) - (State.running.history 1).headspeed
      = (State.running.history 0).member Src.headspeed
        - (State.running.history 1).member Src.headspeed :=
  ⟨⟨interframe_headspeed_mem _ _ _, by decide, by decide, by decide⟩,
    (interframe_deltas Build.full Env.flying State.running _ (interframe_headspeed_mem _ _ _)
      ⟨.headspeed, ((State.running.history 0).headspeed : Int)
          - (State.running.history 1).headspeed⟩ (by decide) (by decide)).1 (by decide)⟩

/-- C14: `writeInterframe` rotates the history: afterwards generation 2 is the slot that was
generation 1, generation 1 the slot that was generation 0, and generation 0 the ring slot with
index (old generation-0 index + 1) mod 3, a slot other than that of the new generation 1; the
ring itself is not modified. -/
theorem interframe_rotation (b : Build) (e : Env) (s : State) :
    (writeInterframe b e s).blackboxHistory 2 = s.blackboxHistory 1
    ∧ (writeInterframe b e s).blackboxHistory 1 = s.blackboxHistory 0
    ∧ (writeInterframe b e s).blackboxHistory 0 = (s.blackboxHistory 0 + 1) % 3
    ∧ (writeInterframe b e s).blackboxHistoryRing = s.blackboxHistoryRing
    ∧ (writeInterframe b e s).history 2 = s.history 1
    ∧ (writeInterframe b e s).history 1 = s.history 0
    ∧ (writeInterframe b e s).blackboxHistory 0 ≠ (writeInterframe b e s).blackboxHistory 1 :=
  ⟨rfl, rfl, rfl, rfl, rfl, rfl, succ_mod_three_ne (s.blackboxHistory 0)⟩

/-- C15: `writeIntraframe` rotates the history: afterwards generations 1 and 2 are both the
slot that was generation 0, the snapshot just written, and generation 0 is the ring slot with
index (old generation-0 index + 1) mod 3, another slot; the ring itself is not modified. -/
theorem intraframe_rotation (b : Build) (e : Env) (s : State) :
    (writeIntraframe b e s).blackboxHistory 1 = s.blackboxHistory 0
    ∧ (writeIntraframe b e s).blackboxHistory 2 = s.blackboxHistory 0
    ∧ (writeIntraframe b e s).blackboxHistory 0 = (s.blackboxHistory 0 + 1) % 3
    ∧ (writeIntraframe b e s).blackboxHistoryRing = s.blackboxHistoryRing
    ∧ (writeIntraframe b e s).history 1 = s.history 0
    ∧ (writeIntraframe b e s).history 2 = s.history 0
    ∧ (writeIntraframe b e s).blackboxHistory 0 ≠ (writeIntraframe b e s).blackboxHistory 1 :=
  ⟨rfl, rfl, rfl, rfl, rfl, rfl, succ_mod_three_ne (s.blackboxHistory 0)⟩

set_option maxRecDepth 100000 in
/-- C16, as stated, fails: after three main-frame writes (an intra frame and two inter frames)
with snapshots loaded at times 1000, 2000 and 3000, generation 2 holds the snapshot of time
2000, loaded for write 2, not the one of time 1000 loaded for write 1 = N - 2. -/
theorem history_after_writes_counterexample :
    ((loadMainState Build.full (Env.atTime 1000) State.running).history 0).time = 1000
    ∧ ((mainFrameWrites Build.full
        [(true, Env.atTime 1000), (false, Env.atTime 2000), (false, Env.atTime 3000)]
        State.running).history 2).time = 2000
    ∧ ((mainFrameWrites Build.full
        [(true, Env.atTime 1000), (false, Env.atTime 2000), (false, Env.atTime 3000)]
        State.running).history 2).time
      ≠ ((loadMainState Build.full (Env.atTime 1000) State.running).history 0).time := by
  refine ⟨by decide, by decide, by decide⟩

/-- C16, amended: after N >= 2 consecutive main-frame writes, each preceded by loading a fresh
snapshot into generation 0, generation 1 is the snapshot loaded for write N, and generation 2 is
the snapshot loaded for write N - 1 when write N is an inter frame and the snapshot loaded for
write N when it is an intra frame. It is while write N + 1 is encoded, after an inter frame N,
that generation 2 is the snapshot loaded two writes before it. -/
theorem history_after_writes (b : Build) (pre : List (Bool × Env)) (k : Bool) (e1 e2 e3 : Env)
    (s : State) :
    (mainFrameWrites b (pre ++ [(k, e1), (false, e2)]) s).history 2
      = (loadMainState b e1 (mainFrameWrites b pre s)).history 0
    ∧ (mainFrameWrites b (pre ++ [(k, e1), (true, e2)]) s).history 2
      = (loadMainState b e2 (mainFrameWrites b (pre ++ [(k, e1)]) s)).history 0
    ∧ (∀ k2, (mainFrameWrites b (pre ++ [(k, e1), (k2, e2)]) s).history 1
      = (loadMainState b e2 (mainFrameWrites b (pre ++ [(k, e1)]) s)).history 0)
    ∧ (loadMainState b e3 (mainFrameWrites b (pre ++ [(k, e1), (false, e2)]) s)).history 2
      = (loadMainState b e1 (mainFrameWrites b pre s)).history 0 := by
  have h1 : ∀ k2, mainFrameWrites b (pre ++ [(k, e1), (k2, e2)]) s
      = mainFrameWrite b k2 e2 (mainFrameWrite b k e1 (mainFrameWrites b pre s)) := by
    intro k2
    rw [mainFrameWrites_append, mainFrameWrites_pair]
  have h2 : mainFrameWrites b (pre ++ [(k, e1)]) s
      = mainFrameWrite b k e1 (mainFrameWrites b pre s) := by
    rw [mainFrameWrites_append]
    rfl
  refine ⟨?_, ?_, fun k2 => ?_, ?_⟩
  · rw [h1]
    exact two_writes_history_two b k e1 e2 _
  · rw [h1, h2]
    exact mainFrameWrite_intra_history_two b e2 _
  · rw [h1, h2]
    exact mainFrameWrite_history_one b k2 e2 _
  · rw [h1]
    exact two_writes_then_load_history_two b k e1 e2 e3 _

/-- C17: `writeSlowFrameIfNeeded` returns true exactly when
`blackboxSlowFrameIterationTimer >= blackboxSInterval` or the freshly loaded slow state differs
from `slowHistory`; when it returns true it has appended exactly one 'S' frame, of the freshly
loaded state, `slowHistory` is that state and the timer is 0; when it returns false the state
is unchanged: nothing is written, and `slowHistory` and the timer are as before. -/
theorem slow_frame_if_needed (e : Env) (s : State) :
    ((writeSlowFrameIfNeeded e s).2 = true ↔
      (s.blackboxSlowFrameIterationTimer ≥ s.blackboxSInterval
        ∨ loadSlowState e ≠ s.slowHistory))
    ∧ ((writeSlowFrameIfNeeded e s).2 = true →
        (writeSlowFrameIfNeeded e s).1.log = s.log ++ [LogItem.frame 'S'
          [ Write.unsignedVB ⟨.flightModeFlags, (loadSlowState e).flightModeFlags⟩,
            Write.unsignedVB ⟨.stateFlags, (loadSlowState e).stateFlags⟩,
            Write.tag2_3S32
              [ ⟨.failsafePhase, (loadSlowState e).failsafePhase⟩,
                ⟨.rxSignalReceived, if (loadSlowState e).rxSignalReceived then 1 else 0⟩,
                ⟨.rxFlightChannelsValid,
                  if (loadSlowState e).rxFlightChannelsValid then 1 else 0⟩ ] ]]
        ∧ (writeSlowFrameIfNeeded e s).1.frames 'S' = s.frames 'S' + 1
        ∧ (writeSlowFrameIfNeeded e s).1.slowHistory = loadSlowState e
        ∧ (writeSlowFrameIfNeeded e s).1.blackboxSlowFrameIterationTimer = 0)
    ∧ ((writeSlowFrameIfNeeded e s).2 = false →
        (writeSlowFrameIfNeeded e s).1 = s) := by
  refine ⟨writeSlowFrameIfNeeded_result e s, fun h => ?_,
    fun h => writeSlowFrameIfNeeded_of_false e s h⟩
  have hf := writeSlowFrameIfNeeded_frames e s 'S'
  rw [if_pos ⟨rfl, (writeSlowFrameIfNeeded_result e s).1 h⟩] at hf
  rw [writeSlowFrameIfNeeded_of_true e s h] at hf ⊢
  exact ⟨rfl, hf, rfl, rfl⟩

set_option maxRecDepth 100000 in
theorem slow_frame_if_needed_witness :
    (writeSlowFrameIfNeeded Env.flying State.running).2 = true
    ∧ (writeSlowFrameIfNeeded Env.flying State.running).1.slowHistory
      = loadSlowState Env.flying :=
  ⟨by decide, ((slow_frame_if_needed Env.flying State.running).2.1 (by decide)).2.2.1⟩

set_option maxRecDepth 100000 in
/-- C18, as stated, fails: in a session with `p_ratio` 0, iteration 32 (loop time 1000) writes
an I frame and no S frame: the slow state has not changed and the slow-frame timer, 32, is below
`blackboxSInterval`, 8192. -/
theorem intra_only_iteration_counterexample :
    State.runningIntraOnly.blackboxConfig.p_ratio = 0
    ∧ (blackboxLogIteration Build.full Env.flying
        (blackboxRun Build.full (fun _ => Env.flying) 32 State.runningIntraOnly)).frames 'I'
      = (blackboxRun Build.full (fun _ => Env.flying) 32 State.runningIntraOnly).frames 'I' + 1
    ∧ (blackboxLogIteration Build.full Env.flying
        (blackboxRun Build.full (fun _ => Env.flying) 32 State.runningIntraOnly)).frames 'S'
      = (blackboxRun Build.full (fun _ => Env.flying) 32 State.runningIntraOnly).frames 'S'
    ∧ (blackboxRun Build.full (fun _ => Env.flying) 32
        State.runningIntraOnly).blackboxSlowFrameIterationTimer = 32
    ∧ (blackboxRun Build.full (fun _ => Env.flying) 32
        State.runningIntraOnly).blackboxSInterval = 8192 := by
  refine ⟨by decide, by decide, by decide, by decide, by decide⟩

/-- C18, amended: when `p_ratio = 0`, a call of `blackboxLogIteration` writes no P frame; it
writes an I frame exactly in an intra iteration, and an S frame exactly in an intra iteration in
which the slow-frame timer has reached `blackboxSInterval` or the slow state has changed, as
`writeSlowFrameIfNeeded` decides. -/
theorem intra_only_iteration (b : Build) (e : Env) (s : State)
    (hp : s.blackboxConfig.p_ratio = 0) :
    (blackboxLogIteration b e s).frames 'P' = s.frames 'P'
    ∧ (blackboxLogIteration b e s).frames 'I'
      = s.frames 'I' + (if blackboxShouldLogIFrame s = true then 1 else 0)
    ∧ (blackboxLogIteration b e s).frames 'S' = s.frames 'S' +
      (if blackboxShouldLogIFrame s = true
          ∧ (s.blackboxSlowFrameIterationTimer ≥ s.blackboxSInterval
            ∨ loadSlowState e ≠ s.slowHistory) then 1 else 0) :=
  ⟨(quiet_blackboxLogIteration b e s).2.2 hp, frames_blackboxLogIteration_I b e s,
    frames_blackboxLogIteration_S_intra_only b e s hp⟩

set_option maxRecDepth 100000 in
theorem intra_only_iteration_witness :
    State.runningIntraOnly.blackboxConfig.p_ratio = 0
    ∧ (blackboxLogIteration Build.full Env.flying State.runningIntraOnly).frames 'S'
      = State.runningIntraOnly.frames 'S' + 1 := by
  refine ⟨by decide, ?_⟩
  rw [(intra_only_iteration Build.full Env.flying State.runningIntraOnly (by decide)).2.2]
  decide

set_option maxRecDepth 100000 in
/-- C19, as stated, fails: a tick of `blackboxUpdate` that starts in RUNNING on an intra
iteration logs an I frame and, although the flight-mode activation mask differs from
`blackboxLastFlightModeFlags`, writes no 'E' frame. -/
theorem event_frames_same_tick_counterexample :
    State.running.blackboxState = .RUNNING
    ∧ Env.modeChanged.rcModeActivationMask % 4294967296
      ≠ State.running.blackboxLastFlightModeFlags
    ∧ (blackboxUpdate Build.full Env.modeChanged State.running).frames 'I'
      = State.running.frames 'I' + 1
    ∧ (blackboxUpdate Build.full Env.modeChanged State.running).frames 'E'
      = State.running.frames 'E'
    ∧ ∀ x ∈ State.running.written (blackboxUpdate Build.full Env.modeChanged State.running),
        x.marker? ≠ some 'E' := by
  refine ⟨by decide, by decide, by decide, by decide, by decide⟩

/-- C19, amended: in every tick of `blackboxUpdate` that starts in RUNNING, logs (does not
pause) and is not an intra iteration, if the arming-beep time differs from
`blackboxLastArmingBeep`, the flight-mode activation mask from `blackboxLastFlightModeFlags`, or
the governor state from `blackboxLastGovState`, the corresponding 'E' frame is written during
that same tick. On an intra iteration the checks are not made. -/
theorem event_frames_same_tick (b : Build) (e : Env) (s : State)
    (hs : s.blackboxState = .RUNNING)
    (hlog : (s.blackboxModeActivationConditionPresent && !e.rcModeBlackbox
      && !s.startedLoggingInTestMode) = false)
    (hI : blackboxShouldLogIFrame s = false) :
    (e.getArmingBeepTimeMicros ≠ s.blackboxLastArmingBeep →
      LogItem.frame 'E' [Write.byte FLIGHT_LOG_EVENT_SYNC_BEEP,
          Write.unsignedVB ⟨.event 0, e.getArmingBeepTimeMicros⟩]
        ∈ s.written (blackboxUpdate b e s))
    ∧ (e.rcModeActivationMask % 4294967296 ≠ s.blackboxLastFlightModeFlags →
      LogItem.frame 'E' [Write.byte FLIGHT_LOG_EVENT_FLIGHTMODE,
          Write.unsignedVB ⟨.event 0, (e.rcModeActivationMask % 4294967296 : Nat)⟩,
          Write.unsignedVB ⟨.event 1, s.blackboxLastFlightModeFlags⟩]
        ∈ s.written (blackboxUpdate b e s))
    ∧ (e.getGovernorState % 256 ≠ s.blackboxLastGovState →
      LogItem.frame 'E' [Write.byte FLIGHT_LOG_EVENT_GOVSTATE,
          Write.unsignedVB ⟨.event 0, (e.getGovernorState % 256 : Nat)⟩]
        ∈ s.written (blackboxUpdate b e s)) := by
  obtain ⟨k1, k2, k3⟩ := blackboxCheckAndLogArmingBeep_keeps e s
  have p1 := blackboxCheckAndLogArmingBeep_log_grows e s
  have p2 := blackboxCheckAndLogFlightMode_log_grows e (blackboxCheckAndLogArmingBeep e s)
  have p3 := (blackboxLogIteration_events_log_grows b e s hI).trans
    (blackboxUpdate_running_log_grows b e s hs hlog)
  refine ⟨fun h => ?_, fun h => ?_, fun h => ?_⟩
  · refine mem_written s _ _ s.log (List.prefix_refl _) ?_
    rw [← blackboxCheckAndLogArmingBeep_log e s hs h]
    exact p2.trans p3
  · refine mem_written s _ _ (blackboxCheckAndLogArmingBeep e s).log p1 ?_
    have hm := blackboxCheckAndLogFlightMode_mode e (blackboxCheckAndLogArmingBeep e s)
      (k1.trans hs) (by rw [k2]; exact h)
    rw [k2] at hm
    exact hm.trans p3
  · obtain ⟨l, hl1, hl2⟩ := blackboxCheckAndLogFlightMode_gov e
      (blackboxCheckAndLogArmingBeep e s) (k1.trans hs) (by rw [k3]; exact h)
    refine mem_written s _ _ l (p1.trans hl1) ?_
    rw [hl2]
    exact p3

set_option maxRecDepth 100000 in
theorem event_frames_same_tick_witness :
    ((blackboxAdvanceIterationTimers State.running).blackboxState = .RUNNING
      ∧ ((blackboxAdvanceIterationTimers State.running).blackboxModeActivationConditionPresent
          && !Env.modeChanged.rcModeBlackbox
          && !(blackboxAdvanceIterationTimers State.running).startedLoggingInTestMode) = false
      ∧ blackboxShouldLogIFrame (blackboxAdvanceIterationTimers State.running) = false
      ∧ Env.modeChanged.rcModeActivationMask % 4294967296
        ≠ (blackboxAdvanceIterationTimers State.running).blackboxLastFlightModeFlags)
    ∧ LogItem.frame 'E' [Write.byte FLIGHT_LOG_EVENT_FLIGHTMODE,
          Write.unsignedVB ⟨.event 0, (Env.modeChanged.rcModeActivationMask % 4294967296 : Nat)⟩,
          Write.unsignedVB
            ⟨.event 1, (blackboxAdvanceIterationTimers State.running).blackboxLastFlightModeFlags⟩]
        ∈ (blackboxAdvanceIterationTimers State.running).written
            (blackboxUpdate Build.full Env.modeChanged
              (blackboxAdvanceIterationTimers State.running)) :=
  ⟨⟨by decide, by decide, by decide, by decide⟩,
    (event_frames_same_tick Build.full Env.modeChanged
      (blackboxAdvanceIterationTimers State.running) (by decide) (by decide) (by decide)).2.1
      (by decide)⟩

/-- C20: `blackboxLogEvent` writes only when the state is RUNNING or PAUSED: in every other
state, for every event and payload, it returns the state unchanged; in RUNNING or PAUSED it
appends one frame that begins with the byte 'E' followed by the byte of the event id, then the
payload of the event, and changes nothing else. -/
theorem log_event_gate (event : Nat) (data : flightLogEventData_t) (s : State) :
    (¬ (s.blackboxState = .RUNNING ∨ s.blackboxState = .PAUSED) →
      blackboxLogEvent event data s = s)
    ∧ ((s.blackboxState = .RUNNING ∨ s.blackboxState = .PAUSED) →
      blackboxLogEvent event data s = { s with log := s.log ++
        [LogItem.frame 'E' (Write.byte (event % 256) :: blackboxLogEvent.payload event data)] }
      ∧ (event < 256 → ∃ rest, s.written (blackboxLogEvent event data s)
          = [LogItem.frame 'E' (Write.byte event :: rest)])) := by
  refine ⟨fun h => blackboxLogEvent_of_not event data s h, fun h => ?_⟩
  have h1 : blackboxLogEvent event data s = { s with log := s.log ++
      [LogItem.frame 'E' (Write.byte (event % 256) :: blackboxLogEvent.payload event data)] } := by
    unfold blackboxLogEvent
    rw [if_neg (not_not.mpr h)]
  refine ⟨h1, fun hlt => ⟨blackboxLogEvent.payload event data, ?_⟩⟩
  unfold State.written
  rw [blackboxLogEvent_log event data s h, Nat.mod_eq_of_lt hlt]
  simp

set_option maxRecDepth 100000 in
theorem log_event_gate_witness :
    ((State.running.blackboxState = .RUNNING ∨ State.running.blackboxState = .PAUSED)
      ∧ ¬ (State.boot.blackboxState = .RUNNING ∨ State.boot.blackboxState = .PAUSED))
    ∧ blackboxLogEvent FLIGHT_LOG_EVENT_SYNC_BEEP {} State.boot = State.boot
    ∧ (blackboxLogEvent FLIGHT_LOG_EVENT_SYNC_BEEP {} State.running).log
      = State.running.log ++ [LogItem.frame 'E'
          (Write.byte (FLIGHT_LOG_EVENT_SYNC_BEEP % 256)
            :: blackboxLogEvent.payload FLIGHT_LOG_EVENT_SYNC_BEEP {})] :=
  ⟨⟨by decide, by decide⟩,
    (log_event_gate FLIGHT_LOG_EVENT_SYNC_BEEP {} State.boot).1 (by decide),
    congrArg State.log
      ((log_event_gate FLIGHT_LOG_EVENT_SYNC_BEEP {} State.running).2 (by decide)).1⟩

/-! ### Claims on the state machine -/

/-- C21: in every PAUSED state reached by calls of the recorder from a state outside PAUSED and
CACHE_FLUSH, a tick of `blackboxUpdate` ends in RUNNING only if the BOXBLACKBOX mode is active
and `blackboxShouldLogIFrame()` is true; when both hold, the `switch` leaves PAUSED for RUNNING
and what the tick writes is first the LOGGING_RESUME event frame with the current
`blackboxIteration` and the current time, then at most one slow frame, then an 'I' frame; in
every other PAUSED tick the log is left as it was. -/
theorem resume_from_pause (b : Build) (ops : List Op) (s0 : State) (e : Env)
    (h0 : s0.blackboxState ≠ .PAUSED ∧ s0.blackboxState ≠ .CACHE_FLUSH)
    (hs : (runOps b ops s0).blackboxState = .PAUSED) :
    ((blackboxUpdate b e (runOps b ops s0)).blackboxState = .RUNNING →
      e.rcModeBlackbox = true ∧ blackboxShouldLogIFrame (runOps b ops s0) = true)
    ∧ (e.rcModeBlackbox = true → blackboxShouldLogIFrame (runOps b ops s0) = true →
      (blackboxUpdate.switch b e (runOps b ops s0)).blackboxState = .RUNNING
      ∧ ∃ pre payload, (blackboxUpdate b e (runOps b ops s0)).log
          = (runOps b ops s0).log
            ++ [LogItem.frame 'E' [Write.byte FLIGHT_LOG_EVENT_LOGGING_RESUME,
                Write.unsignedVB ⟨.event 0, (runOps b ops s0).blackboxIteration⟩,
                Write.unsignedVB ⟨.event 1, e.currentTimeUs % 4294967296⟩]]
            ++ pre ++ [LogItem.frame 'I' payload]
        ∧ (pre = [] ∨ ∃ p, pre = [LogItem.frame 'S' p]))
    ∧ (¬ (e.rcModeBlackbox = true ∧ blackboxShouldLogIFrame (runOps b ops s0) = true) →
      (blackboxUpdate b e (runOps b ops s0)).log = (runOps b ops s0).log) := by
  have hflag : (runOps b ops s0).startedLoggingInTestMode = false :=
    (runOps_coherent b ops s0 (coherent_of_state s0 h0.1 h0.2)).1 hs
  generalize runOps b ops s0 = s at hs hflag
  have hlog : (blackboxUpdate b e s).log = (blackboxUpdate.switch b e s).log := by
    unfold blackboxUpdate
    exact finish_log b e _ ((switch_flag b e s).trans hflag)
  refine ⟨fun h => ?_, fun h1 h2 => ⟨?_, ?_⟩, fun h => ?_⟩
  · exact (switch_PAUSED_resume b e s hs).mp
      (update_state_of_switch b e s _ (Or.inl rfl) h)
  · exact (switch_PAUSED_resume b e s hs).mpr ⟨h1, h2⟩
  · rw [hlog]
    exact switch_PAUSED_resume_log b e s hs h1 h2
  · rw [hlog, switch_PAUSED b e s hs, advance_log, if_neg]
    simpa using h

set_option maxRecDepth 1000000 in
theorem resume_from_pause_witness :
    (State.runningWithSwitch.blackboxState ≠ .PAUSED
      ∧ State.runningWithSwitch.blackboxState ≠ .CACHE_FLUSH)
    ∧ (runOps Build.full (List.replicate 32 (Op.update Env.switchOff))
        State.runningWithSwitch).blackboxState = .PAUSED
    ∧ (blackboxUpdate.switch Build.full Env.flying
        (runOps Build.full (List.replicate 32 (Op.update Env.switchOff))
          State.runningWithSwitch)).blackboxState = .RUNNING
    ∧ (blackboxUpdate Build.full Env.switchOff
        (runOps Build.full (List.replicate 32 (Op.update Env.switchOff))
          State.runningWithSwitch)).log
      = (runOps Build.full (List.replicate 32 (Op.update Env.switchOff))
          State.runningWithSwitch).log :=
  ⟨⟨by decide, by decide⟩, by decide,
    ((resume_from_pause Build.full (List.replicate 32 (Op.update Env.switchOff))
      State.runningWithSwitch Env.flying ⟨by decide, by decide⟩ (by decide)).2.1
        (by decide) (by decide)).1,
    (resume_from_pause Build.full (List.replicate 32 (Op.update Env.switchOff))
      State.runningWithSwitch Env.switchOff ⟨by decide, by decide⟩ (by decide)).2.2
        (by decide)⟩

/-- C23: in every run of calls that does not start in CACHE_FLUSH or PAUSED, a step into RUNNING
from a state other than RUNNING and PAUSED is a tick of `blackboxUpdate` that starts in
CACHE_FLUSH with `blackboxDeviceFlushForceComplete()` true, and the machine has been in
CACHE_FLUSH since it left SEND_SYSINFO; so between any header state (SEND_MAIN_FIELD_HEADER,
SEND_GPS_H_HEADER, SEND_GPS_G_HEADER, SEND_SLOW_HEADER) and a later RUNNING there is a
SEND_SYSINFO and after it a CACHE_FLUSH; and CACHE_FLUSH is left for the state held in
`cacheFlushNextState` only by a tick in which `blackboxDeviceFlushForceComplete()` is true. -/
theorem header_funnel (b : Build) (calls : Nat → Op) (s0 : State)
    (h0 : s0.blackboxState ≠ .CACHE_FLUSH ∧ s0.blackboxState ≠ .PAUSED) :
    (∀ j, (runCalls b calls (j + 1) s0).blackboxState = .RUNNING →
      (runCalls b calls j s0).blackboxState ≠ .RUNNING →
      (runCalls b calls j s0).blackboxState ≠ .PAUSED →
      (runCalls b calls j s0).blackboxState = .CACHE_FLUSH
      ∧ (∃ e, calls j = .update e ∧ e.deviceFlushForceComplete = true)
      ∧ ∃ i, i < j ∧ (runCalls b calls i s0).blackboxState = .SEND_SYSINFO
        ∧ ∀ k, i < k → k ≤ j → (runCalls b calls k s0).blackboxState = .CACHE_FLUSH)
    ∧ (∀ i j, i < j →
      ((runCalls b calls i s0).blackboxState = .SEND_MAIN_FIELD_HEADER
        ∨ (runCalls b calls i s0).blackboxState = .SEND_GPS_H_HEADER
        ∨ (runCalls b calls i s0).blackboxState = .SEND_GPS_G_HEADER
        ∨ (runCalls b calls i s0).blackboxState = .SEND_SLOW_HEADER) →
      (runCalls b calls j s0).blackboxState = .RUNNING →
      ∃ k l, i < k ∧ k < l ∧ l < j ∧ (runCalls b calls k s0).blackboxState = .SEND_SYSINFO
        ∧ (runCalls b calls l s0).blackboxState = .CACHE_FLUSH)
    ∧ (∀ j, (runCalls b calls j s0).blackboxState = .CACHE_FLUSH →
      (runCalls b calls (j + 1) s0).blackboxState
        = (runCalls b calls j s0).cacheFlushNextState →
      ∃ e, calls j = .update e ∧ e.deviceFlushForceComplete = true) := by
  have hc := coherent_of_state s0 h0.2 h0.1
  refine ⟨fun j h1 h2 h3 => ?_, fun i j hij hh hr => ?_, fun j h1 h2 => ?_⟩
  · rcases apply_into_RUNNING b (calls j) _ h1 with h | h | ⟨h4, h5, h6⟩
    · exact absurd h h2
    · exact absurd h h3
    · exact ⟨h4, h6, runCalls_flush_origin b calls s0 h0.1 j h4 h5⟩
  · obtain ⟨j, rfl⟩ : ∃ j2, j = j2 + 1 := ⟨j - 1, by omega⟩
    obtain ⟨k, l, h1, h2, h3, h4, h5⟩ :=
      runCalls_header_funnel b calls s0 h0.1 hc j i (by omega) hh (Or.inl hr)
    exact ⟨k, l, h1, h2, by omega, h4, h5⟩
  · rcases (runCalls_coherent b calls j s0 hc).2 h1 with h | h
    · rw [h] at h2
      rcases apply_into_SEND_SYSINFO b (calls j) _ h2 with h3 | ⟨_, _, h3⟩
      · rw [h1] at h3
        cases h3
      · exact h3
    · rw [h] at h2
      rcases apply_into_RUNNING b (calls j) _ h2 with h3 | h3 | ⟨_, _, h3⟩
      · rw [h1] at h3
        cases h3
      · rw [h1] at h3
        cases h3
      · exact h3

set_option maxRecDepth 1000000 in
theorem header_funnel_witness :
    (State.stopped.blackboxState ≠ .CACHE_FLUSH ∧ State.stopped.blackboxState ≠ .PAUSED)
    ∧ (runCalls Build.full Op.tickAt 17 State.stopped).blackboxState = .RUNNING
    ∧ (runCalls Build.full Op.tickAt 16 State.stopped).blackboxState = .CACHE_FLUSH
    ∧ (∃ i, i < 16 ∧ (runCalls Build.full Op.tickAt i State.stopped).blackboxState = .SEND_SYSINFO
        ∧ ∀ k, i < k → k ≤ 16 →
          (runCalls Build.full Op.tickAt k State.stopped).blackboxState = .CACHE_FLUSH)
    ∧ (∃ k l, 4 < k ∧ k < l ∧ l < 17
        ∧ (runCalls Build.full Op.tickAt k State.stopped).blackboxState = .SEND_SYSINFO
        ∧ (runCalls Build.full Op.tickAt l State.stopped).blackboxState = .CACHE_FLUSH) :=
  ⟨⟨by decide, by decide⟩, by decide,
    ((header_funnel Build.full Op.tickAt State.stopped ⟨by decide, by decide⟩).1 16
      (by decide) (by decide) (by decide)).1,
    ((header_funnel Build.full Op.tickAt State.stopped ⟨by decide, by decide⟩).1 16
      (by decide) (by decide) (by decide)).2.2,
    (header_funnel Build.full Op.tickAt State.stopped ⟨by decide, by decide⟩).2.1 4 17
      (by decide) (Or.inl (by decide)) (by decide)⟩

/-- C24: (as the code has it) when `isBlackboxDeviceFull()` is true in a tick of `blackboxUpdate`
and the state its `switch` leaves is none of START_ERASE, ERASING, ERASED (or the build has no
flash storage), the tick ends in STOPPED with `startedLoggingInTestMode` clear; this is so from
every active logging state (PREPARE_LOG_FILE, the SEND_* header states, CACHE_FLUSH with a
successor that is no erase state, RUNNING, PAUSED, SHUTTING_DOWN). Of the other states, a build
with flash storage leaves the erase states to their `switch`, STOPPED ends in STOPPED or, with
the erase switch on, in START_ERASE, and DISABLED is moved to STOPPED. -/
theorem device_full_stops (b : Build) (e : Env) (s : State) (hfull : e.deviceFull = true) :
    ((b.USE_FLASHFS = false
        ∨ ((blackboxUpdate.switch b e s).blackboxState ≠ .ERASING
          ∧ (blackboxUpdate.switch b e s).blackboxState ≠ .START_ERASE
          ∧ (blackboxUpdate.switch b e s).blackboxState ≠ .ERASED)) →
      (blackboxUpdate b e s).blackboxState = .STOPPED
      ∧ (blackboxUpdate b e s).startedLoggingInTestMode = false)
    ∧ ((s.blackboxState = .PREPARE_LOG_FILE ∨ s.blackboxState = .SEND_HEADER
        ∨ s.blackboxState = .SEND_MAIN_FIELD_HEADER ∨ s.blackboxState = .SEND_GPS_H_HEADER
        ∨ s.blackboxState = .SEND_GPS_G_HEADER ∨ s.blackboxState = .SEND_SLOW_HEADER
        ∨ s.blackboxState = .SEND_SYSINFO
        ∨ (s.blackboxState = .CACHE_FLUSH ∧ s.cacheFlushNextState ≠ .ERASING
          ∧ s.cacheFlushNextState ≠ .START_ERASE ∧ s.cacheFlushNextState ≠ .ERASED)
        ∨ s.blackboxState = .RUNNING ∨ s.blackboxState = .PAUSED
        ∨ s.blackboxState = .SHUTTING_DOWN) →
      (blackboxUpdate b e s).blackboxState = .STOPPED
      ∧ (blackboxUpdate b e s).startedLoggingInTestMode = false)
    ∧ (b.USE_FLASHFS = true →
      (s.blackboxState = .START_ERASE ∨ s.blackboxState = .ERASING
        ∨ s.blackboxState = .ERASED) →
      (blackboxUpdate b e s).blackboxState = (blackboxUpdate.switch b e s).blackboxState)
    ∧ (s.blackboxState = .STOPPED →
      (blackboxUpdate b e s).blackboxState = .STOPPED
      ∨ (b.USE_FLASHFS = true ∧ e.rcModeBlackboxErase = true
        ∧ (blackboxUpdate b e s).blackboxState = .START_ERASE))
    ∧ (s.blackboxState = .DISABLED → (blackboxUpdate b e s).blackboxState = .STOPPED) := by
  have key := finish_full b e (blackboxUpdate.switch b e s) hfull
  have hsucc := switch_successors b e s
  refine ⟨key, fun hs => key (Or.inr ?_), fun hb hs => ?_, fun hs => ?_, fun hs => ?_⟩
  · rcases hs with hs | hs | hs | hs | hs | hs | hs | ⟨hs, h1, h2, h3⟩ | hs | hs | hs <;>
      rw [hs] at hsucc <;>
      simp only [BlackboxState.successors, List.mem_cons, List.mem_singleton,
        List.not_mem_nil, or_false] at hsucc
    all_goals first
      | (rcases hsucc with h | h <;> rw [h] <;> simp_all)
      | (rcases hsucc with h | h | h <;> rw [h] <;> simp)
  · by_cases h : (blackboxUpdate.switch b e s).blackboxState = .ERASING
        ∨ (blackboxUpdate.switch b e s).blackboxState = .START_ERASE
        ∨ (blackboxUpdate.switch b e s).blackboxState = .ERASED
    · unfold blackboxUpdate
      rw [finish_full_erase b e _ hfull hb h]
    · have h1 := (key (Or.inr (by tauto))).1
      unfold blackboxUpdate at h1 ⊢
      rw [h1]
      rcases hs with hs | hs | hs <;> rw [hs] at hsucc <;>
        simp only [BlackboxState.successors, List.mem_cons, List.mem_singleton,
          List.not_mem_nil, or_false] at hsucc <;>
        rcases hsucc with h2 | h2 <;> first | exact h2.symm | exact absurd h2 (by tauto)
  · by_cases h : (blackboxUpdate.switch b e s).blackboxState = .START_ERASE
    · have hb : b.USE_FLASHFS = true ∧ e.rcModeBlackboxErase = true := by
        have h2 := h
        unfold blackboxUpdate.switch at h2
        rw [hs] at h2
        dsimp only at h2
        have h3 := blackboxStart_state b e (s.pushDeviceOp DeviceOp.blackboxOpen)
        split_ifs at h2 with h4 h5
        · simpa using h4
        · simpa using h4
        · rcases h3 with h3 | h3 <;> rw [h3] at h2 <;> cases h2
        · rw [hs] at h2
          cases h2
      refine Or.inr ⟨hb.1, hb.2, ?_⟩
      unfold blackboxUpdate
      rw [finish_full_erase b e _ hfull hb.1 (Or.inr (Or.inl h)), h]
    · refine Or.inl (key (Or.inr ⟨?_, h, ?_⟩)).1
      all_goals
        rw [hs] at hsucc
        simp only [BlackboxState.successors, List.mem_cons, List.mem_singleton,
          List.not_mem_nil, or_false] at hsucc
        rcases hsucc with h2 | h2 | h2 | h2 <;> rw [h2] <;> simp
  · refine (key (Or.inr ?_)).1
    rw [switch_DISABLED b e s hs, hs]
    simp

set_option maxRecDepth 100000 in
theorem device_full_stops_witness :
    Env.fullDevice.deviceFull = true
    ∧ (blackboxUpdate Build.full Env.fullDevice State.running).blackboxState = .STOPPED
    ∧ (blackboxUpdate Build.full Env.fullDevice State.running).startedLoggingInTestMode = false :=
  ⟨rfl, (device_full_stops Build.full Env.fullDevice State.running rfl).2.1 (by decide)⟩

set_option maxRecDepth 100000 in
/-- C24, counterexample: a recorder in DISABLED (here after a start whose device could not be
opened), which is not an active logging state, is moved to STOPPED by a tick in which the device
reports full. -/
theorem device_full_stops_counterexample :
    State.disabled.blackboxState = .DISABLED
    ∧ Env.fullDevice.deviceFull = true
    ∧ (blackboxUpdate Build.full Env.fullDevice State.disabled).blackboxState = .STOPPED := by
  decide

/-- C25: when `blackboxDeviceOpen()` fails, `blackboxStart` ends in DISABLED and apart from the
state and the validated device of the configuration every variable is as before the call: the
history pointers and ring, the condition cache, the iteration counters, `vbatReference`,
`gpsHistory`, the last-beep, last-flight-mode and last-governor trackers, and the log. -/
theorem start_without_device (b : Build) (e : Env) (s : State) (h : e.deviceOpen = false) :
    (blackboxStart b e s).blackboxState = .DISABLED
    ∧ blackboxStart b e s = { s with
        blackboxState := .DISABLED
        blackboxConfig := (blackboxValidateConfig b s).blackboxConfig }
    ∧ (blackboxStart b e s).blackboxHistory = s.blackboxHistory
    ∧ (blackboxStart b e s).blackboxHistoryRing = s.blackboxHistoryRing
    ∧ (blackboxStart b e s).blackboxConditionCache = s.blackboxConditionCache
    ∧ (blackboxStart b e s).blackboxIteration = s.blackboxIteration
    ∧ (blackboxStart b e s).blackboxLoopIndex = s.blackboxLoopIndex
    ∧ (blackboxStart b e s).blackboxPFrameIndex = s.blackboxPFrameIndex
    ∧ (blackboxStart b e s).blackboxIFrameIndex = s.blackboxIFrameIndex
    ∧ (blackboxStart b e s).blackboxSlowFrameIterationTimer = s.blackboxSlowFrameIterationTimer
    ∧ (blackboxStart b e s).vbatReference = s.vbatReference
    ∧ (blackboxStart b e s).gpsHistory = s.gpsHistory
    ∧ (blackboxStart b e s).blackboxLastArmingBeep = s.blackboxLastArmingBeep
    ∧ (blackboxStart b e s).blackboxLastFlightModeFlags = s.blackboxLastFlightModeFlags
    ∧ (blackboxStart b e s).blackboxLastGovState = s.blackboxLastGovState
    ∧ (blackboxStart b e s).log = s.log := by
  have h1 : blackboxStart b e s = { s with
      blackboxState := .DISABLED
      blackboxConfig := (blackboxValidateConfig b s).blackboxConfig } := by
    unfold blackboxStart
    dsimp only
    rw [if_pos h]
    unfold blackboxValidateConfig
    split_ifs <;> rfl
  rw [h1]
  exact ⟨rfl, rfl, rfl, rfl, rfl, rfl, rfl, rfl, rfl, rfl, rfl, rfl, rfl, rfl, rfl, rfl⟩

set_option maxRecDepth 100000 in
theorem start_without_device_witness :
    Env.deviceUnavailable.deviceOpen = false
    ∧ (blackboxStart Build.full Env.deviceUnavailable State.stopped).blackboxState = .DISABLED
    ∧ (blackboxStart Build.full Env.deviceUnavailable State.stopped).blackboxIteration
        = State.stopped.blackboxIteration :=
  ⟨rfl, (start_without_device Build.full Env.deviceUnavailable State.stopped rfl).1,
    (start_without_device Build.full Env.deviceUnavailable State.stopped rfl).2.2.2.2.2.1⟩

/-- C26: in SHUTTING_DOWN with the device not full, `blackboxUpdate` closes the device and
leaves SHUTTING_DOWN for STOPPED if and only if `blackboxDeviceEndLog(blackboxLoggedAnyFrames)`
returns true and either `millis() > startTime + 200` holds as the code computes it, in unsigned
32-bit arithmetic, or `blackboxDeviceFlushForce()` returns true; otherwise the state is
unchanged and stays SHUTTING_DOWN. While neither the sum nor `millis()` has wrapped, the
comparison says that more than 200 ms have elapsed, as the claim has it. When the sum
`startTime + 200` wraps, the comparison holds at once: with the log ended and no forced flush,
every tick before `millis()` wraps closes the device and moves to STOPPED although fewer than
200 ms have elapsed since SHUTTING_DOWN was entered. -/
theorem shutdown_completes (b : Build) (e : Env) (s : State)
    (hs : s.blackboxState = .SHUTTING_DOWN) (hfull : e.deviceFull = false) :
    ((e.deviceEndLog s.blackboxLoggedAnyFrames
        && (decide (e.millis % 4294967296 > (s.startTime + 200) % 4294967296)
            || e.deviceFlushForce)) = true →
      blackboxUpdate.switch b e s
          = blackboxSetState e .STOPPED (s.pushDeviceOp DeviceOp.deviceClose)
      ∧ (blackboxUpdate.switch b e s).blackboxState = .STOPPED
      ∧ (s.blackboxConfig.mode ≠ BLACKBOX_MODE_MOTOR_TEST →
          s.blackboxConfig.mode ≠ BLACKBOX_MODE_ALWAYS_ON →
          (blackboxUpdate b e s).blackboxState = .STOPPED))
    ∧ ((e.deviceEndLog s.blackboxLoggedAnyFrames
        && (decide (e.millis % 4294967296 > (s.startTime + 200) % 4294967296)
            || e.deviceFlushForce)) = false →
      blackboxUpdate.switch b e s = s
      ∧ (blackboxUpdate b e s).blackboxState = .SHUTTING_DOWN)
    ∧ (s.startTime + 200 < 4294967296 → e.millis < 4294967296 →
      (e.millis % 4294967296 > (s.startTime + 200) % 4294967296
        ↔ e.millis - s.startTime > 200))
    ∧ (e.deviceEndLog s.blackboxLoggedAnyFrames = true → e.deviceFlushForce = false →
      4294967296 ≤ s.startTime + 200 → s.startTime ≤ e.millis → e.millis < 4294967296 →
      e.millis - s.startTime < 200
      ∧ blackboxUpdate.switch b e s
          = blackboxSetState e .STOPPED (s.pushDeviceOp DeviceOp.deviceClose)
      ∧ (blackboxUpdate.switch b e s).blackboxState = .STOPPED) := by
  have hsw := switch_SHUTTING_DOWN b e s hs
  unfold BLACKBOX_SHUTDOWN_TIMEOUT_MILLIS at hsw
  refine ⟨fun h => ?_, fun h => ?_, fun h1 h2 => ?_, fun hend hflush hw hle hm => ?_⟩
  · rw [if_pos h] at hsw
    refine ⟨hsw, by rw [hsw, blackboxSetState_state], fun h1 h2 => ?_⟩
    unfold blackboxUpdate blackboxUpdate.finish
    dsimp only
    have hc : (blackboxUpdate.switch b e s).blackboxConfig = s.blackboxConfig := by
      rw [hsw]
      rfl
    rw [if_neg (by simp [hfull]), hc, if_neg h1, if_neg h2, hsw, blackboxSetState_state]
  · rw [if_neg (by simp [h])] at hsw
    refine ⟨hsw, ?_⟩
    unfold blackboxUpdate
    rw [hsw]
    rcases finish_state b e s with ⟨h1, _⟩ | ⟨h1, _⟩ | ⟨_, h1, _⟩ | ⟨_, _, _, h1⟩
    · rw [h1, hs]
    · rw [hfull] at h1
      cases h1
    · rw [hs] at h1
      cases h1
    · exact h1
  · rw [Nat.mod_eq_of_lt h1, Nat.mod_eq_of_lt h2]
    omega
  · have hst : s.startTime < 4294967296 := Nat.mod_lt _ (by decide)
    have hcmp : e.millis % 4294967296 > (s.startTime + 200) % 4294967296 := by
      rw [Nat.mod_eq_of_lt hm]
      omega
    have hcond : (e.deviceEndLog s.blackboxLoggedAnyFrames
        && (decide (e.millis % 4294967296 > (s.startTime + 200) % 4294967296)
            || e.deviceFlushForce)) = true := by
      rw [hend, decide_eq_true hcmp]
      rfl
    rw [if_pos hcond] at hsw
    exact ⟨by omega, hsw, by rw [hsw, blackboxSetState_state]⟩

set_option maxRecDepth 100000 in
theorem shutdown_completes_witness :
    (State.shuttingDown.blackboxState = .SHUTTING_DOWN
      ∧ (Env.atMillis 4294967250).deviceFull = false)
    ∧ State.shuttingDown.startTime = 4294967200
    ∧ ((Env.atMillis 4294967250).deviceEndLog State.shuttingDown.blackboxLoggedAnyFrames = true
      ∧ (Env.atMillis 4294967250).deviceFlushForce = false
      ∧ 4294967296 ≤ State.shuttingDown.startTime + 200
      ∧ State.shuttingDown.startTime ≤ (Env.atMillis 4294967250).millis
      ∧ (Env.atMillis 4294967250).millis < 4294967296)
    ∧ (Env.atMillis 4294967250).millis - State.shuttingDown.startTime < 200
    ∧ blackboxUpdate.switch Build.full (Env.atMillis 4294967250) State.shuttingDown
        = blackboxSetState (Env.atMillis 4294967250) .STOPPED
            (State.shuttingDown.pushDeviceOp DeviceOp.deviceClose)
    ∧ (blackboxUpdate.switch Build.full (Env.atMillis 4294967250)
        State.shuttingDown).blackboxState = .STOPPED
    ∧ (blackboxUpdate Build.full (Env.atMillis 4294967250) State.shuttingDown).blackboxState
        = .STOPPED
    ∧ (blackboxUpdate Build.full (Env.atMillis 4294967250) State.shuttingDown).deviceOps
        = State.shuttingDown.deviceOps ++ [DeviceOp.deviceClose] := by
  have h := shutdown_completes Build.full (Env.atMillis 4294967250) State.shuttingDown
    (by decide) rfl
  have g1 : (Env.atMillis 4294967250).deviceEndLog State.shuttingDown.blackboxLoggedAnyFrames
      = true := rfl
  have g2 : (Env.atMillis 4294967250).deviceFlushForce = false := rfl
  have g3 : 4294967296 ≤ State.shuttingDown.startTime + 200 := by decide
  have g4 : State.shuttingDown.startTime ≤ (Env.atMillis 4294967250).millis := by decide
  have g5 : (Env.atMillis 4294967250).millis < 4294967296 := by decide
  have g := h.2.2.2 g1 g2 g3 g4 g5
  exact ⟨⟨by decide, rfl⟩, by decide, ⟨g1, g2, g3, g4, g5⟩, g.1, g.2.1, g.2.2, by decide,
    by decide⟩

/-- C27: from START_ERASE, ERASING or ERASED, `blackboxLogEvent` keeps the state, and a tick of
`blackboxUpdate` in a build with flash storage, with no test-mode session under way, ends in
the same state or its linear successor (from ERASED the tick that reaches STOPPED may go on to
start a test-mode session); but `blackboxFinish` takes its default branch and moves the machine
to SHUTTING_DOWN, out of the erase sequence. -/
theorem erase_states_transitions (b : Build) (e : Env) (s : State)
    (hs : s.blackboxState = .START_ERASE ∨ s.blackboxState = .ERASING
      ∨ s.blackboxState = .ERASED) :
    (∀ event data, (blackboxLogEvent event data s).blackboxState = s.blackboxState)
    ∧ (blackboxFinish e s).blackboxState = .SHUTTING_DOWN
    ∧ (b.USE_FLASHFS = true → s.startedLoggingInTestMode = false →
      (blackboxUpdate b e s).blackboxState = s.blackboxState
      ∨ (s.blackboxState = .START_ERASE ∧ (blackboxUpdate b e s).blackboxState = .ERASING)
      ∨ (s.blackboxState = .ERASING ∧ (blackboxUpdate b e s).blackboxState = .ERASED)
      ∨ (s.blackboxState = .ERASED
        ∧ ((blackboxUpdate b e s).blackboxState = .STOPPED
          ∨ (blackboxUpdate b e s).blackboxState = .DISABLED
          ∨ (blackboxUpdate b e s).blackboxState = .PREPARE_LOG_FILE))) := by
  refine ⟨fun event data => blackboxLogEvent_blackboxState event data s, ?_, fun hb hf => ?_⟩
  · apply blackboxFinish_state
    rcases hs with hs | hs | hs <;> rw [hs] <;> simp
  · have hsucc := switch_successors b e s
    have hflag := switch_flag b e s
    rw [hf] at hflag
    unfold blackboxUpdate
    rcases finish_state b e (blackboxUpdate.switch b e s) with
      ⟨h1, _⟩ | ⟨h0, h1⟩ | ⟨_, h0, h1⟩ | ⟨_, h0, _⟩
    · rw [h1]
      rcases hs with hs | hs | hs <;> rw [hs] at hsucc ⊢ <;>
        simp only [BlackboxState.successors, List.mem_cons, List.mem_singleton,
          List.not_mem_nil, or_false] at hsucc <;>
        rcases hsucc with h2 | h2 <;> rw [h2] <;> simp
    · by_cases h : (blackboxUpdate.switch b e s).blackboxState = .ERASING
          ∨ (blackboxUpdate.switch b e s).blackboxState = .START_ERASE
          ∨ (blackboxUpdate.switch b e s).blackboxState = .ERASED
      · rw [finish_full_erase b e _ h0 hb h]
        rcases hs with hs | hs | hs <;> rw [hs] at hsucc ⊢ <;>
          simp only [BlackboxState.successors, List.mem_cons, List.mem_singleton,
            List.not_mem_nil, or_false] at hsucc <;>
          rcases hsucc with h2 | h2 <;> rw [h2] <;> simp
      · rw [h1]
        rcases hs with hs | hs | hs <;> rw [hs] at hsucc ⊢ <;>
          simp only [BlackboxState.successors, List.mem_cons, List.mem_singleton,
            List.not_mem_nil, or_false] at hsucc <;>
          rcases hsucc with h2 | h2 <;> rw [h2] at h <;> simp at h ⊢
    · rcases hs with hs | hs | hs <;> rw [hs] at hsucc ⊢ <;>
        simp only [BlackboxState.successors, List.mem_cons, List.mem_singleton,
          List.not_mem_nil, or_false] at hsucc <;>
        rcases hsucc with h2 | h2 <;> rw [h2] at h0 <;>
        first
        | exact Or.inr (Or.inr (Or.inr ⟨rfl, Or.inr h1⟩))
        | cases h0
    · rw [hflag] at h0
      cases h0

set_option maxRecDepth 100000 in
theorem erase_states_transitions_witness :
    State.erasing.blackboxState = .ERASING
    ∧ (blackboxFinish Env.flying State.erasing).blackboxState = .SHUTTING_DOWN :=
  ⟨by decide,
    (erase_states_transitions Build.full Env.flying State.erasing
      (Or.inr (Or.inl (by decide)))).2.1⟩

/-- C28: `blackboxFinish` returns the state unchanged, and so writes nothing, in DISABLED,
STOPPED and SHUTTING_DOWN, and ends in SHUTTING_DOWN from every other state; it appends the
LOG_END event frame ('E', the LOG_END id, the string "End of log", a 0 byte) when the state was
RUNNING or PAUSED and leaves the log as it was otherwise; a second call in a row, whatever the
environment, changes nothing more. -/
theorem finish_begins_shutdown (e e2 : Env) (s : State) :
    ((s.blackboxState = .DISABLED ∨ s.blackboxState = .STOPPED
        ∨ s.blackboxState = .SHUTTING_DOWN) → blackboxFinish e s = s)
    ∧ (¬ (s.blackboxState = .DISABLED ∨ s.blackboxState = .STOPPED
        ∨ s.blackboxState = .SHUTTING_DOWN) →
        (blackboxFinish e s).blackboxState = .SHUTTING_DOWN)
    ∧ ((s.blackboxState = .RUNNING ∨ s.blackboxState = .PAUSED) →
        (blackboxFinish e s).log = s.log ++ [LogItem.frame 'E'
          [Write.byte FLIGHT_LOG_EVENT_LOG_END, Write.str "End of log", Write.byte 0]])
    ∧ (¬ (s.blackboxState = .RUNNING ∨ s.blackboxState = .PAUSED) →
        (blackboxFinish e s).log = s.log)
    ∧ blackboxFinish e2 (blackboxFinish e s) = blackboxFinish e s := by
  refine ⟨blackboxFinish_of_stopped e s, blackboxFinish_state e s, fun h => ?_, fun h => ?_,
    blackboxFinish_twice e e2 s⟩
  · rw [blackboxFinish_log, if_pos h]
  · rw [blackboxFinish_log, if_neg h]

set_option maxRecDepth 100000 in
theorem finish_begins_shutdown_witness :
    blackboxFinish Env.flying State.stopped = State.stopped
    ∧ (blackboxFinish Env.flying State.running).blackboxState = .SHUTTING_DOWN
    ∧ (blackboxFinish Env.flying State.running).log = State.running.log ++ [LogItem.frame 'E'
          [Write.byte FLIGHT_LOG_EVENT_LOG_END, Write.str "End of log", Write.byte 0]]
    ∧ (blackboxFinish Env.flying State.stopped).log = State.stopped.log :=
  ⟨(finish_begins_shutdown Env.flying Env.flying State.stopped).1 (by decide),
    (finish_begins_shutdown Env.flying Env.flying State.running).2.1 (by decide),
    (finish_begins_shutdown Env.flying Env.flying State.running).2.2.1 (by decide),
    (finish_begins_shutdown Env.flying Env.flying State.stopped).2.2.2.1 (by decide)⟩

/-! ### Claims on header emission -/

/-- C29: header emission is resumable. For every field table, condition list and cache, and
every device on which each reservation is granted at some later attempt, the calls of
`sendFieldDefinition` from `fieldIndex` -1 (at any `headerIndex`, 0 in particular) come to the
call that returns false, on this device and on the one that grants every reservation at once;
the two finished runs wrote the same log; and after any number of calls the log is the one
of a whole number of units, a call whose reservation fails having written none in part. -/
theorem header_emission_resumable (e : Env) (mainFrameChar deltaFrameChar : Char)
    (fieldDefinitions : List blackboxFieldDefinition_t) (conditions : Option (List Nat))
    (s : State) (hu : s.fieldIndex = -1) (hlen : fieldDefinitions.length < 2147483648)
    (hfair : ∀ n bytes, ∃ m, n ≤ m ∧ e.deviceReserve m bytes = true) :
    (∃ n, (sendFieldDefinition.calls e mainFrameChar deltaFrameChar fieldDefinitions
        conditions n s).2 = false)
      ∧ (∃ m, (sendFieldDefinition.calls e.withRoom mainFrameChar deltaFrameChar
        fieldDefinitions conditions m s).2 = false)
      ∧ (∀ n m,
        (sendFieldDefinition.calls e mainFrameChar deltaFrameChar fieldDefinitions
          conditions n s).2 = false →
        (sendFieldDefinition.calls e.withRoom mainFrameChar deltaFrameChar fieldDefinitions
          conditions m s).2 = false →
        (sendFieldDefinition.calls e mainFrameChar deltaFrameChar fieldDefinitions
            conditions n s).1.log
          = (sendFieldDefinition.calls e.withRoom mainFrameChar deltaFrameChar
            fieldDefinitions conditions m s).1.log)
      ∧ (∀ n, ∃ k,
        (sendFieldDefinition.calls e mainFrameChar deltaFrameChar fieldDefinitions
            conditions n s).1.log
          = ((sendFieldDefinition.unit e mainFrameChar deltaFrameChar fieldDefinitions
            conditions)^[k] s).log) := by
  have hv : sendFieldDefinition.valid deltaFrameChar fieldDefinitions s := Or.inl hu
  refine ⟨calls_end e _ _ _ _ hlen hfair s hv,
    calls_end e.withRoom _ _ _ _ hlen (withRoom_fair e) s hv,
    fun n m hn hm => calls_same_log e _ _ _ _ hlen s hv n m hn hm, fun n => ?_⟩
  obtain ⟨k, hk, _⟩ := calls_units e mainFrameChar deltaFrameChar fieldDefinitions conditions
    hlen n s hv
  exact ⟨k, ((position_eq_iff _ _).1 hk).1⟩

theorem header_emission_resumable_witness :
    State.slowHeader.fieldIndex = -1
      ∧ State.slowHeader.headerIndex = 0
      ∧ (∀ n bytes, ∃ m, n ≤ m ∧ Env.stuttering.deviceReserve m bytes = true)
      ∧ (∀ n m,
        (sendFieldDefinition.calls Env.stuttering 'S' (Char.ofNat 0)
          (blackboxSlowFields.map (·.generic)) none n State.slowHeader).2 = false →
        (sendFieldDefinition.calls Env.stuttering.withRoom 'S' (Char.ofNat 0)
          (blackboxSlowFields.map (·.generic)) none m State.slowHeader).2 = false →
        (sendFieldDefinition.calls Env.stuttering 'S' (Char.ofNat 0)
            (blackboxSlowFields.map (·.generic)) none n State.slowHeader).1.log
          = (sendFieldDefinition.calls Env.stuttering.withRoom 'S' (Char.ofNat 0)
            (blackboxSlowFields.map (·.generic)) none m State.slowHeader).1.log) :=
  ⟨by decide, by decide, stuttering_fair,
    (header_emission_resumable Env.stuttering 'S' (Char.ofNat 0)
      (blackboxSlowFields.map (·.generic)) none State.slowHeader (by decide) (by decide)
      stuttering_fair).2.2.1⟩

/-- C30: the `gyro_rpm_filter_bank_motor_index` line of `blackboxWriteSysinfo` is longer than the
64 bytes reserved before it, whatever its sixteen values are: when the reservation of 64 is
granted at that case, the function writes the whole line, and the line has at least 67
characters. -/
theorem sysinfo_line_exceeds_reservation (b : Build) (e : Env) (s : State) (f : Nat → Int)
    (hline : e.sysinfoLine s.headerIndex = some (sysinfoRpmFilterBankMotorIndex f))
    (hv : s.headerIndex ≠ b.sysinfoVbatScaleCase)
    (hc : s.headerIndex ≠ b.sysinfoCurrentSensorCase)
    (hr : e.deviceReserve s.reserveCalls 64 = true) :
    (blackboxWriteSysinfo b e s).1.log
        = s.log ++ [LogItem.header (Write.str (sysinfoRpmFilterBankMotorIndex f))]
    ∧ 64 < (sysinfoRpmFilterBankMotorIndex f).length := by
  have hlen := sysinfoRpmFilterBankMotorIndex_length f
  refine ⟨?_, by omega⟩
  unfold blackboxWriteSysinfo
  dsimp only
  have h1 : (blackboxDeviceReserveBufferSpace e 64 s).2 = true := hr
  have h2 : (blackboxDeviceReserveBufferSpace e 64 s).1.headerIndex = s.headerIndex := rfl
  rw [if_neg (by rw [h1]; decide), h2, hline]
  dsimp only
  rw [if_neg hv, if_neg hc]
  rfl

set_option maxRecDepth 100000 in
theorem sysinfo_line_exceeds_reservation_witness :
    (blackboxWriteSysinfo Build.full Env.rpmFilter State.sysinfoAtRpmFilter).1.log
        = State.sysinfoAtRpmFilter.log
          ++ [LogItem.header (Write.str (sysinfoRpmFilterBankMotorIndex (fun _ => 0)))]
    ∧ 64 < (sysinfoRpmFilterBankMotorIndex (fun _ => 0)).length
    ∧ (sysinfoRpmFilterBankMotorIndex (fun _ => 0)).length = 67 :=
  ⟨(sysinfo_line_exceeds_reservation Build.full Env.rpmFilter State.sysinfoAtRpmFilter
      (fun _ => 0) (by decide) (by decide) (by decide) (by decide)).1,
    (sysinfo_line_exceeds_reservation Build.full Env.rpmFilter State.sysinfoAtRpmFilter
      (fun _ => 0) (by decide) (by decide) (by decide) (by decide)).2,
    by decide⟩

/-! ### Claims on sessions, frames and configuration -/

/-- C31: the periodic re-logging of the GPS home position does not happen when the P interval
is at most half the I interval (the default I interval 32 with P interval 1 among them).
After any number of ticks of a running session that began with the P-frame index at 0,
`blackboxShouldLogGpsHomeFrame` returns true only if the home point differs from the one in
`gpsHistory`: the P-frame index never equals half the I interval, whatever `blackboxIFrameIndex`
is. -/
theorem gps_home_not_relogged (b : Build) (envs : Nat → Env) (n : Nat) (s : State) (e : Env)
    (hI : 2 ≤ s.blackboxIInterval)
    (hP : s.blackboxPInterval ≤ Int.tdiv s.blackboxIInterval 2)
    (h0 : s.blackboxPFrameIndex = 0) :
    blackboxShouldLogGpsHomeFrame e (blackboxRun b envs n s)
      = (decide (e.GPS_home 0 ≠ (blackboxRun b envs n s).gpsHistory.GPS_home 0)
        || decide (e.GPS_home 1 ≠ (blackboxRun b envs n s).gpsHistory.GPS_home 1)) := by
  have h := run_PFrameIndex_ne_half b envs n s hI hP h0
  unfold blackboxShouldLogGpsHomeFrame
  rw [decide_eq_false h, Bool.false_and, Bool.or_false]

theorem gps_home_not_relogged_witness :
    (2 : Int) ≤ State.running.blackboxIInterval
      ∧ State.running.blackboxPInterval ≤ Int.tdiv State.running.blackboxIInterval 2
      ∧ State.running.blackboxPFrameIndex = 0
      ∧ State.running.blackboxIInterval = 32
      ∧ State.running.blackboxPInterval = 1
      ∧ blackboxShouldLogGpsHomeFrame Env.flying
          (blackboxRun Build.full (fun _ => Env.flying) 4096 State.running)
        = (decide (Env.flying.GPS_home 0
            ≠ (blackboxRun Build.full (fun _ => Env.flying) 4096
                State.running).gpsHistory.GPS_home 0)
          || decide (Env.flying.GPS_home 1
            ≠ (blackboxRun Build.full (fun _ => Env.flying) 4096
                State.running).gpsHistory.GPS_home 1)) :=
  ⟨by decide, by decide, by decide, by decide, by decide,
    gps_home_not_relogged Build.full (fun _ => Env.flying) 4096 State.running Env.flying
      (by decide) (by decide) (by decide)⟩

/-- C32: with the condition cache that `blackboxBuildConditionCache` built at the start of the
session, `writeGPSFrame` appends one 'G' frame in which latitude and longitude are the
differences from `gpsHistory.GPS_home` (the values `writeGPSHomeFrame` has just put in its 'H'
frame, when the two are written together); a time value is in the frame exactly when
`p_ratio` was not 1, and it is `currentTime` minus the time of generation 1, modulo 2^32; and
the number of values in the frame is the number of entries of `blackboxGpsGFields` whose
condition is set. -/
theorem gps_frame_values (b : Build) (e0 : Env) (s0 : State) (e : Env) (s : State)
    (hc : s.blackboxConditionCache
      = (blackboxBuildConditionCache b e0 s0).blackboxConditionCache) :
    ∃ payload, (writeGPSFrame e s).log = s.log ++ [LogItem.frame 'G' payload]
      ∧ Write.signedVB ⟨.GPS_coord 0, wrapInt32 (e.gpsSol.lat - s.gpsHistory.GPS_home 0)⟩
          ∈ payload
      ∧ Write.signedVB ⟨.GPS_coord 1, wrapInt32 (e.gpsSol.lon - s.gpsHistory.GPS_home 1)⟩
          ∈ payload
      ∧ (writeGPSHomeFrame e s).log = s.log ++ [LogItem.frame 'H'
          [ Write.signedVB ⟨.GPS_home 0, (writeGPSHomeFrame e s).gpsHistory.GPS_home 0⟩,
            Write.signedVB ⟨.GPS_home 1, (writeGPSHomeFrame e s).gpsHistory.GPS_home 1⟩ ]]
      ∧ (writeGPSFrame e s).gpsHistory.GPS_home = s.gpsHistory.GPS_home
      ∧ (∀ v : Int, Write.unsignedVB ⟨.gpsTime, v⟩ ∈ payload ↔
          (s0.blackboxConfig.p_ratio ≠ 1
            ∧ v = ((e.currentTimeUs : Int) - ((s.history 1).time : Int)) % 4294967296))
      ∧ (payload.map Write.vals).flatten.length
          = (blackboxGpsGFields.filter
              (fun f => testBlackboxCondition s f.condition)).length := by
  obtain ⟨h1, h2⟩ := built_cache_gps b e0 s0 s hc
  have hv : ((toU32 ((e.currentTimeUs : Int) - ((s.history 1).time : Int)) : Nat) : Int)
      = ((e.currentTimeUs : Int) - ((s.history 1).time : Int)) % 4294967296 := by
    unfold toU32
    omega
  refine ⟨_, rfl, ?_, ?_, rfl, rfl, ?_, ?_⟩
  · simp
  · simp
  · intro v
    rw [h2]
    by_cases hp : s0.blackboxConfig.p_ratio = 1
    · simp [hp]
    · simp [hp, hv]
  · rw [h2]
    have hf : (blackboxGpsGFields.filter (fun f => testBlackboxCondition s f.condition)).length
        = (if testBlackboxCondition s FLIGHT_LOG_FIELD_CONDITION_NOT_LOGGING_EVERY_FRAME = true
            then 1 else 0) + 6 := by
      simp only [blackboxGpsGFields, List.filter_cons, h1, if_true, List.filter_nil]
      split_ifs <;> rfl
    rw [hf, h2]
    by_cases hp : s0.blackboxConfig.p_ratio = 1
    · simp [hp, Write.vals]
    · simp [hp, Write.vals]

theorem gps_frame_values_witness :
    State.running.blackboxConditionCache
        = (blackboxBuildConditionCache Build.full Env.flying
            State.stopped).blackboxConditionCache
      ∧ ∃ payload, (writeGPSFrame Env.flying State.running).log
          = State.running.log ++ [LogItem.frame 'G' payload]
        ∧ (payload.map Write.vals).flatten.length
          = (blackboxGpsGFields.filter
              (fun f => testBlackboxCondition State.running f.condition)).length :=
  ⟨rfl,
    (gps_frame_values Build.full Env.flying State.stopped Env.flying State.running rfl).imp
      (fun _ h => ⟨h.1, h.2.2.2.2.2.2⟩)⟩

/-- C33: `blackboxValidateConfig` leaves the device selection as it is exactly when it is SERIAL,
or FLASH in a build with `USE_FLASHFS`, or SDCARD in a build with `USE_SDCARD`; every other
value, the selection NONE among them, becomes SERIAL; the function is idempotent, and apart
from the `device` member it changes nothing, in the configuration or elsewhere. -/
theorem validate_config_device (b : Build) (s : State) :
    ((blackboxValidateConfig b s).blackboxConfig.device = s.blackboxConfig.device ↔
        (s.blackboxConfig.device = BLACKBOX_DEVICE_SERIAL
          ∨ (b.USE_FLASHFS = true ∧ s.blackboxConfig.device = BLACKBOX_DEVICE_FLASH)
          ∨ (b.USE_SDCARD = true ∧ s.blackboxConfig.device = BLACKBOX_DEVICE_SDCARD)))
      ∧ ((blackboxValidateConfig b s).blackboxConfig.device = s.blackboxConfig.device
          ∨ (blackboxValidateConfig b s).blackboxConfig.device = BLACKBOX_DEVICE_SERIAL)
      ∧ (blackboxValidateConfig b
          { s with blackboxConfig :=
              { s.blackboxConfig with device := BLACKBOX_DEVICE_NONE } }).blackboxConfig.device
          = BLACKBOX_DEVICE_SERIAL
      ∧ blackboxValidateConfig b (blackboxValidateConfig b s) = blackboxValidateConfig b s
      ∧ blackboxValidateConfig b s
          = { s with blackboxConfig :=
              { s.blackboxConfig with
                device := (blackboxValidateConfig b s).blackboxConfig.device } } := by
  by_cases h : (b.USE_FLASHFS ∧ s.blackboxConfig.device = BLACKBOX_DEVICE_FLASH)
      ∨ (b.USE_SDCARD ∧ s.blackboxConfig.device = BLACKBOX_DEVICE_SDCARD)
      ∨ s.blackboxConfig.device = BLACKBOX_DEVICE_SERIAL
  · have hs := validate_of_supported b s h
    refine ⟨?_, ?_, ?_, ?_, ?_⟩
    · rw [hs]
      simp only [true_iff]
      tauto
    · rw [hs]
      exact Or.inl rfl
    · rw [validate_of_unsupported b _ (by
        simp only [BLACKBOX_DEVICE_NONE, BLACKBOX_DEVICE_FLASH, BLACKBOX_DEVICE_SDCARD,
          BLACKBOX_DEVICE_SERIAL]
        simp)]
    · rw [hs, hs]
    · rw [hs]
  · have hs := validate_of_unsupported b s h
    refine ⟨?_, ?_, ?_, ?_, ?_⟩
    · rw [hs]
      constructor
      · intro h2
        exact Or.inl h2.symm
      · intro h2
        exfalso
        apply h
        tauto
    · rw [hs]
      exact Or.inr rfl
    · rw [validate_of_unsupported b _ (by
        simp only [BLACKBOX_DEVICE_NONE, BLACKBOX_DEVICE_FLASH, BLACKBOX_DEVICE_SDCARD,
          BLACKBOX_DEVICE_SERIAL]
        simp)]
    · rw [hs]
      exact validate_of_supported b _ (Or.inr (Or.inr rfl))
    · rw [hs]

/-- C34: a run of calls of `sendFieldDefinition` from `headerIndex` 0 and `fieldIndex` -1 that
came to its end wrote the header lines of the family one after the other, 6 for a family with
delta frames and 4 for a simple one; each line is the text that opens it, the entries of the
listed fields with a comma between each two, and a newline; on every line the entries are
those of the same fields, the table entries whose condition bit is set in the cache (all of
them for a table without conditions), and every entry is text that is not empty. -/
theorem header_lines_list_same_fields (e : Env) (mainFrameChar deltaFrameChar : Char)
    (fieldDefinitions : List blackboxFieldDefinition_t) (conditions : Option (List Nat))
    (s : State) (n : Nat) (hu : s.fieldIndex = -1) (hi : s.headerIndex = 0)
    (hlen : fieldDefinitions.length < 2147483648)
    (hn : (sendFieldDefinition.calls e mainFrameChar deltaFrameChar fieldDefinitions
      conditions n s).2 = false) :
    (sendFieldDefinition.calls e mainFrameChar deltaFrameChar fieldDefinitions
        conditions n s).1.log
      = s.log ++ (((List.range (sendFieldDefinition.headerCount deltaFrameChar)).map
          (sendFieldDefinition.line mainFrameChar deltaFrameChar fieldDefinitions conditions
            s)).flatten).map LogItem.header
      ∧ sendFieldDefinition.headerCount deltaFrameChar
        = (if deltaFrameChar ≠ Char.ofNat 0 then 6 else 4)
      ∧ (∀ h, (sendFieldDefinition.entries fieldDefinitions conditions s h).length
          = ((List.range fieldDefinitions.length).filter
              (sendFieldDefinition.listed conditions s)).length)
      ∧ (∀ h, ∀ x ∈ sendFieldDefinition.entries fieldDefinitions conditions s h,
          x ≠ [] ∧ ∀ w ∈ x, ∃ t, w = Write.str t) := by
  refine ⟨calls_lines e _ _ _ _ hlen s hu hi n hn, rfl, fun h => ?_, fun h x hx => ?_⟩
  · unfold sendFieldDefinition.entries
    rw [List.length_map]
  · unfold sendFieldDefinition.entries at hx
    obtain ⟨i, _, rfl⟩ := List.mem_map.1 hx
    exact entry_text _ _

set_option maxRecDepth 1000000 in
theorem header_lines_list_same_fields_witness :
    State.slowHeader.fieldIndex = -1 ∧ State.slowHeader.headerIndex = 0
      ∧ (blackboxSlowFields.map (·.generic)).length < 2147483648
      ∧ (sendFieldDefinition.calls Env.flying 'S' (Char.ofNat 0)
          (blackboxSlowFields.map (·.generic)) none 4 State.slowHeader).2 = false
      ∧ (sendFieldDefinition.calls Env.flying 'S' (Char.ofNat 0)
          (blackboxSlowFields.map (·.generic)) none 4 State.slowHeader).1.log
        = State.slowHeader.log
          ++ (((List.range (sendFieldDefinition.headerCount (Char.ofNat 0))).map
            (sendFieldDefinition.line 'S' (Char.ofNat 0) (blackboxSlowFields.map (·.generic))
              none State.slowHeader)).flatten).map LogItem.header := by
  have h := header_lines_list_same_fields Env.flying 'S' (Char.ofNat 0)
    (blackboxSlowFields.map (·.generic)) none State.slowHeader 4
  have h1 : State.slowHeader.fieldIndex = -1 := by decide
  have h2 : State.slowHeader.headerIndex = 0 := by decide
  have h3 : (blackboxSlowFields.map (·.generic)).length < 2147483648 := by decide
  have h4 : (sendFieldDefinition.calls Env.flying 'S' (Char.ofNat 0)
      (blackboxSlowFields.map (·.generic)) none 4 State.slowHeader).2 = false := by decide
  exact ⟨h1, h2, h3, h4, (h h1 h2 h3 h4).1⟩

/-- C35: after `blackboxStart` has opened the device, every sequence of main-frame writes that
begins with an intra frame leaves generation 0 in a ring slot other than those of generations
1 and 2, so that `loadMainState` for the next frame changes neither of the two snapshots the
predictors read; an inter frame written directly after `blackboxStart` leaves generation 0 in
the slot of generation 2. -/
theorem history_slots_distinct (b : Build) (e0 e1 e : Env) (s : State)
    (ws : List (Bool × Env)) (ho : e0.deviceOpen = true) :
    (mainFrameWrites b ((true, e1) :: ws) (blackboxStart b e0 s)).blackboxHistory 0
        ≠ (mainFrameWrites b ((true, e1) :: ws) (blackboxStart b e0 s)).blackboxHistory 1
      ∧ (mainFrameWrites b ((true, e1) :: ws) (blackboxStart b e0 s)).blackboxHistory 0
        ≠ (mainFrameWrites b ((true, e1) :: ws) (blackboxStart b e0 s)).blackboxHistory 2
      ∧ (loadMainState b e
          (mainFrameWrites b ((true, e1) :: ws) (blackboxStart b e0 s))).history 1
        = (mainFrameWrites b ((true, e1) :: ws) (blackboxStart b e0 s)).history 1
      ∧ (loadMainState b e
          (mainFrameWrites b ((true, e1) :: ws) (blackboxStart b e0 s))).history 2
        = (mainFrameWrites b ((true, e1) :: ws) (blackboxStart b e0 s)).history 2
      ∧ (mainFrameWrite b false e (blackboxStart b e0 s)).blackboxHistory 0
        = (mainFrameWrite b false e (blackboxStart b e0 s)).blackboxHistory 2 := by
  obtain ⟨s0, s1, s2⟩ := blackboxStart_blackboxHistory b e0 s ho
  have hc := chain_mainFrameWrites b ws _
    (chain_of_intra b e1 (blackboxStart b e0 s) (by omega))
  have hw : mainFrameWrites b ((true, e1) :: ws) (blackboxStart b e0 s)
      = mainFrameWrites b ws (mainFrameWrite b true e1 (blackboxStart b e0 s)) := rfl
  rw [hw]
  generalize mainFrameWrites b ws (mainFrameWrite b true e1 (blackboxStart b e0 s)) = t at hc
  have h01 : t.blackboxHistory 0 ≠ t.blackboxHistory 1 := by omega
  have h02 : t.blackboxHistory 0 ≠ t.blackboxHistory 2 := by omega
  refine ⟨h01, h02, loadMainState_history_of_ne b e t 1 (Ne.symm h01),
    loadMainState_history_of_ne b e t 2 (Ne.symm h02), ?_⟩
  rw [mainFrameWrite_blackboxHistory_zero, mainFrameWrite_inter_blackboxHistory_two, s0, s1]

theorem history_slots_distinct_witness :
    Env.flying.deviceOpen = true
      ∧ (mainFrameWrites Build.full [(true, Env.flying), (false, Env.flying), (false, Env.flying)]
          (blackboxStart Build.full Env.flying State.stopped)).blackboxHistory 0
        ≠ (mainFrameWrites Build.full
            [(true, Env.flying), (false, Env.flying), (false, Env.flying)]
            (blackboxStart Build.full Env.flying State.stopped)).blackboxHistory 2
      ∧ (mainFrameWrite Build.full false Env.flying
          (blackboxStart Build.full Env.flying State.stopped)).blackboxHistory 0
        = (mainFrameWrite Build.full false Env.flying
          (blackboxStart Build.full Env.flying State.stopped)).blackboxHistory 2 :=
  ⟨rfl,
    (history_slots_distinct Build.full Env.flying Env.flying Env.flying State.stopped
      [(false, Env.flying), (false, Env.flying)] rfl).2.1,
    (history_slots_distinct Build.full Env.flying Env.flying Env.flying State.stopped
      [(false, Env.flying), (false, Env.flying)] rfl).2.2.2.2⟩

/-- C36: a tick of `blackboxUpdate` that does not start in RUNNING, and does not start in
PAUSED and resume (BOXBLACKBOX active on an I-frame iteration), writes no 'I', 'P', 'S', 'G'
or 'H' frame: the log grows by items none of which has one of these markers. -/
theorem no_data_frame_outside_logging (b : Build) (e : Env) (s : State)
    (h1 : s.blackboxState ≠ .RUNNING)
    (h2 : ¬ (s.blackboxState = .PAUSED
      ∧ (e.rcModeBlackbox && blackboxShouldLogIFrame s) = true)) :
    ∃ l, (blackboxUpdate b e s).log = s.log ++ l
      ∧ ∀ x ∈ l, ∀ c ∈ ['I', 'P', 'S', 'G', 'H'], x.marker? ≠ some c := by
  obtain ⟨l, hl, hp⟩ := dataless_trans (dataless_switch b e s h1 h2)
    (dataless_update_finish b e (blackboxUpdate.switch b e s))
  refine ⟨l, hl, fun x hx c hc hm => ?_⟩
  rcases hp x hx with h | h
  · rw [h] at hm
    cases hm
  · rw [h] at hm
    have hce : c = 'E' := (Option.some.inj hm).symm
    subst hce
    revert hc
    decide

theorem no_data_frame_outside_logging_witness :
    State.stopped.blackboxState ≠ .RUNNING
      ∧ ¬ (State.stopped.blackboxState = .PAUSED
        ∧ (Env.flying.rcModeBlackbox && blackboxShouldLogIFrame State.stopped) = true)
      ∧ ∃ l, (blackboxUpdate Build.full Env.flying State.stopped).log = State.stopped.log ++ l
        ∧ ∀ x ∈ l, ∀ c ∈ ['I', 'P', 'S', 'G', 'H'], x.marker? ≠ some c :=
  ⟨by decide, by decide,
    no_data_frame_outside_logging Build.full Env.flying State.stopped (by decide) (by decide)⟩

/-- C37: for every condition cache and every build, `writeInterframe` collects at most 8
optional deltas (voltage, amperage, three magnetometer axes, barometer, rangefinder, RSSI),
and they are the values handed to `blackboxWriteTag8_8SVB` in the frame. -/
theorem optional_deltas_at_most_eight (b : Build) (e : Env) (s : State) :
    (writeInterframe.optionalDeltas b s).length ≤ 8
      ∧ Write.tag8_8SVB (writeInterframe.optionalDeltas b s) ∈ writeInterframe.payload b e s := by
  constructor
  · unfold writeInterframe.optionalDeltas
    simp only [List.length_append]
    have h3 : XYZ_AXIS_COUNT = 3 := rfl
    split_ifs <;> simp only [List.length_cons, List.length_nil, List.length_map,
      List.length_range, h3] <;> omega
  · unfold writeInterframe.payload
    simp

/-- C38: for every entry of `blackboxMainFields` (6 header lines), `blackboxGpsGFields`,
`blackboxGpsHFields` and `blackboxSlowFields` (4 header lines each) and every header line, the
bytes the loop body of `sendFieldDefinition` writes for the entry (the comma when one is due,
then the name with its index in brackets, or the number) are at most the `bytesToWrite`
reserved for it; and the text that opens a line, written when its reservation is granted, has
exactly the reserved `strlen("H Field x :") + strlen(header name)` bytes. -/
theorem field_definition_within_reservation (b : Build) (e : Env) (c1 c2 : Char) (s : State) :
    (∀ p ∈ [((blackboxMainFields b).map (·.generic), 6),
        (blackboxGpsGFields.map (·.generic), 4), (blackboxGpsHFields.map (·.generic), 4),
        (blackboxSlowFields.map (·.generic), 4)],
      s.headerIndex < p.2 → 0 ≤ s.fieldIndex → s.fieldIndex < (p.1.length : Int) →
      headerBytes (s.written (sendFieldDefinition.field (p.1.getD s.fieldIndex.toNat default)
          (sendFieldDefinition.bytesToWrite p.1 s) s))
        ≤ sendFieldDefinition.bytesToWrite p.1 s)
      ∧ (s.fieldIndex = -1 → s.headerIndex < sendFieldDefinition.headerCount c2 →
        e.deviceReserve s.reserveCalls ("H Field x :".length
          + (blackboxFieldHeaderNames.getD s.headerIndex "").length) = true →
        headerBytes (s.written
            (sendFieldDefinition.start e c1 c2 (sendFieldDefinition.headerCount c2) s).1)
          = "H Field x :".length + (blackboxFieldHeaderNames.getD s.headerIndex "").length) := by
  constructor
  · intro p hp hh h0 hf
    have hmem : p.1.getD s.fieldIndex.toNat default ∈ p.1 :=
      getD_mem_of_lt _ _ _ (by omega)
    obtain ⟨t1, t2⟩ := tables_short b p hp _ hmem
    have hnum : (toString ((p.1.getD s.fieldIndex.toNat default).arr.getD
        (s.headerIndex - 1) 0)).length ≤ 2 := by
      by_cases hz : s.headerIndex = 0
      · rw [hz]
        exact t2 0 (by
          simp only [List.mem_cons, List.mem_singleton, List.not_mem_nil, or_false] at hp
          rcases hp with rfl | rfl | rfl | rfl <;> exact Nat.succ_pos _)
      · exact t2 _ (by omega)
    exact field_bytes_le _ s t1 hnum
  · intro h1 h2 h3
    rw [written_of_log (start_log e c1 c2 s h1 h2 h3)]
    show (sendFieldDefinition.lineName c1 c2 s.headerIndex).length + 0 = _
    rw [Nat.add_zero, lineName_length]

theorem field_definition_within_reservation_witness :
    State.slowHeaderField.headerIndex < 4 ∧ (0 : Int) ≤ State.slowHeaderField.fieldIndex
      ∧ State.slowHeaderField.fieldIndex
          < ((blackboxSlowFields.map (·.generic)).length : Int)
      ∧ headerBytes (State.slowHeaderField.written (sendFieldDefinition.field
            ((blackboxSlowFields.map (·.generic)).getD
              State.slowHeaderField.fieldIndex.toNat default)
            (sendFieldDefinition.bytesToWrite (blackboxSlowFields.map (·.generic))
              State.slowHeaderField) State.slowHeaderField))
          ≤ sendFieldDefinition.bytesToWrite (blackboxSlowFields.map (·.generic))
              State.slowHeaderField
      ∧ State.slowHeader.fieldIndex = -1
      ∧ State.slowHeader.headerIndex < sendFieldDefinition.headerCount (Char.ofNat 0)
      ∧ Env.flying.deviceReserve State.slowHeader.reserveCalls ("H Field x :".length
          + (blackboxFieldHeaderNames.getD State.slowHeader.headerIndex "").length) = true
      ∧ headerBytes (State.slowHeader.written
            (sendFieldDefinition.start Env.flying 'S' (Char.ofNat 0)
              (sendFieldDefinition.headerCount (Char.ofNat 0)) State.slowHeader).1)
          = "H Field x :".length
            + (blackboxFieldHeaderNames.getD State.slowHeader.headerIndex "").length := by
  have g1 : State.slowHeader.fieldIndex = -1 := by decide
  have g2 : State.slowHeader.headerIndex < sendFieldDefinition.headerCount (Char.ofNat 0) := by
    decide
  have g3 : Env.flying.deviceReserve State.slowHeader.reserveCalls ("H Field x :".length
      + (blackboxFieldHeaderNames.getD State.slowHeader.headerIndex "").length) = true := rfl
  have g := (field_definition_within_reservation Build.full Env.flying 'S' (Char.ofNat 0)
    State.slowHeader).2 g1 g2 g3
  have h1 : State.slowHeaderField.headerIndex < 4 := by decide
  have h2 : (0 : Int) ≤ State.slowHeaderField.fieldIndex := by decide
  have h3 : State.slowHeaderField.fieldIndex
      < ((blackboxSlowFields.map (·.generic)).length : Int) := by decide
  have h := (field_definition_within_reservation Build.full Env.flying 'S' (Char.ofNat 0)
    State.slowHeaderField).1 (blackboxSlowFields.map (·.generic), 4)
    (List.Mem.tail _ (List.Mem.tail _ (List.Mem.tail _ (List.Mem.head _)))) h1 h2 h3
  dsimp only at h
  exact ⟨h1, h2, h3, h, g1, g2, g3, g⟩

/-- C39, counterexample: armed with the BOXBLACKBOXERASE switch on in a build with
`USE_FLASHFS`, a tick that starts in STOPPED runs `blackboxStart`, which opens the device and
moves to PREPARE_LOG_FILE, and the same tick then changes the state to START_ERASE. -/
theorem start_and_erase_counterexample :
    State.stopped.blackboxState = .STOPPED
      ∧ Env.armedEraseSwitch.armed = true
      ∧ (blackboxStart Build.full Env.armedEraseSwitch
          (State.stopped.pushDeviceOp DeviceOp.blackboxOpen)).blackboxState = .PREPARE_LOG_FILE
      ∧ (blackboxUpdate.switch Build.full Env.armedEraseSwitch State.stopped).blackboxState
          = .START_ERASE
      ∧ (blackboxUpdate Build.full Env.armedEraseSwitch State.stopped).blackboxState
          = .START_ERASE := by
  refine ⟨?_, ?_, ?_, ?_, ?_⟩ <;> decide

/-- C39, amended: in a tick that starts in STOPPED with the craft armed and in which
`blackboxStart` opens the device and moves to PREPARE_LOG_FILE, the `switch` of
`blackboxUpdate` leaves the state at PREPARE_LOG_FILE when the build has no `USE_FLASHFS` or
the BOXBLACKBOXERASE mode is inactive, and changes it to START_ERASE in the same tick
otherwise. -/
theorem start_and_erase_same_tick (b : Build) (e : Env) (s : State)
    (hs : s.blackboxState = .STOPPED) (ha : e.armed = true) (ho : e.deviceOpen = true) :
    (blackboxStart b e (s.pushDeviceOp DeviceOp.blackboxOpen)).blackboxState = .PREPARE_LOG_FILE
      ∧ (blackboxUpdate.switch b e s).blackboxState
          = (if b.USE_FLASHFS && e.rcModeBlackboxErase then BlackboxState.START_ERASE
             else BlackboxState.PREPARE_LOG_FILE) := by
  have h1 : (blackboxStart b e (s.pushDeviceOp DeviceOp.blackboxOpen)).blackboxState
      = .PREPARE_LOG_FILE := by
    unfold blackboxStart
    dsimp only
    rw [if_neg (by rw [ho]; decide)]
    exact blackboxSetState_state _ _ _
  refine ⟨h1, ?_⟩
  unfold blackboxUpdate.switch
  rw [hs]
  dsimp only
  rw [if_pos ha]
  split_ifs
  · exact blackboxSetState_state _ _ _
  · exact h1

theorem start_and_erase_same_tick_witness :
    State.stopped.blackboxState = .STOPPED ∧ Env.flying.armed = true
      ∧ Env.flying.deviceOpen = true
      ∧ (blackboxUpdate.switch Build.full Env.flying State.stopped).blackboxState
          = (if Build.full.USE_FLASHFS && Env.flying.rcModeBlackboxErase
             then BlackboxState.START_ERASE else BlackboxState.PREPARE_LOG_FILE) :=
  ⟨by decide, rfl, rfl,
    (start_and_erase_same_tick Build.full Env.flying State.stopped (by decide) rfl rfl).2⟩

/-- C40: `blackboxGetRateDenom` returns `blackboxPInterval` reduced modulo 256; after
`blackboxInit` it equals the P interval exactly when that interval is at most 255; on a loop
of 125 us with `p_ratio` 1 the P interval is 256 and the value returned is 0. -/
theorem rate_denom_modulo_256 (e : Env) (s : State) :
    ((blackboxGetRateDenom s : Nat) : Int) = s.blackboxPInterval % 256
      ∧ (((blackboxGetRateDenom (blackboxInit e s) : Nat) : Int)
            = (blackboxInit e s).blackboxPInterval
          ↔ (blackboxInit e s).blackboxPInterval ≤ 255)
      ∧ (blackboxInit (Env.withLooptime 125) (State.bootWithRatio 1)).blackboxPInterval = 256
      ∧ blackboxGetRateDenom (blackboxInit (Env.withLooptime 125) (State.bootWithRatio 1)) = 0 := by
  refine ⟨blackboxGetRateDenom_eq s, ?_, by decide, by decide⟩
  rw [blackboxGetRateDenom_eq]
  have h := blackboxInit_PInterval_nonneg e s
  omega

end Blackbox
